import Mathlib

/-!
# Transliteration engine of `edirect/eutils/clean.go`

A shallow embedding of `TransformAccents`, its lookup tables, the extension loader and the
XML re-encoder, followed by the properties established for them.

Go strings are byte sequences; a `for ... range` loop over a string decodes UTF-8 and yields
U+FFFD for every byte that does not start a well-formed sequence.
-/

namespace Eutils

/-- A Go `string`: a sequence of bytes (each below 256 in a real string). -/
abbrev GoString := List Nat

/-- UTF-8 encoding of one code point (`utf8.AppendRune` on a valid rune). -/
def encodeRune (r : Nat) : GoString :=
  if r < 0x80 then [r]
  else if r < 0x800 then [0xC0 + r / 64, 0x80 + r % 64]
  else if r < 0x10000 then [0xE0 + r / 4096, 0x80 + r / 64 % 64, 0x80 + r % 64]
  else [0xF0 + r / 262144, 0x80 + r / 4096 % 64, 0x80 + r / 64 % 64, 0x80 + r % 64]

/-- Go conversion `string(ch)` of a rune: surrogates and values above U+10FFFF become U+FFFD. -/
def runeToString (ch : Nat) : GoString :=
  if 0x10FFFF < ch ∨ (0xD800 ≤ ch ∧ ch ≤ 0xDFFF) then encodeRune 0xFFFD else encodeRune ch

/-- Bytes of a string literal of the source file (Go source text is UTF-8). -/
def goString (s : String) : GoString :=
  s.toList.flatMap (fun c => encodeRune c.toNat)

/-- Continuation byte `10xxxxxx`. -/
def isCont (b : Nat) : Bool := decide (0x80 ≤ b) && decide (b ≤ 0xBF)

/-- Lowest second byte accepted after the start byte `b0` (Go's `acceptRanges`). -/
def acceptLo (b0 : Nat) : Nat :=
  if b0 = 0xE0 then 0xA0 else if b0 = 0xF0 then 0x90 else 0x80

/-- Highest second byte accepted after the start byte `b0` (Go's `acceptRanges`). -/
def acceptHi (b0 : Nat) : Nat :=
  if b0 = 0xED then 0x9F else if b0 = 0xF4 then 0x8F else 0xBF

/-- Decoding after a two-byte start byte `0xC2..0xDF`. -/
def decode2 (b0 : Nat) : GoString → Nat × Nat
  | b1 :: _ => if isCont b1 = true then (b0 % 32 * 64 + b1 % 64, 2) else (0xFFFD, 1)
  | [] => (0xFFFD, 1)

/-- Decoding after a three-byte start byte `0xE0..0xEF`. -/
def decode3 (b0 : Nat) : GoString → Nat × Nat
  | b1 :: b2 :: _ =>
    if acceptLo b0 ≤ b1 ∧ b1 ≤ acceptHi b0 ∧ isCont b2 = true then
      (b0 % 16 * 4096 + b1 % 64 * 64 + b2 % 64, 3)
    else (0xFFFD, 1)
  | _ => (0xFFFD, 1)

/-- Decoding after a four-byte start byte `0xF0..0xF4`. -/
def decode4 (b0 : Nat) : GoString → Nat × Nat
  | b1 :: b2 :: b3 :: _ =>
    if acceptLo b0 ≤ b1 ∧ b1 ≤ acceptHi b0 ∧ isCont b2 = true ∧ isCont b3 = true then
      (b0 % 8 * 262144 + b1 % 64 * 4096 + b2 % 64 * 64 + b3 % 64, 4)
    else (0xFFFD, 1)
  | _ => (0xFFFD, 1)

/-- Go `utf8.DecodeRuneInString`: the first rune of the string and its width in bytes;
`(U+FFFD, 1)` for an ill-formed or truncated sequence, `(U+FFFD, 0)` for the empty string. -/
def decodeRuneInString : GoString → Nat × Nat
  | [] => (0xFFFD, 0)
  | b0 :: rest =>
    if b0 < 0x80 then (b0, 1)
    else if 0xC2 ≤ b0 ∧ b0 ≤ 0xDF then decode2 b0 rest
    else if 0xE0 ≤ b0 ∧ b0 ≤ 0xEF then decode3 b0 rest
    else if 0xF0 ≤ b0 ∧ b0 ≤ 0xF4 then decode4 b0 rest
    else (0xFFFD, 1)

/-- The pairs `(i, ch)` of `for i, ch := range str`, started at byte index `i` with `skip`
bytes of an already decoded rune still to pass over. -/
def rangeFrom : Nat → Nat → GoString → List (Nat × Nat)
  | _, _, [] => []
  | skip + 1, i, _ :: rest => rangeFrom skip (i + 1) rest
  | 0, i, b :: rest =>
    (i, (decodeRuneInString (b :: rest)).1)
      :: rangeFrom ((decodeRuneInString (b :: rest)).2 - 1) (i + 1) rest

/-- The byte offsets and runes produced by `for i, ch := range str`. -/
def rangeString (str : GoString) : List (Nat × Nat) := rangeFrom 0 0 str

/-- The runes produced by `for _, ch := range str`. -/
def runes (str : GoString) : List Nat := (rangeString str).map Prod.snd

def extraRunes : List (Nat × String) := [
  (0x05BE, "-"),
  (0x115F, "(?)"),
  (0x25AF, "(rectangle)"),
  (0x25CF, "(circle)")
]

def germanCapitals : List (Nat × String) := [
  (0x0028, "("),
  (0x0029, ")"),
  (0x002D, "-"),
  (0x0041, "A"),
  (0x0042, "B"),
  (0x0043, "C"),
  (0x0044, "D"),
  (0x0045, "E"),
  (0x0046, "F"),
  (0x0047, "G"),
  (0x0048, "H"),
  (0x0049, "I"),
  (0x004A, "J"),
  (0x004B, "K"),
  (0x004C, "L"),
  (0x004D, "M"),
  (0x004E, "N"),
  (0x004F, "O"),
  (0x0050, "P"),
  (0x0051, "Q"),
  (0x0052, "R"),
  (0x0053, "S"),
  (0x0054, "T"),
  (0x0055, "U"),
  (0x0056, "V"),
  (0x0057, "W"),
  (0x0058, "X"),
  (0x0059, "Y"),
  (0x005A, "Z"),
  (0x00C4, "A"),
  (0x00D6, "O"),
  (0x00DC, "U"),
  (0x00DF, "ss"),
  (0x1E9E, "SS")
]

def germanRunes : List (Nat × String) := [
  (0x0028, "("),
  (0x0029, ")"),
  (0x002D, "-"),
  (0x0041, "A"),
  (0x0042, "B"),
  (0x0043, "C"),
  (0x0044, "D"),
  (0x0045, "E"),
  (0x0046, "F"),
  (0x0047, "G"),
  (0x0048, "H"),
  (0x0049, "I"),
  (0x004A, "J"),
  (0x004B, "K"),
  (0x004C, "L"),
  (0x004D, "M"),
  (0x004E, "N"),
  (0x004F, "O"),
  (0x0050, "P"),
  (0x0051, "Q"),
  (0x0052, "R"),
  (0x0053, "S"),
  (0x0054, "T"),
  (0x0055, "U"),
  (0x0056, "V"),
  (0x0057, "W"),
  (0x0058, "X"),
  (0x0059, "Y"),
  (0x005A, "Z"),
  (0x0061, "a"),
  (0x0062, "b"),
  (0x0063, "c"),
  (0x0064, "d"),
  (0x0065, "e"),
  (0x0066, "f"),
  (0x0067, "g"),
  (0x0068, "h"),
  (0x0069, "i"),
  (0x006A, "j"),
  (0x006B, "k"),
  (0x006C, "l"),
  (0x006D, "m"),
  (0x006E, "n"),
  (0x006F, "o"),
  (0x0070, "p"),
  (0x0071, "q"),
  (0x0072, "r"),
  (0x0073, "s"),
  (0x0074, "t"),
  (0x0075, "u"),
  (0x0076, "v"),
  (0x0077, "w"),
  (0x0078, "x"),
  (0x0079, "y"),
  (0x007A, "z"),
  (0x00DF, "ss"),
  (0x00E4, "a"),
  (0x00F6, "o"),
  (0x00FC, "u"),
  (0x00C4, "A"),
  (0x00D6, "O"),
  (0x00DC, "U"),
  (0x1E9E, "SS")
]

def germanVowels : List (Nat × String) := [
  (0x0041, "A"),
  (0x0045, "E"),
  (0x0049, "I"),
  (0x004F, "O"),
  (0x0055, "U"),
  (0x0061, "a"),
  (0x0065, "e"),
  (0x0069, "i"),
  (0x006F, "o"),
  (0x0075, "u"),
  (0x00E4, "a"),
  (0x00F6, "o"),
  (0x00FC, "u"),
  (0x00C4, "A"),
  (0x00D6, "O"),
  (0x00DC, "U")
]

def greekRunes : List (Nat × String) := [
  (0x0190, "epsilon"),
  (0x025B, "epsilon"),
  (0x0391, "alpha"),
  (0x0392, "beta"),
  (0x0393, "gamma"),
  (0x0394, "delta"),
  (0x0395, "epsilon"),
  (0x0396, "zeta"),
  (0x0397, "eta"),
  (0x0398, "theta"),
  (0x0399, "iota"),
  (0x039A, "kappa"),
  (0x039B, "lambda"),
  (0x039C, "mu"),
  (0x039D, "nu"),
  (0x039E, "xi"),
  (0x039F, "omicron"),
  (0x03A0, "pi"),
  (0x03A1, "rho"),
  (0x03A3, "sigma"),
  (0x03A4, "tau"),
  (0x03A5, "upsilon"),
  (0x03A6, "phi"),
  (0x03A7, "chi"),
  (0x03A8, "psi"),
  (0x03A9, "omega"),
  (0x03B1, "alpha"),
  (0x03B2, "beta"),
  (0x03B3, "gamma"),
  (0x03B4, "delta"),
  (0x03B5, "epsilon"),
  (0x03B6, "zeta"),
  (0x03B7, "eta"),
  (0x03B8, "theta"),
  (0x03B9, "iota"),
  (0x03BA, "kappa"),
  (0x03BB, "lambda"),
  (0x03BC, "mu"),
  (0x03BD, "nu"),
  (0x03BE, "xi"),
  (0x03BF, "omicron"),
  (0x03C0, "pi"),
  (0x03C1, "rho"),
  (0x03C2, "sigma"),
  (0x03C3, "sigma"),
  (0x03C4, "tau"),
  (0x03C5, "upsilon"),
  (0x03C6, "phi"),
  (0x03C7, "chi"),
  (0x03C8, "psi"),
  (0x03C9, "omega"),
  (0x03D0, "beta"),
  (0x03D1, "theta"),
  (0x03D5, "phi"),
  (0x03D6, "pi"),
  (0x03F0, "kappa"),
  (0x03F1, "rho"),
  (0x03F5, "epsilon"),
  (0x1D5D, "beta"),
  (0x1D66, "beta")
]

def symbolRunes_0 : List (Nat × String) := [
  (0x20A0, "ECU"),
  (0x20A1, "CL"),
  (0x20A2, "Cr"),
  (0x20A3, "FF"),
  (0x20A4, "L"),
  (0x20A5, "mil"),
  (0x20A6, "N"),
  (0x20A7, "Pts"),
  (0x20A8, "Rs"),
  (0x20A9, "W"),
  (0x20AA, "NS"),
  (0x20AB, "D"),
  (0x20AC, "EU"),
  (0x20AD, "K"),
  (0x20AE, "T"),
  (0x20AF, "Dr"),
  (0x20DB, "..."),
  (0x20DC, "...."),
  (0x2102, " (Copf) "),
  (0x2103, "degrees C"),
  (0x2105, " (incare) "),
  (0x2107, " (euler) "),
  (0x2109, "degrees F"),
  (0x210A, " (gscr) "),
  (0x210B, " (hamilt) "),
  (0x210C, " (Hfr) "),
  (0x210D, " (Hopf) "),
  (0x210E, " (planckh) "),
  (0x210F, " (planck) "),
  (0x2110, " (Iscr) "),
  (0x2111, " (image) "),
  (0x2112, " (Lscr) "),
  (0x2113, " (ell) "),
  (0x2115, " (Nopf) "),
  (0x2116, " (numero) "),
  (0x2117, " (copysr) "),
  (0x2118, " (weierp) "),
  (0x2119, " (Popf) "),
  (0x211A, " (Qopf) "),
  (0x211B, " (Rscr) "),
  (0x211C, " (real) "),
  (0x211D, " (Ropf) "),
  (0x211E, " (rx) "),
  (0x2120, " (sm) "),
  (0x2121, " (TEL) "),
  (0x2122, " (trade) "),
  (0x2124, " (Zopf) "),
  (0x2126, " (ohm) "),
  (0x2127, " (mho) "),
  (0x2128, " (Zfr) "),
  (0x2129, " (iiota) "),
  (0x212A, " (kelvin) "),
  (0x212B, "A"),
  (0x212C, " (bernou) "),
  (0x212D, "C"),
  (0x212E, " (estimated) "),
  (0x212F, "e"),
  (0x2130, "E"),
  (0x2131, "F"),
  (0x2132, "F"),
  (0x2133, "M"),
  (0x2134, "o"),
  (0x2135, " (alef) "),
  (0x2136, " (beth) "),
  (0x2137, " (gimel) "),
  (0x2138, " (daleth) "),
  (0x213B, " (FAX) "),
  (0x2145, "D"),
  (0x2146, "d"),
  (0x2147, "e"),
  (0x2148, "i"),
  (0x2149, "j"),
  (0x214E, "F"),
  (0x2150, " (1/7) "),
  (0x2151, " (1/9) "),
  (0x2152, " (1/10) "),
  (0x2153, " (1/3) "),
  (0x2154, " (2/3) "),
  (0x2155, " (1/5) "),
  (0x2156, " (2/5) "),
  (0x2157, " (3/5) "),
  (0x2158, " (4/5) "),
  (0x2159, " (1/6) "),
  (0x215A, " (5/6) "),
  (0x215B, " (1/8) "),
  (0x215C, " (3/8) "),
  (0x215D, " (5/8) "),
  (0x215E, " (7/8) "),
  (0x215F, " 1/"),
  (0x2160, " I "),
  (0x2161, " II "),
  (0x2162, " III "),
  (0x2163, " IV "),
  (0x2164, " V "),
  (0x2165, " VI "),
  (0x2166, " VII "),
  (0x2167, " VIII "),
  (0x2168, " IX "),
  (0x2169, " X "),
  (0x216A, " XI ")
]

def symbolRunes_1 : List (Nat × String) := [
  (0x216B, " XII "),
  (0x216C, " L "),
  (0x216D, " C "),
  (0x216E, " D "),
  (0x216F, " M "),
  (0x2170, " i "),
  (0x2171, " ii "),
  (0x2172, " iii "),
  (0x2173, " iv "),
  (0x2174, " v "),
  (0x2175, " vi "),
  (0x2176, " vii "),
  (0x2177, " viii "),
  (0x2178, " ix "),
  (0x2179, " x "),
  (0x217A, " xi "),
  (0x217B, " xii "),
  (0x217C, " l "),
  (0x217D, " c "),
  (0x217E, " d "),
  (0x217F, " m "),
  (0x2180, "(D"),
  (0x2181, "D)"),
  (0x2182, "((|))"),
  (0x2183, ")"),
  (0x2190, "-"),
  (0x2191, "|"),
  (0x2192, "-"),
  (0x2193, "|"),
  (0x2194, "-"),
  (0x2195, "|"),
  (0x2196, "\\"),
  (0x2197, "/"),
  (0x2198, "\\"),
  (0x2199, "/"),
  (0x219A, "-"),
  (0x219B, "-"),
  (0x219C, "~"),
  (0x219D, "~"),
  (0x219E, "-"),
  (0x219F, "|"),
  (0x21A0, "-"),
  (0x21A1, "|"),
  (0x21A2, "-"),
  (0x21A3, "-"),
  (0x21A4, "-"),
  (0x21A5, "|"),
  (0x21A6, "-"),
  (0x21A7, "|"),
  (0x21A8, "|"),
  (0x21A9, "-"),
  (0x21AA, "-"),
  (0x21AB, "-"),
  (0x21AC, "-"),
  (0x21AD, "-"),
  (0x21AE, "-"),
  (0x21AF, "|"),
  (0x21B0, "|"),
  (0x21B1, "|"),
  (0x21B2, "|"),
  (0x21B3, "|"),
  (0x21B4, "|"),
  (0x21B5, "|"),
  (0x21B6, "^"),
  (0x21B7, "V"),
  (0x21B8, "\\"),
  (0x21B9, "="),
  (0x21BA, " (olarr) "),
  (0x21BB, " (orarr) "),
  (0x21BC, " (lharu) "),
  (0x21BD, " (lhard) "),
  (0x21BE, " (uharr) "),
  (0x21BF, " (uharl) "),
  (0x21C0, " (rharu) "),
  (0x21C1, " (rhard) "),
  (0x21C2, " (dharr) "),
  (0x21C3, " (dharl) "),
  (0x21C4, " (rlarr) "),
  (0x21C5, " (udarr) "),
  (0x21C6, " (lrarr) "),
  (0x21C7, " (llarr) "),
  (0x21C8, " (uuarr) "),
  (0x21C9, " (rrarr) "),
  (0x21CA, " (ddarr) "),
  (0x21CB, " (lrhar) "),
  (0x21CC, " (rlhar) "),
  (0x21CD, " (nlArr) "),
  (0x21CE, " (nhArr) "),
  (0x21CF, " (nrArr) "),
  (0x21D0, " (lArr) "),
  (0x21D1, " (uArr) "),
  (0x21D2, " (rArr) "),
  (0x21D3, " (dArr) "),
  (0x21D4, " (hArr) "),
  (0x21D5, " (vArr) "),
  (0x21D6, " (nwArr) "),
  (0x21D7, " (neArr) "),
  (0x21D8, " (seArr) "),
  (0x21D9, " (swArr) "),
  (0x21DA, " (lAarr) ")
]

def symbolRunes_2 : List (Nat × String) := [
  (0x21DB, " (rAarr) "),
  (0x21DC, " (ziglarr) "),
  (0x21DD, " (zigrarr) "),
  (0x21DE, "|"),
  (0x21DF, "|"),
  (0x21E0, "-"),
  (0x21E1, "|"),
  (0x21E2, "-"),
  (0x21E3, "|"),
  (0x21E4, " (larrb) "),
  (0x21E5, " (rarrb) "),
  (0x21E6, "-"),
  (0x21E7, "|"),
  (0x21E8, "-"),
  (0x21E9, "|"),
  (0x21EA, "|"),
  (0x21EB, "|"),
  (0x21EC, "|"),
  (0x21ED, "|"),
  (0x21EE, "|"),
  (0x21EF, "|"),
  (0x21F0, "-"),
  (0x21F1, "\\"),
  (0x21F2, "\\"),
  (0x21F3, "|"),
  (0x21FF, " (hoarr)"),
  (0x2200, " (forall)"),
  (0x2201, " (comp)) "),
  (0x2202, " (part) "),
  (0x2203, " (exist)) "),
  (0x2204, " (nexist) "),
  (0x2205, " (empty) "),
  (0x2206, " (increment) "),
  (0x2207, " (nabla) "),
  (0x2208, " (isin) "),
  (0x2209, " (notin) "),
  (0x220B, " (ni)"),
  (0x220C, " (notni) "),
  (0x220F, " (product) "),
  (0x2210, " (coprod) "),
  (0x2211, " (sum) "),
  (0x2212, " (minus) "),
  (0x2213, " (mnplus) "),
  (0x2214, " (plusdo) "),
  (0x2215, " (division slash) "),
  (0x2216, " (setminus) "),
  (0x2217, " (lowast) "),
  (0x2218, " (compfn) "),
  (0x2219, " (bullet) "),
  (0x221A, " (radic) "),
  (0x221B, " (cube root) "),
  (0x221C, " (fourth root) "),
  (0x221D, " (prop) "),
  (0x221E, " (infin) "),
  (0x221F, " (angrt) "),
  (0x2220, " (ang) "),
  (0x2221, " (angmsd) "),
  (0x2222, " (angsph) "),
  (0x2223, " (mid) "),
  (0x2224, " (nmid) "),
  (0x2225, " (parallel) "),
  (0x2226, " (npar) "),
  (0x2227, " (and) "),
  (0x2228, " (or) "),
  (0x2229, " (cap) "),
  (0x222A, " (cup) "),
  (0x222B, " (int) "),
  (0x222C, " (Int) "),
  (0x222D, " (iiint) "),
  (0x222E, " (conint) "),
  (0x222F, " (Conint) "),
  (0x2230, " (Cconint) "),
  (0x2231, " (cwint) "),
  (0x2232, " (cwconint) "),
  (0x2233, " (awconint) "),
  (0x2234, " (there4) "),
  (0x2235, " (because) "),
  (0x2236, " : "),
  (0x2237, " :: "),
  (0x2238, " (minusd) "),
  (0x223A, " (mDDot) "),
  (0x223B, " (homth) "),
  (0x223C, " (sim) "),
  (0x223D, " (bsim) "),
  (0x223E, " (ac) "),
  (0x223F, " (acd) "),
  (0x2240, " (wreath) "),
  (0x2241, " (nsim) "),
  (0x2242, " (esim) "),
  (0x2243, " (sime) "),
  (0x2244, " (nsime) "),
  (0x2245, " (cong) "),
  (0x2246, " (simne) "),
  (0x2247, " (ncong) "),
  (0x2248, " (asymp) "),
  (0x2249, " (nap) "),
  (0x224A, " (approxeq)"),
  (0x224B, " (apid) "),
  (0x224C, " (bcong) "),
  (0x224D, " (asympeq) ")
]

def symbolRunes_3 : List (Nat × String) := [
  (0x224E, " (bump) "),
  (0x224F, " (bumpe) "),
  (0x2250, " (esdot) "),
  (0x2251, " (eDot) "),
  (0x2252, " (efDot) "),
  (0x2253, " (erDot) "),
  (0x2254, " (colone) "),
  (0x2255, " (ecolon) "),
  (0x2256, " (ecir) "),
  (0x2257, " (cire) "),
  (0x2259, " (wedgeq)"),
  (0x225A, " (veeeq) "),
  (0x225B, " (star eq) "),
  (0x225C, " (trie) "),
  (0x225F, " (equest) "),
  (0x2260, " (ne) "),
  (0x2261, " (equiv) "),
  (0x2262, " (nequiv) "),
  (0x2264, " <= "),
  (0x2265, " >= "),
  (0x2266, " <= "),
  (0x2267, " >= "),
  (0x2268, " (lnE) "),
  (0x2269, " (gnE) "),
  (0x226A, " << "),
  (0x226B, " >> "),
  (0x226C, " (between) "),
  (0x226D, " (NotCupCap) "),
  (0x226E, " (nlt) "),
  (0x226F, " (ngt) "),
  (0x2270, " (nle) "),
  (0x2271, " (nge) "),
  (0x2272, " (lsim) "),
  (0x2273, " (gsim) "),
  (0x2274, " (nlsim) "),
  (0x2275, " (ngsim) "),
  (0x2276, " <> "),
  (0x2277, " >< "),
  (0x2278, " (ntlg) "),
  (0x2279, " (ntgl) "),
  (0x227A, " (pr) "),
  (0x227B, " (sc) "),
  (0x227C, " (prcue) "),
  (0x227D, " (sccue) "),
  (0x227E, " (prsim) "),
  (0x227F, " (scsim) "),
  (0x2280, " (npr) "),
  (0x2281, " (nsc) "),
  (0x2282, " (sub) "),
  (0x2283, " (sup) "),
  (0x2284, " (nsub) "),
  (0x2285, " (nsup) "),
  (0x2286, " (sube) "),
  (0x2287, " (supe) "),
  (0x2288, " (nsube) "),
  (0x2289, " (nsupe) "),
  (0x228A, " (subne) "),
  (0x228B, " (supne) "),
  (0x228D, " (cupdot) "),
  (0x228E, " (uplus) "),
  (0x228F, " (sqsub) "),
  (0x2290, " (sqsup) "),
  (0x2291, " (sqsube) "),
  (0x2292, " (sqsupe) "),
  (0x2293, " (sqcap) )"),
  (0x2294, " (sqcup) "),
  (0x2295, " (oplus) "),
  (0x2296, " (ominus) "),
  (0x2297, " (ominus) "),
  (0x2298, " (osol) "),
  (0x2299, " (odot) "),
  (0x229A, " (ocir) "),
  (0x229B, " (oast) "),
  (0x229D, " (odash) "),
  (0x229E, " (plusb) "),
  (0x229F, " (minusb) "),
  (0x22A0, " (timesb) "),
  (0x22A1, " (sdotb) "),
  (0x22A2, " (vdash) "),
  (0x22A3, " (dashv) "),
  (0x22A4, " (top) "),
  (0x22A5, " (perp) "),
  (0x22A7, " (models) "),
  (0x22A8, " (vDash) "),
  (0x22A9, " (Vdash) "),
  (0x22AA, " (Vvdash) "),
  (0x22AB, " (VDash) "),
  (0x22AC, " (nvdash) "),
  (0x22AD, " (nvDash) "),
  (0x22AE, " (nVdash) "),
  (0x22AF, " (nVDash) "),
  (0x22B0, " (prurel) "),
  (0x22B2, " (vltri) "),
  (0x22B3, " (vrtri) "),
  (0x22B4, " (ltrie) "),
  (0x22B5, " (rtrie) "),
  (0x22B6, " (origof) "),
  (0x22B7, " (imof) "),
  (0x22B8, " (mumap) "),
  (0x22B9, " (hercon) ")
]

def symbolRunes_4 : List (Nat × String) := [
  (0x22BA, " (intcal) "),
  (0x22BB, " (veebar) "),
  (0x22BC, " (Nand) "),
  (0x22BD, " (barvee) "),
  (0x22BE, " (angrtvb) "),
  (0x22BF, " (lrtri) "),
  (0x22C0, " (xwedge) "),
  (0x22C1, " (xvee) "),
  (0x22C2, " (xcap) "),
  (0x22C3, " (xcup) "),
  (0x22C4, " (diamond) "),
  (0x22C5, " (sdot) "),
  (0x22C6, " (Star) "),
  (0x22C7, " (divonx) "),
  (0x22C8, " (bowtie) "),
  (0x22C9, " (ltimes) "),
  (0x22CA, " (rtimes) "),
  (0x22CB, " (lthree) "),
  (0x22CC, " (rthree) "),
  (0x22CD, " (bsime) "),
  (0x22CE, " (cuvee) "),
  (0x22CF, " (cuwed) "),
  (0x22D0, " (Sub) "),
  (0x22D1, " (Sup) "),
  (0x22D2, " (Cap) "),
  (0x22D3, " (Cup) "),
  (0x22D4, " (fork) "),
  (0x22D5, " (epar) "),
  (0x22D6, " (ltdot) "),
  (0x22D7, " (gtdot) "),
  (0x22D8, " <<< "),
  (0x22D9, " >>> "),
  (0x22DA, " <=> "),
  (0x22DB, " >=< "),
  (0x22DC, " =/< "),
  (0x22DD, " =/> "),
  (0x22DE, " (cuepr) "),
  (0x22DF, " (cuesc) "),
  (0x22E0, " (nprcue) "),
  (0x22E1, " (nsccue) "),
  (0x22E2, " (nsqsube) "),
  (0x22E3, " (nsqsupe) "),
  (0x22E6, " (lnsim) "),
  (0x22E7, " (gnsim)"),
  (0x22E8, " (prnsim) "),
  (0x22E9, " (scnsim) "),
  (0x22EA, " (nltri) "),
  (0x22EB, " (nrtri) "),
  (0x22EC, " (nltrie) "),
  (0x22ED, " (nrtrie) "),
  (0x22EE, " (vellip) "),
  (0x22EF, " (ctdot) "),
  (0x22F0, " (utdot) "),
  (0x22F1, " (dtdot) "),
  (0x2303, " ^ "),
  (0x2306, " (log dbl bar) "),
  (0x2308, " (lceil) "),
  (0x2309, " (rceil) "),
  (0x230A, " (lfloor) "),
  (0x230B, " (rfloor) "),
  (0x230C, "downward right crop mark "),
  (0x230D, "downward left crop mark "),
  (0x230E, "upward right crop mark "),
  (0x230F, "upward left crop mark "),
  (0x2310, "reverse not"),
  (0x2312, "profile of a line"),
  (0x2313, "profile of a surface"),
  (0x2315, "telephone recorder symbol"),
  (0x2316, "register mark or target"),
  (0x231C, " upper left corner"),
  (0x231D, " upper right corner"),
  (0x231E, " downward left corner"),
  (0x231F, " downward right corner"),
  (0x2322, " down curve"),
  (0x2323, " up curve"),
  (0x2329, " < "),
  (0x232A, " > "),
  (0x232D, " (cylindricity) "),
  (0x232E, " (aa profile) "),
  (0x2336, " (I beam) "),
  (0x244A, "\\\\"),
  (0x2460, " 1 "),
  (0x2461, " 2 "),
  (0x2462, " 3 "),
  (0x2463, " 4 "),
  (0x2464, " 5 "),
  (0x2465, " 6 "),
  (0x2466, " 7 "),
  (0x2467, " 8 "),
  (0x2468, " 9 "),
  (0x2469, " 10 "),
  (0x246A, " 11 "),
  (0x246B, " 12 "),
  (0x246C, " 13 "),
  (0x246D, " 14 "),
  (0x246E, " 15 "),
  (0x246F, " 16 "),
  (0x2470, " 17 "),
  (0x2471, " 18 "),
  (0x2472, " 19 ")
]

def symbolRunes_5 : List (Nat × String) := [
  (0x2473, " 20 "),
  (0x2474, " (1) "),
  (0x2475, " (2) "),
  (0x2476, " (3) "),
  (0x2477, " (4) "),
  (0x2478, " (5) "),
  (0x2479, " (6) "),
  (0x247A, " (7) "),
  (0x247B, " (8) "),
  (0x247C, " (9) "),
  (0x247D, " (10) "),
  (0x247E, " (11) "),
  (0x247F, " (12) "),
  (0x2480, " (13) "),
  (0x2481, " (14) "),
  (0x2482, " (15) "),
  (0x2483, " (16) "),
  (0x2484, " (17) "),
  (0x2485, " (18) "),
  (0x2486, " (19) "),
  (0x2487, " (20) "),
  (0x2488, " 1. "),
  (0x2489, " 2. "),
  (0x248A, " 3. "),
  (0x248B, " 4. "),
  (0x248C, " 5. "),
  (0x248D, " 6. "),
  (0x248E, " 7. "),
  (0x248F, " 8. "),
  (0x2490, " 9. "),
  (0x2491, " 10. "),
  (0x2492, " 11. "),
  (0x2493, " 12. "),
  (0x2494, " 13. "),
  (0x2495, " 14. "),
  (0x2496, " 15. "),
  (0x2497, " 16. "),
  (0x2498, " 17. "),
  (0x2499, " 18. "),
  (0x249A, " 19. "),
  (0x249B, " 20. "),
  (0x249C, " (a) "),
  (0x249D, " (b) "),
  (0x249E, " (c) "),
  (0x249F, " (d) "),
  (0x24A0, " (e) "),
  (0x24A1, " (f) "),
  (0x24A2, " (g) "),
  (0x24A3, " (h) "),
  (0x24A4, " (i) "),
  (0x24A5, " (j) "),
  (0x24A6, " (k) "),
  (0x24A7, " (l) "),
  (0x24A8, " (m) "),
  (0x24A9, " (n) "),
  (0x24AA, " (o) "),
  (0x24AB, " (p) "),
  (0x24AC, " (q) "),
  (0x24AD, " (r) "),
  (0x24AE, " (s) "),
  (0x24AF, " (t) "),
  (0x24B0, " (u) "),
  (0x24B1, " (v) "),
  (0x24B2, " (w) "),
  (0x24B3, " (x) "),
  (0x24B4, " (y) "),
  (0x24B5, " (z) "),
  (0x24B6, " A "),
  (0x24B7, " B "),
  (0x24B8, " C "),
  (0x24B9, " D "),
  (0x24BA, " E "),
  (0x24BB, " F "),
  (0x24BC, " G "),
  (0x24BD, " H "),
  (0x24BE, " I "),
  (0x24BF, " J "),
  (0x24C0, " K "),
  (0x24C1, " L "),
  (0x24C2, " M "),
  (0x24C3, " N "),
  (0x24C4, " O "),
  (0x24C5, " P "),
  (0x24C6, " Q "),
  (0x24C7, " R "),
  (0x24C8, " S "),
  (0x24C9, " T "),
  (0x24CA, " U "),
  (0x24CB, " V "),
  (0x24CC, " W "),
  (0x24CD, " X "),
  (0x24CE, " Y "),
  (0x24CF, " Z "),
  (0x24D0, " a "),
  (0x24D1, " b "),
  (0x24D2, " c "),
  (0x24D3, " d "),
  (0x24D4, " e "),
  (0x24D5, " f "),
  (0x24D6, " g ")
]

def symbolRunes_6 : List (Nat × String) := [
  (0x24D7, " h "),
  (0x24D8, " i "),
  (0x24D9, " j "),
  (0x24DA, " k "),
  (0x24DB, " l "),
  (0x24DC, " m "),
  (0x24DD, " n "),
  (0x24DE, " o "),
  (0x24DF, " p "),
  (0x24E0, " q "),
  (0x24E1, " r "),
  (0x24E2, " s "),
  (0x24E3, " t "),
  (0x24E4, " u "),
  (0x24E5, " v "),
  (0x24E6, " w "),
  (0x24E7, " x "),
  (0x24E8, " y "),
  (0x24E9, " z "),
  (0x24EA, " 0 "),
  (0x24EB, " 11 "),
  (0x24EC, " 12 "),
  (0x24ED, " 13 "),
  (0x24EE, " 14 "),
  (0x24EF, " 15 "),
  (0x24F0, " 16 "),
  (0x24F1, " 17 "),
  (0x24F2, " 18 "),
  (0x24F3, " 19 "),
  (0x24F4, " 20 "),
  (0x24F5, " 1 "),
  (0x24F6, " 2 "),
  (0x24F7, " 3 "),
  (0x24F8, " 4 "),
  (0x24F9, " 5 "),
  (0x24FA, " 6 "),
  (0x24FB, " 7 "),
  (0x24FC, " 8 "),
  (0x24FD, " 9 "),
  (0x24FE, " 10 "),
  (0x24FF, " 0 "),
  (0x2500, "-"),
  (0x2501, "-"),
  (0x2502, "|"),
  (0x2503, "|"),
  (0x2504, "-"),
  (0x2505, "-"),
  (0x2506, "|"),
  (0x2507, "|"),
  (0x2508, "-"),
  (0x2509, "-"),
  (0x250A, "|"),
  (0x250B, "|"),
  (0x250C, "+"),
  (0x250D, "+"),
  (0x250E, "+"),
  (0x250F, "+"),
  (0x2510, "+"),
  (0x2511, "+"),
  (0x2512, "+"),
  (0x2513, "+"),
  (0x2514, "+"),
  (0x2515, "+"),
  (0x2516, "+"),
  (0x2517, "+"),
  (0x2518, "+"),
  (0x2519, "+"),
  (0x251A, "+"),
  (0x251B, "+"),
  (0x251C, "+"),
  (0x251D, "+"),
  (0x251E, "+"),
  (0x251F, "+"),
  (0x2520, "+"),
  (0x2521, "+"),
  (0x2522, "+"),
  (0x2523, "+"),
  (0x2524, "+"),
  (0x2525, "+"),
  (0x2526, "+"),
  (0x2527, "+"),
  (0x2528, "+"),
  (0x2529, "+"),
  (0x252A, "+"),
  (0x252B, "+"),
  (0x252C, "+"),
  (0x252D, "+"),
  (0x252E, "+"),
  (0x252F, "+"),
  (0x2530, "+"),
  (0x2531, "+"),
  (0x2532, "+"),
  (0x2533, "+"),
  (0x2534, "+"),
  (0x2535, "+"),
  (0x2536, "+"),
  (0x2537, "+"),
  (0x2538, "+"),
  (0x2539, "+"),
  (0x253A, "+")
]

def symbolRunes_7 : List (Nat × String) := [
  (0x253B, "+"),
  (0x253C, "+"),
  (0x253D, "+"),
  (0x253E, "+"),
  (0x253F, "+"),
  (0x2540, "+"),
  (0x2541, "+"),
  (0x2542, "+"),
  (0x2543, "+"),
  (0x2544, "+"),
  (0x2545, "+"),
  (0x2546, "+"),
  (0x2547, "+"),
  (0x2548, "+"),
  (0x2549, "+"),
  (0x254A, "+"),
  (0x254B, "+"),
  (0x254C, "-"),
  (0x254D, "-"),
  (0x254E, "|"),
  (0x254F, "|"),
  (0x2550, "-"),
  (0x2551, "|"),
  (0x2552, "+"),
  (0x2553, "+"),
  (0x2554, "+"),
  (0x2555, "+"),
  (0x2556, "+"),
  (0x2557, "+"),
  (0x2558, "+"),
  (0x2559, "+"),
  (0x255A, "+"),
  (0x255B, "+"),
  (0x255C, "+"),
  (0x255D, "+"),
  (0x255E, "+"),
  (0x255F, "+"),
  (0x2560, "+"),
  (0x2561, "+"),
  (0x2562, "+"),
  (0x2563, "+"),
  (0x2564, "+"),
  (0x2565, "+"),
  (0x2566, "+"),
  (0x2567, "+"),
  (0x2568, "+"),
  (0x2569, "+"),
  (0x256A, "+"),
  (0x256B, "+"),
  (0x256C, "+"),
  (0x256D, "+"),
  (0x256E, "+"),
  (0x256F, "+"),
  (0x2570, "+"),
  (0x2571, "/"),
  (0x2572, "\\"),
  (0x2573, "X"),
  (0x2574, "-"),
  (0x2575, "|"),
  (0x2576, "-"),
  (0x2577, "|"),
  (0x2578, "-"),
  (0x2579, "|"),
  (0x257A, "-"),
  (0x257B, "|"),
  (0x257C, "-"),
  (0x257D, "|"),
  (0x257E, "-"),
  (0x257F, "|"),
  (0x2580, "#"),
  (0x2581, "#"),
  (0x2582, "#"),
  (0x2583, "#"),
  (0x2584, "#"),
  (0x2585, "#"),
  (0x2586, "#"),
  (0x2587, "#"),
  (0x2588, "#"),
  (0x2589, "#"),
  (0x258A, "#"),
  (0x258B, "#"),
  (0x258C, "#"),
  (0x258D, "#"),
  (0x258E, "#"),
  (0x258F, "#"),
  (0x2590, "#"),
  (0x2591, "#"),
  (0x2592, "#"),
  (0x2593, "#"),
  (0x2594, "-"),
  (0x2595, "|"),
  (0x25A0, "#"),
  (0x25A1, "#"),
  (0x25A2, "#"),
  (0x25A3, "#"),
  (0x25A4, "#"),
  (0x25A5, "#"),
  (0x25A6, "#"),
  (0x25A7, "#"),
  (0x25A8, "#")
]

def symbolRunes_8 : List (Nat × String) := [
  (0x25A9, "#"),
  (0x25AA, "#"),
  (0x25AB, "#"),
  (0x25AC, "#"),
  (0x25AD, "#"),
  (0x25AE, "#"),
  (0x25AF, "#"),
  (0x25B0, "#"),
  (0x25B1, "#"),
  (0x25B2, "^"),
  (0x25B3, "^"),
  (0x25B4, "^"),
  (0x25B5, "^"),
  (0x25B6, ">"),
  (0x25B7, ">"),
  (0x25B8, ">"),
  (0x25B9, ">"),
  (0x25BA, ">"),
  (0x25BB, ">"),
  (0x25BC, "V"),
  (0x25BD, "V"),
  (0x25BE, "V"),
  (0x25BF, "V"),
  (0x25C0, "<"),
  (0x25C1, "<"),
  (0x25C2, "<"),
  (0x25C3, "<"),
  (0x25C4, "<"),
  (0x25C5, "<"),
  (0x25C6, "*"),
  (0x25C7, "*"),
  (0x25C8, "*"),
  (0x25C9, "*"),
  (0x25CA, "*"),
  (0x25CB, "*"),
  (0x25CC, "*"),
  (0x25CD, "*"),
  (0x25CE, "*"),
  (0x25CF, "*"),
  (0x25D0, "*"),
  (0x25D1, "*"),
  (0x25D2, "*"),
  (0x25D3, "*"),
  (0x25D4, "*"),
  (0x25D5, "*"),
  (0x25D6, "*"),
  (0x25D7, "*"),
  (0x25D8, "*"),
  (0x25D9, "*"),
  (0x25DA, "*"),
  (0x25DB, "*"),
  (0x25DC, "*"),
  (0x25DD, "*"),
  (0x25DE, "*"),
  (0x25DF, "*"),
  (0x25E0, "*"),
  (0x25E1, "*"),
  (0x25E2, "*"),
  (0x25E3, "*"),
  (0x25E4, "*"),
  (0x25E5, "*"),
  (0x25E6, "*"),
  (0x25E7, "#"),
  (0x25E8, "#"),
  (0x25E9, "#"),
  (0x25EA, "#"),
  (0x25EB, "#"),
  (0x25EC, "^"),
  (0x25ED, "^"),
  (0x25EE, "^"),
  (0x25EF, "O"),
  (0x25F0, "#"),
  (0x25F1, "#"),
  (0x25F2, "#"),
  (0x25F3, "#"),
  (0x25F4, "#"),
  (0x25F5, "#"),
  (0x25F6, "#"),
  (0x25F7, "#"),
  (0x2605, " (starf) )"),
  (0x2606, " (star) "),
  (0x260E, " (phone) "),
  (0x2640, " (female) "),
  (0x2642, " (male) "),
  (0x2660, " (spades) "),
  (0x2661, " (hearts) "),
  (0x2662, " (diamonds) "),
  (0x2663, " (clubs) "),
  (0x2664, " (spades) "),
  (0x2665, " (hearts) "),
  (0x2666, " (diamonds) "),
  (0x2667, " (clubs) "),
  (0x2669, " (music note) "),
  (0x266A, " (sung) "),
  (0x266B, " (music note) "),
  (0x266C, " (music note) "),
  (0x266D, " (flat) "),
  (0x266E, " (natural) "),
  (0x266F, " (sharp) "),
  (0x2713, " (check) ")
]

def symbolRunes_9 : List (Nat × String) := [
  (0x2714, " (check) "),
  (0x2717, " (cross) "),
  (0x2720, " (malt) "),
  (0x2731, "*"),
  (0x2736, " (sext) "),
  (0x2758, "|"),
  (0x2762, "!"),
  (0x27E6, "["),
  (0x27E7, "]"),
  (0x27E8, "<"),
  (0x27E9, "> "),
  (0x2801, "a"),
  (0x2802, "1"),
  (0x2803, "b"),
  (0x2804, "'"),
  (0x2805, "k"),
  (0x2806, "2"),
  (0x2807, "l"),
  (0x2808, "@"),
  (0x2809, "c"),
  (0x280A, "i"),
  (0x280B, "f"),
  (0x280C, "/"),
  (0x280D, "m"),
  (0x280E, "s"),
  (0x280F, "p"),
  (0x2810, ""),
  (0x2811, "e"),
  (0x2812, "3"),
  (0x2813, "h"),
  (0x2814, "9"),
  (0x2815, "o"),
  (0x2816, "6"),
  (0x2817, "r"),
  (0x2818, "^"),
  (0x2819, "d"),
  (0x281A, "j"),
  (0x281B, "g"),
  (0x281C, ">"),
  (0x281D, "n"),
  (0x281E, "t"),
  (0x281F, "q"),
  (0x2820, ","),
  (0x2821, "*"),
  (0x2822, "5"),
  (0x2823, "<"),
  (0x2824, "-"),
  (0x2825, "u"),
  (0x2826, "8"),
  (0x2827, "v"),
  (0x2828, "."),
  (0x2829, "%"),
  (0x282A, "["),
  (0x282B, "$"),
  (0x282C, "+"),
  (0x282D, "x"),
  (0x282E, "!"),
  (0x282F, "&"),
  (0x2830, ";"),
  (0x2831, ":"),
  (0x2832, "4"),
  (0x2833, "\\"),
  (0x2834, "0"),
  (0x2835, "z"),
  (0x2836, "7"),
  (0x2837, "("),
  (0x2838, "_"),
  (0x2839, "?"),
  (0x283A, "w"),
  (0x283B, "]"),
  (0x283C, "#"),
  (0x283D, "y"),
  (0x283E, ")"),
  (0x283F, "="),
  (0x2840, "[d7]"),
  (0x2841, "[d17]"),
  (0x2842, "[d27]"),
  (0x2843, "[d127]"),
  (0x2844, "[d37]"),
  (0x2845, "[d137]"),
  (0x2846, "[d237]"),
  (0x2847, "[d1237]"),
  (0x2848, "[d47]"),
  (0x2849, "[d147]"),
  (0x284A, "[d247]"),
  (0x284B, "[d1247]"),
  (0x284C, "[d347]"),
  (0x284D, "[d1347]"),
  (0x284E, "[d2347]"),
  (0x284F, "[d12347]"),
  (0x2850, "[d57]"),
  (0x2851, "[d157]"),
  (0x2852, "[d257]"),
  (0x2853, "[d1257]"),
  (0x2854, "[d357]"),
  (0x2855, "[d1357]"),
  (0x2856, "[d2357]"),
  (0x2857, "[d12357]"),
  (0x2858, "[d457]"),
  (0x2859, "[d1457]")
]

def symbolRunes_10 : List (Nat × String) := [
  (0x285A, "[d2457]"),
  (0x285B, "[d12457]"),
  (0x285C, "[d3457]"),
  (0x285D, "[d13457]"),
  (0x285E, "[d23457]"),
  (0x285F, "[d123457]"),
  (0x2860, "[d67]"),
  (0x2861, "[d167]"),
  (0x2862, "[d267]"),
  (0x2863, "[d1267]"),
  (0x2864, "[d367]"),
  (0x2865, "[d1367]"),
  (0x2866, "[d2367]"),
  (0x2867, "[d12367]"),
  (0x2868, "[d467]"),
  (0x2869, "[d1467]"),
  (0x286A, "[d2467]"),
  (0x286B, "[d12467]"),
  (0x286C, "[d3467]"),
  (0x286D, "[d13467]"),
  (0x286E, "[d23467]"),
  (0x286F, "[d123467]"),
  (0x2870, "[d567]"),
  (0x2871, "[d1567]"),
  (0x2872, "[d2567]"),
  (0x2873, "[d12567]"),
  (0x2874, "[d3567]"),
  (0x2875, "[d13567]"),
  (0x2876, "[d23567]"),
  (0x2877, "[d123567]"),
  (0x2878, "[d4567]"),
  (0x2879, "[d14567]"),
  (0x287A, "[d24567]"),
  (0x287B, "[d124567]"),
  (0x287C, "[d34567]"),
  (0x287D, "[d134567]"),
  (0x287E, "[d234567]"),
  (0x287F, "[d1234567]"),
  (0x2880, "[d8]"),
  (0x2881, "[d18]"),
  (0x2882, "[d28]"),
  (0x2883, "[d128]"),
  (0x2884, "[d38]"),
  (0x2885, "[d138]"),
  (0x2886, "[d238]"),
  (0x2887, "[d1238]"),
  (0x2888, "[d48]"),
  (0x2889, "[d148]"),
  (0x288A, "[d248]"),
  (0x288B, "[d1248]"),
  (0x288C, "[d348]"),
  (0x288D, "[d1348]"),
  (0x288E, "[d2348]"),
  (0x288F, "[d12348]"),
  (0x2890, "[d58]"),
  (0x2891, "[d158]"),
  (0x2892, "[d258]"),
  (0x2893, "[d1258]"),
  (0x2894, "[d358]"),
  (0x2895, "[d1358]"),
  (0x2896, "[d2358]"),
  (0x2897, "[d12358]"),
  (0x2898, "[d458]"),
  (0x2899, "[d1458]"),
  (0x289A, "[d2458]"),
  (0x289B, "[d12458]"),
  (0x289C, "[d3458]"),
  (0x289D, "[d13458]"),
  (0x289E, "[d23458]"),
  (0x289F, "[d123458]"),
  (0x28A0, "[d68]"),
  (0x28A1, "[d168]"),
  (0x28A2, "[d268]"),
  (0x28A3, "[d1268]"),
  (0x28A4, "[d368]"),
  (0x28A5, "[d1368]"),
  (0x28A6, "[d2368]"),
  (0x28A7, "[d12368]"),
  (0x28A8, "[d468]"),
  (0x28A9, "[d1468]"),
  (0x28AA, "[d2468]"),
  (0x28AB, "[d12468]"),
  (0x28AC, "[d3468]"),
  (0x28AD, "[d13468]"),
  (0x28AE, "[d23468]"),
  (0x28AF, "[d123468]"),
  (0x28B0, "[d568]"),
  (0x28B1, "[d1568]"),
  (0x28B2, "[d2568]"),
  (0x28B3, "[d12568]"),
  (0x28B4, "[d3568]"),
  (0x28B5, "[d13568]"),
  (0x28B6, "[d23568]"),
  (0x28B7, "[d123568]"),
  (0x28B8, "[d4568]"),
  (0x28B9, "[d14568]"),
  (0x28BA, "[d24568]"),
  (0x28BB, "[d124568]"),
  (0x28BC, "[d34568]"),
  (0x28BD, "[d134568]")
]

def symbolRunes_11 : List (Nat × String) := [
  (0x28BE, "[d234568]"),
  (0x28BF, "[d1234568]"),
  (0x28C0, "[d78]"),
  (0x28C1, "[d178]"),
  (0x28C2, "[d278]"),
  (0x28C3, "[d1278]"),
  (0x28C4, "[d378]"),
  (0x28C5, "[d1378]"),
  (0x28C6, "[d2378]"),
  (0x28C7, "[d12378]"),
  (0x28C8, "[d478]"),
  (0x28C9, "[d1478]"),
  (0x28CA, "[d2478]"),
  (0x28CB, "[d12478]"),
  (0x28CC, "[d3478]"),
  (0x28CD, "[d13478]"),
  (0x28CE, "[d23478]"),
  (0x28CF, "[d123478]"),
  (0x28D0, "[d578]"),
  (0x28D1, "[d1578]"),
  (0x28D2, "[d2578]"),
  (0x28D3, "[d12578]"),
  (0x28D4, "[d3578]"),
  (0x28D5, "[d13578]"),
  (0x28D6, "[d23578]"),
  (0x28D7, "[d123578]"),
  (0x28D8, "[d4578]"),
  (0x28D9, "[d14578]"),
  (0x28DA, "[d24578]"),
  (0x28DB, "[d124578]"),
  (0x28DC, "[d34578]"),
  (0x28DD, "[d134578]"),
  (0x28DE, "[d234578]"),
  (0x28DF, "[d1234578]"),
  (0x28E0, "[d678]"),
  (0x28E1, "[d1678]"),
  (0x28E2, "[d2678]"),
  (0x28E3, "[d12678]"),
  (0x28E4, "[d3678]"),
  (0x28E5, "[d13678]"),
  (0x28E6, "[d23678]"),
  (0x28E7, "[d123678]"),
  (0x28E8, "[d4678]"),
  (0x28E9, "[d14678]"),
  (0x28EA, "[d24678]"),
  (0x28EB, "[d124678]"),
  (0x28EC, "[d34678]"),
  (0x28ED, "[d134678]"),
  (0x28EE, "[d234678]"),
  (0x28EF, "[d1234678]"),
  (0x28F0, "[d5678]"),
  (0x28F1, "[d15678]"),
  (0x28F2, "[d25678]"),
  (0x28F3, "[d125678]"),
  (0x28F4, "[d35678]"),
  (0x28F5, "[d135678]"),
  (0x28F6, "[d235678]"),
  (0x28F7, "[d1235678]"),
  (0x28F8, "[d45678]"),
  (0x28F9, "[d145678]"),
  (0x28FA, "[d245678]"),
  (0x28FB, "[d1245678]"),
  (0x28FC, "[d345678]"),
  (0x28FD, "[d1345678]"),
  (0x28FE, "[d2345678]"),
  (0x28FF, "[d12345678]"),
  (0x2983, "\x7b"),
  (0x2984, "\x7d "),
  (0x2A74, "::="),
  (0x2A75, "=="),
  (0x2A76, "==="),
  (0x2A7D, "<="),
  (0x2A7E, ">="),
  (0x2C60, "L"),
  (0x2C61, "l"),
  (0x2C62, "L"),
  (0x2C63, "P"),
  (0x2C64, "R"),
  (0x2C65, "a"),
  (0x2C66, "t"),
  (0x2C67, "H"),
  (0x2C68, "h"),
  (0x2C69, "K"),
  (0x2C6A, "k"),
  (0x2C6B, "Z"),
  (0x2C6C, "z"),
  (0x2C6D, ""),
  (0x2C6E, "M"),
  (0x2C6F, "A"),
  (0x3001, ", "),
  (0x3002, ". "),
  (0x3003, "\""),
  (0x3004, "[JIS]"),
  (0x3005, "\""),
  (0x3006, "/"),
  (0x3007, "0"),
  (0x3008, "<"),
  (0x3009, "> "),
  (0x300A, "<<"),
  (0x300B, ">> ")
]

def symbolRunes_12 : List (Nat × String) := [
  (0x300C, "["),
  (0x300D, "] "),
  (0x300E, "\x7b"),
  (0x300F, "\x7d "),
  (0x3010, "[("),
  (0x3011, ")] "),
  (0x3012, "@"),
  (0x3013, "X "),
  (0x3014, "["),
  (0x3015, "] "),
  (0x3016, "[["),
  (0x3017, "]] "),
  (0x3018, "(("),
  (0x3019, ")) "),
  (0x301A, "[["),
  (0x301B, "]] "),
  (0x301C, "~ "),
  (0x301D, "``"),
  (0x301E, "''"),
  (0x301F, ",,"),
  (0x3020, "@"),
  (0x3021, "1"),
  (0x3022, "2"),
  (0x3023, "3"),
  (0x3024, "4"),
  (0x3025, "5"),
  (0x3026, "6"),
  (0x3027, "7"),
  (0x3028, "8"),
  (0x3029, "9"),
  (0x3030, "~"),
  (0x3031, "+"),
  (0x3032, "+"),
  (0x3033, "+"),
  (0x3034, "+"),
  (0x3035, ""),
  (0x3036, "@"),
  (0x3037, " // "),
  (0x3038, "+10+"),
  (0x3039, "+20+"),
  (0x303A, "+30+")
]

def symbolRunes : List (Nat × String) :=
  List.flatten [symbolRunes_0, symbolRunes_1, symbolRunes_2, symbolRunes_3, symbolRunes_4, symbolRunes_5, symbolRunes_6, symbolRunes_7, symbolRunes_8, symbolRunes_9, symbolRunes_10, symbolRunes_11, symbolRunes_12]

def asciiRunes_0 : List (Nat × String) := [
  (0x0000, ""),
  (0x0001, ""),
  (0x0002, ""),
  (0x0003, ""),
  (0x0004, ""),
  (0x0005, ""),
  (0x0006, ""),
  (0x0007, ""),
  (0x0008, ""),
  (0x0009, ""),
  (0x000A, ""),
  (0x000B, ""),
  (0x000C, ""),
  (0x000D, ""),
  (0x000E, ""),
  (0x000F, ""),
  (0x0010, ""),
  (0x0011, ""),
  (0x0012, ""),
  (0x0013, ""),
  (0x0014, ""),
  (0x0015, ""),
  (0x0016, ""),
  (0x0017, ""),
  (0x0018, ""),
  (0x0019, ""),
  (0x001A, ""),
  (0x001B, ""),
  (0x001C, ""),
  (0x001D, ""),
  (0x001E, ""),
  (0x001F, ""),
  (0x0020, " "),
  (0x0021, "!"),
  (0x0022, "\""),
  (0x0023, "#"),
  (0x0024, "$"),
  (0x0025, "%"),
  (0x0026, "&"),
  (0x0027, "'"),
  (0x0028, "("),
  (0x0029, ")"),
  (0x002A, "*"),
  (0x002B, "+"),
  (0x002C, ","),
  (0x002D, "-"),
  (0x002E, "."),
  (0x002F, "/"),
  (0x0030, "0"),
  (0x0031, "1"),
  (0x0032, "2"),
  (0x0033, "3"),
  (0x0034, "4"),
  (0x0035, "5"),
  (0x0036, "6"),
  (0x0037, "7"),
  (0x0038, "8"),
  (0x0039, "9"),
  (0x003A, ":"),
  (0x003B, ";"),
  (0x003C, "<"),
  (0x003D, "="),
  (0x003E, ">"),
  (0x003F, "?"),
  (0x0040, "@"),
  (0x0041, "A"),
  (0x0042, "B"),
  (0x0043, "C"),
  (0x0044, "D"),
  (0x0045, "E"),
  (0x0046, "F"),
  (0x0047, "G"),
  (0x0048, "H"),
  (0x0049, "I"),
  (0x004A, "J"),
  (0x004B, "K"),
  (0x004C, "L"),
  (0x004D, "M"),
  (0x004E, "N"),
  (0x004F, "O"),
  (0x0050, "P"),
  (0x0051, "Q"),
  (0x0052, "R"),
  (0x0053, "S"),
  (0x0054, "T"),
  (0x0055, "U"),
  (0x0056, "V"),
  (0x0057, "W"),
  (0x0058, "X"),
  (0x0059, "Y"),
  (0x005A, "Z"),
  (0x005B, "["),
  (0x005C, "\\"),
  (0x005D, "]"),
  (0x005E, "^"),
  (0x005F, "_"),
  (0x0060, "`"),
  (0x0061, "a"),
  (0x0062, "b"),
  (0x0063, "c")
]

def asciiRunes_1 : List (Nat × String) := [
  (0x0064, "d"),
  (0x0065, "e"),
  (0x0066, "f"),
  (0x0067, "g"),
  (0x0068, "h"),
  (0x0069, "i"),
  (0x006A, "j"),
  (0x006B, "k"),
  (0x006C, "l"),
  (0x006D, "m"),
  (0x006E, "n"),
  (0x006F, "o"),
  (0x0070, "p"),
  (0x0071, "q"),
  (0x0072, "r"),
  (0x0073, "s"),
  (0x0074, "t"),
  (0x0075, "u"),
  (0x0076, "v"),
  (0x0077, "w"),
  (0x0078, "x"),
  (0x0079, "y"),
  (0x007A, "z"),
  (0x007B, "\x7b"),
  (0x007C, "|"),
  (0x007D, "\x7d"),
  (0x007E, "~"),
  (0x007F, ""),
  (0x00A0, " "),
  (0x00A1, "!"),
  (0x00A2, " (cent) "),
  (0x00A3, " (pound) "),
  (0x00A4, " (curren) "),
  (0x00A5, " (yen) "),
  (0x00A6, "|"),
  (0x00A7, " SS "),
  (0x00A8, ""),
  (0x00A9, " (copy) "),
  (0x00AA, ""),
  (0x00AB, "<<"),
  (0x00AC, "!"),
  (0x00AD, "-"),
  (0x00AE, " (reg) "),
  (0x00AF, "-"),
  (0x00B0, " degrees "),
  (0x00B1, "+/-"),
  (0x00B2, "(2)"),
  (0x00B3, "(3)"),
  (0x00B4, "'"),
  (0x00B5, " micro "),
  (0x00B6, " (p) "),
  (0x00B7, "."),
  (0x00B8, ""),
  (0x00B9, "(1)"),
  (0x00BA, ""),
  (0x00BB, ">>"),
  (0x00BC, "(1/4)"),
  (0x00BD, "(1/2)"),
  (0x00BE, "(3/4)"),
  (0x00BF, "?"),
  (0x00C0, "A"),
  (0x00C1, "A"),
  (0x00C2, "A"),
  (0x00C3, "A"),
  (0x00C4, "A"),
  (0x00C5, "A"),
  (0x00C6, "AE"),
  (0x00C7, "C"),
  (0x00C8, "E"),
  (0x00C9, "E"),
  (0x00CA, "E"),
  (0x00CB, "E"),
  (0x00CC, "I"),
  (0x00CD, "I"),
  (0x00CE, "I"),
  (0x00CF, "I"),
  (0x00D0, "D"),
  (0x00D1, "N"),
  (0x00D2, "O"),
  (0x00D3, "O"),
  (0x00D4, "O"),
  (0x00D5, "O"),
  (0x00D6, "O"),
  (0x00D7, "x"),
  (0x00D8, "O"),
  (0x00D9, "U"),
  (0x00DA, "U"),
  (0x00DB, "U"),
  (0x00DC, "U"),
  (0x00DD, "Y"),
  (0x00DE, "Th"),
  (0x00DF, "ss"),
  (0x00E0, "a"),
  (0x00E1, "a"),
  (0x00E2, "a"),
  (0x00E3, "a"),
  (0x00E4, "a"),
  (0x00E5, "a"),
  (0x00E6, "ae"),
  (0x00E7, "c")
]

def asciiRunes_2 : List (Nat × String) := [
  (0x00E8, "e"),
  (0x00E9, "e"),
  (0x00EA, "e"),
  (0x00EB, "e"),
  (0x00EC, "i"),
  (0x00ED, "i"),
  (0x00EE, "i"),
  (0x00EF, "i"),
  (0x00F0, "d"),
  (0x00F1, "n"),
  (0x00F2, "o"),
  (0x00F3, "o"),
  (0x00F4, "o"),
  (0x00F5, "o"),
  (0x00F6, "o"),
  (0x00F7, "/"),
  (0x00F8, "o"),
  (0x00F9, "u"),
  (0x00FA, "u"),
  (0x00FB, "u"),
  (0x00FC, "u"),
  (0x00FD, "y"),
  (0x00FE, "th"),
  (0x00FF, "y"),
  (0x0100, "A"),
  (0x0101, "a"),
  (0x0102, "A"),
  (0x0103, "a"),
  (0x0104, "A"),
  (0x0105, "a"),
  (0x0106, "C"),
  (0x0107, "c"),
  (0x0108, "C"),
  (0x0109, "c"),
  (0x010A, "C"),
  (0x010B, "c"),
  (0x010C, "C"),
  (0x010D, "c"),
  (0x010E, "D"),
  (0x010F, "d"),
  (0x0110, "D"),
  (0x0111, "d"),
  (0x0112, "E"),
  (0x0113, "e"),
  (0x0114, "E"),
  (0x0115, "e"),
  (0x0116, "E"),
  (0x0117, "e"),
  (0x0118, "E"),
  (0x0119, "e"),
  (0x011A, "E"),
  (0x011B, "e"),
  (0x011C, "G"),
  (0x011D, "g"),
  (0x011E, "G"),
  (0x011F, "g"),
  (0x0120, "G"),
  (0x0121, "g"),
  (0x0122, "G"),
  (0x0123, "g"),
  (0x0124, "H"),
  (0x0125, "h"),
  (0x0126, "H"),
  (0x0127, "h"),
  (0x0128, "I"),
  (0x0129, "i"),
  (0x012A, "I"),
  (0x012B, "i"),
  (0x012C, "I"),
  (0x012D, "i"),
  (0x012E, "I"),
  (0x012F, "i"),
  (0x0130, "I"),
  (0x0131, "i"),
  (0x0132, "IJ"),
  (0x0133, "ij"),
  (0x0134, "J"),
  (0x0135, "j"),
  (0x0136, "K"),
  (0x0137, "k"),
  (0x0138, "k"),
  (0x0139, "L"),
  (0x013A, "l"),
  (0x013B, "L"),
  (0x013C, "l"),
  (0x013D, "L"),
  (0x013E, "l"),
  (0x013F, "L"),
  (0x0140, "l"),
  (0x0141, "L"),
  (0x0142, "l"),
  (0x0143, "N"),
  (0x0144, "n"),
  (0x0145, "N"),
  (0x0146, "n"),
  (0x0147, "N"),
  (0x0148, "n"),
  (0x0149, "'n"),
  (0x014A, "NG"),
  (0x014B, "ng")
]

def asciiRunes_3 : List (Nat × String) := [
  (0x014C, "O"),
  (0x014D, "o"),
  (0x014E, "O"),
  (0x014F, "o"),
  (0x0150, "O"),
  (0x0151, "o"),
  (0x0152, "OE"),
  (0x0153, "oe"),
  (0x0154, "R"),
  (0x0155, "r"),
  (0x0156, "R"),
  (0x0157, "r"),
  (0x0158, "R"),
  (0x0159, "r"),
  (0x015A, "S"),
  (0x015B, "s"),
  (0x015C, "S"),
  (0x015D, "s"),
  (0x015E, "S"),
  (0x015F, "s"),
  (0x0160, "S"),
  (0x0161, "s"),
  (0x0162, "T"),
  (0x0163, "t"),
  (0x0164, "T"),
  (0x0165, "t"),
  (0x0166, "T"),
  (0x0167, "t"),
  (0x0168, "U"),
  (0x0169, "u"),
  (0x016A, "U"),
  (0x016B, "u"),
  (0x016C, "U"),
  (0x016D, "u"),
  (0x016E, "U"),
  (0x016F, "u"),
  (0x0170, "U"),
  (0x0171, "u"),
  (0x0172, "U"),
  (0x0173, "u"),
  (0x0174, "W"),
  (0x0175, "w"),
  (0x0176, "Y"),
  (0x0177, "y"),
  (0x0178, "Y"),
  (0x0179, "Z"),
  (0x017A, "z"),
  (0x017B, "Z"),
  (0x017C, "z"),
  (0x017D, "Z"),
  (0x017E, "z"),
  (0x017F, "s"),
  (0x0180, "b"),
  (0x0181, "B"),
  (0x0182, "B"),
  (0x0183, "b"),
  (0x0184, "6"),
  (0x0185, "6"),
  (0x0186, "O"),
  (0x0187, "C"),
  (0x0188, "c"),
  (0x0189, "D"),
  (0x018A, "D"),
  (0x018B, "D"),
  (0x018C, "d"),
  (0x018D, "d"),
  (0x018E, "3"),
  (0x018F, "@"),
  (0x0190, "E"),
  (0x0191, "F"),
  (0x0192, "f"),
  (0x0193, "G"),
  (0x0194, "G"),
  (0x0195, "hv"),
  (0x0196, "I"),
  (0x0197, "I"),
  (0x0198, "K"),
  (0x0199, "k"),
  (0x019A, "l"),
  (0x019B, "l"),
  (0x019C, "W"),
  (0x019D, "N"),
  (0x019E, "n"),
  (0x019F, "O"),
  (0x01A0, "O"),
  (0x01A1, "o"),
  (0x01A2, "OI"),
  (0x01A3, "oi"),
  (0x01A4, "P"),
  (0x01A5, "p"),
  (0x01A6, "YR"),
  (0x01A7, "2"),
  (0x01A8, "2"),
  (0x01A9, "SH"),
  (0x01AA, "sh"),
  (0x01AB, "t"),
  (0x01AC, "T"),
  (0x01AD, "t"),
  (0x01AE, "T"),
  (0x01AF, "U")
]

def asciiRunes_4 : List (Nat × String) := [
  (0x01B0, "u"),
  (0x01B1, "Y"),
  (0x01B2, "V"),
  (0x01B3, "Y"),
  (0x01B4, "y"),
  (0x01B5, "Z"),
  (0x01B6, "z"),
  (0x01B7, "ZH"),
  (0x01B8, "ZH"),
  (0x01B9, "zh"),
  (0x01BA, "zh"),
  (0x01BB, "2"),
  (0x01BC, "5"),
  (0x01BD, "5"),
  (0x01BE, "ts"),
  (0x01BF, "w"),
  (0x01C0, "|"),
  (0x01C1, "||"),
  (0x01C2, "|="),
  (0x01C3, "!"),
  (0x01C4, "DZ"),
  (0x01C5, "Dz"),
  (0x01C6, "dz"),
  (0x01C7, "LJ"),
  (0x01C8, "Lj"),
  (0x01C9, "lj"),
  (0x01CA, "NJ"),
  (0x01CB, "Nj"),
  (0x01CC, "nj"),
  (0x01CD, "A"),
  (0x01CE, "a"),
  (0x01CF, "I"),
  (0x01D0, "i"),
  (0x01D1, "O"),
  (0x01D2, "o"),
  (0x01D3, "U"),
  (0x01D4, "u"),
  (0x01D5, "U"),
  (0x01D6, "u"),
  (0x01D7, "U"),
  (0x01D8, "u"),
  (0x01D9, "U"),
  (0x01DA, "u"),
  (0x01DB, "U"),
  (0x01DC, "u"),
  (0x01DD, "@"),
  (0x01DE, "A"),
  (0x01DF, "a"),
  (0x01E0, "A"),
  (0x01E1, "a"),
  (0x01E2, "AE"),
  (0x01E3, "ae"),
  (0x01E4, "G"),
  (0x01E5, "g"),
  (0x01E6, "G"),
  (0x01E7, "g"),
  (0x01E8, "K"),
  (0x01E9, "k"),
  (0x01EA, "O"),
  (0x01EB, "o"),
  (0x01EC, "O"),
  (0x01ED, "o"),
  (0x01EE, "ZH"),
  (0x01EF, "zh"),
  (0x01F0, "j"),
  (0x01F1, "DZ"),
  (0x01F2, "Dz"),
  (0x01F3, "dz"),
  (0x01F4, "G"),
  (0x01F5, "g"),
  (0x01F6, "HV"),
  (0x01F7, "W"),
  (0x01F8, "N"),
  (0x01F9, "n"),
  (0x01FA, "A"),
  (0x01FB, "a"),
  (0x01FC, "AE"),
  (0x01FD, "ae"),
  (0x01FE, "O"),
  (0x01FF, "o"),
  (0x0200, "A"),
  (0x0201, "a"),
  (0x0202, "A"),
  (0x0203, "a"),
  (0x0204, "E"),
  (0x0205, "e"),
  (0x0206, "E"),
  (0x0207, "e"),
  (0x0208, "I"),
  (0x0209, "i"),
  (0x020A, "I"),
  (0x020B, "i"),
  (0x020C, "O"),
  (0x020D, "o"),
  (0x020E, "O"),
  (0x020F, "o"),
  (0x0210, "R"),
  (0x0211, "r"),
  (0x0212, "R"),
  (0x0213, "r")
]

def asciiRunes_5 : List (Nat × String) := [
  (0x0214, "U"),
  (0x0215, "u"),
  (0x0216, "U"),
  (0x0217, "u"),
  (0x0218, "S"),
  (0x0219, "s"),
  (0x021A, "T"),
  (0x021B, "t"),
  (0x021C, "Y"),
  (0x021D, "y"),
  (0x021E, "H"),
  (0x021F, "h"),
  (0x0220, "N"),
  (0x0221, "d"),
  (0x0222, "OU"),
  (0x0223, "ou"),
  (0x0224, "Z"),
  (0x0225, "z"),
  (0x0226, "A"),
  (0x0227, "a"),
  (0x0228, "E"),
  (0x0229, "e"),
  (0x022A, "O"),
  (0x022B, "o"),
  (0x022C, "O"),
  (0x022D, "o"),
  (0x022E, "O"),
  (0x022F, "o"),
  (0x0230, "O"),
  (0x0231, "o"),
  (0x0232, "Y"),
  (0x0233, "y"),
  (0x0234, "l"),
  (0x0235, "n"),
  (0x0236, "t"),
  (0x0237, "j"),
  (0x0238, "db"),
  (0x0239, "qp"),
  (0x023A, "A"),
  (0x023B, "C"),
  (0x023C, "c"),
  (0x023D, "L"),
  (0x023E, "T"),
  (0x023F, "s"),
  (0x0240, "z"),
  (0x0243, "B"),
  (0x0244, "U"),
  (0x0245, "^"),
  (0x0246, "E"),
  (0x0247, "e"),
  (0x0248, "J"),
  (0x0249, "j"),
  (0x024A, "q"),
  (0x024B, "q"),
  (0x024C, "R"),
  (0x024D, "r"),
  (0x024E, "Y"),
  (0x024F, "y"),
  (0x0250, "a"),
  (0x0251, "a"),
  (0x0252, "a"),
  (0x0253, "b"),
  (0x0254, "o"),
  (0x0255, "c"),
  (0x0256, "d"),
  (0x0257, "d"),
  (0x0258, "e"),
  (0x0259, "@"),
  (0x025A, "@"),
  (0x025B, "e"),
  (0x025C, "e"),
  (0x025D, "e"),
  (0x025E, "e"),
  (0x025F, "j"),
  (0x0260, "g"),
  (0x0261, "g"),
  (0x0262, "g"),
  (0x0263, "g"),
  (0x0264, "u"),
  (0x0265, "Y"),
  (0x0266, "h"),
  (0x0267, "h"),
  (0x0268, "i"),
  (0x0269, "i"),
  (0x026A, "I"),
  (0x026B, "l"),
  (0x026C, "l"),
  (0x026D, "l"),
  (0x026E, "lZ"),
  (0x026F, "W"),
  (0x0270, "W"),
  (0x0271, "m"),
  (0x0272, "n"),
  (0x0273, "n"),
  (0x0274, "n"),
  (0x0275, "o"),
  (0x0276, "OE"),
  (0x0277, "O"),
  (0x0278, "F"),
  (0x0279, "r")
]

def asciiRunes_6 : List (Nat × String) := [
  (0x027A, "r"),
  (0x027B, "r"),
  (0x027C, "r"),
  (0x027D, "r"),
  (0x027E, "r"),
  (0x027F, "r"),
  (0x0280, "R"),
  (0x0281, "R"),
  (0x0282, "s"),
  (0x0283, "S"),
  (0x0284, "j"),
  (0x0285, "S"),
  (0x0286, "S"),
  (0x0287, "t"),
  (0x0288, "t"),
  (0x0289, "u"),
  (0x028A, "U"),
  (0x028B, "v"),
  (0x028C, "^"),
  (0x028D, "w"),
  (0x028E, "y"),
  (0x028F, "Y"),
  (0x0290, "z"),
  (0x0291, "z"),
  (0x0292, "Z"),
  (0x0293, "Z"),
  (0x0297, "C"),
  (0x0298, "@"),
  (0x0299, "B"),
  (0x029A, "E"),
  (0x029B, "G"),
  (0x029C, "H"),
  (0x029D, "j"),
  (0x029E, "k"),
  (0x029F, "L"),
  (0x02A0, "q"),
  (0x02A3, "dz"),
  (0x02A4, "dZ"),
  (0x02A5, "dz"),
  (0x02A6, "ts"),
  (0x02A7, "tS"),
  (0x02A8, "tC"),
  (0x02A9, "fN"),
  (0x02AA, "ls"),
  (0x02AB, "lz"),
  (0x02AC, "WW"),
  (0x02AD, "]]"),
  (0x02AE, "h"),
  (0x02AF, "h"),
  (0x02B0, "k"),
  (0x02B1, "h"),
  (0x02B2, "j"),
  (0x02B3, "r"),
  (0x02B4, "r"),
  (0x02B5, "r"),
  (0x02B6, "r"),
  (0x02B7, "w"),
  (0x02B8, "y"),
  (0x02B9, "'"),
  (0x02BA, "\""),
  (0x02BB, "`"),
  (0x02BC, "'"),
  (0x02BD, "`"),
  (0x02BE, "`"),
  (0x02BF, "'"),
  (0x02C0, "?"),
  (0x02C1, "?"),
  (0x02C2, "<"),
  (0x02C3, ">"),
  (0x02C4, "^"),
  (0x02C5, "v"),
  (0x02C6, "^"),
  (0x02C7, "V"),
  (0x02C8, "'"),
  (0x02C9, "-"),
  (0x02CA, "'"),
  (0x02CB, "`"),
  (0x02CC, ","),
  (0x02CD, "_"),
  (0x02CE, "'"),
  (0x02CF, "`"),
  (0x02D0, ":"),
  (0x02D1, "."),
  (0x02D2, "`"),
  (0x02D3, "'"),
  (0x02D4, "^"),
  (0x02D5, "V"),
  (0x02D6, "+"),
  (0x02D7, "-"),
  (0x02D8, "V"),
  (0x02D9, "."),
  (0x02DA, "@"),
  (0x02DB, ","),
  (0x02DC, "~"),
  (0x02DD, ""),
  (0x02DE, "R"),
  (0x02DF, "X"),
  (0x02E0, "G"),
  (0x02E1, "l"),
  (0x02E2, "s")
]

def asciiRunes_7 : List (Nat × String) := [
  (0x02E3, "x"),
  (0x02EC, "V"),
  (0x02ED, "="),
  (0x02EE, "\""),
  (0x02F1, "l"),
  (0x02F2, "s"),
  (0x02F3, "x"),
  (0x02FC, "v"),
  (0x02FD, "="),
  (0x0363, "a"),
  (0x0364, "e"),
  (0x0365, "i"),
  (0x0366, "o"),
  (0x0367, "u"),
  (0x0368, "c"),
  (0x0369, "d"),
  (0x036A, "h"),
  (0x036B, "m"),
  (0x036C, "r"),
  (0x036D, "t"),
  (0x036E, "v"),
  (0x036F, "x"),
  (0x0374, "'"),
  (0x0375, ","),
  (0x037E, "?"),
  (0x037F, "J"),
  (0x0386, "A"),
  (0x0387, ""),
  (0x0388, "E"),
  (0x0389, "E"),
  (0x038A, "I"),
  (0x038C, "O"),
  (0x038E, "U"),
  (0x038F, " Omega "),
  (0x0390, " iota "),
  (0x0391, " Alpha "),
  (0x0392, " Beta "),
  (0x0393, " Gamma "),
  (0x0394, " Delta "),
  (0x0395, " Epsilon"),
  (0x0396, " Zeta "),
  (0x0397, " Eta "),
  (0x0398, " Theta "),
  (0x0399, " Iota "),
  (0x039A, " Kappa "),
  (0x039B, " Lambda "),
  (0x039C, " Mu "),
  (0x039D, " Nu "),
  (0x039E, " Xi "),
  (0x039F, " Omicron "),
  (0x03A0, " Pi "),
  (0x03A1, " Rho "),
  (0x03A3, " Sigma "),
  (0x03A4, " Tau "),
  (0x03A5, " Upsilon "),
  (0x03A6, " Phi "),
  (0x03A7, " Chi "),
  (0x03A8, " Psi "),
  (0x03A9, " Omega "),
  (0x03AA, " Iota "),
  (0x03AB, " Upsilon "),
  (0x03AC, " alpha "),
  (0x03AD, " epsilon "),
  (0x03AE, " eta "),
  (0x03AF, " iota "),
  (0x03B0, " upsilon "),
  (0x03B1, " alpha "),
  (0x03B2, " beta "),
  (0x03B3, " gamma "),
  (0x03B4, " delta "),
  (0x03B5, " epsilon "),
  (0x03B6, " zeta "),
  (0x03B7, " eta "),
  (0x03B8, " theta "),
  (0x03B9, " iota "),
  (0x03BA, " kappa "),
  (0x03BB, " lambda "),
  (0x03BC, " mu "),
  (0x03BD, " nu "),
  (0x03BE, " xi "),
  (0x03BF, " omicron "),
  (0x03C0, " pi "),
  (0x03C1, " rho "),
  (0x03C2, " sigma "),
  (0x03C3, " sigma "),
  (0x03C4, " tau "),
  (0x03C5, " upsilon "),
  (0x03C6, " phi "),
  (0x03C7, " chi "),
  (0x03C8, " psi "),
  (0x03C9, " omega "),
  (0x03CA, " iota "),
  (0x03CB, " upsilon "),
  (0x03CC, " omicron "),
  (0x03CD, " upsilon "),
  (0x03CE, " omega "),
  (0x03CF, " Kai "),
  (0x03D0, " beta "),
  (0x03D1, " theta "),
  (0x03D2, " Upsilon ")
]

def asciiRunes_8 : List (Nat × String) := [
  (0x03D3, ""),
  (0x03D4, " Upsilon "),
  (0x03D5, " Phi "),
  (0x03D6, " Pi "),
  (0x03D7, " Kai "),
  (0x03DA, " Stigma "),
  (0x03DB, " stigma "),
  (0x03DC, " Digamma "),
  (0x03DD, " digamma "),
  (0x03DE, " Koppa "),
  (0x03DF, " koppa "),
  (0x03E0, " Sampi "),
  (0x03E1, " sampi "),
  (0x03E2, "Sh"),
  (0x03E3, "sh"),
  (0x03E4, "F"),
  (0x03E5, "f"),
  (0x03E6, "Kh"),
  (0x03E7, "kh"),
  (0x03E8, "H"),
  (0x03E9, "h"),
  (0x03EA, "G"),
  (0x03EB, "g"),
  (0x03EC, "CH"),
  (0x03ED, "ch"),
  (0x03EE, "Ti"),
  (0x03EF, "ti"),
  (0x03F0, "k"),
  (0x03F1, "r"),
  (0x03F2, "c"),
  (0x03F3, "j"),
  (0x03F4, "Th"),
  (0x03F5, "e"),
  (0x03F6, "e"),
  (0x03F7, ""),
  (0x03F8, ""),
  (0x03F9, "S"),
  (0x03FA, ""),
  (0x03FB, ""),
  (0x03FC, "r"),
  (0x03FD, "S"),
  (0x03FE, "S"),
  (0x03FF, "S"),
  (0x0400, "Ie"),
  (0x0401, "Io"),
  (0x0402, "Dj"),
  (0x0403, "Gj"),
  (0x0404, "Ie"),
  (0x0405, "Dz"),
  (0x0406, "I"),
  (0x0407, "Yi"),
  (0x0408, "J"),
  (0x0409, "Lj"),
  (0x040A, "Nj"),
  (0x040B, "Tsh"),
  (0x040C, "Kj"),
  (0x040D, "I"),
  (0x040E, "U"),
  (0x040F, "Dzh"),
  (0x0410, "A"),
  (0x0411, "B"),
  (0x0412, "V"),
  (0x0413, "G"),
  (0x0414, "D"),
  (0x0415, "E"),
  (0x0416, "Zh"),
  (0x0417, "Z"),
  (0x0418, "I"),
  (0x0419, "I"),
  (0x041A, "K"),
  (0x041B, "L"),
  (0x041C, "M"),
  (0x041D, "N"),
  (0x041E, "O"),
  (0x041F, "P"),
  (0x0420, "R"),
  (0x0421, "S"),
  (0x0422, "T"),
  (0x0423, "U"),
  (0x0424, "F"),
  (0x0425, "Kh"),
  (0x0426, "Ts"),
  (0x0427, "Ch"),
  (0x0428, "Sh"),
  (0x0429, "Shch"),
  (0x042A, "'"),
  (0x042B, "Y"),
  (0x042C, "'"),
  (0x042D, "E"),
  (0x042E, "Iu"),
  (0x042F, "Ia"),
  (0x0430, "a"),
  (0x0431, "b"),
  (0x0432, "v"),
  (0x0433, "g"),
  (0x0434, "d"),
  (0x0435, "e"),
  (0x0436, "zh"),
  (0x0437, "z"),
  (0x0438, "i")
]

def asciiRunes_9 : List (Nat × String) := [
  (0x0439, "i"),
  (0x043A, "k"),
  (0x043B, "l"),
  (0x043C, "m"),
  (0x043D, "n"),
  (0x043E, "o"),
  (0x043F, "p"),
  (0x0440, "r"),
  (0x0441, "s"),
  (0x0442, "t"),
  (0x0443, "u"),
  (0x0444, "f"),
  (0x0445, "kh"),
  (0x0446, "ts"),
  (0x0447, "ch"),
  (0x0448, "sh"),
  (0x0449, "shch"),
  (0x044A, "'"),
  (0x044B, "y"),
  (0x044C, "'"),
  (0x044D, "e"),
  (0x044E, "iu"),
  (0x044F, "ia"),
  (0x0450, "ie"),
  (0x0451, "io"),
  (0x0452, "dj"),
  (0x0453, "gj"),
  (0x0454, "ie"),
  (0x0455, "dz"),
  (0x0456, "i"),
  (0x0457, "yi"),
  (0x0458, "j"),
  (0x0459, "lj"),
  (0x045A, "nj"),
  (0x045B, "tsh"),
  (0x045C, "kj"),
  (0x045D, "i"),
  (0x045E, "u"),
  (0x045F, "dzh"),
  (0x0460, "O"),
  (0x0461, "o"),
  (0x0462, "E"),
  (0x0463, "e"),
  (0x0464, "Ie"),
  (0x0465, "ie"),
  (0x0466, "E"),
  (0x0467, "e"),
  (0x0468, "Ie"),
  (0x0469, "ie"),
  (0x046A, "O"),
  (0x046B, "o"),
  (0x046C, "Io"),
  (0x046D, "io"),
  (0x046E, "Ks"),
  (0x046F, "ks"),
  (0x0470, "Ps"),
  (0x0471, "ps"),
  (0x0472, "F"),
  (0x0473, "f"),
  (0x0474, "Y"),
  (0x0475, "y"),
  (0x0476, "Y"),
  (0x0477, "y"),
  (0x0478, "u"),
  (0x0479, "u"),
  (0x047A, "O"),
  (0x047B, "o"),
  (0x047C, "O"),
  (0x047D, "o"),
  (0x047E, "Ot"),
  (0x047F, "ot"),
  (0x0480, "Q"),
  (0x0481, "q"),
  (0x048C, ""),
  (0x048D, ""),
  (0x048E, "R'"),
  (0x048F, "r'"),
  (0x0490, "G'"),
  (0x0491, "g'"),
  (0x0492, "G'"),
  (0x0493, "g'"),
  (0x0494, "G'"),
  (0x0495, "g'"),
  (0x0496, "Zh'"),
  (0x0497, "zh'"),
  (0x0498, "Z'"),
  (0x0499, "z'"),
  (0x049A, "K'"),
  (0x049B, "k'"),
  (0x049C, "K'"),
  (0x049D, "k'"),
  (0x049E, "K'"),
  (0x049F, "k'"),
  (0x04A0, "K'"),
  (0x04A1, "k'"),
  (0x04A2, "N'"),
  (0x04A3, "n'"),
  (0x04A4, "Ng"),
  (0x04A5, "ng"),
  (0x04A6, "P'")
]

def asciiRunes_10 : List (Nat × String) := [
  (0x04A7, "p'"),
  (0x04A8, "Kh"),
  (0x04A9, "kh"),
  (0x04AA, "S'"),
  (0x04AB, "s'"),
  (0x04AC, "T'"),
  (0x04AD, "t'"),
  (0x04AE, "U"),
  (0x04AF, "u"),
  (0x04B0, "U'"),
  (0x04B1, "u'"),
  (0x04B2, "Kh'"),
  (0x04B3, "kh'"),
  (0x04B4, "Tts"),
  (0x04B5, "tts"),
  (0x04B6, "Ch'"),
  (0x04B7, "ch'"),
  (0x04B8, "Ch'"),
  (0x04B9, "ch'"),
  (0x04BA, "H"),
  (0x04BB, "h"),
  (0x04BC, "Ch"),
  (0x04BD, "ch"),
  (0x04BE, "Ch'"),
  (0x04BF, "ch'"),
  (0x04C0, "`"),
  (0x04C1, "Zh"),
  (0x04C2, "zh"),
  (0x04C3, "K'"),
  (0x04C4, "k'"),
  (0x04C7, "N'"),
  (0x04C8, "n'"),
  (0x04CB, "Ch"),
  (0x04CC, "ch"),
  (0x04D0, "a"),
  (0x04D1, "a"),
  (0x04D2, "A"),
  (0x04D3, "a"),
  (0x04D4, "Ae"),
  (0x04D5, "ae"),
  (0x04D6, "Ie"),
  (0x04D7, "ie"),
  (0x04D8, "@"),
  (0x04D9, "@"),
  (0x04DA, "@"),
  (0x04DB, "@"),
  (0x04DC, "Zh"),
  (0x04DD, "zh"),
  (0x04DE, "Z"),
  (0x04DF, "z"),
  (0x04E0, "Dz"),
  (0x04E1, "dz"),
  (0x04E2, "I"),
  (0x04E3, "i"),
  (0x04E4, "I"),
  (0x04E5, "i"),
  (0x04E6, "O"),
  (0x04E7, "o"),
  (0x04E8, "O"),
  (0x04E9, "o"),
  (0x04EA, "O"),
  (0x04EB, "o"),
  (0x04EC, "E"),
  (0x04ED, "e"),
  (0x04EE, "U"),
  (0x04EF, "u"),
  (0x04F0, "U"),
  (0x04F1, "u"),
  (0x04F2, "U"),
  (0x04F3, "u"),
  (0x04F4, "Ch"),
  (0x04F5, "ch"),
  (0x04F8, "Y"),
  (0x04F9, "y"),
  (0x0531, "A"),
  (0x0532, "B"),
  (0x0533, "G"),
  (0x0534, "D"),
  (0x0535, "E"),
  (0x0536, "Z"),
  (0x0537, "E"),
  (0x0538, "E"),
  (0x0539, "T`"),
  (0x053A, "Zh"),
  (0x053B, "I"),
  (0x053C, "L"),
  (0x053D, "Kh"),
  (0x053E, "Ts"),
  (0x053F, "K"),
  (0x0540, "H"),
  (0x0541, "Dz"),
  (0x0542, "Gh"),
  (0x0543, "Ch"),
  (0x0544, "M"),
  (0x0545, "Y"),
  (0x0546, "N"),
  (0x0547, "Sh"),
  (0x0548, "O"),
  (0x0549, "Ch`"),
  (0x054A, "P")
]

def asciiRunes_11 : List (Nat × String) := [
  (0x054B, "J"),
  (0x054C, "Rh"),
  (0x054D, "S"),
  (0x054E, "V"),
  (0x054F, "T"),
  (0x0550, "R"),
  (0x0551, "Ts`"),
  (0x0552, "W"),
  (0x0553, "P`"),
  (0x0554, "K`"),
  (0x0555, "O"),
  (0x0556, "F"),
  (0x0559, "<"),
  (0x055A, "'"),
  (0x055B, "/"),
  (0x055C, "!"),
  (0x055D, ","),
  (0x055E, "?"),
  (0x055F, "."),
  (0x0561, "a"),
  (0x0562, "b"),
  (0x0563, "g"),
  (0x0564, "d"),
  (0x0565, "e"),
  (0x0566, "z"),
  (0x0567, "e"),
  (0x0568, "e"),
  (0x0569, "t`"),
  (0x056A, "zh"),
  (0x056B, "i"),
  (0x056C, "l"),
  (0x056D, "kh"),
  (0x056E, "ts"),
  (0x056F, "k"),
  (0x0570, "h"),
  (0x0571, "dz"),
  (0x0572, "gh"),
  (0x0573, "ch"),
  (0x0574, "m"),
  (0x0575, "y"),
  (0x0576, "n"),
  (0x0577, "sh"),
  (0x0578, "o"),
  (0x0579, "ch`"),
  (0x057A, "p"),
  (0x057B, "j"),
  (0x057C, "rh"),
  (0x057D, "s"),
  (0x057E, "v"),
  (0x057F, "t"),
  (0x0580, "r"),
  (0x0581, "ts`"),
  (0x0582, "w"),
  (0x0583, "p`"),
  (0x0584, "k`"),
  (0x0585, "o"),
  (0x0586, "f"),
  (0x0587, "ew"),
  (0x0589, ":"),
  (0x058A, "-"),
  (0x05B0, "@"),
  (0x05B1, "e"),
  (0x05B2, "a"),
  (0x05B3, "o"),
  (0x05B4, "i"),
  (0x05B5, "e"),
  (0x05B6, "e"),
  (0x05B7, "a"),
  (0x05B8, "a"),
  (0x05B9, "o"),
  (0x05BB, "u"),
  (0x05BC, "'"),
  (0x05C0, "|"),
  (0x05C3, ":"),
  (0x05D0, "a"),
  (0x05D1, "b"),
  (0x05D2, "g"),
  (0x05D3, "d"),
  (0x05D4, "h"),
  (0x05D5, "v"),
  (0x05D6, "z"),
  (0x05D7, "kh"),
  (0x05D8, "t"),
  (0x05D9, "y"),
  (0x05DA, "k"),
  (0x05DB, "k"),
  (0x05DC, "l"),
  (0x05DD, "m"),
  (0x05DE, "m"),
  (0x05DF, "n"),
  (0x05E0, "n"),
  (0x05E1, "s"),
  (0x05E2, "`"),
  (0x05E3, "p"),
  (0x05E4, "p"),
  (0x05E5, "ts"),
  (0x05E6, "ts"),
  (0x05E7, "q"),
  (0x05E8, "r"),
  (0x05E9, "sh")
]

def asciiRunes_12 : List (Nat × String) := [
  (0x05EA, "t"),
  (0x05F0, "V"),
  (0x05F1, "oy"),
  (0x05F2, "i"),
  (0x05F3, "'"),
  (0x05F4, ""),
  (0x060C, ","),
  (0x061B, ";"),
  (0x061F, "?"),
  (0x0622, "a"),
  (0x0623, "'"),
  (0x0624, "w'"),
  (0x0626, "y'"),
  (0x0628, "b"),
  (0x0629, "@"),
  (0x062A, "t"),
  (0x062B, "th"),
  (0x062C, "j"),
  (0x062D, "H"),
  (0x062E, "kh"),
  (0x062F, "d"),
  (0x0630, "dh"),
  (0x0631, "r"),
  (0x0632, "z"),
  (0x0633, "s"),
  (0x0634, "sh"),
  (0x0635, "S"),
  (0x0636, "D"),
  (0x0637, "T"),
  (0x0638, "Z"),
  (0x0639, "`"),
  (0x063A, "G"),
  (0x0641, "f"),
  (0x0642, "q"),
  (0x0643, "k"),
  (0x0644, "l"),
  (0x0645, "m"),
  (0x0646, "n"),
  (0x0647, "h"),
  (0x0648, "w"),
  (0x0649, "~"),
  (0x064A, "y"),
  (0x064B, "an"),
  (0x064C, "un"),
  (0x064D, "in"),
  (0x064E, "a"),
  (0x064F, "u"),
  (0x0650, "i"),
  (0x0651, "W"),
  (0x0654, "'"),
  (0x0655, "'"),
  (0x0660, "0"),
  (0x0661, "1"),
  (0x0662, "2"),
  (0x0663, "3"),
  (0x0664, "4"),
  (0x0665, "5"),
  (0x0666, "6"),
  (0x0667, "7"),
  (0x0668, "8"),
  (0x0669, "9"),
  (0x066A, "%"),
  (0x066B, "."),
  (0x066C, ","),
  (0x066D, "*"),
  (0x0671, "'"),
  (0x0672, "'"),
  (0x0673, "'"),
  (0x0675, "'"),
  (0x0676, "'w"),
  (0x0677, "'u"),
  (0x0678, "'y"),
  (0x0679, "tt"),
  (0x067A, "tth"),
  (0x067B, "b"),
  (0x067C, "t"),
  (0x067D, "T"),
  (0x067E, "p"),
  (0x067F, "th"),
  (0x0680, "bh"),
  (0x0681, "'h"),
  (0x0682, "H"),
  (0x0683, "ny"),
  (0x0684, "dy"),
  (0x0685, "H"),
  (0x0686, "ch"),
  (0x0687, "cch"),
  (0x0688, "dd"),
  (0x0689, "D"),
  (0x068A, "D"),
  (0x068B, "Dt"),
  (0x068C, "dh"),
  (0x068D, "ddh"),
  (0x068E, "d"),
  (0x068F, "D"),
  (0x0690, "D"),
  (0x0691, "rr"),
  (0x0692, "R"),
  (0x0693, "R"),
  (0x0694, "R")
]

def asciiRunes_13 : List (Nat × String) := [
  (0x0695, "R"),
  (0x0696, "R"),
  (0x0697, "R"),
  (0x0698, "j"),
  (0x0699, "R"),
  (0x069A, "S"),
  (0x069B, "S"),
  (0x069C, "S"),
  (0x069D, "S"),
  (0x069E, "S"),
  (0x069F, "T"),
  (0x06A0, "GH"),
  (0x06A1, "F"),
  (0x06A2, "F"),
  (0x06A3, "F"),
  (0x06A4, "v"),
  (0x06A5, "f"),
  (0x06A6, "ph"),
  (0x06A7, "Q"),
  (0x06A8, "Q"),
  (0x06A9, "kh"),
  (0x06AA, "k"),
  (0x06AB, "K"),
  (0x06AC, "K"),
  (0x06AD, "ng"),
  (0x06AE, "K"),
  (0x06AF, "g"),
  (0x06B0, "G"),
  (0x06B1, "N"),
  (0x06B2, "G"),
  (0x06B3, "G"),
  (0x06B4, "G"),
  (0x06B5, "L"),
  (0x06B6, "L"),
  (0x06B7, "L"),
  (0x06B8, "L"),
  (0x06B9, "N"),
  (0x06BA, "N"),
  (0x06BB, "N"),
  (0x06BC, "N"),
  (0x06BD, "N"),
  (0x06BE, "h"),
  (0x06BF, "Ch"),
  (0x06C0, "hy"),
  (0x06C1, "h"),
  (0x06C2, "H"),
  (0x06C3, "@"),
  (0x06C4, "W"),
  (0x06C5, "oe"),
  (0x06C6, "oe"),
  (0x06C7, "u"),
  (0x06C8, "yu"),
  (0x06C9, "yu"),
  (0x06CA, "W"),
  (0x06CB, "v"),
  (0x06CC, "y"),
  (0x06CD, "Y"),
  (0x06CE, "Y"),
  (0x06CF, "W"),
  (0x06D2, "y"),
  (0x06D3, "y'"),
  (0x06D4, "."),
  (0x06D5, "ae"),
  (0x06DD, "@"),
  (0x06DE, "#"),
  (0x06E9, "^"),
  (0x06F0, "0"),
  (0x06F1, "1"),
  (0x06F2, "2"),
  (0x06F3, "3"),
  (0x06F4, "4"),
  (0x06F5, "5"),
  (0x06F6, "6"),
  (0x06F7, "7"),
  (0x06F8, "8"),
  (0x06F9, "9"),
  (0x06FA, "Sh"),
  (0x06FB, "D"),
  (0x06FC, "Gh"),
  (0x06FD, "&"),
  (0x06FE, "+m"),
  (0x06FF, ""),
  (0x0700, "//"),
  (0x0701, "/"),
  (0x0702, ","),
  (0x0703, "!"),
  (0x0704, "!"),
  (0x0705, "-"),
  (0x0706, ","),
  (0x0707, ","),
  (0x0708, ";"),
  (0x0709, "?"),
  (0x070A, "~"),
  (0x070B, "\x7b"),
  (0x070C, "\x7d"),
  (0x070D, "*"),
  (0x0712, "b"),
  (0x0713, "g"),
  (0x0714, "g"),
  (0x0715, "d")
]

def asciiRunes_14 : List (Nat × String) := [
  (0x0716, "d"),
  (0x0717, "h"),
  (0x0718, "w"),
  (0x0719, "z"),
  (0x071A, "H"),
  (0x071B, "t"),
  (0x071C, "t"),
  (0x071D, "y"),
  (0x071E, "yh"),
  (0x071F, "k"),
  (0x0720, "l"),
  (0x0721, "m"),
  (0x0722, "n"),
  (0x0723, "s"),
  (0x0724, "s"),
  (0x0725, "`"),
  (0x0726, "p"),
  (0x0727, "p"),
  (0x0728, "S"),
  (0x0729, "q"),
  (0x072A, "r"),
  (0x072B, "sh"),
  (0x072C, "t"),
  (0x0730, "a"),
  (0x0731, "a"),
  (0x0732, "a"),
  (0x0733, "A"),
  (0x0734, "A"),
  (0x0735, "A"),
  (0x0736, "e"),
  (0x0737, "e"),
  (0x0738, "e"),
  (0x0739, "E"),
  (0x073A, "i"),
  (0x073B, "i"),
  (0x073C, "u"),
  (0x073D, "u"),
  (0x073E, "u"),
  (0x073F, "o"),
  (0x0741, "`"),
  (0x0742, "'"),
  (0x0745, "X"),
  (0x0746, "Q"),
  (0x0747, "@"),
  (0x0748, "@"),
  (0x0749, "|"),
  (0x074A, "+"),
  (0x0780, "h"),
  (0x0781, "sh"),
  (0x0782, "n"),
  (0x0783, "r"),
  (0x0784, "b"),
  (0x0785, "L"),
  (0x0786, "k"),
  (0x0787, "'"),
  (0x0788, "v"),
  (0x0789, "m"),
  (0x078A, "f"),
  (0x078B, "dh"),
  (0x078C, "th"),
  (0x078D, "l"),
  (0x078E, "g"),
  (0x078F, "ny"),
  (0x0790, "s"),
  (0x0791, "d"),
  (0x0792, "z"),
  (0x0793, "t"),
  (0x0794, "y"),
  (0x0795, "p"),
  (0x0796, "j"),
  (0x0797, "ch"),
  (0x0798, "tt"),
  (0x0799, "hh"),
  (0x079A, "kh"),
  (0x079B, "th"),
  (0x079C, "z"),
  (0x079D, "sh"),
  (0x079E, "s"),
  (0x079F, "d"),
  (0x07A0, "t"),
  (0x07A1, "z"),
  (0x07A2, "`"),
  (0x07A3, "gh"),
  (0x07A4, "q"),
  (0x07A5, "w"),
  (0x07A6, "a"),
  (0x07A7, "aa"),
  (0x07A8, "i"),
  (0x07A9, "ee"),
  (0x07AA, "u"),
  (0x07AB, "oo"),
  (0x07AC, "e"),
  (0x07AD, "ey"),
  (0x07AE, "o"),
  (0x07AF, "oa"),
  (0x0901, "N"),
  (0x0902, "N"),
  (0x0903, "H"),
  (0x0905, "a"),
  (0x0906, "aa")
]

def asciiRunes_15 : List (Nat × String) := [
  (0x0907, "i"),
  (0x0908, "ii"),
  (0x0909, "u"),
  (0x090A, "uu"),
  (0x090B, "R"),
  (0x090C, "L"),
  (0x090D, "eN"),
  (0x090E, "e"),
  (0x090F, "e"),
  (0x0910, "ai"),
  (0x0911, "oN"),
  (0x0912, "o"),
  (0x0913, "o"),
  (0x0914, "au"),
  (0x0915, "k"),
  (0x0916, "kh"),
  (0x0917, "g"),
  (0x0918, "gh"),
  (0x0919, "ng"),
  (0x091A, "c"),
  (0x091B, "ch"),
  (0x091C, "j"),
  (0x091D, "jh"),
  (0x091E, "ny"),
  (0x091F, "tt"),
  (0x0920, "tth"),
  (0x0921, "dd"),
  (0x0922, "ddh"),
  (0x0923, "nn"),
  (0x0924, "t"),
  (0x0925, "th"),
  (0x0926, "d"),
  (0x0927, "dh"),
  (0x0928, "n"),
  (0x0929, "nnn"),
  (0x092A, "p"),
  (0x092B, "ph"),
  (0x092C, "b"),
  (0x092D, "bh"),
  (0x092E, "m"),
  (0x092F, "y"),
  (0x0930, "r"),
  (0x0931, "rr"),
  (0x0932, "l"),
  (0x0933, "l"),
  (0x0934, "lll"),
  (0x0935, "v"),
  (0x0936, "sh"),
  (0x0937, "ss"),
  (0x0938, "s"),
  (0x0939, "h"),
  (0x093C, "'"),
  (0x093D, "'"),
  (0x093E, "aa"),
  (0x093F, "i"),
  (0x0940, "ii"),
  (0x0941, "u"),
  (0x0942, "uu"),
  (0x0943, "R"),
  (0x0944, "RR"),
  (0x0945, "eN"),
  (0x0946, "e"),
  (0x0947, "e"),
  (0x0948, "ai"),
  (0x0949, "oN"),
  (0x094A, "o"),
  (0x094B, "o"),
  (0x094C, "au"),
  (0x0950, "AUM"),
  (0x0951, "'"),
  (0x0952, "'"),
  (0x0953, "`"),
  (0x0954, "'"),
  (0x0958, "q"),
  (0x0959, "khh"),
  (0x095A, "ghh"),
  (0x095B, "z"),
  (0x095C, "dddh"),
  (0x095D, "rh"),
  (0x095E, "f"),
  (0x095F, "yy"),
  (0x0960, "RR"),
  (0x0961, "LL"),
  (0x0962, "L"),
  (0x0963, "LL"),
  (0x0964, " / "),
  (0x0965, " // "),
  (0x0966, "0"),
  (0x0967, "1"),
  (0x0968, "2"),
  (0x0969, "3"),
  (0x096A, "4"),
  (0x096B, "5"),
  (0x096C, "6"),
  (0x096D, "7"),
  (0x096E, "8"),
  (0x096F, "9"),
  (0x0970, "."),
  (0x0981, "N"),
  (0x0982, "N")
]

def asciiRunes_16 : List (Nat × String) := [
  (0x0983, "H"),
  (0x0985, "a"),
  (0x0986, "aa"),
  (0x0987, "i"),
  (0x0988, "ii"),
  (0x0989, "u"),
  (0x098A, "uu"),
  (0x098B, "R"),
  (0x098C, "RR"),
  (0x098F, "e"),
  (0x0990, "ai"),
  (0x0993, "o"),
  (0x0994, "au"),
  (0x0995, "k"),
  (0x0996, "kh"),
  (0x0997, "g"),
  (0x0998, "gh"),
  (0x0999, "ng"),
  (0x099A, "c"),
  (0x099B, "ch"),
  (0x099C, "j"),
  (0x099D, "jh"),
  (0x099E, "ny"),
  (0x099F, "tt"),
  (0x09A0, "tth"),
  (0x09A1, "dd"),
  (0x09A2, "ddh"),
  (0x09A3, "nn"),
  (0x09A4, "t"),
  (0x09A5, "th"),
  (0x09A6, "d"),
  (0x09A7, "dh"),
  (0x09A8, "n"),
  (0x09AA, "p"),
  (0x09AB, "ph"),
  (0x09AC, "b"),
  (0x09AD, "bh"),
  (0x09AE, "m"),
  (0x09AF, "y"),
  (0x09B0, "r"),
  (0x09B2, "l"),
  (0x09B6, "sh"),
  (0x09B7, "ss"),
  (0x09B8, "s"),
  (0x09B9, "h"),
  (0x09BC, "'"),
  (0x09BE, "aa"),
  (0x09BF, "i"),
  (0x09C0, "ii"),
  (0x09C1, "u"),
  (0x09C2, "uu"),
  (0x09C3, "R"),
  (0x09C4, "RR"),
  (0x09C7, "e"),
  (0x09C8, "ai"),
  (0x09CB, "o"),
  (0x09CC, "au"),
  (0x09D7, "+"),
  (0x09DC, "rr"),
  (0x09DD, "rh"),
  (0x09DF, "yy"),
  (0x09E0, "RR"),
  (0x09E1, "LL"),
  (0x09E2, "L"),
  (0x09E3, "LL"),
  (0x09E6, "0"),
  (0x09E7, "1"),
  (0x09E8, "2"),
  (0x09E9, "3"),
  (0x09EA, "4"),
  (0x09EB, "5"),
  (0x09EC, "6"),
  (0x09ED, "7"),
  (0x09EE, "8"),
  (0x09EF, "9"),
  (0x09F0, "r'"),
  (0x09F1, "r`"),
  (0x09F2, "Rs"),
  (0x09F3, "Rs"),
  (0x09F4, "1/"),
  (0x09F5, "2/"),
  (0x09F6, "3/"),
  (0x09F7, "4/"),
  (0x09F8, " 1 - 1/"),
  (0x09F9, "/16"),
  (0x0A02, "N"),
  (0x0A05, "a"),
  (0x0A06, "aa"),
  (0x0A07, "i"),
  (0x0A08, "ii"),
  (0x0A09, "u"),
  (0x0A0A, "uu"),
  (0x0A0F, "ee"),
  (0x0A10, "ai"),
  (0x0A13, "oo"),
  (0x0A14, "au"),
  (0x0A15, "k"),
  (0x0A16, "kh"),
  (0x0A17, "g"),
  (0x0A18, "gh")
]

def asciiRunes_17 : List (Nat × String) := [
  (0x0A19, "ng"),
  (0x0A1A, "c"),
  (0x0A1B, "ch"),
  (0x0A1C, "j"),
  (0x0A1D, "jh"),
  (0x0A1E, "ny"),
  (0x0A1F, "tt"),
  (0x0A20, "tth"),
  (0x0A21, "dd"),
  (0x0A22, "ddh"),
  (0x0A23, "nn"),
  (0x0A24, "t"),
  (0x0A25, "th"),
  (0x0A26, "d"),
  (0x0A27, "dh"),
  (0x0A28, "n"),
  (0x0A2A, "p"),
  (0x0A2B, "ph"),
  (0x0A2C, "b"),
  (0x0A2D, "bb"),
  (0x0A2E, "m"),
  (0x0A2F, "y"),
  (0x0A30, "r"),
  (0x0A32, "l"),
  (0x0A33, "ll"),
  (0x0A35, "v"),
  (0x0A36, "sh"),
  (0x0A38, "s"),
  (0x0A39, "h"),
  (0x0A3C, "'"),
  (0x0A3E, "aa"),
  (0x0A3F, "i"),
  (0x0A40, "ii"),
  (0x0A41, "u"),
  (0x0A42, "uu"),
  (0x0A47, "ee"),
  (0x0A48, "ai"),
  (0x0A4B, "oo"),
  (0x0A4C, "au"),
  (0x0A59, "khh"),
  (0x0A5A, "ghh"),
  (0x0A5B, "z"),
  (0x0A5C, "rr"),
  (0x0A5E, "f"),
  (0x0A66, "0"),
  (0x0A67, "1"),
  (0x0A68, "2"),
  (0x0A69, "3"),
  (0x0A6A, "4"),
  (0x0A6B, "5"),
  (0x0A6C, "6"),
  (0x0A6D, "7"),
  (0x0A6E, "8"),
  (0x0A6F, "9"),
  (0x0A70, "N"),
  (0x0A71, "H"),
  (0x0A74, "G.E.O."),
  (0x0A81, "N"),
  (0x0A82, "N"),
  (0x0A83, "H"),
  (0x0A85, "a"),
  (0x0A86, "aa"),
  (0x0A87, "i"),
  (0x0A88, "ii"),
  (0x0A89, "u"),
  (0x0A8A, "uu"),
  (0x0A8B, "R"),
  (0x0A8C, ""),
  (0x0A8D, "eN"),
  (0x0A8F, "e"),
  (0x0A90, "ai"),
  (0x0A91, "oN"),
  (0x0A93, "o"),
  (0x0A94, "au"),
  (0x0A95, "k"),
  (0x0A96, "kh"),
  (0x0A97, "g"),
  (0x0A98, "gh"),
  (0x0A99, "ng"),
  (0x0A9A, "c"),
  (0x0A9B, "ch"),
  (0x0A9C, "j"),
  (0x0A9D, "jh"),
  (0x0A9E, "ny"),
  (0x0A9F, "tt"),
  (0x0AA0, "tth"),
  (0x0AA1, "dd"),
  (0x0AA2, "ddh"),
  (0x0AA3, "nn"),
  (0x0AA4, "t"),
  (0x0AA5, "th"),
  (0x0AA6, "d"),
  (0x0AA7, "dh"),
  (0x0AA8, "n"),
  (0x0AAA, "p"),
  (0x0AAB, "ph"),
  (0x0AAC, "b"),
  (0x0AAD, "bh"),
  (0x0AAE, "m"),
  (0x0AAF, "ya")
]

def asciiRunes_18 : List (Nat × String) := [
  (0x0AB0, "r"),
  (0x0AB2, "l"),
  (0x0AB3, "ll"),
  (0x0AB5, "v"),
  (0x0AB6, "sh"),
  (0x0AB7, "ss"),
  (0x0AB8, "s"),
  (0x0AB9, "h"),
  (0x0ABC, "'"),
  (0x0ABD, "'"),
  (0x0ABE, "aa"),
  (0x0ABF, "i"),
  (0x0AC0, "ii"),
  (0x0AC1, "u"),
  (0x0AC2, "uu"),
  (0x0AC3, "R"),
  (0x0AC4, "RR"),
  (0x0AC5, "eN"),
  (0x0AC7, "e"),
  (0x0AC8, "ai"),
  (0x0AC9, "oN"),
  (0x0ACB, "o"),
  (0x0ACC, "au"),
  (0x0AD0, "AUM"),
  (0x0AE0, "RR"),
  (0x0AE6, "0"),
  (0x0AE7, "1"),
  (0x0AE8, "2"),
  (0x0AE9, "3"),
  (0x0AEA, "4"),
  (0x0AEB, "5"),
  (0x0AEC, "6"),
  (0x0AED, "7"),
  (0x0AEE, "8"),
  (0x0AEF, "9"),
  (0x0B01, "N"),
  (0x0B02, "N"),
  (0x0B03, "H"),
  (0x0B05, "a"),
  (0x0B06, "aa"),
  (0x0B07, "i"),
  (0x0B08, "ii"),
  (0x0B09, "u"),
  (0x0B0A, "uu"),
  (0x0B0B, "R"),
  (0x0B0C, "L"),
  (0x0B0F, "e"),
  (0x0B10, "ai"),
  (0x0B13, "o"),
  (0x0B14, "au"),
  (0x0B15, "k"),
  (0x0B16, "kh"),
  (0x0B17, "g"),
  (0x0B18, "gh"),
  (0x0B19, "ng"),
  (0x0B1A, "c"),
  (0x0B1B, "ch"),
  (0x0B1C, "j"),
  (0x0B1D, "jh"),
  (0x0B1E, "ny"),
  (0x0B1F, "tt"),
  (0x0B20, "tth"),
  (0x0B21, "dd"),
  (0x0B22, "ddh"),
  (0x0B23, "nn"),
  (0x0B24, "t"),
  (0x0B25, "th"),
  (0x0B26, "d"),
  (0x0B27, "dh"),
  (0x0B28, "n"),
  (0x0B2A, "p"),
  (0x0B2B, "ph"),
  (0x0B2C, "b"),
  (0x0B2D, "bh"),
  (0x0B2E, "m"),
  (0x0B2F, "y"),
  (0x0B30, "r"),
  (0x0B32, "l"),
  (0x0B33, "ll"),
  (0x0B36, "sh"),
  (0x0B37, "ss"),
  (0x0B38, "s"),
  (0x0B39, "h"),
  (0x0B3C, "'"),
  (0x0B3D, "'"),
  (0x0B3E, "aa"),
  (0x0B3F, "i"),
  (0x0B40, "ii"),
  (0x0B41, "u"),
  (0x0B42, "uu"),
  (0x0B43, "R"),
  (0x0B47, "e"),
  (0x0B48, "ai"),
  (0x0B4B, "o"),
  (0x0B4C, "au"),
  (0x0B56, "+"),
  (0x0B57, "+"),
  (0x0B5C, "rr"),
  (0x0B5D, "rh"),
  (0x0B5F, "yy")
]

def asciiRunes_19 : List (Nat × String) := [
  (0x0B60, "RR"),
  (0x0B61, "LL"),
  (0x0B66, "0"),
  (0x0B67, "1"),
  (0x0B68, "2"),
  (0x0B69, "3"),
  (0x0B6A, "4"),
  (0x0B6B, "5"),
  (0x0B6C, "6"),
  (0x0B6D, "7"),
  (0x0B6E, "8"),
  (0x0B6F, "9"),
  (0x0B82, "N"),
  (0x0B83, "H"),
  (0x0B85, "a"),
  (0x0B86, "aa"),
  (0x0B87, "i"),
  (0x0B88, "ii"),
  (0x0B89, "u"),
  (0x0B8A, "uu"),
  (0x0B8E, "e"),
  (0x0B8F, "ee"),
  (0x0B90, "ai"),
  (0x0B92, "o"),
  (0x0B93, "oo"),
  (0x0B94, "au"),
  (0x0B95, "k"),
  (0x0B99, "ng"),
  (0x0B9A, "c"),
  (0x0B9C, "j"),
  (0x0B9E, "ny"),
  (0x0B9F, "tt"),
  (0x0BA3, "nn"),
  (0x0BA4, "t"),
  (0x0BA8, "n"),
  (0x0BA9, "nnn"),
  (0x0BAA, "p"),
  (0x0BAE, "m"),
  (0x0BAF, "y"),
  (0x0BB0, "r"),
  (0x0BB1, "rr"),
  (0x0BB2, "l"),
  (0x0BB3, "ll"),
  (0x0BB4, "lll"),
  (0x0BB5, "v"),
  (0x0BB6, ""),
  (0x0BB7, "ss"),
  (0x0BB8, "s"),
  (0x0BB9, "h"),
  (0x0BBE, "aa"),
  (0x0BBF, "i"),
  (0x0BC0, "ii"),
  (0x0BC1, "u"),
  (0x0BC2, "uu"),
  (0x0BC6, "e"),
  (0x0BC7, "ee"),
  (0x0BC8, "ai"),
  (0x0BCA, "o"),
  (0x0BCB, "oo"),
  (0x0BCC, "au"),
  (0x0BD7, "+"),
  (0x0BE6, "0"),
  (0x0BE7, "1"),
  (0x0BE8, "2"),
  (0x0BE9, "3"),
  (0x0BEA, "4"),
  (0x0BEB, "5"),
  (0x0BEC, "6"),
  (0x0BED, "7"),
  (0x0BEE, "8"),
  (0x0BEF, "9"),
  (0x0BF0, "+10+"),
  (0x0BF1, "+100+"),
  (0x0BF2, "+1000+"),
  (0x0C01, "N"),
  (0x0C02, "N"),
  (0x0C03, "H"),
  (0x0C05, "a"),
  (0x0C06, "aa"),
  (0x0C07, "i"),
  (0x0C08, "ii"),
  (0x0C09, "u"),
  (0x0C0A, "uu"),
  (0x0C0B, "R"),
  (0x0C0C, "L"),
  (0x0C0E, "e"),
  (0x0C0F, "ee"),
  (0x0C10, "ai"),
  (0x0C12, "o"),
  (0x0C13, "oo"),
  (0x0C14, "au"),
  (0x0C15, "k"),
  (0x0C16, "kh"),
  (0x0C17, "g"),
  (0x0C18, "gh"),
  (0x0C19, "ng"),
  (0x0C1A, "c"),
  (0x0C1B, "ch"),
  (0x0C1C, "j"),
  (0x0C1D, "jh")
]

def asciiRunes_20 : List (Nat × String) := [
  (0x0C1E, "ny"),
  (0x0C1F, "tt"),
  (0x0C20, "tth"),
  (0x0C21, "dd"),
  (0x0C22, "ddh"),
  (0x0C23, "nn"),
  (0x0C24, "t"),
  (0x0C25, "th"),
  (0x0C26, "d"),
  (0x0C27, "dh"),
  (0x0C28, "n"),
  (0x0C2A, "p"),
  (0x0C2B, "ph"),
  (0x0C2C, "b"),
  (0x0C2D, "bh"),
  (0x0C2E, "m"),
  (0x0C2F, "y"),
  (0x0C30, "r"),
  (0x0C31, "rr"),
  (0x0C32, "l"),
  (0x0C33, "ll"),
  (0x0C35, "v"),
  (0x0C36, "sh"),
  (0x0C37, "ss"),
  (0x0C38, "s"),
  (0x0C39, "h"),
  (0x0C3E, "aa"),
  (0x0C3F, "i"),
  (0x0C40, "ii"),
  (0x0C41, "u"),
  (0x0C42, "uu"),
  (0x0C43, "R"),
  (0x0C44, "RR"),
  (0x0C46, "e"),
  (0x0C47, "ee"),
  (0x0C48, "ai"),
  (0x0C4A, "o"),
  (0x0C4B, "oo"),
  (0x0C4C, "au"),
  (0x0C55, "+"),
  (0x0C56, "+"),
  (0x0C60, "RR"),
  (0x0C61, "LL"),
  (0x0C66, "0"),
  (0x0C67, "1"),
  (0x0C68, "2"),
  (0x0C69, "3"),
  (0x0C6A, "4"),
  (0x0C6B, "5"),
  (0x0C6C, "6"),
  (0x0C6D, "7"),
  (0x0C6E, "8"),
  (0x0C6F, "9"),
  (0x0C82, "N"),
  (0x0C83, "H"),
  (0x0C85, "a"),
  (0x0C86, "aa"),
  (0x0C87, "i"),
  (0x0C88, "ii"),
  (0x0C89, "u"),
  (0x0C8A, "uu"),
  (0x0C8B, "R"),
  (0x0C8C, "L"),
  (0x0C8E, "e"),
  (0x0C8F, "ee"),
  (0x0C90, "ai"),
  (0x0C92, "o"),
  (0x0C93, "oo"),
  (0x0C94, "au"),
  (0x0C95, "k"),
  (0x0C96, "kh"),
  (0x0C97, "g"),
  (0x0C98, "gh"),
  (0x0C99, "ng"),
  (0x0C9A, "c"),
  (0x0C9B, "ch"),
  (0x0C9C, "j"),
  (0x0C9D, "jh"),
  (0x0C9E, "ny"),
  (0x0C9F, "tt"),
  (0x0CA0, "tth"),
  (0x0CA1, "dd"),
  (0x0CA2, "ddh"),
  (0x0CA3, "nn"),
  (0x0CA4, "t"),
  (0x0CA5, "th"),
  (0x0CA6, "d"),
  (0x0CA7, "dh"),
  (0x0CA8, "n"),
  (0x0CAA, "p"),
  (0x0CAB, "ph"),
  (0x0CAC, "b"),
  (0x0CAD, "bh"),
  (0x0CAE, "m"),
  (0x0CAF, "y"),
  (0x0CB0, "r"),
  (0x0CB1, "rr"),
  (0x0CB2, "l"),
  (0x0CB3, "ll"),
  (0x0CB5, "v")
]

def asciiRunes_21 : List (Nat × String) := [
  (0x0CB6, "sh"),
  (0x0CB7, "ss"),
  (0x0CB8, "s"),
  (0x0CB9, "h"),
  (0x0CBE, "aa"),
  (0x0CBF, "i"),
  (0x0CC0, "ii"),
  (0x0CC1, "u"),
  (0x0CC2, "uu"),
  (0x0CC3, "R"),
  (0x0CC4, "RR"),
  (0x0CC6, "e"),
  (0x0CC7, "ee"),
  (0x0CC8, "ai"),
  (0x0CCA, "o"),
  (0x0CCB, "oo"),
  (0x0CCC, "au"),
  (0x0CD5, "+"),
  (0x0CD6, "+"),
  (0x0CDE, "lll"),
  (0x0CE0, "RR"),
  (0x0CE1, "LL"),
  (0x0CE6, "0"),
  (0x0CE7, "1"),
  (0x0CE8, "2"),
  (0x0CE9, "3"),
  (0x0CEA, "4"),
  (0x0CEB, "5"),
  (0x0CEC, "6"),
  (0x0CED, "7"),
  (0x0CEE, "8"),
  (0x0CEF, "9"),
  (0x0D02, "N"),
  (0x0D03, "H"),
  (0x0D05, "a"),
  (0x0D06, "aa"),
  (0x0D07, "i"),
  (0x0D08, "ii"),
  (0x0D09, "u"),
  (0x0D0A, "uu"),
  (0x0D0B, "R"),
  (0x0D0C, "L"),
  (0x0D0E, "e"),
  (0x0D0F, "ee"),
  (0x0D10, "ai"),
  (0x0D12, "o"),
  (0x0D13, "oo"),
  (0x0D14, "au"),
  (0x0D15, "k"),
  (0x0D16, "kh"),
  (0x0D17, "g"),
  (0x0D18, "gh"),
  (0x0D19, "ng"),
  (0x0D1A, "c"),
  (0x0D1B, "ch"),
  (0x0D1C, "j"),
  (0x0D1D, "jh"),
  (0x0D1E, "ny"),
  (0x0D1F, "tt"),
  (0x0D20, "tth"),
  (0x0D21, "dd"),
  (0x0D22, "ddh"),
  (0x0D23, "nn"),
  (0x0D24, "t"),
  (0x0D25, "th"),
  (0x0D26, "d"),
  (0x0D27, "dh"),
  (0x0D28, "n"),
  (0x0D2A, "p"),
  (0x0D2B, "ph"),
  (0x0D2C, "b"),
  (0x0D2D, "bh"),
  (0x0D2E, "m"),
  (0x0D2F, "y"),
  (0x0D30, "r"),
  (0x0D31, "rr"),
  (0x0D32, "l"),
  (0x0D33, "ll"),
  (0x0D34, "lll"),
  (0x0D35, "v"),
  (0x0D36, "sh"),
  (0x0D37, "ss"),
  (0x0D38, "s"),
  (0x0D39, "h"),
  (0x0D3E, "aa"),
  (0x0D3F, "i"),
  (0x0D40, "ii"),
  (0x0D41, "u"),
  (0x0D42, "uu"),
  (0x0D43, "R"),
  (0x0D46, "e"),
  (0x0D47, "ee"),
  (0x0D48, "ai"),
  (0x0D4A, "o"),
  (0x0D4B, "oo"),
  (0x0D4C, "au"),
  (0x0D57, "+"),
  (0x0D60, "RR"),
  (0x0D61, "LL"),
  (0x0D66, "0")
]

def asciiRunes_22 : List (Nat × String) := [
  (0x0D67, "1"),
  (0x0D68, "2"),
  (0x0D69, "3"),
  (0x0D6A, "4"),
  (0x0D6B, "5"),
  (0x0D6C, "6"),
  (0x0D6D, "7"),
  (0x0D6E, "8"),
  (0x0D6F, "9"),
  (0x0D82, "N"),
  (0x0D83, "H"),
  (0x0D85, "a"),
  (0x0D86, "aa"),
  (0x0D87, "ae"),
  (0x0D88, "aae"),
  (0x0D89, "i"),
  (0x0D8A, "ii"),
  (0x0D8B, "u"),
  (0x0D8C, "uu"),
  (0x0D8D, "R"),
  (0x0D8E, "RR"),
  (0x0D8F, "L"),
  (0x0D90, "LL"),
  (0x0D91, "e"),
  (0x0D92, "ee"),
  (0x0D93, "ai"),
  (0x0D94, "o"),
  (0x0D95, "oo"),
  (0x0D96, "au"),
  (0x0D9A, "k"),
  (0x0D9B, "kh"),
  (0x0D9C, "g"),
  (0x0D9D, "gh"),
  (0x0D9E, "ng"),
  (0x0D9F, "nng"),
  (0x0DA0, "c"),
  (0x0DA1, "ch"),
  (0x0DA2, "j"),
  (0x0DA3, "jh"),
  (0x0DA4, "ny"),
  (0x0DA5, "jny"),
  (0x0DA6, "nyj"),
  (0x0DA7, "tt"),
  (0x0DA8, "tth"),
  (0x0DA9, "dd"),
  (0x0DAA, "ddh"),
  (0x0DAB, "nn"),
  (0x0DAC, "nndd"),
  (0x0DAD, "t"),
  (0x0DAE, "th"),
  (0x0DAF, "d"),
  (0x0DB0, "dh"),
  (0x0DB1, "n"),
  (0x0DB3, "nd"),
  (0x0DB4, "p"),
  (0x0DB5, "ph"),
  (0x0DB6, "b"),
  (0x0DB7, "bh"),
  (0x0DB8, "m"),
  (0x0DB9, "mb"),
  (0x0DBA, "y"),
  (0x0DBB, "r"),
  (0x0DBD, "l"),
  (0x0DC0, "v"),
  (0x0DC1, "sh"),
  (0x0DC2, "ss"),
  (0x0DC3, "s"),
  (0x0DC4, "h"),
  (0x0DC5, "ll"),
  (0x0DC6, "f"),
  (0x0DCF, "aa"),
  (0x0DD0, "ae"),
  (0x0DD1, "aae"),
  (0x0DD2, "i"),
  (0x0DD3, "ii"),
  (0x0DD4, "u"),
  (0x0DD6, "uu"),
  (0x0DD8, "R"),
  (0x0DD9, "e"),
  (0x0DDA, "ee"),
  (0x0DDB, "ai"),
  (0x0DDC, "o"),
  (0x0DDD, "oo"),
  (0x0DDE, "au"),
  (0x0DDF, "L"),
  (0x0DF2, "RR"),
  (0x0DF3, "LL"),
  (0x0DF4, " . "),
  (0x0E01, "k"),
  (0x0E02, "kh"),
  (0x0E03, "kh"),
  (0x0E04, "kh"),
  (0x0E05, "kh"),
  (0x0E06, "kh"),
  (0x0E07, "ng"),
  (0x0E08, "cch"),
  (0x0E09, "ch"),
  (0x0E0A, "ch"),
  (0x0E0B, "ch"),
  (0x0E0C, "ch")
]

def asciiRunes_23 : List (Nat × String) := [
  (0x0E0D, "y"),
  (0x0E0E, "d"),
  (0x0E0F, "t"),
  (0x0E10, "th"),
  (0x0E11, "th"),
  (0x0E12, "th"),
  (0x0E13, "n"),
  (0x0E14, "d"),
  (0x0E15, "t"),
  (0x0E16, "th"),
  (0x0E17, "th"),
  (0x0E18, "th"),
  (0x0E19, "n"),
  (0x0E1A, "b"),
  (0x0E1B, "p"),
  (0x0E1C, "ph"),
  (0x0E1D, "f"),
  (0x0E1E, "ph"),
  (0x0E1F, "f"),
  (0x0E20, "ph"),
  (0x0E21, "m"),
  (0x0E22, "y"),
  (0x0E23, "r"),
  (0x0E24, "R"),
  (0x0E25, "l"),
  (0x0E26, "L"),
  (0x0E27, "w"),
  (0x0E28, "s"),
  (0x0E29, "s"),
  (0x0E2A, "s"),
  (0x0E2B, "h"),
  (0x0E2C, "l"),
  (0x0E2D, "`"),
  (0x0E2E, "h"),
  (0x0E2F, "~"),
  (0x0E30, "a"),
  (0x0E31, "a"),
  (0x0E32, "aa"),
  (0x0E33, "am"),
  (0x0E34, "i"),
  (0x0E35, "ii"),
  (0x0E36, "ue"),
  (0x0E37, "uue"),
  (0x0E38, "u"),
  (0x0E39, "uu"),
  (0x0E3F, "Bh."),
  (0x0E40, "e"),
  (0x0E41, "ae"),
  (0x0E42, "o"),
  (0x0E43, "ai"),
  (0x0E44, "ai"),
  (0x0E45, "ao"),
  (0x0E46, "+"),
  (0x0E4D, "M"),
  (0x0E4F, " * "),
  (0x0E50, "0"),
  (0x0E51, "1"),
  (0x0E52, "2"),
  (0x0E53, "3"),
  (0x0E54, "4"),
  (0x0E55, "5"),
  (0x0E56, "6"),
  (0x0E57, "7"),
  (0x0E58, "8"),
  (0x0E59, "9"),
  (0x0E5A, " // "),
  (0x0E5B, " /// "),
  (0x0E81, "k"),
  (0x0E82, "kh"),
  (0x0E84, "kh"),
  (0x0E87, "ng"),
  (0x0E88, "ch"),
  (0x0E8A, "s"),
  (0x0E8D, "ny"),
  (0x0E94, "d"),
  (0x0E95, "h"),
  (0x0E96, "th"),
  (0x0E97, "th"),
  (0x0E99, "n"),
  (0x0E9A, "b"),
  (0x0E9B, "p"),
  (0x0E9C, "ph"),
  (0x0E9D, "f"),
  (0x0E9E, "ph"),
  (0x0E9F, "f"),
  (0x0EA1, "m"),
  (0x0EA2, "y"),
  (0x0EA3, "r"),
  (0x0EA5, "l"),
  (0x0EA7, "w"),
  (0x0EAA, "s"),
  (0x0EAB, "h"),
  (0x0EAD, "`"),
  (0x0EAF, "~"),
  (0x0EB0, "a"),
  (0x0EB2, "aa"),
  (0x0EB3, "am"),
  (0x0EB4, "i"),
  (0x0EB5, "ii"),
  (0x0EB6, "y")
]

def asciiRunes_24 : List (Nat × String) := [
  (0x0EB7, "yy"),
  (0x0EB8, "u"),
  (0x0EB9, "uu"),
  (0x0EBB, "o"),
  (0x0EBC, "l"),
  (0x0EBD, "ny"),
  (0x0EC0, "e"),
  (0x0EC1, "ei"),
  (0x0EC2, "o"),
  (0x0EC3, "ay"),
  (0x0EC4, "ai"),
  (0x0EC6, "+"),
  (0x0ECD, "M"),
  (0x0ED0, "0"),
  (0x0ED1, "1"),
  (0x0ED2, "2"),
  (0x0ED3, "3"),
  (0x0ED4, "4"),
  (0x0ED5, "5"),
  (0x0ED6, "6"),
  (0x0ED7, "7"),
  (0x0ED8, "8"),
  (0x0ED9, "9"),
  (0x0EDC, "hn"),
  (0x0EDD, "hm"),
  (0x0F00, "AUM"),
  (0x0F08, " // "),
  (0x0F09, " * "),
  (0x0F0B, "-"),
  (0x0F0C, " / "),
  (0x0F0D, " / "),
  (0x0F0E, " // "),
  (0x0F0F, " -/ "),
  (0x0F10, " +/ "),
  (0x0F11, " X/ "),
  (0x0F12, " /XX/ "),
  (0x0F13, " /X/ "),
  (0x0F14, ", "),
  (0x0F20, "0"),
  (0x0F21, "1"),
  (0x0F22, "2"),
  (0x0F23, "3"),
  (0x0F24, "4"),
  (0x0F25, "5"),
  (0x0F26, "6"),
  (0x0F27, "7"),
  (0x0F28, "8"),
  (0x0F29, "9"),
  (0x0F2A, ".5"),
  (0x0F2B, "1.5"),
  (0x0F2C, "2.5"),
  (0x0F2D, "3.5"),
  (0x0F2E, "4.5"),
  (0x0F2F, "5.5"),
  (0x0F30, "6.5"),
  (0x0F31, "7.5"),
  (0x0F32, "8.5"),
  (0x0F33, "-.5"),
  (0x0F34, "+"),
  (0x0F35, "*"),
  (0x0F36, "^"),
  (0x0F37, "_"),
  (0x0F39, "~"),
  (0x0F3B, "]"),
  (0x0F3C, "[["),
  (0x0F3D, "]]"),
  (0x0F40, "k"),
  (0x0F41, "kh"),
  (0x0F42, "g"),
  (0x0F43, "gh"),
  (0x0F44, "ng"),
  (0x0F45, "c"),
  (0x0F46, "ch"),
  (0x0F47, "j"),
  (0x0F49, "ny"),
  (0x0F4A, "tt"),
  (0x0F4B, "tth"),
  (0x0F4C, "dd"),
  (0x0F4D, "ddh"),
  (0x0F4E, "nn"),
  (0x0F4F, "t"),
  (0x0F50, "th"),
  (0x0F51, "d"),
  (0x0F52, "dh"),
  (0x0F53, "n"),
  (0x0F54, "p"),
  (0x0F55, "ph"),
  (0x0F56, "b"),
  (0x0F57, "bh"),
  (0x0F58, "m"),
  (0x0F59, "ts"),
  (0x0F5A, "tsh"),
  (0x0F5B, "dz"),
  (0x0F5C, "dzh"),
  (0x0F5D, "w"),
  (0x0F5E, "zh"),
  (0x0F5F, "z"),
  (0x0F60, "'"),
  (0x0F61, "y"),
  (0x0F62, "r")
]

def asciiRunes_25 : List (Nat × String) := [
  (0x0F63, "l"),
  (0x0F64, "sh"),
  (0x0F65, "ssh"),
  (0x0F66, "s"),
  (0x0F67, "h"),
  (0x0F68, "a"),
  (0x0F69, "kss"),
  (0x0F6A, "r"),
  (0x0F71, "aa"),
  (0x0F72, "i"),
  (0x0F73, "ii"),
  (0x0F74, "u"),
  (0x0F75, "uu"),
  (0x0F76, "R"),
  (0x0F77, "RR"),
  (0x0F78, "L"),
  (0x0F79, "LL"),
  (0x0F7A, "e"),
  (0x0F7B, "ee"),
  (0x0F7C, "o"),
  (0x0F7D, "oo"),
  (0x0F7E, "M"),
  (0x0F7F, "H"),
  (0x0F80, "i"),
  (0x0F81, "ii"),
  (0x0F90, "k"),
  (0x0F91, "kh"),
  (0x0F92, "g"),
  (0x0F93, "gh"),
  (0x0F94, "ng"),
  (0x0F95, "c"),
  (0x0F96, "ch"),
  (0x0F97, "j"),
  (0x0F99, "ny"),
  (0x0F9A, "tt"),
  (0x0F9B, "tth"),
  (0x0F9C, "dd"),
  (0x0F9D, "ddh"),
  (0x0F9E, "nn"),
  (0x0F9F, "t"),
  (0x0FA0, "th"),
  (0x0FA1, "d"),
  (0x0FA2, "dh"),
  (0x0FA3, "n"),
  (0x0FA4, "p"),
  (0x0FA5, "ph"),
  (0x0FA6, "b"),
  (0x0FA7, "bh"),
  (0x0FA8, "m"),
  (0x0FA9, "ts"),
  (0x0FAA, "tsh"),
  (0x0FAB, "dz"),
  (0x0FAC, "dzh"),
  (0x0FAD, "w"),
  (0x0FAE, "zh"),
  (0x0FAF, "z"),
  (0x0FB0, "'"),
  (0x0FB1, "y"),
  (0x0FB2, "r"),
  (0x0FB3, "l"),
  (0x0FB4, "sh"),
  (0x0FB5, "ss"),
  (0x0FB6, "s"),
  (0x0FB7, "h"),
  (0x0FB8, "a"),
  (0x0FB9, "kss"),
  (0x0FBA, "w"),
  (0x0FBB, "y"),
  (0x0FBC, "r"),
  (0x0FBE, "X"),
  (0x0FBF, " :X: "),
  (0x0FC0, " /O/ "),
  (0x0FC1, " /o/ "),
  (0x0FC2, " \\o\\ "),
  (0x0FC3, " (O) "),
  (0x1000, "k"),
  (0x1001, "kh"),
  (0x1002, "g"),
  (0x1003, "gh"),
  (0x1004, "ng"),
  (0x1005, "c"),
  (0x1006, "ch"),
  (0x1007, "j"),
  (0x1008, "jh"),
  (0x1009, "ny"),
  (0x100A, "nny"),
  (0x100B, "tt"),
  (0x100C, "tth"),
  (0x100D, "dd"),
  (0x100E, "ddh"),
  (0x100F, "nn"),
  (0x1010, "tt"),
  (0x1011, "th"),
  (0x1012, "d"),
  (0x1013, "dh"),
  (0x1014, "n"),
  (0x1015, "p"),
  (0x1016, "ph"),
  (0x1017, "b"),
  (0x1018, "bh")
]

def asciiRunes_26 : List (Nat × String) := [
  (0x1019, "m"),
  (0x101A, "y"),
  (0x101B, "r"),
  (0x101C, "l"),
  (0x101D, "w"),
  (0x101E, "s"),
  (0x101F, "h"),
  (0x1020, "ll"),
  (0x1021, "a"),
  (0x1023, "i"),
  (0x1024, "ii"),
  (0x1025, "u"),
  (0x1026, "uu"),
  (0x1027, "e"),
  (0x1029, "o"),
  (0x102A, "au"),
  (0x102C, "aa"),
  (0x102D, "i"),
  (0x102E, "ii"),
  (0x102F, "u"),
  (0x1030, "uu"),
  (0x1031, "e"),
  (0x1032, "ai"),
  (0x1036, "N"),
  (0x1037, "'"),
  (0x1038, ":"),
  (0x1040, "0"),
  (0x1041, "1"),
  (0x1042, "2"),
  (0x1043, "3"),
  (0x1044, "4"),
  (0x1045, "5"),
  (0x1046, "6"),
  (0x1047, "7"),
  (0x1048, "8"),
  (0x1049, "9"),
  (0x104A, " / "),
  (0x104B, " // "),
  (0x104C, "n*"),
  (0x104D, "r*"),
  (0x104E, "l*"),
  (0x104F, "e*"),
  (0x1050, "sh"),
  (0x1051, "ss"),
  (0x1052, "R"),
  (0x1053, "RR"),
  (0x1054, "L"),
  (0x1055, "LL"),
  (0x1056, "R"),
  (0x1057, "RR"),
  (0x1058, "L"),
  (0x1059, "LL"),
  (0x10A0, "A"),
  (0x10A1, "B"),
  (0x10A2, "G"),
  (0x10A3, "D"),
  (0x10A4, "E"),
  (0x10A5, "V"),
  (0x10A6, "Z"),
  (0x10A7, "T`"),
  (0x10A8, "I"),
  (0x10A9, "K"),
  (0x10AA, "L"),
  (0x10AB, "M"),
  (0x10AC, "N"),
  (0x10AD, "O"),
  (0x10AE, "P"),
  (0x10AF, "Zh"),
  (0x10B0, "R"),
  (0x10B1, "S"),
  (0x10B2, "T"),
  (0x10B3, "U"),
  (0x10B4, "P`"),
  (0x10B5, "K`"),
  (0x10B6, "G'"),
  (0x10B7, "Q"),
  (0x10B8, "Sh"),
  (0x10B9, "Ch`"),
  (0x10BA, "C`"),
  (0x10BB, "Z'"),
  (0x10BC, "C"),
  (0x10BD, "Ch"),
  (0x10BE, "X"),
  (0x10BF, "J"),
  (0x10C0, "H"),
  (0x10C1, "E"),
  (0x10C2, "Y"),
  (0x10C3, "W"),
  (0x10C4, "Xh"),
  (0x10C5, "OE"),
  (0x10D0, "a"),
  (0x10D1, "b"),
  (0x10D2, "g"),
  (0x10D3, "d"),
  (0x10D4, "e"),
  (0x10D5, "v"),
  (0x10D6, "z"),
  (0x10D7, "t`"),
  (0x10D8, "i"),
  (0x10D9, "k")
]

def asciiRunes_27 : List (Nat × String) := [
  (0x10DA, "l"),
  (0x10DB, "m"),
  (0x10DC, "n"),
  (0x10DD, "o"),
  (0x10DE, "p"),
  (0x10DF, "zh"),
  (0x10E0, "r"),
  (0x10E1, "s"),
  (0x10E2, "t"),
  (0x10E3, "u"),
  (0x10E4, "p`"),
  (0x10E5, "k`"),
  (0x10E6, "g'"),
  (0x10E7, "q"),
  (0x10E8, "sh"),
  (0x10E9, "ch`"),
  (0x10EA, "c`"),
  (0x10EB, "z'"),
  (0x10EC, "c"),
  (0x10ED, "ch"),
  (0x10EE, "x"),
  (0x10EF, "j"),
  (0x10F0, "h"),
  (0x10F1, "e"),
  (0x10F2, "y"),
  (0x10F3, "w"),
  (0x10F4, "xh"),
  (0x10F5, "oe"),
  (0x10F6, "f"),
  (0x10FB, " // "),
  (0x1100, "g"),
  (0x1101, "gg"),
  (0x1102, "n"),
  (0x1103, "d"),
  (0x1104, "dd"),
  (0x1105, "r"),
  (0x1106, "m"),
  (0x1107, "b"),
  (0x1108, "bb"),
  (0x1109, "s"),
  (0x110A, "ss"),
  (0x110C, "j"),
  (0x110D, "jj"),
  (0x110E, "c"),
  (0x110F, "k"),
  (0x1110, "t"),
  (0x1111, "p"),
  (0x1112, "h"),
  (0x1113, "ng"),
  (0x1114, "nn"),
  (0x1115, "nd"),
  (0x1116, "nb"),
  (0x1117, "dg"),
  (0x1118, "rn"),
  (0x1119, "rr"),
  (0x111A, "rh"),
  (0x111B, "rN"),
  (0x111C, "mb"),
  (0x111D, "mN"),
  (0x111E, "bg"),
  (0x111F, "bn"),
  (0x1121, "bs"),
  (0x1122, "bsg"),
  (0x1123, "bst"),
  (0x1124, "bsb"),
  (0x1125, "bss"),
  (0x1126, "bsj"),
  (0x1127, "bj"),
  (0x1128, "bc"),
  (0x1129, "bt"),
  (0x112A, "bp"),
  (0x112B, "bN"),
  (0x112C, "bbN"),
  (0x112D, "sg"),
  (0x112E, "sn"),
  (0x112F, "sd"),
  (0x1130, "sr"),
  (0x1131, "sm"),
  (0x1132, "sb"),
  (0x1133, "sbg"),
  (0x1134, "sss"),
  (0x1135, "s"),
  (0x1136, "sj"),
  (0x1137, "sc"),
  (0x1138, "sk"),
  (0x1139, "st"),
  (0x113A, "sp"),
  (0x113B, "sh"),
  (0x1140, "Z"),
  (0x1141, "g"),
  (0x1142, "d"),
  (0x1143, "m"),
  (0x1144, "b"),
  (0x1145, "s"),
  (0x1146, "Z"),
  (0x1148, "j"),
  (0x1149, "c"),
  (0x114A, "t"),
  (0x114B, "p"),
  (0x114C, "N")
]

def asciiRunes_28 : List (Nat × String) := [
  (0x114D, "j"),
  (0x1152, "ck"),
  (0x1153, "ch"),
  (0x1156, "pb"),
  (0x1157, "pN"),
  (0x1158, "hh"),
  (0x1159, "Q"),
  (0x1161, "a"),
  (0x1162, "ae"),
  (0x1163, "ya"),
  (0x1164, "yae"),
  (0x1165, "eo"),
  (0x1166, "e"),
  (0x1167, "yeo"),
  (0x1168, "ye"),
  (0x1169, "o"),
  (0x116A, "wa"),
  (0x116B, "wae"),
  (0x116C, "oe"),
  (0x116D, "yo"),
  (0x116E, "u"),
  (0x116F, "weo"),
  (0x1170, "we"),
  (0x1171, "wi"),
  (0x1172, "yu"),
  (0x1173, "eu"),
  (0x1174, "yi"),
  (0x1175, "i"),
  (0x1176, "a-o"),
  (0x1177, "a-u"),
  (0x1178, "ya-o"),
  (0x1179, "ya-yo"),
  (0x117A, "eo-o"),
  (0x117B, "eo-u"),
  (0x117C, "eo-eu"),
  (0x117D, "yeo-o"),
  (0x117E, "yeo-u"),
  (0x117F, "o-eo"),
  (0x1180, "o-e"),
  (0x1181, "o-ye"),
  (0x1182, "o-o"),
  (0x1183, "o-u"),
  (0x1184, "yo-ya"),
  (0x1185, "yo-yae"),
  (0x1186, "yo-yeo"),
  (0x1187, "yo-o"),
  (0x1188, "yo-i"),
  (0x1189, "u-a"),
  (0x118A, "u-ae"),
  (0x118B, "u-eo-eu"),
  (0x118C, "u-ye"),
  (0x118D, "u-u"),
  (0x118E, "yu-a"),
  (0x118F, "yu-eo"),
  (0x1190, "yu-e"),
  (0x1191, "yu-yeo"),
  (0x1192, "yu-ye"),
  (0x1193, "yu-u"),
  (0x1194, "yu-i"),
  (0x1195, "eu-u"),
  (0x1196, "eu-eu"),
  (0x1197, "yi-u"),
  (0x1198, "i-a"),
  (0x1199, "i-ya"),
  (0x119A, "i-o"),
  (0x119B, "i-u"),
  (0x119C, "i-eu"),
  (0x119D, "i-U"),
  (0x119E, "U"),
  (0x119F, "U-eo"),
  (0x11A0, "U-u"),
  (0x11A1, "U-i"),
  (0x11A2, "UU"),
  (0x11A8, "g"),
  (0x11A9, "gg"),
  (0x11AA, "gs"),
  (0x11AB, "n"),
  (0x11AC, "nj"),
  (0x11AD, "nh"),
  (0x11AE, "d"),
  (0x11AF, "l"),
  (0x11B0, "lg"),
  (0x11B1, "lm"),
  (0x11B2, "lb"),
  (0x11B3, "ls"),
  (0x11B4, "lt"),
  (0x11B5, "lp"),
  (0x11B6, "lh"),
  (0x11B7, "m"),
  (0x11B8, "b"),
  (0x11B9, "bs"),
  (0x11BA, "s"),
  (0x11BB, "ss"),
  (0x11BC, "ng"),
  (0x11BD, "j"),
  (0x11BE, "c"),
  (0x11BF, "k"),
  (0x11C0, "t"),
  (0x11C1, "p"),
  (0x11C2, "h")
]

def asciiRunes_29 : List (Nat × String) := [
  (0x11C3, "gl"),
  (0x11C4, "gsg"),
  (0x11C5, "ng"),
  (0x11C6, "nd"),
  (0x11C7, "ns"),
  (0x11C8, "nZ"),
  (0x11C9, "nt"),
  (0x11CA, "dg"),
  (0x11CB, "tl"),
  (0x11CC, "lgs"),
  (0x11CD, "ln"),
  (0x11CE, "ld"),
  (0x11CF, "lth"),
  (0x11D0, "ll"),
  (0x11D1, "lmg"),
  (0x11D2, "lms"),
  (0x11D3, "lbs"),
  (0x11D4, "lbh"),
  (0x11D5, "rNp"),
  (0x11D6, "lss"),
  (0x11D7, "lZ"),
  (0x11D8, "lk"),
  (0x11D9, "lQ"),
  (0x11DA, "mg"),
  (0x11DB, "ml"),
  (0x11DC, "mb"),
  (0x11DD, "ms"),
  (0x11DE, "mss"),
  (0x11DF, "mZ"),
  (0x11E0, "mc"),
  (0x11E1, "mh"),
  (0x11E2, "mN"),
  (0x11E3, "bl"),
  (0x11E4, "bp"),
  (0x11E5, "ph"),
  (0x11E6, "pN"),
  (0x11E7, "sg"),
  (0x11E8, "sd"),
  (0x11E9, "sl"),
  (0x11EA, "sb"),
  (0x11EB, "Z"),
  (0x11EC, "g"),
  (0x11ED, "ss"),
  (0x11EE, ""),
  (0x11EF, "kh"),
  (0x11F0, "N"),
  (0x11F1, "Ns"),
  (0x11F2, "NZ"),
  (0x11F3, "pb"),
  (0x11F4, "pN"),
  (0x11F5, "hn"),
  (0x11F6, "hl"),
  (0x11F7, "hm"),
  (0x11F8, "hb"),
  (0x11F9, "Q"),
  (0x1200, "ha"),
  (0x1201, "hu"),
  (0x1202, "hi"),
  (0x1203, "haa"),
  (0x1204, "hee"),
  (0x1205, "he"),
  (0x1206, "ho"),
  (0x1208, "la"),
  (0x1209, "lu"),
  (0x120A, "li"),
  (0x120B, "laa"),
  (0x120C, "lee"),
  (0x120D, "le"),
  (0x120E, "lo"),
  (0x120F, "lwa"),
  (0x1210, "hha"),
  (0x1211, "hhu"),
  (0x1212, "hhi"),
  (0x1213, "hhaa"),
  (0x1214, "hhee"),
  (0x1215, "hhe"),
  (0x1216, "hho"),
  (0x1217, "hhwa"),
  (0x1218, "ma"),
  (0x1219, "mu"),
  (0x121A, "mi"),
  (0x121B, "maa"),
  (0x121C, "mee"),
  (0x121D, "me"),
  (0x121E, "mo"),
  (0x121F, "mwa"),
  (0x1220, "sza"),
  (0x1221, "szu"),
  (0x1222, "szi"),
  (0x1223, "szaa"),
  (0x1224, "szee"),
  (0x1225, "sze"),
  (0x1226, "szo"),
  (0x1227, "szwa"),
  (0x1228, "ra"),
  (0x1229, "ru"),
  (0x122A, "ri"),
  (0x122B, "raa"),
  (0x122C, "ree"),
  (0x122D, "re")
]

def asciiRunes_30 : List (Nat × String) := [
  (0x122E, "ro"),
  (0x122F, "rwa"),
  (0x1230, "sa"),
  (0x1231, "su"),
  (0x1232, "si"),
  (0x1233, "saa"),
  (0x1234, "see"),
  (0x1235, "se"),
  (0x1236, "so"),
  (0x1237, "swa"),
  (0x1238, "sha"),
  (0x1239, "shu"),
  (0x123A, "shi"),
  (0x123B, "shaa"),
  (0x123C, "shee"),
  (0x123D, "she"),
  (0x123E, "sho"),
  (0x123F, "shwa"),
  (0x1240, "qa"),
  (0x1241, "qu"),
  (0x1242, "qi"),
  (0x1243, "qaa"),
  (0x1244, "qee"),
  (0x1245, "qe"),
  (0x1246, "qo"),
  (0x1247, ""),
  (0x1248, "qwa"),
  (0x124A, "qwi"),
  (0x124B, "qwaa"),
  (0x124C, "qwee"),
  (0x124D, "qwe"),
  (0x1250, "qha"),
  (0x1251, "qhu"),
  (0x1252, "qhi"),
  (0x1253, "qhaa"),
  (0x1254, "qhee"),
  (0x1255, "qhe"),
  (0x1256, "qho"),
  (0x1258, "qhwa"),
  (0x125A, "qhwi"),
  (0x125B, "qhwaa"),
  (0x125C, "qhwee"),
  (0x125D, "qhwe"),
  (0x1260, "ba"),
  (0x1261, "bu"),
  (0x1262, "bi"),
  (0x1263, "baa"),
  (0x1264, "bee"),
  (0x1265, "be"),
  (0x1266, "bo"),
  (0x1267, "bwa"),
  (0x1268, "va"),
  (0x1269, "vu"),
  (0x126A, "vi"),
  (0x126B, "vaa"),
  (0x126C, "vee"),
  (0x126D, "ve"),
  (0x126E, "vo"),
  (0x126F, "vwa"),
  (0x1270, "ta"),
  (0x1271, "tu"),
  (0x1272, "ti"),
  (0x1273, "taa"),
  (0x1274, "tee"),
  (0x1275, "te"),
  (0x1276, "to"),
  (0x1277, "twa"),
  (0x1278, "ca"),
  (0x1279, "cu"),
  (0x127A, "ci"),
  (0x127B, "caa"),
  (0x127C, "cee"),
  (0x127D, "ce"),
  (0x127E, "co"),
  (0x127F, "cwa"),
  (0x1280, "xa"),
  (0x1281, "xu"),
  (0x1282, "xi"),
  (0x1283, "xaa"),
  (0x1284, "xee"),
  (0x1285, "xe"),
  (0x1286, "xo"),
  (0x1288, "xwa"),
  (0x128A, "xwi"),
  (0x128B, "xwaa"),
  (0x128C, "xwee"),
  (0x128D, "xwe"),
  (0x1290, "na"),
  (0x1291, "nu"),
  (0x1292, "ni"),
  (0x1293, "naa"),
  (0x1294, "nee"),
  (0x1295, "ne"),
  (0x1296, "no"),
  (0x1297, "nwa"),
  (0x1298, "nya"),
  (0x1299, "nyu"),
  (0x129A, "nyi"),
  (0x129B, "nyaa"),
  (0x129C, "nyee")
]

def asciiRunes_31 : List (Nat × String) := [
  (0x129D, "nye"),
  (0x129E, "nyo"),
  (0x129F, "nywa"),
  (0x12A0, "'a"),
  (0x12A1, "'u"),
  (0x12A3, "'aa"),
  (0x12A4, "'ee"),
  (0x12A5, "'e"),
  (0x12A6, "'o"),
  (0x12A7, "'wa"),
  (0x12A8, "ka"),
  (0x12A9, "ku"),
  (0x12AA, "ki"),
  (0x12AB, "kaa"),
  (0x12AC, "kee"),
  (0x12AD, "ke"),
  (0x12AE, "ko"),
  (0x12B0, "kwa"),
  (0x12B2, "kwi"),
  (0x12B3, "kwaa"),
  (0x12B4, "kwee"),
  (0x12B5, "kwe"),
  (0x12B8, "kxa"),
  (0x12B9, "kxu"),
  (0x12BA, "kxi"),
  (0x12BB, "kxaa"),
  (0x12BC, "kxee"),
  (0x12BD, "kxe"),
  (0x12BE, "kxo"),
  (0x12C0, "kxwa"),
  (0x12C2, "kxwi"),
  (0x12C3, "kxwaa"),
  (0x12C4, "kxwee"),
  (0x12C5, "kxwe"),
  (0x12C8, "wa"),
  (0x12C9, "wu"),
  (0x12CA, "wi"),
  (0x12CB, "waa"),
  (0x12CC, "wee"),
  (0x12CD, "we"),
  (0x12CE, "wo"),
  (0x12D0, "`a"),
  (0x12D1, "`u"),
  (0x12D2, "`i"),
  (0x12D3, "`aa"),
  (0x12D4, "`ee"),
  (0x12D5, "`e"),
  (0x12D6, "`o"),
  (0x12D8, "za"),
  (0x12D9, "zu"),
  (0x12DA, "zi"),
  (0x12DB, "zaa"),
  (0x12DC, "zee"),
  (0x12DD, "ze"),
  (0x12DE, "zo"),
  (0x12DF, "zwa"),
  (0x12E0, "zha"),
  (0x12E1, "zhu"),
  (0x12E2, "zhi"),
  (0x12E3, "zhaa"),
  (0x12E4, "zhee"),
  (0x12E5, "zhe"),
  (0x12E6, "zho"),
  (0x12E7, "zhwa"),
  (0x12E8, "ya"),
  (0x12E9, "yu"),
  (0x12EA, "yi"),
  (0x12EB, "yaa"),
  (0x12EC, "yee"),
  (0x12ED, "ye"),
  (0x12EE, "yo"),
  (0x12F0, "da"),
  (0x12F1, "du"),
  (0x12F2, "di"),
  (0x12F3, "daa"),
  (0x12F4, "dee"),
  (0x12F5, "de"),
  (0x12F6, "do"),
  (0x12F7, "dwa"),
  (0x12F8, "dda"),
  (0x12F9, "ddu"),
  (0x12FA, "ddi"),
  (0x12FB, "ddaa"),
  (0x12FC, "ddee"),
  (0x12FD, "dde"),
  (0x12FE, "ddo"),
  (0x12FF, "ddwa"),
  (0x1300, "ja"),
  (0x1301, "ju"),
  (0x1302, "ji"),
  (0x1303, "jaa"),
  (0x1304, "jee"),
  (0x1305, "je"),
  (0x1306, "jo"),
  (0x1307, "jwa"),
  (0x1308, "ga"),
  (0x1309, "gu"),
  (0x130A, "gi"),
  (0x130B, "gaa"),
  (0x130C, "gee")
]

def asciiRunes_32 : List (Nat × String) := [
  (0x130D, "ge"),
  (0x130E, "go"),
  (0x1310, "gwa"),
  (0x1312, "gwi"),
  (0x1313, "gwaa"),
  (0x1314, "gwee"),
  (0x1315, "gwe"),
  (0x1318, "gga"),
  (0x1319, "ggu"),
  (0x131A, "ggi"),
  (0x131B, "ggaa"),
  (0x131C, "ggee"),
  (0x131D, "gge"),
  (0x131E, "ggo"),
  (0x1320, "tha"),
  (0x1321, "thu"),
  (0x1322, "thi"),
  (0x1323, "thaa"),
  (0x1324, "thee"),
  (0x1325, "the"),
  (0x1326, "tho"),
  (0x1327, "thwa"),
  (0x1328, "cha"),
  (0x1329, "chu"),
  (0x132A, "chi"),
  (0x132B, "chaa"),
  (0x132C, "chee"),
  (0x132D, "che"),
  (0x132E, "cho"),
  (0x132F, "chwa"),
  (0x1330, "pha"),
  (0x1331, "phu"),
  (0x1332, "phi"),
  (0x1333, "phaa"),
  (0x1334, "phee"),
  (0x1335, "phe"),
  (0x1336, "pho"),
  (0x1337, "phwa"),
  (0x1338, "tsa"),
  (0x1339, "tsu"),
  (0x133A, "tsi"),
  (0x133B, "tsaa"),
  (0x133C, "tsee"),
  (0x133D, "tse"),
  (0x133E, "tso"),
  (0x133F, "tswa"),
  (0x1340, "tza"),
  (0x1341, "tzu"),
  (0x1342, "tzi"),
  (0x1343, "tzaa"),
  (0x1344, "tzee"),
  (0x1345, "tze"),
  (0x1346, "tzo"),
  (0x1348, "fa"),
  (0x1349, "fu"),
  (0x134A, "fi"),
  (0x134B, "faa"),
  (0x134C, "fee"),
  (0x134D, "fe"),
  (0x134E, "fo"),
  (0x134F, "fwa"),
  (0x1350, "pa"),
  (0x1351, "pu"),
  (0x1352, "pi"),
  (0x1353, "paa"),
  (0x1354, "pee"),
  (0x1355, "pe"),
  (0x1356, "po"),
  (0x1357, "pwa"),
  (0x1358, "rya"),
  (0x1359, "mya"),
  (0x135A, "fya"),
  (0x1362, "."),
  (0x1363, ","),
  (0x1364, ";"),
  (0x1365, ":"),
  (0x1366, ":: "),
  (0x1367, "?"),
  (0x1368, "//"),
  (0x1369, "1"),
  (0x136A, "2"),
  (0x136B, "3"),
  (0x136C, "4"),
  (0x136D, "5"),
  (0x136E, "6"),
  (0x136F, "7"),
  (0x1370, "8"),
  (0x1371, "9"),
  (0x1372, "10+"),
  (0x1373, "20+"),
  (0x1374, "30+"),
  (0x1375, "40+"),
  (0x1376, "50+"),
  (0x1377, "60+"),
  (0x1378, "70+"),
  (0x1379, "80+"),
  (0x137A, "90+"),
  (0x137B, "100+"),
  (0x137C, "10,000+"),
  (0x13A0, "a")
]

def asciiRunes_33 : List (Nat × String) := [
  (0x13A1, "e"),
  (0x13A2, "i"),
  (0x13A3, "o"),
  (0x13A4, "u"),
  (0x13A5, "v"),
  (0x13A6, "ga"),
  (0x13A7, "ka"),
  (0x13A8, "ge"),
  (0x13A9, "gi"),
  (0x13AA, "go"),
  (0x13AB, "gu"),
  (0x13AC, "gv"),
  (0x13AD, "ha"),
  (0x13AE, "he"),
  (0x13AF, "hi"),
  (0x13B0, "ho"),
  (0x13B1, "hu"),
  (0x13B2, "hv"),
  (0x13B3, "la"),
  (0x13B4, "le"),
  (0x13B5, "li"),
  (0x13B6, "lo"),
  (0x13B7, "lu"),
  (0x13B8, "lv"),
  (0x13B9, "ma"),
  (0x13BA, "me"),
  (0x13BB, "mi"),
  (0x13BC, "mo"),
  (0x13BD, "mu"),
  (0x13BE, "na"),
  (0x13BF, "hna"),
  (0x13C0, "nah"),
  (0x13C1, "ne"),
  (0x13C2, "ni"),
  (0x13C3, "no"),
  (0x13C4, "nu"),
  (0x13C5, "nv"),
  (0x13C6, "qua"),
  (0x13C7, "que"),
  (0x13C8, "qui"),
  (0x13C9, "quo"),
  (0x13CA, "quu"),
  (0x13CB, "quv"),
  (0x13CC, "sa"),
  (0x13CD, "s"),
  (0x13CE, "se"),
  (0x13CF, "si"),
  (0x13D0, "so"),
  (0x13D1, "su"),
  (0x13D2, "sv"),
  (0x13D3, "da"),
  (0x13D4, "ta"),
  (0x13D5, "de"),
  (0x13D6, "te"),
  (0x13D7, "di"),
  (0x13D8, "ti"),
  (0x13D9, "do"),
  (0x13DA, "du"),
  (0x13DB, "dv"),
  (0x13DC, "dla"),
  (0x13DD, "tla"),
  (0x13DE, "tle"),
  (0x13DF, "tli"),
  (0x13E0, "tlo"),
  (0x13E1, "tlu"),
  (0x13E2, "tlv"),
  (0x13E3, "tsa"),
  (0x13E4, "tse"),
  (0x13E5, "tsi"),
  (0x13E6, "tso"),
  (0x13E7, "tsu"),
  (0x13E8, "tsv"),
  (0x13E9, "wa"),
  (0x13EA, "we"),
  (0x13EB, "wi"),
  (0x13EC, "wo"),
  (0x13ED, "wu"),
  (0x13EE, "wv"),
  (0x13EF, "ya"),
  (0x13F0, "ye"),
  (0x13F1, "yi"),
  (0x13F2, "yo"),
  (0x13F3, "yu"),
  (0x13F4, "yv"),
  (0x1401, "e"),
  (0x1402, "aai"),
  (0x1403, "i"),
  (0x1404, "ii"),
  (0x1405, "o"),
  (0x1406, "oo"),
  (0x1407, "oo"),
  (0x1408, "ee"),
  (0x1409, "i"),
  (0x140A, "a"),
  (0x140B, "aa"),
  (0x140C, "we"),
  (0x140D, "we"),
  (0x140E, "wi"),
  (0x140F, "wi"),
  (0x1410, "wii")
]

def asciiRunes_34 : List (Nat × String) := [
  (0x1411, "wii"),
  (0x1412, "wo"),
  (0x1413, "wo"),
  (0x1414, "woo"),
  (0x1415, "woo"),
  (0x1416, "woo"),
  (0x1417, "wa"),
  (0x1418, "wa"),
  (0x1419, "waa"),
  (0x141A, "waa"),
  (0x141B, "waa"),
  (0x141C, "ai"),
  (0x141D, "w"),
  (0x141E, "'"),
  (0x141F, "t"),
  (0x1420, "k"),
  (0x1421, "sh"),
  (0x1422, "s"),
  (0x1423, "n"),
  (0x1424, "w"),
  (0x1425, "n"),
  (0x1427, "w"),
  (0x1428, "c"),
  (0x1429, "?"),
  (0x142A, "l"),
  (0x142B, "en"),
  (0x142C, "in"),
  (0x142D, "on"),
  (0x142E, "an"),
  (0x142F, "pe"),
  (0x1430, "paai"),
  (0x1431, "pi"),
  (0x1432, "pii"),
  (0x1433, "po"),
  (0x1434, "poo"),
  (0x1435, "poo"),
  (0x1436, "hee"),
  (0x1437, "hi"),
  (0x1438, "pa"),
  (0x1439, "paa"),
  (0x143A, "pwe"),
  (0x143B, "pwe"),
  (0x143C, "pwi"),
  (0x143D, "pwi"),
  (0x143E, "pwii"),
  (0x143F, "pwii"),
  (0x1440, "pwo"),
  (0x1441, "pwo"),
  (0x1442, "pwoo"),
  (0x1443, "pwoo"),
  (0x1444, "pwa"),
  (0x1445, "pwa"),
  (0x1446, "pwaa"),
  (0x1447, "pwaa"),
  (0x1448, "pwaa"),
  (0x1449, "p"),
  (0x144A, "p"),
  (0x144B, "h"),
  (0x144C, "te"),
  (0x144D, "taai"),
  (0x144E, "ti"),
  (0x144F, "tii"),
  (0x1450, "to"),
  (0x1451, "too"),
  (0x1452, "too"),
  (0x1453, "dee"),
  (0x1454, "di"),
  (0x1455, "ta"),
  (0x1456, "taa"),
  (0x1457, "twe"),
  (0x1458, "twe"),
  (0x1459, "twi"),
  (0x145A, "twi"),
  (0x145B, "twii"),
  (0x145C, "twii"),
  (0x145D, "two"),
  (0x145E, "two"),
  (0x145F, "twoo"),
  (0x1460, "twoo"),
  (0x1461, "twa"),
  (0x1462, "twa"),
  (0x1463, "twaa"),
  (0x1464, "twaa"),
  (0x1465, "twaa"),
  (0x1466, "t"),
  (0x1467, "tte"),
  (0x1468, "tti"),
  (0x1469, "tto"),
  (0x146A, "tta"),
  (0x146B, "ke"),
  (0x146C, "kaai"),
  (0x146D, "ki"),
  (0x146E, "kii"),
  (0x146F, "ko"),
  (0x1470, "koo"),
  (0x1471, "koo"),
  (0x1472, "ka"),
  (0x1473, "kaa"),
  (0x1474, "kwe"),
  (0x1475, "kwe")
]

def asciiRunes_35 : List (Nat × String) := [
  (0x1476, "kwi"),
  (0x1477, "kwi"),
  (0x1478, "kwii"),
  (0x1479, "kwii"),
  (0x147A, "kwo"),
  (0x147B, "kwo"),
  (0x147C, "kwoo"),
  (0x147D, "kwoo"),
  (0x147E, "kwa"),
  (0x147F, "kwa"),
  (0x1480, "kwaa"),
  (0x1481, "kwaa"),
  (0x1482, "kwaa"),
  (0x1483, "k"),
  (0x1484, "kw"),
  (0x1485, "keh"),
  (0x1486, "kih"),
  (0x1487, "koh"),
  (0x1488, "kah"),
  (0x1489, "ce"),
  (0x148A, "caai"),
  (0x148B, "ci"),
  (0x148C, "cii"),
  (0x148D, "co"),
  (0x148E, "coo"),
  (0x148F, "coo"),
  (0x1490, "ca"),
  (0x1491, "caa"),
  (0x1492, "cwe"),
  (0x1493, "cwe"),
  (0x1494, "cwi"),
  (0x1495, "cwi"),
  (0x1496, "cwii"),
  (0x1497, "cwii"),
  (0x1498, "cwo"),
  (0x1499, "cwo"),
  (0x149A, "cwoo"),
  (0x149B, "cwoo"),
  (0x149C, "cwa"),
  (0x149D, "cwa"),
  (0x149E, "cwaa"),
  (0x149F, "cwaa"),
  (0x14A0, "cwaa"),
  (0x14A1, "c"),
  (0x14A2, "th"),
  (0x14A3, "me"),
  (0x14A4, "maai"),
  (0x14A5, "mi"),
  (0x14A6, "mii"),
  (0x14A7, "mo"),
  (0x14A8, "moo"),
  (0x14A9, "moo"),
  (0x14AA, "ma"),
  (0x14AB, "maa"),
  (0x14AC, "mwe"),
  (0x14AD, "mwe"),
  (0x14AE, "mwi"),
  (0x14AF, "mwi"),
  (0x14B0, "mwii"),
  (0x14B1, "mwii"),
  (0x14B2, "mwo"),
  (0x14B3, "mwo"),
  (0x14B4, "mwoo"),
  (0x14B5, "mwoo"),
  (0x14B6, "mwa"),
  (0x14B7, "mwa"),
  (0x14B8, "mwaa"),
  (0x14B9, "mwaa"),
  (0x14BA, "mwaa"),
  (0x14BB, "m"),
  (0x14BC, "m"),
  (0x14BD, "mh"),
  (0x14BE, "m"),
  (0x14BF, "m"),
  (0x14C0, "ne"),
  (0x14C1, "naai"),
  (0x14C2, "ni"),
  (0x14C3, "nii"),
  (0x14C4, "no"),
  (0x14C5, "noo"),
  (0x14C6, "noo"),
  (0x14C7, "na"),
  (0x14C8, "naa"),
  (0x14C9, "nwe"),
  (0x14CA, "nwe"),
  (0x14CB, "nwa"),
  (0x14CC, "nwa"),
  (0x14CD, "nwaa"),
  (0x14CE, "nwaa"),
  (0x14CF, "nwaa"),
  (0x14D0, "n"),
  (0x14D1, "ng"),
  (0x14D2, "nh"),
  (0x14D3, "le"),
  (0x14D4, "laai"),
  (0x14D5, "li"),
  (0x14D6, "lii"),
  (0x14D7, "lo"),
  (0x14D8, "loo"),
  (0x14D9, "loo")
]

def asciiRunes_36 : List (Nat × String) := [
  (0x14DA, "la"),
  (0x14DB, "laa"),
  (0x14DC, "lwe"),
  (0x14DD, "lwe"),
  (0x14DE, "lwi"),
  (0x14DF, "lwi"),
  (0x14E0, "lwii"),
  (0x14E1, "lwii"),
  (0x14E2, "lwo"),
  (0x14E3, "lwo"),
  (0x14E4, "lwoo"),
  (0x14E5, "lwoo"),
  (0x14E6, "lwa"),
  (0x14E7, "lwa"),
  (0x14E8, "lwaa"),
  (0x14E9, "lwaa"),
  (0x14EA, "l"),
  (0x14EB, "l"),
  (0x14EC, "l"),
  (0x14ED, "se"),
  (0x14EE, "saai"),
  (0x14EF, "si"),
  (0x14F0, "sii"),
  (0x14F1, "so"),
  (0x14F2, "soo"),
  (0x14F3, "soo"),
  (0x14F4, "sa"),
  (0x14F5, "saa"),
  (0x14F6, "swe"),
  (0x14F7, "swe"),
  (0x14F8, "swi"),
  (0x14F9, "swi"),
  (0x14FA, "swii"),
  (0x14FB, "swii"),
  (0x14FC, "swo"),
  (0x14FD, "swo"),
  (0x14FE, "swoo"),
  (0x14FF, "swoo"),
  (0x1500, "swa"),
  (0x1501, "swa"),
  (0x1502, "swaa"),
  (0x1503, "swaa"),
  (0x1504, "swaa"),
  (0x1505, "s"),
  (0x1506, "s"),
  (0x1507, "sw"),
  (0x1508, "s"),
  (0x1509, "sk"),
  (0x150A, "skw"),
  (0x150B, "sW"),
  (0x150C, "spwa"),
  (0x150D, "stwa"),
  (0x150E, "skwa"),
  (0x150F, "scwa"),
  (0x1510, "she"),
  (0x1511, "shi"),
  (0x1512, "shii"),
  (0x1513, "sho"),
  (0x1514, "shoo"),
  (0x1515, "sha"),
  (0x1516, "shaa"),
  (0x1517, "shwe"),
  (0x1518, "shwe"),
  (0x1519, "shwi"),
  (0x151A, "shwi"),
  (0x151B, "shwii"),
  (0x151C, "shwii"),
  (0x151D, "shwo"),
  (0x151E, "shwo"),
  (0x151F, "shwoo"),
  (0x1520, "shwoo"),
  (0x1521, "shwa"),
  (0x1522, "shwa"),
  (0x1523, "shwaa"),
  (0x1524, "shwaa"),
  (0x1525, "sh"),
  (0x1526, "ye"),
  (0x1527, "yaai"),
  (0x1528, "yi"),
  (0x1529, "yii"),
  (0x152A, "yo"),
  (0x152B, "yoo"),
  (0x152C, "yoo"),
  (0x152D, "ya"),
  (0x152E, "yaa"),
  (0x152F, "ywe"),
  (0x1530, "ywe"),
  (0x1531, "ywi"),
  (0x1532, "ywi"),
  (0x1533, "ywii"),
  (0x1534, "ywii"),
  (0x1535, "ywo"),
  (0x1536, "ywo"),
  (0x1537, "ywoo"),
  (0x1538, "ywoo"),
  (0x1539, "ywa"),
  (0x153A, "ywa"),
  (0x153B, "ywaa"),
  (0x153C, "ywaa"),
  (0x153D, "ywaa")
]

def asciiRunes_37 : List (Nat × String) := [
  (0x153E, "y"),
  (0x153F, "y"),
  (0x1540, "y"),
  (0x1541, "yi"),
  (0x1542, "re"),
  (0x1543, "re"),
  (0x1544, "le"),
  (0x1545, "raai"),
  (0x1546, "ri"),
  (0x1547, "rii"),
  (0x1548, "ro"),
  (0x1549, "roo"),
  (0x154A, "lo"),
  (0x154B, "ra"),
  (0x154C, "raa"),
  (0x154D, "la"),
  (0x154E, "rwaa"),
  (0x154F, "rwaa"),
  (0x1550, "r"),
  (0x1551, "r"),
  (0x1552, "r"),
  (0x1553, "fe"),
  (0x1554, "faai"),
  (0x1555, "fi"),
  (0x1556, "fii"),
  (0x1557, "fo"),
  (0x1558, "foo"),
  (0x1559, "fa"),
  (0x155A, "faa"),
  (0x155B, "fwaa"),
  (0x155C, "fwaa"),
  (0x155D, "f"),
  (0x155E, "the"),
  (0x155F, "the"),
  (0x1560, "thi"),
  (0x1561, "thi"),
  (0x1562, "thii"),
  (0x1563, "thii"),
  (0x1564, "tho"),
  (0x1565, "thoo"),
  (0x1566, "tha"),
  (0x1567, "thaa"),
  (0x1568, "thwaa"),
  (0x1569, "thwaa"),
  (0x156A, "th"),
  (0x156B, "tthe"),
  (0x156C, "tthi"),
  (0x156D, "ttho"),
  (0x156E, "ttha"),
  (0x156F, "tth"),
  (0x1570, "tye"),
  (0x1571, "tyi"),
  (0x1572, "tyo"),
  (0x1573, "tya"),
  (0x1574, "he"),
  (0x1575, "hi"),
  (0x1576, "hii"),
  (0x1577, "ho"),
  (0x1578, "hoo"),
  (0x1579, "ha"),
  (0x157A, "haa"),
  (0x157B, "h"),
  (0x157C, "h"),
  (0x157D, "hk"),
  (0x157E, "qaai"),
  (0x157F, "qi"),
  (0x1580, "qii"),
  (0x1581, "qo"),
  (0x1582, "qoo"),
  (0x1583, "qa"),
  (0x1584, "qaa"),
  (0x1585, "q"),
  (0x1586, "tlhe"),
  (0x1587, "tlhi"),
  (0x1588, "tlho"),
  (0x1589, "tlha"),
  (0x158A, "re"),
  (0x158B, "ri"),
  (0x158C, "ro"),
  (0x158D, "ra"),
  (0x158E, "ngaai"),
  (0x158F, "ngi"),
  (0x1590, "ngii"),
  (0x1591, "ngo"),
  (0x1592, "ngoo"),
  (0x1593, "nga"),
  (0x1594, "ngaa"),
  (0x1595, "ng"),
  (0x1596, "nng"),
  (0x1597, "she"),
  (0x1598, "shi"),
  (0x1599, "sho"),
  (0x159A, "sha"),
  (0x159B, "the"),
  (0x159C, "thi"),
  (0x159D, "tho"),
  (0x159E, "tha"),
  (0x159F, "th"),
  (0x15A0, "lhi"),
  (0x15A1, "lhii")
]

def asciiRunes_38 : List (Nat × String) := [
  (0x15A2, "lho"),
  (0x15A3, "lhoo"),
  (0x15A4, "lha"),
  (0x15A5, "lhaa"),
  (0x15A6, "lh"),
  (0x15A7, "the"),
  (0x15A8, "thi"),
  (0x15A9, "thii"),
  (0x15AA, "tho"),
  (0x15AB, "thoo"),
  (0x15AC, "tha"),
  (0x15AD, "thaa"),
  (0x15AE, "th"),
  (0x15AF, "b"),
  (0x15B0, "e"),
  (0x15B1, "i"),
  (0x15B2, "o"),
  (0x15B3, "a"),
  (0x15B4, "we"),
  (0x15B5, "wi"),
  (0x15B6, "wo"),
  (0x15B7, "wa"),
  (0x15B8, "ne"),
  (0x15B9, "ni"),
  (0x15BA, "no"),
  (0x15BB, "na"),
  (0x15BC, "ke"),
  (0x15BD, "ki"),
  (0x15BE, "ko"),
  (0x15BF, "ka"),
  (0x15C0, "he"),
  (0x15C1, "hi"),
  (0x15C2, "ho"),
  (0x15C3, "ha"),
  (0x15C4, "ghu"),
  (0x15C5, "gho"),
  (0x15C6, "ghe"),
  (0x15C7, "ghee"),
  (0x15C8, "ghi"),
  (0x15C9, "gha"),
  (0x15CA, "ru"),
  (0x15CB, "ro"),
  (0x15CC, "re"),
  (0x15CD, "ree"),
  (0x15CE, "ri"),
  (0x15CF, "ra"),
  (0x15D0, "wu"),
  (0x15D1, "wo"),
  (0x15D2, "we"),
  (0x15D3, "wee"),
  (0x15D4, "wi"),
  (0x15D5, "wa"),
  (0x15D6, "hwu"),
  (0x15D7, "hwo"),
  (0x15D8, "hwe"),
  (0x15D9, "hwee"),
  (0x15DA, "hwi"),
  (0x15DB, "hwa"),
  (0x15DC, "thu"),
  (0x15DD, "tho"),
  (0x15DE, "the"),
  (0x15DF, "thee"),
  (0x15E0, "thi"),
  (0x15E1, "tha"),
  (0x15E2, "ttu"),
  (0x15E3, "tto"),
  (0x15E4, "tte"),
  (0x15E5, "ttee"),
  (0x15E6, "tti"),
  (0x15E7, "tta"),
  (0x15E8, "pu"),
  (0x15E9, "po"),
  (0x15EA, "pe"),
  (0x15EB, "pee"),
  (0x15EC, "pi"),
  (0x15ED, "pa"),
  (0x15EE, "p"),
  (0x15EF, "gu"),
  (0x15F0, "go"),
  (0x15F1, "ge"),
  (0x15F2, "gee"),
  (0x15F3, "gi"),
  (0x15F4, "ga"),
  (0x15F5, "khu"),
  (0x15F6, "kho"),
  (0x15F7, "khe"),
  (0x15F8, "khee"),
  (0x15F9, "khi"),
  (0x15FA, "kha"),
  (0x15FB, "kku"),
  (0x15FC, "kko"),
  (0x15FD, "kke"),
  (0x15FE, "kkee"),
  (0x15FF, "kki"),
  (0x1600, "kka"),
  (0x1601, "kk"),
  (0x1602, "nu"),
  (0x1603, "no"),
  (0x1604, "ne"),
  (0x1605, "nee")
]

def asciiRunes_39 : List (Nat × String) := [
  (0x1606, "ni"),
  (0x1607, "na"),
  (0x1608, "mu"),
  (0x1609, "mo"),
  (0x160A, "me"),
  (0x160B, "mee"),
  (0x160C, "mi"),
  (0x160D, "ma"),
  (0x160E, "yu"),
  (0x160F, "yo"),
  (0x1610, "ye"),
  (0x1611, "yee"),
  (0x1612, "yi"),
  (0x1613, "ya"),
  (0x1614, "ju"),
  (0x1615, "ju"),
  (0x1616, "jo"),
  (0x1617, "je"),
  (0x1618, "jee"),
  (0x1619, "ji"),
  (0x161A, "ji"),
  (0x161B, "ja"),
  (0x161C, "jju"),
  (0x161D, "jjo"),
  (0x161E, "jje"),
  (0x161F, "jjee"),
  (0x1620, "jji"),
  (0x1621, "jja"),
  (0x1622, "lu"),
  (0x1623, "lo"),
  (0x1624, "le"),
  (0x1625, "lee"),
  (0x1626, "li"),
  (0x1627, "la"),
  (0x1628, "dlu"),
  (0x1629, "dlo"),
  (0x162A, "dle"),
  (0x162B, "dlee"),
  (0x162C, "dli"),
  (0x162D, "dla"),
  (0x162E, "lhu"),
  (0x162F, "lho"),
  (0x1630, "lhe"),
  (0x1631, "lhee"),
  (0x1632, "lhi"),
  (0x1633, "lha"),
  (0x1634, "tlhu"),
  (0x1635, "tlho"),
  (0x1636, "tlhe"),
  (0x1637, "tlhee"),
  (0x1638, "tlhi"),
  (0x1639, "tlha"),
  (0x163A, "tlu"),
  (0x163B, "tlo"),
  (0x163C, "tle"),
  (0x163D, "tlee"),
  (0x163E, "tli"),
  (0x163F, "tla"),
  (0x1640, "zu"),
  (0x1641, "zo"),
  (0x1642, "ze"),
  (0x1643, "zee"),
  (0x1644, "zi"),
  (0x1645, "za"),
  (0x1646, "z"),
  (0x1647, "z"),
  (0x1648, "dzu"),
  (0x1649, "dzo"),
  (0x164A, "dze"),
  (0x164B, "dzee"),
  (0x164C, "dzi"),
  (0x164D, "dza"),
  (0x164E, "su"),
  (0x164F, "so"),
  (0x1650, "se"),
  (0x1651, "see"),
  (0x1652, "si"),
  (0x1653, "sa"),
  (0x1654, "shu"),
  (0x1655, "sho"),
  (0x1656, "she"),
  (0x1657, "shee"),
  (0x1658, "shi"),
  (0x1659, "sha"),
  (0x165A, "sh"),
  (0x165B, "tsu"),
  (0x165C, "tso"),
  (0x165D, "tse"),
  (0x165E, "tsee"),
  (0x165F, "tsi"),
  (0x1660, "tsa"),
  (0x1661, "chu"),
  (0x1662, "cho"),
  (0x1663, "che"),
  (0x1664, "chee"),
  (0x1665, "chi"),
  (0x1666, "cha"),
  (0x1667, "ttsu"),
  (0x1668, "ttso"),
  (0x1669, "ttse")
]

def asciiRunes_40 : List (Nat × String) := [
  (0x166A, "ttsee"),
  (0x166B, "ttsi"),
  (0x166C, "ttsa"),
  (0x166D, "X"),
  (0x166E, "."),
  (0x166F, "qai"),
  (0x1670, "ngai"),
  (0x1671, "nngi"),
  (0x1672, "nngii"),
  (0x1673, "nngo"),
  (0x1674, "nngoo"),
  (0x1675, "nnga"),
  (0x1676, "nngaa"),
  (0x1681, "b"),
  (0x1682, "l"),
  (0x1683, "f"),
  (0x1684, "s"),
  (0x1685, "n"),
  (0x1686, "h"),
  (0x1687, "d"),
  (0x1688, "t"),
  (0x1689, "c"),
  (0x168A, "q"),
  (0x168B, "m"),
  (0x168C, "g"),
  (0x168D, "ng"),
  (0x168E, "z"),
  (0x168F, "r"),
  (0x1690, "a"),
  (0x1691, "o"),
  (0x1692, "u"),
  (0x1693, "e"),
  (0x1694, "i"),
  (0x1695, "ch"),
  (0x1696, "th"),
  (0x1697, "ph"),
  (0x1698, "p"),
  (0x1699, "x"),
  (0x169A, "p"),
  (0x169B, "<"),
  (0x169C, ">"),
  (0x16A0, "f"),
  (0x16A1, "v"),
  (0x16A2, "u"),
  (0x16A3, "yr"),
  (0x16A4, "y"),
  (0x16A5, "w"),
  (0x16A6, "th"),
  (0x16A7, "th"),
  (0x16A8, "a"),
  (0x16A9, "o"),
  (0x16AA, "ac"),
  (0x16AB, "ae"),
  (0x16AC, "o"),
  (0x16AD, "o"),
  (0x16AE, "o"),
  (0x16AF, "oe"),
  (0x16B0, "on"),
  (0x16B1, "r"),
  (0x16B2, "k"),
  (0x16B3, "c"),
  (0x16B4, "k"),
  (0x16B5, "g"),
  (0x16B6, "ng"),
  (0x16B7, "g"),
  (0x16B8, "g"),
  (0x16B9, "w"),
  (0x16BA, "h"),
  (0x16BB, "h"),
  (0x16BC, "h"),
  (0x16BD, "h"),
  (0x16BE, "n"),
  (0x16BF, "n"),
  (0x16C0, "n"),
  (0x16C1, "i"),
  (0x16C2, "e"),
  (0x16C3, "j"),
  (0x16C4, "g"),
  (0x16C5, "ae"),
  (0x16C6, "a"),
  (0x16C7, "eo"),
  (0x16C8, "p"),
  (0x16C9, "z"),
  (0x16CA, "s"),
  (0x16CB, "s"),
  (0x16CC, "s"),
  (0x16CD, "c"),
  (0x16CE, "z"),
  (0x16CF, "t"),
  (0x16D0, "t"),
  (0x16D1, "d"),
  (0x16D2, "b"),
  (0x16D3, "b"),
  (0x16D4, "p"),
  (0x16D5, "p"),
  (0x16D6, "e"),
  (0x16D7, "m"),
  (0x16D8, "m"),
  (0x16D9, "m"),
  (0x16DA, "l")
]

def asciiRunes_41 : List (Nat × String) := [
  (0x16DB, "l"),
  (0x16DC, "ng"),
  (0x16DD, "ng"),
  (0x16DE, "d"),
  (0x16DF, "o"),
  (0x16E0, "ear"),
  (0x16E1, "ior"),
  (0x16E2, "qu"),
  (0x16E3, "qu"),
  (0x16E4, "qu"),
  (0x16E5, "s"),
  (0x16E6, "yr"),
  (0x16E7, "yr"),
  (0x16E8, "yr"),
  (0x16E9, "q"),
  (0x16EA, "x"),
  (0x16EB, "."),
  (0x16EC, ":"),
  (0x16ED, "+"),
  (0x16EE, "17"),
  (0x16EF, "18"),
  (0x16F0, "19"),
  (0x1780, "k"),
  (0x1781, "kh"),
  (0x1782, "g"),
  (0x1783, "gh"),
  (0x1784, "ng"),
  (0x1785, "c"),
  (0x1786, "ch"),
  (0x1787, "j"),
  (0x1788, "jh"),
  (0x1789, "ny"),
  (0x178A, "t"),
  (0x178B, "tth"),
  (0x178C, "d"),
  (0x178D, "ddh"),
  (0x178E, "nn"),
  (0x178F, "t"),
  (0x1790, "th"),
  (0x1791, "d"),
  (0x1792, "dh"),
  (0x1793, "n"),
  (0x1794, "p"),
  (0x1795, "ph"),
  (0x1796, "b"),
  (0x1797, "bh"),
  (0x1798, "m"),
  (0x1799, "y"),
  (0x179A, "r"),
  (0x179B, "l"),
  (0x179C, "v"),
  (0x179D, "sh"),
  (0x179E, "ss"),
  (0x179F, "s"),
  (0x17A0, "h"),
  (0x17A1, "l"),
  (0x17A2, "q"),
  (0x17A3, "a"),
  (0x17A4, "aa"),
  (0x17A5, "i"),
  (0x17A6, "ii"),
  (0x17A7, "u"),
  (0x17A8, "uk"),
  (0x17A9, "uu"),
  (0x17AA, "uuv"),
  (0x17AB, "ry"),
  (0x17AC, "ryy"),
  (0x17AD, "ly"),
  (0x17AE, "lyy"),
  (0x17AF, "e"),
  (0x17B0, "ai"),
  (0x17B1, "oo"),
  (0x17B2, "oo"),
  (0x17B3, "au"),
  (0x17B4, "a"),
  (0x17B5, "aa"),
  (0x17B6, "aa"),
  (0x17B7, "i"),
  (0x17B8, "ii"),
  (0x17B9, "y"),
  (0x17BA, "yy"),
  (0x17BB, "u"),
  (0x17BC, "uu"),
  (0x17BD, "ua"),
  (0x17BE, "oe"),
  (0x17BF, "ya"),
  (0x17C0, "ie"),
  (0x17C1, "e"),
  (0x17C2, "ae"),
  (0x17C3, "ai"),
  (0x17C4, "oo"),
  (0x17C5, "au"),
  (0x17C6, "M"),
  (0x17C7, "H"),
  (0x17C8, "a`"),
  (0x17CC, "r"),
  (0x17CE, "!"),
  (0x17D4, "."),
  (0x17D5, " // "),
  (0x17D6, ":")
]

def asciiRunes_42 : List (Nat × String) := [
  (0x17D7, "+"),
  (0x17D8, "++"),
  (0x17D9, " * "),
  (0x17DA, " /// "),
  (0x17DB, "KR"),
  (0x17DC, "'"),
  (0x17E0, "0"),
  (0x17E1, "1"),
  (0x17E2, "2"),
  (0x17E3, "3"),
  (0x17E4, "4"),
  (0x17E5, "5"),
  (0x17E6, "6"),
  (0x17E7, "7"),
  (0x17E8, "8"),
  (0x17E9, "9"),
  (0x1800, " @ "),
  (0x1801, " ... "),
  (0x1802, ", "),
  (0x1803, ". "),
  (0x1804, ": "),
  (0x1805, " // "),
  (0x1806, ""),
  (0x1807, "-"),
  (0x1808, ", "),
  (0x1809, ". "),
  (0x1810, "0"),
  (0x1811, "1"),
  (0x1812, "2"),
  (0x1813, "3"),
  (0x1814, "4"),
  (0x1815, "5"),
  (0x1816, "6"),
  (0x1817, "7"),
  (0x1818, "8"),
  (0x1819, "9"),
  (0x1820, "a"),
  (0x1821, "e"),
  (0x1822, "i"),
  (0x1823, "o"),
  (0x1824, "u"),
  (0x1825, "O"),
  (0x1826, "U"),
  (0x1827, "ee"),
  (0x1828, "n"),
  (0x1829, "ng"),
  (0x182A, "b"),
  (0x182B, "p"),
  (0x182C, "q"),
  (0x182D, "g"),
  (0x182E, "m"),
  (0x182F, "l"),
  (0x1830, "s"),
  (0x1831, "sh"),
  (0x1832, "t"),
  (0x1833, "d"),
  (0x1834, "ch"),
  (0x1835, "j"),
  (0x1836, "y"),
  (0x1837, "r"),
  (0x1838, "w"),
  (0x1839, "f"),
  (0x183A, "k"),
  (0x183B, "kha"),
  (0x183C, "ts"),
  (0x183D, "z"),
  (0x183E, "h"),
  (0x183F, "zr"),
  (0x1840, "lh"),
  (0x1841, "zh"),
  (0x1842, "ch"),
  (0x1843, "-"),
  (0x1844, "e"),
  (0x1845, "i"),
  (0x1846, "o"),
  (0x1847, "u"),
  (0x1848, "O"),
  (0x1849, "U"),
  (0x184A, "ng"),
  (0x184B, "b"),
  (0x184C, "p"),
  (0x184D, "q"),
  (0x184E, "g"),
  (0x184F, "m"),
  (0x1850, "t"),
  (0x1851, "d"),
  (0x1852, "ch"),
  (0x1853, "j"),
  (0x1854, "ts"),
  (0x1855, "y"),
  (0x1856, "w"),
  (0x1857, "k"),
  (0x1858, "g"),
  (0x1859, "h"),
  (0x185A, "jy"),
  (0x185B, "ny"),
  (0x185C, "dz"),
  (0x185D, "e"),
  (0x185E, "i"),
  (0x185F, "iy")
]

def asciiRunes_43 : List (Nat × String) := [
  (0x1860, "U"),
  (0x1861, "u"),
  (0x1862, "ng"),
  (0x1863, "k"),
  (0x1864, "g"),
  (0x1865, "h"),
  (0x1866, "p"),
  (0x1867, "sh"),
  (0x1868, "t"),
  (0x1869, "d"),
  (0x186A, "j"),
  (0x186B, "f"),
  (0x186C, "g"),
  (0x186D, "h"),
  (0x186E, "ts"),
  (0x186F, "z"),
  (0x1870, "r"),
  (0x1871, "ch"),
  (0x1872, "zh"),
  (0x1873, "i"),
  (0x1874, "k"),
  (0x1875, "r"),
  (0x1876, "f"),
  (0x1877, "zh"),
  (0x1881, "H"),
  (0x1882, "X"),
  (0x1883, "W"),
  (0x1884, "M"),
  (0x1885, " 3 "),
  (0x1886, " 333 "),
  (0x1887, "a"),
  (0x1888, "i"),
  (0x1889, "k"),
  (0x188A, "ng"),
  (0x188B, "c"),
  (0x188C, "tt"),
  (0x188D, "tth"),
  (0x188E, "dd"),
  (0x188F, "nn"),
  (0x1890, "t"),
  (0x1891, "d"),
  (0x1892, "p"),
  (0x1893, "ph"),
  (0x1894, "ss"),
  (0x1895, "zh"),
  (0x1896, "z"),
  (0x1897, "a"),
  (0x1898, "t"),
  (0x1899, "zh"),
  (0x189A, "gh"),
  (0x189B, "ng"),
  (0x189C, "c"),
  (0x189D, "jh"),
  (0x189E, "tta"),
  (0x189F, "ddh"),
  (0x18A0, "t"),
  (0x18A1, "dh"),
  (0x18A2, "ss"),
  (0x18A3, "cy"),
  (0x18A4, "zh"),
  (0x18A5, "z"),
  (0x18A6, "u"),
  (0x18A7, "y"),
  (0x18A8, "bh"),
  (0x18A9, "'"),
  (0x1D5D, "b"),
  (0x1D66, "b"),
  (0x1D6C, "b"),
  (0x1D6D, "d"),
  (0x1D6E, "f"),
  (0x1D6F, "m"),
  (0x1D70, "n"),
  (0x1D71, "p"),
  (0x1D72, "r"),
  (0x1D73, "r"),
  (0x1D74, "s"),
  (0x1D75, "t"),
  (0x1D76, "z"),
  (0x1D77, "g"),
  (0x1D7D, "p"),
  (0x1D80, "b"),
  (0x1D81, "d"),
  (0x1D82, "f"),
  (0x1D83, "g"),
  (0x1D84, "k"),
  (0x1D85, "l"),
  (0x1D86, "m"),
  (0x1D87, "n"),
  (0x1D88, "p"),
  (0x1D89, "r"),
  (0x1D8A, "s"),
  (0x1D8C, "v"),
  (0x1D8D, "x"),
  (0x1D8E, "z"),
  (0x1E00, "A"),
  (0x1E01, "a"),
  (0x1E02, "B"),
  (0x1E03, "b"),
  (0x1E04, "B"),
  (0x1E05, "b")
]

def asciiRunes_44 : List (Nat × String) := [
  (0x1E06, "B"),
  (0x1E07, "b"),
  (0x1E08, "C"),
  (0x1E09, "c"),
  (0x1E0A, "D"),
  (0x1E0B, "d"),
  (0x1E0C, "D"),
  (0x1E0D, "d"),
  (0x1E0E, "D"),
  (0x1E0F, "d"),
  (0x1E10, "D"),
  (0x1E11, "d"),
  (0x1E12, "D"),
  (0x1E13, "d"),
  (0x1E14, "E"),
  (0x1E15, "e"),
  (0x1E16, "E"),
  (0x1E17, "e"),
  (0x1E18, "E"),
  (0x1E19, "e"),
  (0x1E1A, "E"),
  (0x1E1B, "e"),
  (0x1E1C, "E"),
  (0x1E1D, "e"),
  (0x1E1E, "F"),
  (0x1E1F, "f"),
  (0x1E20, "G"),
  (0x1E21, "g"),
  (0x1E22, "H"),
  (0x1E23, "h"),
  (0x1E24, "H"),
  (0x1E25, "h"),
  (0x1E26, "H"),
  (0x1E27, "h"),
  (0x1E28, "H"),
  (0x1E29, "h"),
  (0x1E2A, "H"),
  (0x1E2B, "h"),
  (0x1E2C, "I"),
  (0x1E2D, "i"),
  (0x1E2E, "I"),
  (0x1E2F, "i"),
  (0x1E30, "K"),
  (0x1E31, "k"),
  (0x1E32, "K"),
  (0x1E33, "k"),
  (0x1E34, "K"),
  (0x1E35, "k"),
  (0x1E36, "L"),
  (0x1E37, "l"),
  (0x1E38, "L"),
  (0x1E39, "l"),
  (0x1E3A, "L"),
  (0x1E3B, "l"),
  (0x1E3C, "L"),
  (0x1E3D, "l"),
  (0x1E3E, "M"),
  (0x1E3F, "m"),
  (0x1E40, "M"),
  (0x1E41, "m"),
  (0x1E42, "M"),
  (0x1E43, "m"),
  (0x1E44, "N"),
  (0x1E45, "n"),
  (0x1E46, "N"),
  (0x1E47, "n"),
  (0x1E48, "N"),
  (0x1E49, "n"),
  (0x1E4A, "N"),
  (0x1E4B, "n"),
  (0x1E4C, "O"),
  (0x1E4D, "o"),
  (0x1E4E, "O"),
  (0x1E4F, "o"),
  (0x1E50, "O"),
  (0x1E51, "o"),
  (0x1E52, "O"),
  (0x1E53, "o"),
  (0x1E54, "P"),
  (0x1E55, "p"),
  (0x1E56, "P"),
  (0x1E57, "p"),
  (0x1E58, "R"),
  (0x1E59, "r"),
  (0x1E5A, "R"),
  (0x1E5B, "r"),
  (0x1E5C, "R"),
  (0x1E5D, "r"),
  (0x1E5E, "R"),
  (0x1E5F, "r"),
  (0x1E60, "S"),
  (0x1E61, "s"),
  (0x1E62, "S"),
  (0x1E63, "s"),
  (0x1E64, "S"),
  (0x1E65, "s"),
  (0x1E66, "S"),
  (0x1E67, "s"),
  (0x1E68, "S"),
  (0x1E69, "s")
]

def asciiRunes_45 : List (Nat × String) := [
  (0x1E6A, "T"),
  (0x1E6B, "t"),
  (0x1E6C, "T"),
  (0x1E6D, "t"),
  (0x1E6E, "T"),
  (0x1E6F, "t"),
  (0x1E70, "T"),
  (0x1E71, "t"),
  (0x1E72, "U"),
  (0x1E73, "u"),
  (0x1E74, "U"),
  (0x1E75, "u"),
  (0x1E76, "U"),
  (0x1E77, "u"),
  (0x1E78, "U"),
  (0x1E79, "u"),
  (0x1E7A, "U"),
  (0x1E7B, "u"),
  (0x1E7C, "V"),
  (0x1E7D, "v"),
  (0x1E7E, "V"),
  (0x1E7F, "v"),
  (0x1E80, "W"),
  (0x1E81, "w"),
  (0x1E82, "W"),
  (0x1E83, "w"),
  (0x1E84, "W"),
  (0x1E85, "w"),
  (0x1E86, "W"),
  (0x1E87, "w"),
  (0x1E88, "W"),
  (0x1E89, "w"),
  (0x1E8A, "X"),
  (0x1E8B, "x"),
  (0x1E8C, "X"),
  (0x1E8D, "x"),
  (0x1E8E, "Y"),
  (0x1E8F, "y"),
  (0x1E90, "Z"),
  (0x1E91, "z"),
  (0x1E92, "Z"),
  (0x1E93, "z"),
  (0x1E94, "Z"),
  (0x1E95, "z"),
  (0x1E96, "h"),
  (0x1E97, "t"),
  (0x1E98, "w"),
  (0x1E99, "y"),
  (0x1E9A, "a"),
  (0x1E9B, "S"),
  (0x1E9E, "SS"),
  (0x1EA0, "A"),
  (0x1EA1, "a"),
  (0x1EA2, "A"),
  (0x1EA3, "a"),
  (0x1EA4, "A"),
  (0x1EA5, "a"),
  (0x1EA6, "A"),
  (0x1EA7, "a"),
  (0x1EA8, "A"),
  (0x1EA9, "a"),
  (0x1EAA, "A"),
  (0x1EAB, "a"),
  (0x1EAC, "A"),
  (0x1EAD, "a"),
  (0x1EAE, "A"),
  (0x1EAF, "a"),
  (0x1EB0, "A"),
  (0x1EB1, "a"),
  (0x1EB2, "A"),
  (0x1EB3, "a"),
  (0x1EB4, "A"),
  (0x1EB5, "a"),
  (0x1EB6, "A"),
  (0x1EB7, "a"),
  (0x1EB8, "E"),
  (0x1EB9, "e"),
  (0x1EBA, "E"),
  (0x1EBB, "e"),
  (0x1EBC, "E"),
  (0x1EBD, "e"),
  (0x1EBE, "E"),
  (0x1EBF, "e"),
  (0x1EC0, "E"),
  (0x1EC1, "e"),
  (0x1EC2, "E"),
  (0x1EC3, "e"),
  (0x1EC4, "E"),
  (0x1EC5, "e"),
  (0x1EC6, "E"),
  (0x1EC7, "e"),
  (0x1EC8, "I"),
  (0x1EC9, "i"),
  (0x1ECA, "I"),
  (0x1ECB, "i"),
  (0x1ECC, "O"),
  (0x1ECD, "o"),
  (0x1ECE, "O"),
  (0x1ECF, "o"),
  (0x1ED0, "O")
]

def asciiRunes_46 : List (Nat × String) := [
  (0x1ED1, "o"),
  (0x1ED2, "O"),
  (0x1ED3, "o"),
  (0x1ED4, "O"),
  (0x1ED5, "o"),
  (0x1ED6, "O"),
  (0x1ED7, "o"),
  (0x1ED8, "O"),
  (0x1ED9, "o"),
  (0x1EDA, "O"),
  (0x1EDB, "o"),
  (0x1EDC, "O"),
  (0x1EDD, "o"),
  (0x1EDE, "O"),
  (0x1EDF, "o"),
  (0x1EE0, "O"),
  (0x1EE1, "o"),
  (0x1EE2, "O"),
  (0x1EE3, "o"),
  (0x1EE4, "U"),
  (0x1EE5, "u"),
  (0x1EE6, "U"),
  (0x1EE7, "u"),
  (0x1EE8, "U"),
  (0x1EE9, "u"),
  (0x1EEA, "U"),
  (0x1EEB, "u"),
  (0x1EEC, "U"),
  (0x1EED, "u"),
  (0x1EEE, "U"),
  (0x1EEF, "u"),
  (0x1EF0, "U"),
  (0x1EF1, "u"),
  (0x1EF2, "Y"),
  (0x1EF3, "y"),
  (0x1EF4, "Y"),
  (0x1EF5, "y"),
  (0x1EF6, "Y"),
  (0x1EF7, "y"),
  (0x1EF8, "Y"),
  (0x1EF9, "y"),
  (0x1F00, "a"),
  (0x1F01, "a"),
  (0x1F02, "a"),
  (0x1F03, "a"),
  (0x1F04, "a"),
  (0x1F05, "a"),
  (0x1F06, "a"),
  (0x1F07, "a"),
  (0x1F08, "A"),
  (0x1F09, "A"),
  (0x1F0A, "A"),
  (0x1F0B, "A"),
  (0x1F0C, "A"),
  (0x1F0D, "A"),
  (0x1F0E, "A"),
  (0x1F0F, "A"),
  (0x1F10, "e"),
  (0x1F11, "e"),
  (0x1F12, "e"),
  (0x1F13, "e"),
  (0x1F14, "e"),
  (0x1F15, "e"),
  (0x1F18, "E"),
  (0x1F19, "E"),
  (0x1F1A, "E"),
  (0x1F1B, "E"),
  (0x1F1C, "E"),
  (0x1F1D, "E"),
  (0x1F20, "e"),
  (0x1F21, "e"),
  (0x1F22, "e"),
  (0x1F23, "e"),
  (0x1F24, "e"),
  (0x1F25, "e"),
  (0x1F26, "e"),
  (0x1F27, "e"),
  (0x1F28, "E"),
  (0x1F29, "E"),
  (0x1F2A, "E"),
  (0x1F2B, "E"),
  (0x1F2C, "E"),
  (0x1F2D, "E"),
  (0x1F2E, "E"),
  (0x1F2F, "E"),
  (0x1F30, "i"),
  (0x1F31, "i"),
  (0x1F32, "i"),
  (0x1F33, "i"),
  (0x1F34, "i"),
  (0x1F35, "i"),
  (0x1F36, "i"),
  (0x1F37, "i"),
  (0x1F38, "I"),
  (0x1F39, "I"),
  (0x1F3A, "I"),
  (0x1F3B, "I"),
  (0x1F3C, "I"),
  (0x1F3D, "I"),
  (0x1F3E, "I")
]

def asciiRunes_47 : List (Nat × String) := [
  (0x1F3F, "I"),
  (0x1F40, "o"),
  (0x1F41, "o"),
  (0x1F42, "o"),
  (0x1F43, "o"),
  (0x1F44, "o"),
  (0x1F45, "o"),
  (0x1F48, "O"),
  (0x1F49, "O"),
  (0x1F4A, "O"),
  (0x1F4B, "O"),
  (0x1F4C, "O"),
  (0x1F4D, "O"),
  (0x1F50, "u"),
  (0x1F51, "u"),
  (0x1F52, "u"),
  (0x1F53, "u"),
  (0x1F54, "u"),
  (0x1F55, "u"),
  (0x1F56, "u"),
  (0x1F57, "u"),
  (0x1F59, "U"),
  (0x1F5B, "U"),
  (0x1F5D, "U"),
  (0x1F5F, "U"),
  (0x1F60, "o"),
  (0x1F61, "o"),
  (0x1F62, "o"),
  (0x1F63, "o"),
  (0x1F64, "o"),
  (0x1F65, "o"),
  (0x1F66, "o"),
  (0x1F67, "o"),
  (0x1F68, "O"),
  (0x1F69, "O"),
  (0x1F6A, "O"),
  (0x1F6B, "O"),
  (0x1F6C, "O"),
  (0x1F6D, "O"),
  (0x1F6E, "O"),
  (0x1F6F, "O"),
  (0x1F70, "a"),
  (0x1F71, "a"),
  (0x1F72, "e"),
  (0x1F73, "e"),
  (0x1F74, "e"),
  (0x1F75, "e"),
  (0x1F76, "i"),
  (0x1F77, "i"),
  (0x1F78, "o"),
  (0x1F79, "o"),
  (0x1F7A, "u"),
  (0x1F7B, "u"),
  (0x1F7C, "o"),
  (0x1F7D, "o"),
  (0x1F80, "a"),
  (0x1F81, "a"),
  (0x1F82, "a"),
  (0x1F83, "a"),
  (0x1F84, "a"),
  (0x1F85, "a"),
  (0x1F86, "a"),
  (0x1F87, "a"),
  (0x1F88, "A"),
  (0x1F89, "A"),
  (0x1F8A, "A"),
  (0x1F8B, "A"),
  (0x1F8C, "A"),
  (0x1F8D, "A"),
  (0x1F8E, "A"),
  (0x1F8F, "A"),
  (0x1F90, "e"),
  (0x1F91, "e"),
  (0x1F92, "e"),
  (0x1F93, "e"),
  (0x1F94, "e"),
  (0x1F95, "e"),
  (0x1F96, "e"),
  (0x1F97, "e"),
  (0x1F98, "E"),
  (0x1F99, "E"),
  (0x1F9A, "E"),
  (0x1F9B, "E"),
  (0x1F9C, "E"),
  (0x1F9D, "E"),
  (0x1F9E, "E"),
  (0x1F9F, "E"),
  (0x1FA0, "o"),
  (0x1FA1, "o"),
  (0x1FA2, "o"),
  (0x1FA3, "o"),
  (0x1FA4, "o"),
  (0x1FA5, "o"),
  (0x1FA6, "o"),
  (0x1FA7, "o"),
  (0x1FA8, "O"),
  (0x1FA9, "O"),
  (0x1FAA, "O"),
  (0x1FAB, "O"),
  (0x1FAC, "O")
]

def asciiRunes_48 : List (Nat × String) := [
  (0x1FAD, "O"),
  (0x1FAE, "O"),
  (0x1FAF, "O"),
  (0x1FB0, "a"),
  (0x1FB1, "a"),
  (0x1FB2, "a"),
  (0x1FB3, "a"),
  (0x1FB4, "a"),
  (0x1FB6, "a"),
  (0x1FB7, "a"),
  (0x1FB8, "A"),
  (0x1FB9, "A"),
  (0x1FBA, "A"),
  (0x1FBB, "A"),
  (0x1FBC, "A"),
  (0x1FBD, "'"),
  (0x1FBE, "i"),
  (0x1FBF, "'"),
  (0x1FC0, "~"),
  (0x1FC1, "\"~"),
  (0x1FC2, "e"),
  (0x1FC3, "e"),
  (0x1FC4, "e"),
  (0x1FC6, "e"),
  (0x1FC7, "e"),
  (0x1FC8, "E"),
  (0x1FC9, "E"),
  (0x1FCA, "E"),
  (0x1FCB, "E"),
  (0x1FCC, "E"),
  (0x1FCD, "'`"),
  (0x1FCE, "''"),
  (0x1FCF, "'~"),
  (0x1FD0, "i"),
  (0x1FD1, "i"),
  (0x1FD2, "i"),
  (0x1FD3, "i"),
  (0x1FD6, "i"),
  (0x1FD7, "i"),
  (0x1FD8, "I"),
  (0x1FD9, "I"),
  (0x1FDA, "I"),
  (0x1FDB, "I"),
  (0x1FDD, "`'"),
  (0x1FDE, "`'"),
  (0x1FDF, "`~"),
  (0x1FE0, "u"),
  (0x1FE1, "u"),
  (0x1FE2, "u"),
  (0x1FE3, "u"),
  (0x1FE4, "R"),
  (0x1FE5, "R"),
  (0x1FE6, "u"),
  (0x1FE7, "u"),
  (0x1FE8, "U"),
  (0x1FE9, "U"),
  (0x1FEA, "U"),
  (0x1FEB, "U"),
  (0x1FEC, "R"),
  (0x1FED, "\"`"),
  (0x1FEE, "\"'"),
  (0x1FEF, "`"),
  (0x1FF2, "o"),
  (0x1FF3, "o"),
  (0x1FF4, "o"),
  (0x1FF6, "o"),
  (0x1FF7, "o"),
  (0x1FF8, "O"),
  (0x1FF9, "O"),
  (0x1FFA, "O"),
  (0x1FFB, "O"),
  (0x1FFC, "O"),
  (0x1FFD, "'"),
  (0x1FFE, "`"),
  (0x2010, "-"),
  (0x2011, "-"),
  (0x2012, "-"),
  (0x2013, "-"),
  (0x2014, "--"),
  (0x2015, "--"),
  (0x2016, "||"),
  (0x2017, "_"),
  (0x2018, "'"),
  (0x2019, "'"),
  (0x201A, ","),
  (0x201B, "'"),
  (0x201C, "\""),
  (0x201D, "\""),
  (0x201E, "\""),
  (0x201F, "\""),
  (0x2020, "+"),
  (0x2021, "++"),
  (0x2022, "*"),
  (0x2023, "*>"),
  (0x2024, "."),
  (0x2025, ".."),
  (0x2026, "..."),
  (0x2027, "."),
  (0x2030, "%0"),
  (0x2031, "%00")
]

def asciiRunes_49 : List (Nat × String) := [
  (0x2032, "'"),
  (0x2033, "''"),
  (0x2034, "'''"),
  (0x2035, "`"),
  (0x2036, "``"),
  (0x2037, "```"),
  (0x2038, "^"),
  (0x203B, "*"),
  (0x203C, "!!"),
  (0x203D, "!?"),
  (0x203E, "-"),
  (0x203F, "_"),
  (0x2040, "-"),
  (0x2041, "^"),
  (0x2042, "***"),
  (0x2043, "--"),
  (0x2045, "-["),
  (0x2046, "]-"),
  (0x2047, "??"),
  (0x2048, "?!"),
  (0x2049, "!?"),
  (0x204A, "7"),
  (0x204B, "PP"),
  (0x204C, "(]"),
  (0x204D, "[)"),
  (0x204E, "*"),
  (0x2052, "%"),
  (0x2053, "~"),
  (0x206F, "0"),
  (0x2070, "(0)"),
  (0x2071, "(i)"),
  (0x2074, "(4)"),
  (0x2075, "(5)"),
  (0x2076, "(6)"),
  (0x2077, "(7)"),
  (0x2078, "(8)"),
  (0x2079, "(9)"),
  (0x207A, "(+)"),
  (0x207B, "(-)"),
  (0x207C, "(=)"),
  (0x207D, "(()"),
  (0x207E, "())"),
  (0x207F, "(n)"),
  (0x2080, "(0)"),
  (0x2081, "(1)"),
  (0x2082, "(2)"),
  (0x2083, "(3)"),
  (0x2084, "(4)"),
  (0x2085, "(5)"),
  (0x2086, "(6)"),
  (0x2087, "(7)"),
  (0x2088, "(8)"),
  (0x2089, "(9)"),
  (0x208A, "(+)"),
  (0x208B, "(-)"),
  (0x208C, "(=)"),
  (0x208D, "(()"),
  (0x208E, "())"),
  (0x2090, "(a)"),
  (0x2091, "(e)"),
  (0x2092, "(o)"),
  (0x2093, "(x)"),
  (0x2095, "(h)"),
  (0x2096, "(k)"),
  (0x2097, "(l)"),
  (0x2098, "(m)"),
  (0x2099, "(n)"),
  (0x209A, "(p)"),
  (0x209B, "(s)"),
  (0x209C, "(t)"),
  (0x3041, "a"),
  (0x3042, "a"),
  (0x3043, "i"),
  (0x3044, "i"),
  (0x3045, "u"),
  (0x3046, "u"),
  (0x3047, "e"),
  (0x3048, "e"),
  (0x3049, "o"),
  (0x304A, "o"),
  (0x304B, "ka"),
  (0x304C, "ga"),
  (0x304D, "ki"),
  (0x304E, "gi"),
  (0x304F, "ku"),
  (0x3050, "gu"),
  (0x3051, "ke"),
  (0x3052, "ge"),
  (0x3053, "ko"),
  (0x3054, "go"),
  (0x3055, "sa"),
  (0x3056, "za"),
  (0x3057, "shi"),
  (0x3058, "zi"),
  (0x3059, "su"),
  (0x305A, "zu"),
  (0x305B, "se"),
  (0x305C, "ze"),
  (0x305D, "so"),
  (0x305E, "zo")
]

def asciiRunes_50 : List (Nat × String) := [
  (0x305F, "ta"),
  (0x3060, "da"),
  (0x3061, "chi"),
  (0x3062, "di"),
  (0x3063, "tsu"),
  (0x3064, "tsu"),
  (0x3065, "du"),
  (0x3066, "te"),
  (0x3067, "de"),
  (0x3068, "to"),
  (0x3069, "do"),
  (0x306A, "na"),
  (0x306B, "ni"),
  (0x306C, "nu"),
  (0x306D, "ne"),
  (0x306E, "no"),
  (0x306F, "ha"),
  (0x3070, "ba"),
  (0x3071, "pa"),
  (0x3072, "hi"),
  (0x3073, "bi"),
  (0x3074, "pi"),
  (0x3075, "hu"),
  (0x3076, "bu"),
  (0x3077, "pu"),
  (0x3078, "he"),
  (0x3079, "be"),
  (0x307A, "pe"),
  (0x307B, "ho"),
  (0x307C, "bo"),
  (0x307D, "po"),
  (0x307E, "ma"),
  (0x307F, "mi"),
  (0x3080, "mu"),
  (0x3081, "me"),
  (0x3082, "mo"),
  (0x3083, "ya"),
  (0x3084, "ya"),
  (0x3085, "yu"),
  (0x3086, "yu"),
  (0x3087, "yo"),
  (0x3088, "yo"),
  (0x3089, "ra"),
  (0x308A, "ri"),
  (0x308B, "ru"),
  (0x308C, "re"),
  (0x308D, "ro"),
  (0x308E, "wa"),
  (0x308F, "wa"),
  (0x3090, "wi"),
  (0x3091, "we"),
  (0x3092, "wo"),
  (0x3093, "n"),
  (0x3094, "vu"),
  (0x309D, "\""),
  (0x309E, "\""),
  (0x30A1, "a"),
  (0x30A2, "a"),
  (0x30A3, "i"),
  (0x30A4, "i"),
  (0x30A5, "u"),
  (0x30A6, "u"),
  (0x30A7, "e"),
  (0x30A8, "e"),
  (0x30A9, "o"),
  (0x30AA, "o"),
  (0x30AB, "ka"),
  (0x30AC, "ga"),
  (0x30AD, "ki"),
  (0x30AE, "gi"),
  (0x30AF, "ku"),
  (0x30B0, "gu"),
  (0x30B1, "ke"),
  (0x30B2, "ge"),
  (0x30B3, "ko"),
  (0x30B4, "go"),
  (0x30B5, "sa"),
  (0x30B6, "za"),
  (0x30B7, "shi"),
  (0x30B8, "zi"),
  (0x30B9, "su"),
  (0x30BA, "zu"),
  (0x30BB, "se"),
  (0x30BC, "ze"),
  (0x30BD, "so"),
  (0x30BE, "zo"),
  (0x30BF, "ta"),
  (0x30C0, "da"),
  (0x30C1, "chi"),
  (0x30C2, "di"),
  (0x30C3, "tsu"),
  (0x30C4, "tsu"),
  (0x30C5, "du"),
  (0x30C6, "te"),
  (0x30C7, "de"),
  (0x30C8, "to"),
  (0x30C9, "do"),
  (0x30CA, "na"),
  (0x30CB, "ni"),
  (0x30CC, "nu")
]

def asciiRunes_51 : List (Nat × String) := [
  (0x30CD, "ne"),
  (0x30CE, "no"),
  (0x30CF, "ha"),
  (0x30D0, "ba"),
  (0x30D1, "pa"),
  (0x30D2, "hi"),
  (0x30D3, "bi"),
  (0x30D4, "pi"),
  (0x30D5, "hu"),
  (0x30D6, "bu"),
  (0x30D7, "pu"),
  (0x30D8, "he"),
  (0x30D9, "be"),
  (0x30DA, "pe"),
  (0x30DB, "ho"),
  (0x30DC, "bo"),
  (0x30DD, "po"),
  (0x30DE, "ma"),
  (0x30DF, "mi"),
  (0x30E0, "mu"),
  (0x30E1, "me"),
  (0x30E2, "mo"),
  (0x30E3, "ya"),
  (0x30E4, "ya"),
  (0x30E5, "yu"),
  (0x30E6, "yu"),
  (0x30E7, "yo"),
  (0x30E8, "yo"),
  (0x30E9, "ra"),
  (0x30EA, "ri"),
  (0x30EB, "ru"),
  (0x30EC, "re"),
  (0x30ED, "ro"),
  (0x30EE, "wa"),
  (0x30EF, "wa"),
  (0x30F0, "wi"),
  (0x30F1, "we"),
  (0x30F2, "wo"),
  (0x30F3, "n"),
  (0x30F4, "vu"),
  (0x30F5, "ka"),
  (0x30F6, "ke"),
  (0x30F7, "va"),
  (0x30F8, "vi"),
  (0x30F9, "ve"),
  (0x30FA, "vo"),
  (0x30FD, "\\"),
  (0x30FE, "\\"),
  (0x3105, "B"),
  (0x3106, "P"),
  (0x3107, "M"),
  (0x3108, "F"),
  (0x3109, "D"),
  (0x310A, "T"),
  (0x310B, "N"),
  (0x310C, "L"),
  (0x310D, "G"),
  (0x310E, "K"),
  (0x310F, "H"),
  (0x3110, "J"),
  (0x3111, "Q"),
  (0x3112, "X"),
  (0x3113, "ZH"),
  (0x3114, "CH"),
  (0x3115, "SH"),
  (0x3116, "R"),
  (0x3117, "Z"),
  (0x3118, "C"),
  (0x3119, "S"),
  (0x311A, "A"),
  (0x311B, "O"),
  (0x311C, "E"),
  (0x311D, "EH"),
  (0x311E, "AI"),
  (0x311F, "EI"),
  (0x3120, "AU"),
  (0x3121, "OU"),
  (0x3122, "AN"),
  (0x3123, "EN"),
  (0x3124, "ANG"),
  (0x3125, "ENG"),
  (0x3126, "ER"),
  (0x3127, "I"),
  (0x3128, "U"),
  (0x3129, "IU"),
  (0x312A, "V"),
  (0x312B, "NG"),
  (0x312C, "GN"),
  (0x3131, "g"),
  (0x3132, "gg"),
  (0x3133, "gs"),
  (0x3134, "n"),
  (0x3135, "nj"),
  (0x3136, "nh"),
  (0x3137, "d"),
  (0x3138, "dd"),
  (0x3139, "r"),
  (0x313A, "lg"),
  (0x313B, "lm"),
  (0x313C, "lb")
]

def asciiRunes_52 : List (Nat × String) := [
  (0x313D, "ls"),
  (0x313E, "lt"),
  (0x313F, "lp"),
  (0x3140, "rh"),
  (0x3141, "m"),
  (0x3142, "b"),
  (0x3143, "bb"),
  (0x3144, "bs"),
  (0x3145, "s"),
  (0x3146, "ss"),
  (0x3147, "o"),
  (0x3148, "j"),
  (0x3149, "jj"),
  (0x314A, "c"),
  (0x314B, "k"),
  (0x314C, "t"),
  (0x314D, "p"),
  (0x314E, "h"),
  (0x314F, "a"),
  (0x3150, "ae"),
  (0x3151, "ya"),
  (0x3152, "yae"),
  (0x3153, "eo"),
  (0x3154, "e"),
  (0x3155, "yeo"),
  (0x3156, "ye"),
  (0x3157, "o"),
  (0x3158, "wa"),
  (0x3159, "wae"),
  (0x315A, "oe"),
  (0x315B, "yo"),
  (0x315C, "u"),
  (0x315D, "weo"),
  (0x315E, "we"),
  (0x315F, "wi"),
  (0x3160, "yu"),
  (0x3161, "eu"),
  (0x3162, "yi"),
  (0x3163, "i"),
  (0x3165, "nn"),
  (0x3166, "nd"),
  (0x3167, "ns"),
  (0x3168, "nZ"),
  (0x3169, "lgs"),
  (0x316A, "ld"),
  (0x316B, "lbs"),
  (0x316C, "lZ"),
  (0x316D, "lQ"),
  (0x316E, "mb"),
  (0x316F, "ms"),
  (0x3170, "mZ"),
  (0x3171, "mN"),
  (0x3172, "bg"),
  (0x3174, "bsg"),
  (0x3175, "bst"),
  (0x3176, "bj"),
  (0x3177, "bt"),
  (0x3178, "bN"),
  (0x3179, "bbN"),
  (0x317A, "sg"),
  (0x317B, "sn"),
  (0x317C, "sd"),
  (0x317D, "sb"),
  (0x317E, "sj"),
  (0x317F, "Z"),
  (0x3181, "N"),
  (0x3182, "Ns"),
  (0x3183, "NZ"),
  (0x3184, "pN"),
  (0x3185, "hh"),
  (0x3186, "Q"),
  (0x3187, "yo-ya"),
  (0x3188, "yo-yae"),
  (0x3189, "yo-i"),
  (0x318A, "yu-yeo"),
  (0x318B, "yu-ye"),
  (0x318C, "yu-i"),
  (0x318D, "U"),
  (0x318E, "U-i"),
  (0x31A0, "BU"),
  (0x31A1, "ZI"),
  (0x31A2, "JI"),
  (0x31A3, "GU"),
  (0x31A4, "EE"),
  (0x31A5, "ENN"),
  (0x31A6, "OO"),
  (0x31A7, "ONN"),
  (0x31A8, "IR"),
  (0x31A9, "ANN"),
  (0x31AA, "INN"),
  (0x31AB, "UNN"),
  (0x31AC, "IM"),
  (0x31AD, "NGG"),
  (0x31AE, "AINN"),
  (0x31AF, "AUNN"),
  (0x31B0, "AM"),
  (0x31B1, "OM"),
  (0x31B2, "ONG"),
  (0x31B3, "INNN"),
  (0x31B4, "P")
]

def asciiRunes_53 : List (Nat × String) := [
  (0x31B5, "T"),
  (0x31B6, "K"),
  (0x31B7, "H"),
  (0x3200, "(g)"),
  (0x3201, "(n)"),
  (0x3202, "(d)"),
  (0x3203, "(r)"),
  (0x3204, "(m)"),
  (0x3205, "(b)"),
  (0x3206, "(s)"),
  (0x3207, "()"),
  (0x3208, "(j)"),
  (0x3209, "(c)"),
  (0x320A, "(k)"),
  (0x320B, "(t)"),
  (0x320C, "(p)"),
  (0x320D, "(h)"),
  (0x320E, "(ga)"),
  (0x320F, "(na)"),
  (0x3210, "(da)"),
  (0x3211, "(ra)"),
  (0x3212, "(ma)"),
  (0x3213, "(ba)"),
  (0x3214, "(sa)"),
  (0x3215, "(a)"),
  (0x3216, "(ja)"),
  (0x3217, "(ca)"),
  (0x3218, "(ka)"),
  (0x3219, "(ta)"),
  (0x321A, "(pa)"),
  (0x321B, "(ha)"),
  (0x321C, "(ju)"),
  (0x3220, "(1) "),
  (0x3221, "(2) "),
  (0x3222, "(3) "),
  (0x3223, "(4) "),
  (0x3224, "(5) "),
  (0x3225, "(6) "),
  (0x3226, "(7) "),
  (0x3227, "(8) "),
  (0x3228, "(9) "),
  (0x3229, "(10) "),
  (0x322A, "(Yue) "),
  (0x322B, "(Huo) "),
  (0x322C, "(Shui) "),
  (0x322D, "(Mu) "),
  (0x322E, "(Jin) "),
  (0x322F, "(Tu) "),
  (0x3230, "(Ri) "),
  (0x3231, "(Zhu) "),
  (0x3232, "(You) "),
  (0x3233, "(She) "),
  (0x3234, "(Ming) "),
  (0x3235, "(Te) "),
  (0x3236, "(Cai) "),
  (0x3237, "(Zhu) "),
  (0x3238, "(Lao) "),
  (0x3239, "(Dai) "),
  (0x323A, "(Hu) "),
  (0x323B, "(Xue) "),
  (0x323C, "(Jian) "),
  (0x323D, "(Qi) "),
  (0x323E, "(Zi) "),
  (0x323F, "(Xie) "),
  (0x3240, "(Ji) "),
  (0x3241, "(Xiu) "),
  (0x3242, "<<"),
  (0x3243, ">>"),
  (0x3251, "21"),
  (0x3252, "22"),
  (0x3253, "23"),
  (0x3254, "24"),
  (0x3255, "25"),
  (0x3256, "26"),
  (0x3257, "27"),
  (0x3258, "28"),
  (0x3259, "29"),
  (0x325A, "30"),
  (0x325B, "31"),
  (0x325C, "32"),
  (0x325D, "33"),
  (0x325E, "34"),
  (0x325F, "35"),
  (0x3260, "(g)"),
  (0x3261, "(n)"),
  (0x3262, "(d)"),
  (0x3263, "(r)"),
  (0x3264, "(m)"),
  (0x3265, "(b)"),
  (0x3266, "(s)"),
  (0x3267, "()"),
  (0x3268, "(j)"),
  (0x3269, "(c)"),
  (0x326A, "(k)"),
  (0x326B, "(t)"),
  (0x326C, "(p)"),
  (0x326D, "(h)"),
  (0x326E, "(ga)"),
  (0x326F, "(na)"),
  (0x3270, "(da)")
]

def asciiRunes_54 : List (Nat × String) := [
  (0x3271, "(ra)"),
  (0x3272, "(ma)"),
  (0x3273, "(ba)"),
  (0x3274, "(sa)"),
  (0x3275, "(a)"),
  (0x3276, "(ja)"),
  (0x3277, "(ca)"),
  (0x3278, "(ka)"),
  (0x3279, "(ta)"),
  (0x327A, "(pa)"),
  (0x327B, "(ha)"),
  (0x327F, "KIS "),
  (0x3280, "(1) "),
  (0x3281, "(2) "),
  (0x3282, "(3) "),
  (0x3283, "(4) "),
  (0x3284, "(5) "),
  (0x3285, "(6) "),
  (0x3286, "(7) "),
  (0x3287, "(8) "),
  (0x3288, "(9) "),
  (0x3289, "(10) "),
  (0x328A, "(Yue) "),
  (0x328B, "(Huo) "),
  (0x328C, "(Shui) "),
  (0x328D, "(Mu) "),
  (0x328E, "(Jin) "),
  (0x328F, "(Tu) "),
  (0x3290, "(Ri) "),
  (0x3291, "(Zhu) "),
  (0x3292, "(You) "),
  (0x3293, "(She) "),
  (0x3294, "(Ming) "),
  (0x3295, "(Te) "),
  (0x3296, "(Cai) "),
  (0x3297, "(Zhu) "),
  (0x3298, "(Lao) "),
  (0x3299, "(Mi) "),
  (0x329A, "(Nan) "),
  (0x329B, "(Nu) "),
  (0x329C, "(Shi) "),
  (0x329D, "(You) "),
  (0x329E, "(Yin) "),
  (0x329F, "(Zhu) "),
  (0x32A0, "(Xiang) "),
  (0x32A1, "(Xiu) "),
  (0x32A2, "(Xie) "),
  (0x32A3, "(Zheng) "),
  (0x32A4, "(Shang) "),
  (0x32A5, "(Zhong) "),
  (0x32A6, "(Xia) "),
  (0x32A7, "(Zuo) "),
  (0x32A8, "(You) "),
  (0x32A9, "(Yi) "),
  (0x32AA, "(Zong) "),
  (0x32AB, "(Xue) "),
  (0x32AC, "(Jian) "),
  (0x32AD, "(Qi) "),
  (0x32AE, "(Zi) "),
  (0x32AF, "(Xie) "),
  (0x32B0, "(Ye) "),
  (0x32B1, "36"),
  (0x32B2, "37"),
  (0x32B3, "38"),
  (0x32B4, "39"),
  (0x32B5, "40"),
  (0x32B6, "41"),
  (0x32B7, "42"),
  (0x32B8, "43"),
  (0x32B9, "44"),
  (0x32BA, "45"),
  (0x32BB, "46"),
  (0x32BC, "47"),
  (0x32BD, "48"),
  (0x32BE, "49"),
  (0x32BF, "50"),
  (0x32C0, "1M"),
  (0x32C1, "2M"),
  (0x32C2, "3M"),
  (0x32C3, "4M"),
  (0x32C4, "5M"),
  (0x32C5, "6M"),
  (0x32C6, "7M"),
  (0x32C7, "8M"),
  (0x32C8, "9M"),
  (0x32C9, "10M"),
  (0x32CA, "11M"),
  (0x32CB, "12M"),
  (0x32D0, "a"),
  (0x32D1, "i"),
  (0x32D2, "u"),
  (0x32D3, "u"),
  (0x32D4, "o"),
  (0x32D5, "ka"),
  (0x32D6, "ki"),
  (0x32D7, "ku"),
  (0x32D8, "ke"),
  (0x32D9, "ko"),
  (0x32DA, "sa"),
  (0x32DB, "si")
]

def asciiRunes_55 : List (Nat × String) := [
  (0x32DC, "su"),
  (0x32DD, "se"),
  (0x32DE, "so"),
  (0x32DF, "ta"),
  (0x32E0, "ti"),
  (0x32E1, "tu"),
  (0x32E2, "te"),
  (0x32E3, "to"),
  (0x32E4, "na"),
  (0x32E5, "ni"),
  (0x32E6, "nu"),
  (0x32E7, "ne"),
  (0x32E8, "no"),
  (0x32E9, "ha"),
  (0x32EA, "hi"),
  (0x32EB, "hu"),
  (0x32EC, "he"),
  (0x32ED, "ho"),
  (0x32EE, "ma"),
  (0x32EF, "mi"),
  (0x32F0, "mu"),
  (0x32F1, "me"),
  (0x32F2, "mo"),
  (0x32F3, "ya"),
  (0x32F4, "yu"),
  (0x32F5, "yo"),
  (0x32F6, "ra"),
  (0x32F7, "ri"),
  (0x32F8, "ru"),
  (0x32F9, "re"),
  (0x32FA, "ro"),
  (0x32FB, "wa"),
  (0x32FC, "wi"),
  (0x32FD, "we"),
  (0x32FE, "wo"),
  (0x3300, "apartment"),
  (0x3301, "alpha"),
  (0x3302, "ampere"),
  (0x3303, "are"),
  (0x3304, "inning"),
  (0x3305, "inch"),
  (0x3306, "won"),
  (0x3307, "escudo"),
  (0x3308, "acre"),
  (0x3309, "ounce"),
  (0x330A, "ohm"),
  (0x330B, "kai-ri"),
  (0x330C, "carat"),
  (0x330D, "calorie"),
  (0x330E, "gallon"),
  (0x330F, "gamma"),
  (0x3310, "giga"),
  (0x3311, "guinea"),
  (0x3312, "curie"),
  (0x3313, "guilder"),
  (0x3314, "kilo"),
  (0x3315, "kilogram"),
  (0x3316, "kilometer"),
  (0x3317, "kilowatt"),
  (0x3318, "gram"),
  (0x3319, "gram ton"),
  (0x331A, "cruzeiro"),
  (0x331B, "krone"),
  (0x331C, "case"),
  (0x331D, "koruna"),
  (0x331E, "co-op"),
  (0x331F, "cycle"),
  (0x3320, "centime"),
  (0x3321, "shilling"),
  (0x3322, "centi"),
  (0x3323, "cent"),
  (0x3324, "dozen"),
  (0x3325, "desi"),
  (0x3326, "dollar"),
  (0x3327, "ton"),
  (0x3328, "nano"),
  (0x3329, "knot"),
  (0x332A, "heights"),
  (0x332B, "percent"),
  (0x332C, "parts"),
  (0x332D, "barrel"),
  (0x332E, "piaster"),
  (0x332F, "picul"),
  (0x3330, "pico"),
  (0x3331, "building"),
  (0x3332, "farad"),
  (0x3333, "feet"),
  (0x3334, "bushel"),
  (0x3335, "franc"),
  (0x3336, "hectare"),
  (0x3337, "peso"),
  (0x3338, "pfennig"),
  (0x3339, "hertz"),
  (0x333A, "pence"),
  (0x333B, "page"),
  (0x333C, "beta"),
  (0x333D, "point"),
  (0x333E, "volt"),
  (0x333F, "hon"),
  (0x3340, "pound")
]

def asciiRunes_56 : List (Nat × String) := [
  (0x3341, "hall"),
  (0x3342, "horn"),
  (0x3343, "micro"),
  (0x3344, "mile"),
  (0x3345, "mach"),
  (0x3346, "mark"),
  (0x3347, "mansion"),
  (0x3348, "micron"),
  (0x3349, "milli"),
  (0x334A, "millibar"),
  (0x334B, "mega"),
  (0x334C, "megaton"),
  (0x334D, "meter"),
  (0x334E, "yard"),
  (0x334F, "yard"),
  (0x3350, "yuan"),
  (0x3351, "liter"),
  (0x3352, "lira"),
  (0x3353, "rupee"),
  (0x3354, "ruble"),
  (0x3355, "rem"),
  (0x3356, "roentgen"),
  (0x3357, "watt"),
  (0x3358, "0h"),
  (0x3359, "1h"),
  (0x335A, "2h"),
  (0x335B, "3h"),
  (0x335C, "4h"),
  (0x335D, "5h"),
  (0x335E, "6h"),
  (0x335F, "7h"),
  (0x3360, "8h"),
  (0x3361, "9h"),
  (0x3362, "10h"),
  (0x3363, "11h"),
  (0x3364, "12h"),
  (0x3365, "13h"),
  (0x3366, "14h"),
  (0x3367, "15h"),
  (0x3368, "16h"),
  (0x3369, "17h"),
  (0x336A, "18h"),
  (0x336B, "19h"),
  (0x336C, "20h"),
  (0x336D, "21h"),
  (0x336E, "22h"),
  (0x336F, "23h"),
  (0x3370, "24h"),
  (0x3371, "HPA"),
  (0x3372, "da"),
  (0x3373, "AU"),
  (0x3374, "bar"),
  (0x3375, "oV"),
  (0x3376, "pc"),
  (0x337B, "Heisei"),
  (0x337C, "Syouwa"),
  (0x337D, "Taisyou"),
  (0x337E, "Meiji"),
  (0x337F, "Inc."),
  (0x3380, "pA"),
  (0x3381, "nA"),
  (0x3382, "microamp"),
  (0x3383, "mA"),
  (0x3384, "kA"),
  (0x3385, "kB"),
  (0x3386, "MB"),
  (0x3387, "GB"),
  (0x3388, "cal"),
  (0x3389, "kcal"),
  (0x338A, "pF"),
  (0x338B, "nF"),
  (0x338C, "microFarad"),
  (0x338D, "microgram"),
  (0x338E, "mg"),
  (0x338F, "kg"),
  (0x3390, "Hz"),
  (0x3391, "kHz"),
  (0x3392, "MHz"),
  (0x3393, "GHz"),
  (0x3394, "THz"),
  (0x3395, "microliter"),
  (0x3396, "ml"),
  (0x3397, "dl"),
  (0x3398, "kl"),
  (0x3399, "fm"),
  (0x339A, "nm"),
  (0x339B, "micrometer"),
  (0x339C, "mm"),
  (0x339D, "cm"),
  (0x339E, "km"),
  (0x339F, "mm^2"),
  (0x33A0, "cm^2"),
  (0x33A1, "m^2"),
  (0x33A2, "km^2"),
  (0x33A3, "mm^4"),
  (0x33A4, "cm^3"),
  (0x33A5, "m^3"),
  (0x33A6, "km^3"),
  (0x33A7, "m/s"),
  (0x33A8, "m/s^2")
]

def asciiRunes_57 : List (Nat × String) := [
  (0x33A9, "Pa"),
  (0x33AA, "kPa"),
  (0x33AB, "MPa"),
  (0x33AC, "GPa"),
  (0x33AD, "rad"),
  (0x33AE, "rad/s"),
  (0x33AF, "rad/s^2"),
  (0x33B0, "ps"),
  (0x33B1, "ns"),
  (0x33B2, "microsecond"),
  (0x33B3, "ms"),
  (0x33B4, "pV"),
  (0x33B5, "nV"),
  (0x33B6, "microvolt"),
  (0x33B7, "mV"),
  (0x33B8, "kV"),
  (0x33B9, "MV"),
  (0x33BA, "pW"),
  (0x33BB, "nW"),
  (0x33BC, "microwatt"),
  (0x33BD, "mW"),
  (0x33BE, "kW"),
  (0x33BF, "MW"),
  (0x33C0, "kOhm"),
  (0x33C1, "MOhm"),
  (0x33C2, "a.m."),
  (0x33C3, "Bq"),
  (0x33C4, "cc"),
  (0x33C5, "cd"),
  (0x33C6, "C/kg"),
  (0x33C7, "Co."),
  (0x33C8, "dB"),
  (0x33C9, "Gy"),
  (0x33CA, "ha"),
  (0x33CB, "HP"),
  (0x33CC, "in"),
  (0x33CD, "K.K."),
  (0x33CE, "KM"),
  (0x33CF, "kt"),
  (0x33D0, "lm"),
  (0x33D1, "ln"),
  (0x33D2, "log"),
  (0x33D3, "lx"),
  (0x33D4, "mb"),
  (0x33D5, "mil"),
  (0x33D6, "mol"),
  (0x33D7, "pH"),
  (0x33D8, "p.m."),
  (0x33D9, "PPM"),
  (0x33DA, "PR"),
  (0x33DB, "sr"),
  (0x33DC, "Sv"),
  (0x33DD, "Wb"),
  (0x33E0, "1d"),
  (0x33E1, "2d"),
  (0x33E2, "3d"),
  (0x33E3, "4d"),
  (0x33E4, "5d"),
  (0x33E5, "6d"),
  (0x33E6, "7d"),
  (0x33E7, "8d"),
  (0x33E8, "9d"),
  (0x33E9, "10d"),
  (0x33EA, "11d"),
  (0x33EB, "12d"),
  (0x33EC, "13d"),
  (0x33ED, "14d"),
  (0x33EE, "15d"),
  (0x33EF, "16d"),
  (0x33F0, "17d"),
  (0x33F1, "18d"),
  (0x33F2, "19d"),
  (0x33F3, "20d"),
  (0x33F4, "21d"),
  (0x33F5, "22d"),
  (0x33F6, "23d"),
  (0x33F7, "24d"),
  (0x33F8, "25d"),
  (0x33F9, "26d"),
  (0x33FA, "27d"),
  (0x33FB, "28d"),
  (0x33FC, "29d"),
  (0x33FD, "30d"),
  (0x33FE, "31d"),
  (0x33FF, "(gal)"),
  (0xFB00, "ff"),
  (0xFB01, "fi"),
  (0xFB02, "fl"),
  (0xFB03, "ffi"),
  (0xFB04, "ffl"),
  (0xFB05, "st"),
  (0xFB06, "st"),
  (0xFB13, "mn"),
  (0xFB14, "me"),
  (0xFB15, "mi"),
  (0xFB16, "vn"),
  (0xFB17, "mkh"),
  (0xFB1D, "yi"),
  (0xFB1F, "ay"),
  (0xFB20, "`")
]

def asciiRunes_58 : List (Nat × String) := [
  (0xFB22, "d"),
  (0xFB23, "h"),
  (0xFB24, "k"),
  (0xFB25, "l"),
  (0xFB26, "m"),
  (0xFB27, "m"),
  (0xFB28, "t"),
  (0xFB29, "+"),
  (0xFB2A, "sh"),
  (0xFB2B, "s"),
  (0xFB2C, "sh"),
  (0xFB2D, "s"),
  (0xFB2E, "a"),
  (0xFB2F, "a"),
  (0xFB31, "b"),
  (0xFB32, "g"),
  (0xFB33, "d"),
  (0xFB34, "h"),
  (0xFB35, "v"),
  (0xFB36, "z"),
  (0xFB38, "t"),
  (0xFB39, "y"),
  (0xFB3A, "k"),
  (0xFB3B, "k"),
  (0xFB3C, "l"),
  (0xFB3E, "l"),
  (0xFB40, "n"),
  (0xFB41, "n"),
  (0xFB43, "p"),
  (0xFB44, "p"),
  (0xFB46, "ts"),
  (0xFB47, "ts"),
  (0xFB48, "r"),
  (0xFB49, "sh"),
  (0xFB4A, "t"),
  (0xFB4B, "vo"),
  (0xFB4C, "b"),
  (0xFB4D, "k"),
  (0xFB4E, "p"),
  (0xFB4F, "l"),
  (0xFE23, "~"),
  (0xFE30, ".."),
  (0xFE31, "--"),
  (0xFE32, "-"),
  (0xFE33, "_"),
  (0xFE34, "_"),
  (0xFE35, "("),
  (0xFE36, ") "),
  (0xFE37, "\x7b"),
  (0xFE38, "\x7d "),
  (0xFE39, "["),
  (0xFE3A, "] "),
  (0xFE3B, "[("),
  (0xFE3C, ")] "),
  (0xFE3D, "<<"),
  (0xFE3E, ">> "),
  (0xFE3F, "<"),
  (0xFE40, "> "),
  (0xFE41, "["),
  (0xFE42, "] "),
  (0xFE43, "\x7b"),
  (0xFE44, "\x7d"),
  (0xFE50, ","),
  (0xFE51, ","),
  (0xFE52, "."),
  (0xFE54, ";"),
  (0xFE55, ":"),
  (0xFE56, "?"),
  (0xFE57, "!"),
  (0xFE58, "-"),
  (0xFE59, "("),
  (0xFE5A, ")"),
  (0xFE5B, "\x7b"),
  (0xFE5C, "\x7d"),
  (0xFE5D, "\x7b"),
  (0xFE5E, "\x7d"),
  (0xFE5F, "#"),
  (0xFE60, "&"),
  (0xFE61, "*"),
  (0xFE62, "+"),
  (0xFE63, "-"),
  (0xFE64, "<"),
  (0xFE65, ">"),
  (0xFE66, "="),
  (0xFE68, "\\"),
  (0xFE69, "$"),
  (0xFE6A, "%"),
  (0xFE6B, "@"),
  (0xFF01, "!"),
  (0xFF02, "\""),
  (0xFF03, "#"),
  (0xFF04, "$"),
  (0xFF05, "%"),
  (0xFF06, "&"),
  (0xFF07, "'"),
  (0xFF08, "("),
  (0xFF09, ")"),
  (0xFF0A, "*"),
  (0xFF0B, "+"),
  (0xFF0C, ",")
]

def asciiRunes_59 : List (Nat × String) := [
  (0xFF0D, "-"),
  (0xFF0E, "."),
  (0xFF0F, "/"),
  (0xFF10, "0"),
  (0xFF11, "1"),
  (0xFF12, "2"),
  (0xFF13, "3"),
  (0xFF14, "4"),
  (0xFF15, "5"),
  (0xFF16, "6"),
  (0xFF17, "7"),
  (0xFF18, "8"),
  (0xFF19, "9"),
  (0xFF1A, ":"),
  (0xFF1B, ";"),
  (0xFF1C, "<"),
  (0xFF1D, "="),
  (0xFF1E, ">"),
  (0xFF1F, "?"),
  (0xFF20, "@"),
  (0xFF21, "A"),
  (0xFF22, "B"),
  (0xFF23, "C"),
  (0xFF24, "D"),
  (0xFF25, "E"),
  (0xFF26, "F"),
  (0xFF27, "G"),
  (0xFF28, "H"),
  (0xFF29, "I"),
  (0xFF2A, "J"),
  (0xFF2B, "K"),
  (0xFF2C, "L"),
  (0xFF2D, "M"),
  (0xFF2E, "N"),
  (0xFF2F, "O"),
  (0xFF30, "P"),
  (0xFF31, "Q"),
  (0xFF32, "R"),
  (0xFF33, "S"),
  (0xFF34, "T"),
  (0xFF35, "U"),
  (0xFF36, "V"),
  (0xFF37, "W"),
  (0xFF38, "X"),
  (0xFF39, "Y"),
  (0xFF3A, "Z"),
  (0xFF3B, "["),
  (0xFF3C, "\\"),
  (0xFF3D, "]"),
  (0xFF3E, "^"),
  (0xFF3F, "_"),
  (0xFF40, "`"),
  (0xFF41, "a"),
  (0xFF42, "b"),
  (0xFF43, "c"),
  (0xFF44, "d"),
  (0xFF45, "e"),
  (0xFF46, "f"),
  (0xFF47, "g"),
  (0xFF48, "h"),
  (0xFF49, "i"),
  (0xFF4A, "j"),
  (0xFF4B, "k"),
  (0xFF4C, "l"),
  (0xFF4D, "m"),
  (0xFF4E, "n"),
  (0xFF4F, "o"),
  (0xFF50, "p"),
  (0xFF51, "q"),
  (0xFF52, "r"),
  (0xFF53, "s"),
  (0xFF54, "t"),
  (0xFF55, "u"),
  (0xFF56, "v"),
  (0xFF57, "w"),
  (0xFF58, "x"),
  (0xFF59, "y"),
  (0xFF5A, "z"),
  (0xFF5B, "\x7b"),
  (0xFF5C, "|"),
  (0xFF5D, "\x7d"),
  (0xFF5E, "~"),
  (0xFF5F, ""),
  (0xFF60, ""),
  (0xFF61, "."),
  (0xFF62, "["),
  (0xFF63, "]"),
  (0xFF64, ","),
  (0xFF65, "*"),
  (0xFF66, "wo"),
  (0xFF67, "a"),
  (0xFF68, "i"),
  (0xFF69, "u"),
  (0xFF6A, "e"),
  (0xFF6B, "o"),
  (0xFF6C, "ya"),
  (0xFF6D, "yu"),
  (0xFF6E, "yo"),
  (0xFF6F, "tu"),
  (0xFF70, "+")
]

def asciiRunes_60 : List (Nat × String) := [
  (0xFF71, "a"),
  (0xFF72, "i"),
  (0xFF73, "u"),
  (0xFF74, "e"),
  (0xFF75, "o"),
  (0xFF76, "ka"),
  (0xFF77, "ki"),
  (0xFF78, "ku"),
  (0xFF79, "ke"),
  (0xFF7A, "ko"),
  (0xFF7B, "sa"),
  (0xFF7C, "si"),
  (0xFF7D, "su"),
  (0xFF7E, "se"),
  (0xFF7F, "so"),
  (0xFF80, "ta"),
  (0xFF81, "ti"),
  (0xFF82, "tu"),
  (0xFF83, "te"),
  (0xFF84, "to"),
  (0xFF85, "na"),
  (0xFF86, "ni"),
  (0xFF87, "nu"),
  (0xFF88, "ne"),
  (0xFF89, "no"),
  (0xFF8A, "ha"),
  (0xFF8B, "hi"),
  (0xFF8C, "hu"),
  (0xFF8D, "he"),
  (0xFF8E, "ho"),
  (0xFF8F, "ma"),
  (0xFF90, "mi"),
  (0xFF91, "mu"),
  (0xFF92, "me"),
  (0xFF93, "mo"),
  (0xFF94, "ya"),
  (0xFF95, "yu"),
  (0xFF96, "yo"),
  (0xFF97, "ra"),
  (0xFF98, "ri"),
  (0xFF99, "ru"),
  (0xFF9A, "re"),
  (0xFF9B, "ro"),
  (0xFF9C, "wa"),
  (0xFF9D, "n"),
  (0xFF9E, ":"),
  (0xFF9F, ";"),
  (0xFFA0, ""),
  (0xFFA1, "g"),
  (0xFFA2, "gg"),
  (0xFFA3, "gs"),
  (0xFFA4, "n"),
  (0xFFA5, "nj"),
  (0xFFA6, "nh"),
  (0xFFA7, "d"),
  (0xFFA8, "dd"),
  (0xFFA9, "r"),
  (0xFFAA, "lg"),
  (0xFFAB, "lm"),
  (0xFFAC, "lb"),
  (0xFFAD, "ls"),
  (0xFFAE, "lt"),
  (0xFFAF, "lp"),
  (0xFFB0, "rh"),
  (0xFFB1, "m"),
  (0xFFB2, "b"),
  (0xFFB3, "bb"),
  (0xFFB4, "bs"),
  (0xFFB5, "s"),
  (0xFFB6, "ss"),
  (0xFFB7, ""),
  (0xFFB8, "j"),
  (0xFFB9, "jj"),
  (0xFFBA, "c"),
  (0xFFBB, "k"),
  (0xFFBC, "t"),
  (0xFFBD, "p"),
  (0xFFBE, "h"),
  (0xFFC2, "a"),
  (0xFFC3, "ae"),
  (0xFFC4, "ya"),
  (0xFFC5, "yae"),
  (0xFFC6, "eo"),
  (0xFFC7, "e"),
  (0xFFCA, "yeo"),
  (0xFFCB, "ye"),
  (0xFFCC, "o"),
  (0xFFCD, "wa"),
  (0xFFCE, "wae"),
  (0xFFCF, "oe"),
  (0xFFD2, "yo"),
  (0xFFD3, "u"),
  (0xFFD4, "weo"),
  (0xFFD5, "we"),
  (0xFFD6, "wi"),
  (0xFFD7, "yu"),
  (0xFFDA, "eu"),
  (0xFFDB, "yi"),
  (0xFFDC, "i"),
  (0xFFE0, "/C")
]

def asciiRunes_61 : List (Nat × String) := [
  (0xFFE1, "PS"),
  (0xFFE2, "!"),
  (0xFFE3, "-"),
  (0xFFE4, "|"),
  (0xFFE5, "Y="),
  (0xFFE6, "W="),
  (0xFFE8, "|"),
  (0xFFE9, "-"),
  (0xFFEA, "|"),
  (0xFFEB, "-"),
  (0xFFEC, "|"),
  (0xFFED, "#"),
  (0xFFEE, "O"),
  (0xFFF9, "\x7b"),
  (0xFFFA, "|"),
  (0xFFFB, "\x7d"),
  (0xFFFD, "?")
]

def asciiRunes : List (Nat × String) :=
  List.flatten [asciiRunes_0, asciiRunes_1, asciiRunes_2, asciiRunes_3, asciiRunes_4, asciiRunes_5, asciiRunes_6, asciiRunes_7, asciiRunes_8, asciiRunes_9, asciiRunes_10, asciiRunes_11, asciiRunes_12, asciiRunes_13, asciiRunes_14, asciiRunes_15, asciiRunes_16, asciiRunes_17, asciiRunes_18, asciiRunes_19, asciiRunes_20, asciiRunes_21, asciiRunes_22, asciiRunes_23, asciiRunes_24, asciiRunes_25, asciiRunes_26, asciiRunes_27, asciiRunes_28, asciiRunes_29, asciiRunes_30, asciiRunes_31, asciiRunes_32, asciiRunes_33, asciiRunes_34, asciiRunes_35, asciiRunes_36, asciiRunes_37, asciiRunes_38, asciiRunes_39, asciiRunes_40, asciiRunes_41, asciiRunes_42, asciiRunes_43, asciiRunes_44, asciiRunes_45, asciiRunes_46, asciiRunes_47, asciiRunes_48, asciiRunes_49, asciiRunes_50, asciiRunes_51, asciiRunes_52, asciiRunes_53, asciiRunes_54, asciiRunes_55, asciiRunes_56, asciiRunes_57, asciiRunes_58, asciiRunes_59, asciiRunes_60, asciiRunes_61]

/-- The process-wide variables `externRunes` and `extRunesLoaded`. A later binding of a key in
`externRunes` stands before an earlier one, so the first match is the map's current value. -/
structure ExtState where
  externRunes : List (Int × GoString)
  extRunesLoaded : Bool
deriving DecidableEq, Repr

/-- The state left by `init`: an empty `externRunes`, `extRunesLoaded` false. -/
def initState : ExtState := ⟨[], false⟩

/-- What the loader sees of its surroundings: whether `os.Executable` succeeds, and the lines
that the scanner yields from `help/unicode-extras.txt` (`none` when the file cannot be opened). -/
structure World where
  executable : Bool
  helpFile : Option (List GoString)
deriving DecidableEq, Repr

/-- Value of one digit in `strconv.ParseUint` with base 16. -/
def hexDigit (c : Nat) : Option Nat :=
  if 48 ≤ c ∧ c ≤ 57 then some (c - 48)
  else if 97 ≤ c ∧ c ≤ 102 then some (c - 97 + 10)
  else if 65 ≤ c ∧ c ≤ 70 then some (c - 65 + 10)
  else none

/-- Digit loop of `strconv.ParseUint(s, 16, 32)`; `none` is a syntax or range error. -/
def parseUintLoop : GoString → Nat → Option Nat
  | [], n => some n
  | c :: cs, n =>
    match hexDigit c with
    | none => none
    | some d =>
      if 2 ^ 60 ≤ n then none
      else if 0xFFFFFFFF < n * 16 + d then none
      else parseUintLoop cs (n * 16 + d)

/-- Go `strconv.ParseUint(s, 16, 32)`; `none` when it returns an error. -/
def parseUint (s : GoString) : Option Nat :=
  if s = [] then none else parseUintLoop s 0

/-- Go conversion `rune(n)` of a `uint64`: the low 32 bits read as a signed integer. -/
def toRune (n : Nat) : Int :=
  if n % 2 ^ 32 < 2 ^ 31 then (n % 2 ^ 32 : Nat) else (n % 2 ^ 32 : Nat) - 2 ^ 32

/-- Go `strings.SplitN(str, "\t", 2)`: `none` when there is a single column,
otherwise the text before the first TAB and the text after it. -/
def splitTab : GoString → Option (GoString × GoString)
  | [] => none
  | b :: rest =>
    if b = 9 then some ([], rest)
    else match splitTab rest with
      | none => none
      | some (c0, c1) => some (b :: c0, c1)

/-- One pass of the scanner loop of `loadExternRunes` on the pair (`externRunes`, `loaded`). -/
def loadLine (acc : List (Int × GoString) × Bool) (str : GoString) :
    List (Int × GoString) × Bool :=
  if str = [] then acc
  else match splitTab str with
    | none => acc
    | some (c0, c1) =>
      match parseUint c0 with
      | none => acc
      | some n => ((toRune n, c1) :: acc.1, true)

/-- The closure `loadExternRunes`: the table after the call and the returned `loaded`. -/
def loadExternRunes (w : World) (externRunes : List (Int × GoString)) :
    List (Int × GoString) × Bool :=
  if w.executable = false then (externRunes, false)
  else match w.helpFile with
    | none => (externRunes, false)
    | some lines => lines.foldl loadLine (externRunes, false)

/-- The critical section `if !extRunesLoaded { extRunesLoaded = loadExternRunes() }`. -/
def ensureLoaded (w : World) (ext : ExtState) : ExtState :=
  if ext.extRunesLoaded = false then
    ⟨(loadExternRunes w ext.externRunes).1, (loadExternRunes w ext.externRunes).2⟩
  else ext

/-- The replacer built by `init`: `strings.NewReplacer("<", "&lt;", ">", "&gt;", "&", "&amp;")`,
as its list of (old, new) pairs. -/
def rfixPairs : List (GoString × GoString) :=
  [(goString "<", goString "&lt;"), (goString ">", goString "&gt;"),
   (goString "&", goString "&amp;")]

/-- The variable `rfix` after `init` has run. -/
def rfix : Option (List (GoString × GoString)) := some rfixPairs

/-- Go `(*strings.Replacer).Replace` for non-empty old strings: scanning left to right, the
first pair whose old string starts at the current byte is substituted and the scan resumes
after it; `skip` counts the bytes of a matched old string still to pass over. -/
def replacerReplace (pairs : List (GoString × GoString)) : Nat → GoString → GoString
  | _, [] => []
  | skip + 1, _ :: rest => replacerReplace pairs skip rest
  | 0, b :: rest =>
    match pairs.find? (fun p => p.1.isPrefixOf (b :: rest)) with
    | some p => p.2 ++ replacerReplace pairs (p.1.length - 1) rest
    | none => b :: replacerReplace pairs 0 rest

/-- Go `encodeAngleBracketsAndAmpersand`. -/
def encodeAngleBracketsAndAmpersand (str : GoString) : GoString :=
  match rfix with
  | some r =>
    if (runes str).any (fun ch => ch == 60 || ch == 62 || ch == 38) then
      replacerReplace r 0 str
    else str
  | none => str

/-- One pass of the rune loop of `TransformAccents`: the string appended to `arry`, if any,
and the extension state afterwards. -/
def loopBody (w : World) (spellGreek : Bool) (ext : ExtState) (ch : Nat) :
    Option GoString × ExtState :=
  if ch < 128 then
    (if 31 < ch then some (runeToString ch) else none, ext)
  else
    match (if spellGreek then greekRunes.lookup ch else none) with
    | some st => (some (goString st), ext)
    | none =>
      let r1 := asciiRunes.lookup ch
      let r2 := if r1.isSome then r1 else symbolRunes.lookup ch
      let r3 := if r2.isSome then r2 else extraRunes.lookup ch
      if r3.isSome = false ∧ 0x0300 ≤ ch ∧ ch ≤ 0x036F then (none, ext)
      else if r3.isSome = false ∧ 0x33FF < ch ∧ ch < 0xFB00 then
        (if (ensureLoaded w ext).extRunesLoaded then
            (ensureLoaded w ext).externRunes.lookup (ch : Int)
          else none,
         ensureLoaded w ext)
      else (r3.map goString, ext)

/-- The rune loop of `TransformAccents`: the slice `arry` and the final extension state. -/
def transformLoop (w : World) (spellGreek : Bool) : ExtState → List Nat → List GoString × ExtState
  | ext, [] => ([], ext)
  | ext, ch :: rest =>
    ((loopBody w spellGreek ext ch).1.toList
        ++ (transformLoop w spellGreek (loopBody w spellGreek ext ch).2 rest).1,
     (transformLoop w spellGreek (loopBody w spellGreek ext ch).2 rest).2)

/-- Go `TransformAccents`, run in world `w` from extension state `ext`: the returned string
and the extension state it leaves. -/
def TransformAccents (w : World) (ext : ExtState) (str : GoString) (spellGreek reEncode : Bool) :
    GoString × ExtState :=
  (if reEncode then
      encodeAngleBracketsAndAmpersand (transformLoop w spellGreek ext (runes str)).1.flatten
    else (transformLoop w spellGreek ext (runes str)).1.flatten,
   (transformLoop w spellGreek ext (runes str)).2)

/-! ## Vocabulary of the statements -/

/-- Every byte of every replacement string of the table is printable ASCII (32..127). -/
def valuesPrintable (tbl : List (Nat × String)) : Bool :=
  tbl.all (fun e => (goString e.2).all (fun b => decide (32 ≤ b) && decide (b ≤ 127)))

/-- No key of the table lies in the closed range `lo..hi`. -/
def noKeyIn (lo hi : Nat) (tbl : List (Nat × String)) : Bool :=
  tbl.all (fun e => !(decide (lo ≤ e.1) && decide (e.1 ≤ hi)))

/-- The three XML metacharacters `<`, `>` and `&`. -/
def isMeta (ch : Nat) : Bool := ch == 60 || ch == 62 || ch == 38

/-- What the replacer built by `init` writes for one byte of its input. -/
def escapeByte (b : Nat) : GoString :=
  if b = 60 then goString "&lt;"
  else if b = 62 then goString "&gt;"
  else if b = 38 then goString "&amp;"
  else [b]

/-- The list starts with one of the entities `&lt;`, `&gt;`, `&amp;`. -/
def startsWithEntity (l : GoString) : Prop :=
  goString "&lt;" <+: l ∨ goString "&gt;" <+: l ∨ goString "&amp;" <+: l

/-- The extension table is unloaded or empty once the load has been attempted: lookups in the
extension range find nothing. -/
def extSilent (w : World) (ext : ExtState) : Prop :=
  (ensureLoaded w ext).extRunesLoaded = false ∨ (ensureLoaded w ext).externRunes = []

/-- What a lookup in the extension range yields from state `ext` in world `w`. -/
def extLookup (w : World) (ext : ExtState) (ch : Nat) : Option GoString :=
  if (ensureLoaded w ext).extRunesLoaded then (ensureLoaded w ext).externRunes.lookup (ch : Int)
  else none

/-- The probe of the three static tables in the order of the source: `asciiRunes`, then
`symbolRunes`, then `extraRunes`. -/
def staticLookup (ch : Nat) : Option String :=
  if (asciiRunes.lookup ch).isSome then asciiRunes.lookup ch
  else if (symbolRunes.lookup ch).isSome then symbolRunes.lookup ch
  else extraRunes.lookup ch

/-- The bytes an optional appended string adds to the output. -/
def pieceBytes (p : Option GoString) : GoString := p.getD []

/-- The string `s` decodes to the runes `pre ++ c :: post` for some `c`, and `TransformAccents`
(without re-encoding) returns for it the output for `pre`, then `piece`, then the output for
`post` from the extension state that `pre` and `c` leave. -/
def EmitsFor (w : World) (ext : ExtState) (g : Bool) (s : GoString) (pre post : List Nat)
    (c : Nat) (piece : GoString) : Prop :=
  runes s = pre ++ c :: post ∧
  (TransformAccents w ext s g false).1 =
    (transformLoop w g ext pre).1.flatten ++ piece
      ++ (transformLoop w g (loopBody w g (transformLoop w g ext pre).2 c).2 post).1.flatten

/-! ## `FixMisusedLetters` -/

/-- Go `utf8.RuneLen`: the number of bytes of the encoding of a rune, `-1` for a surrogate or
a value above U+10FFFF. -/
def runeLen (r : Nat) : Int :=
  if r ≤ 0x7F then 1
  else if r ≤ 0x7FF then 2
  else if 0xD800 ≤ r ∧ r ≤ 0xDFFF then -1
  else if r ≤ 0xFFFF then 3
  else if r ≤ 0x10FFFF then 4
  else -1

/-- Go `strings.Index(s, " ")`: the offset of the first space, `none` for `-1`. -/
def indexSpace : GoString → Option Nat
  | [] => none
  | b :: rest => if b = 32 then some 0 else (indexSpace rest).map (fun k => k + 1)

/-- Go `strings.LastIndex(s, " ")`: the offset of the last space, `none` for `-1`. -/
def lastIndexSpace : GoString → Option Nat
  | [] => none
  | b :: rest =>
    match lastIndexSpace rest with
    | some k => some (k + 1)
    | none => if b = 32 then some 0 else none

/-- The left context of `isReallyEszett` after `before = before[idx+1:]`. -/
def trimBefore (before : GoString) : GoString :=
  match lastIndexSpace before with
  | some idx => before.drop (idx + 1)
  | none => before

/-- The right context of `isReallyEszett` after `after = after[:idx]`. -/
def trimAfter (after : GoString) : GoString :=
  match indexSpace after with
  | some idx => after.take idx
  | none => after

/-- One of the two `range` loops of `isReallyEszett`, on the pair (`isAllCaps`, `last`):
`none` when the loop returns false on a rune that is not a key of `germanRunes`. -/
def scanGerman : List Nat → Bool × Nat → Option (Bool × Nat)
  | [], st => some st
  | ch :: rest, st =>
    if (germanRunes.lookup ch).isSome = false then none
    else scanGerman rest (if (germanCapitals.lookup ch).isSome then st.1 else false, ch)

/-- The closure `isReallyEszett` of `FixMisusedLetters`. -/
def isReallyEszett (before after : GoString) (mustBeAllCaps : Bool) : Bool :=
  if trimBefore before = [] then false
  else
    match scanGerman (runes (trimBefore before)) (true, 0) with
    | none => false
    | some st1 =>
      if (germanVowels.lookup st1.2).isSome = false then false
      else
        match scanGerman (runes (trimAfter after)) st1 with
        | none => false
        | some st2 => if mustBeAllCaps then st2.1 else !st2.1

/-- The block `if doHomoglyphs { ... }` of the rune loop. -/
def homoglyphStep (doHomoglyphs : Bool) (ch : Nat) : Nat :=
  if doHomoglyphs then
    if ch = 976 ∨ ch = 7517 ∨ ch = 7526 then 946
    else if ch = 400 then 917
    else if ch = 603 then 949
    else ch
  else ch

/-- The block `if isAuthor { ... }` of the rune loop. -/
def authorStep (isAuthor : Bool) (ch : Nat) : Nat :=
  if isAuthor then
    if ch = 946 ∨ ch = 976 ∨ ch = 7517 ∨ ch = 7526 then 223
    else if ch = 914 then 66
    else if ch = 34 then 39
    else ch
  else ch

/-- The block `if isProse { ... }` of the rune loop, at byte offset `i` of `str`; the right
context is `str[i+utf8.RuneLen(ch):]` for the value `ch` has at that point. -/
def proseStep (str : GoString) (isProse : Bool) (i ch : Nat) : Nat :=
  if isProse then
    if ch = 223 then
      if isReallyEszett (str.take i) (str.drop (i + runeLen ch).toNat) false = false then 946
      else ch
    else if ch = 946 ∨ ch = 976 ∨ ch = 7517 ∨ ch = 7526 then
      if isReallyEszett (str.take i) (str.drop (i + runeLen ch).toNat) false = true then 223
      else ch
    else if ch = 7838 then
      if isReallyEszett (str.take i) (str.drop (i + runeLen ch).toNat) true = false then 946
      else ch
    else ch
  else ch

/-- The value of `ch` when it is appended, for a rune `ch ≥ 32` read at byte offset `i`. -/
def fixChar (str : GoString) (doHomoglyphs isAuthor isProse : Bool) (i ch : Nat) : Nat :=
  proseStep str isProse i (authorStep isAuthor (homoglyphStep doHomoglyphs ch))

/-- Go `FixMisusedLetters`. -/
def FixMisusedLetters (str : GoString) (doHomoglyphs isAuthor isProse : Bool) : GoString :=
  ((rangeString str).filterMap (fun q =>
    if q.2 < 32 then none
    else some (runeToString (fixChar str doHomoglyphs isAuthor isProse q.1 q.2)))).flatten

/-- The pairs of `range str` that the loop does not skip: offset and rune, rune at least 32. -/
def keptRunes (str : GoString) : List (Nat × Nat) :=
  (rangeString str).filter (fun q => decide (32 ≤ q.2))

/-- A Unicode scalar value: at most U+10FFFF and not a surrogate. -/
def isScalar (c : Nat) : Prop := c ≤ 0x10FFFF ∧ ¬ (0xD800 ≤ c ∧ c ≤ 0xDFFF)

/-- The four runes treated as lower-case beta: U+03B2, U+03D0, U+1D5D, U+1D66. -/
def isBetaLike (c : Nat) : Prop := c = 946 ∨ c = 976 ∨ c = 7517 ∨ c = 7526

/-- The rune is a key of `germanRunes`. -/
def inGerman (c : Nat) : Bool := (germanRunes.lookup c).isSome

/-- The rune is a key of `germanCapitals`. -/
def inCapitals (c : Nat) : Bool := (germanCapitals.lookup c).isSome

/-- The rune is a key of `germanVowels`. -/
def inVowels (c : Nat) : Bool := (germanVowels.lookup c).isSome

/-! ## Rune-level reading of `FixMisusedLetters` and of the loader -/

/-- The eszett verdict as a function of the runes of the two trimmed contexts. -/
def verdictRunes (rb ra : List Nat) (mustBeAllCaps : Bool) : Bool :=
  decide (rb ≠ []) && rb.all inGerman && inVowels ((rb.getLast?).getD 0) && ra.all inGerman
    && (mustBeAllCaps == (rb.all inCapitals && ra.all inCapitals))

/-- The prose rule on a rune `ch` that stands between the runes `left` and `right`. -/
def proseRunes (left right : List Nat) (isProse : Bool) (ch : Nat) : Nat :=
  if isProse then
    if ch = 223 then
      if verdictRunes (trimBefore left) (trimAfter right) false = false then 946 else ch
    else if ch = 946 ∨ ch = 976 ∨ ch = 7517 ∨ ch = 7526 then
      if verdictRunes (trimBefore left) (trimAfter right) false = true then 223 else ch
    else if ch = 7838 then
      if verdictRunes (trimBefore left) (trimAfter right) true = false then 946 else ch
    else ch
  else ch

/-- The runes that `FixMisusedLetters` writes for the runes `right` of its input, `left` being
the runes already passed: runes below 32 are skipped but stay in the context of later ones. -/
def fixRunesFrom (d a p : Bool) : List Nat → List Nat → List Nat
  | _, [] => []
  | left, c :: right =>
    (if c < 32 then [] else [proseRunes left right p (authorStep a (homoglyphStep d c))])
      ++ fixRunesFrom d a p (left ++ [c]) right

/-- The entry that one line of the extension file contributes, if any: the line is cut at its
first TAB, the first column is read by `strconv.ParseUint(_, 16, 32)`. -/
def parseLine (str : GoString) : Option (Int × GoString) :=
  match splitTab str with
  | none => none
  | some (c0, c1) =>
    match parseUint c0 with
    | none => none
    | some n => some (toRune n, c1)

/-- The number written by a string of hexadecimal digits. -/
def hexValue (s : GoString) : Nat :=
  s.foldl (fun acc c => acc * 16 + (hexDigit c).getD 0) 0

/-- A lookup in the extension range calls `loadExternRunes` exactly when `extRunesLoaded` is
false on entry. -/
def attemptsLoad (ext : ExtState) : Bool := !ext.extRunesLoaded

/-! ## Reading the entities back -/

/-- The three entities with the character each one stands for, as (old, new) pairs: the
inverse of the pairs of the replacer built by `init`. -/
def entityPairs : List (GoString × GoString) :=
  [(goString "&lt;", goString "<"), (goString "&gt;", goString ">"),
   (goString "&amp;", goString "&")]

/-- One left-to-right pass that replaces each entity `&lt;`, `&gt;`, `&amp;` by the character
it stands for. It is not a function of `clean.go`: it is the pass that the statement about
re-encoding losing nothing applies to the output of `TransformAccents`. -/
def decodeEntities (s : GoString) : GoString := replacerReplace entityPairs 0 s

/-- The extension table is unloaded or empty in state `ext`: the flag `extRunesLoaded` is
false or `externRunes` has no entry. -/
def unloadedOrEmpty (ext : ExtState) : Prop :=
  ext.extRunesLoaded = false ∨ ext.externRunes = []

/-- Every string that a call of `TransformAccents` on `s`, started in state `ext` of world `w`,
takes from the extension table consists of bytes 32..127: the call looks up exactly the code
points of `s` in the open range (0x33FF, 0xFB00), after the load it makes itself when the
table is not loaded yet. -/
def extensionPrintable (w : World) (ext : ExtState) (s : GoString) : Prop :=
  ∀ c ∈ runes s, 0x33FF < c → c < 0xFB00 →
    ∀ v, extLookup w ext c = some v → ∀ b ∈ v, 32 ≤ b ∧ b ≤ 127

/-! ## Facts read off the lookup tables -/

theorem greekRunes_printable : valuesPrintable greekRunes = true := by decide!

theorem asciiRunes_printable : valuesPrintable asciiRunes = true := by decide!

theorem symbolRunes_printable : valuesPrintable symbolRunes = true := by decide!

theorem extraRunes_printable : valuesPrintable extraRunes = true := by decide!

theorem greekRunes_noExt : noKeyIn 0x3400 0xFAFF greekRunes = true := by decide!

theorem asciiRunes_noExt : noKeyIn 0x3400 0xFAFF asciiRunes = true := by decide!

theorem symbolRunes_noExt : noKeyIn 0x3400 0xFAFF symbolRunes = true := by decide!

theorem extraRunes_noExt : noKeyIn 0x3400 0xFAFF extraRunes = true := by decide!

theorem asciiRunes_noMark : noKeyIn 0x0300 0x0362 asciiRunes = true := by decide!

theorem symbolRunes_noMark : noKeyIn 0x0300 0x036F symbolRunes = true := by decide!

theorem extraRunes_noMark : noKeyIn 0x0300 0x036F extraRunes = true := by decide!

theorem greekRunes_alpha : greekRunes.lookup 0x03B1 = some "alpha" := by decide!

theorem asciiRunes_alpha : asciiRunes.lookup 0x03B1 = some " alpha " := by decide!

theorem asciiRunes_circle : asciiRunes.lookup 0x25CF = none := by decide!

theorem symbolRunes_circle : symbolRunes.lookup 0x25CF = some "*" := by decide!

theorem extraRunes_circle : extraRunes.lookup 0x25CF = some "(circle)" := by decide!

theorem asciiRunes_maqaf : asciiRunes.lookup 0x05BE = none := by decide!

theorem symbolRunes_maqaf : symbolRunes.lookup 0x05BE = none := by decide!

theorem extraRunes_maqaf : extraRunes.lookup 0x05BE = some "-" := by decide!

theorem asciiRunes_le : asciiRunes.lookup 0x2264 = none := by decide!

theorem symbolRunes_le : symbolRunes.lookup 0x2264 = some " <= " := by decide!

theorem asciiRunes_mark_a : asciiRunes.lookup 0x0363 = some "a" := by decide!

theorem asciiRunes_marks :
    (List.range' 0x0363 13).all (fun m => (asciiRunes.lookup m).isSome) = true := by decide!

theorem greekRunes_circle : greekRunes.lookup 0x25CF = none := by decide!

theorem greekRunes_maqaf : greekRunes.lookup 0x05BE = none := by decide!

theorem greekRunes_le : greekRunes.lookup 0x2264 = none := by decide!

theorem asciiRunes_capital_beta : asciiRunes.lookup 0x0392 = some " Beta " := by decide!

theorem greekRunes_capital_beta : greekRunes.lookup 0x0392 = some "beta" := by decide!

theorem greekRunes_small_beta : greekRunes.lookup 0x03B2 = some "beta" := by decide!

/-! ## Decoding -/

theorem decodeRuneInString_ascii (b : Nat) (rest : GoString) (h : b < 128) :
    decodeRuneInString (b :: rest) = (b, 1) := by
  simp [decodeRuneInString, h]

theorem acceptLo_ge (b0 : Nat) : 128 ≤ acceptLo b0 := by
  unfold acceptLo
  split_ifs <;> omega

theorem acceptHi_le (b0 : Nat) : acceptHi b0 ≤ 191 := by
  unfold acceptHi
  split_ifs <;> omega

theorem isCont_iff (b : Nat) : isCont b = true ↔ 128 ≤ b ∧ b ≤ 191 := by
  simp [isCont]

theorem decode2_spec (b0 : Nat) (rest : GoString) (h : 0xC2 ≤ b0 ∧ b0 ≤ 0xDF) :
    decode2 b0 rest = (0xFFFD, 1) ∨
    (128 ≤ (decode2 b0 rest).1 ∧ ∀ x ∈ rest.take ((decode2 b0 rest).2 - 1), 128 ≤ x) := by
  cases rest with
  | nil => exact Or.inl rfl
  | cons b1 r1 =>
    by_cases hc : isCont b1 = true
    · right
      have h1 := (isCont_iff b1).1 hc
      simp only [decode2, hc, if_true]
      refine ⟨by omega, ?_⟩
      intro x hx
      simp at hx
      omega
    · left
      simp [decode2, hc]

theorem decode3_spec (b0 : Nat) (rest : GoString) (h : 0xE0 ≤ b0 ∧ b0 ≤ 0xEF) :
    decode3 b0 rest = (0xFFFD, 1) ∨
    (128 ≤ (decode3 b0 rest).1 ∧ ∀ x ∈ rest.take ((decode3 b0 rest).2 - 1), 128 ≤ x) := by
  cases rest with
  | nil => exact Or.inl rfl
  | cons b1 r1 =>
    cases r1 with
    | nil => exact Or.inl rfl
    | cons b2 r2 =>
      by_cases hc : acceptLo b0 ≤ b1 ∧ b1 ≤ acceptHi b0 ∧ isCont b2 = true
      · right
        obtain ⟨h5, h6, h7⟩ := hc
        have h8 := (isCont_iff b2).1 h7
        have h9 := acceptLo_ge b0
        have h10 := acceptHi_le b0
        simp only [decode3, h5, h6, h7, and_self, if_true]
        constructor
        · by_cases he : b0 = 0xE0
          · have : acceptLo b0 = 0xA0 := by simp [acceptLo, he]
            omega
          · omega
        · intro x hx
          simp at hx
          omega
      · left
        simp only [decode3, hc, if_false]

theorem decode4_spec (b0 : Nat) (rest : GoString) (h : 0xF0 ≤ b0 ∧ b0 ≤ 0xF4) :
    decode4 b0 rest = (0xFFFD, 1) ∨
    (128 ≤ (decode4 b0 rest).1 ∧ ∀ x ∈ rest.take ((decode4 b0 rest).2 - 1), 128 ≤ x) := by
  cases rest with
  | nil => exact Or.inl rfl
  | cons b1 r1 =>
    cases r1 with
    | nil => exact Or.inl rfl
    | cons b2 r2 =>
      cases r2 with
      | nil => exact Or.inl rfl
      | cons b3 r3 =>
        by_cases hc : acceptLo b0 ≤ b1 ∧ b1 ≤ acceptHi b0 ∧ isCont b2 = true ∧ isCont b3 = true
        · right
          obtain ⟨h5, h6, h7, h7b⟩ := hc
          have h8 := (isCont_iff b2).1 h7
          have h8b := (isCont_iff b3).1 h7b
          have h9 := acceptLo_ge b0
          have h10 := acceptHi_le b0
          simp only [decode4, h5, h6, h7, h7b, and_self, if_true]
          constructor
          · by_cases he : b0 = 0xF0
            · have : acceptLo b0 = 0x90 := by simp [acceptLo, he]
              omega
            · omega
          · intro x hx
            simp at hx
            omega
        · left
          simp only [decode4, hc, if_false]

/-- Shape of one decoding step: an ASCII byte decodes to itself, any other start byte gives
either U+FFFD of width one or a rune of at least 128 whose further bytes are all at least 128. -/
theorem decodeRuneInString_spec (b : Nat) (rest : GoString) :
    (b < 128 ∧ decodeRuneInString (b :: rest) = (b, 1)) ∨
    (128 ≤ b ∧ decodeRuneInString (b :: rest) = (0xFFFD, 1)) ∨
    (128 ≤ b ∧ 128 ≤ (decodeRuneInString (b :: rest)).1 ∧
      ∀ x ∈ rest.take ((decodeRuneInString (b :: rest)).2 - 1), 128 ≤ x) := by
  by_cases h0 : b < 128
  · exact Or.inl ⟨h0, decodeRuneInString_ascii b rest h0⟩
  · right
    have hb : 128 ≤ b := by omega
    unfold decodeRuneInString
    simp only [h0, if_false]
    by_cases h2 : 0xC2 ≤ b ∧ b ≤ 0xDF
    · simp only [h2, and_self, if_true]
      rcases decode2_spec b rest h2 with h | h
      · exact Or.inl ⟨hb, h⟩
      · exact Or.inr ⟨hb, h⟩
    · simp only [h2, if_false]
      by_cases h3 : 0xE0 ≤ b ∧ b ≤ 0xEF
      · simp only [h3, and_self, if_true]
        rcases decode3_spec b rest h3 with h | h
        · exact Or.inl ⟨hb, h⟩
        · exact Or.inr ⟨hb, h⟩
      · simp only [h3, if_false]
        by_cases h4 : 0xF0 ≤ b ∧ b ≤ 0xF4
        · simp only [h4, and_self, if_true]
          rcases decode4_spec b rest h4 with h | h
          · exact Or.inl ⟨hb, h⟩
          · exact Or.inr ⟨hb, h⟩
        · left
          simp only [h4, if_false]
          exact ⟨hb, trivial⟩

theorem rangeFrom_ascii (s : GoString) (i : Nat) (h : ∀ b ∈ s, b < 128) :
    (rangeFrom 0 i s).map Prod.snd = s := by
  induction s generalizing i with
  | nil => rfl
  | cons b rest ih =>
    have hb : b < 128 := h b (List.mem_cons_self _ _)
    simp only [rangeFrom, decodeRuneInString_ascii b rest hb, List.map_cons]
    rw [ih (i + 1) (fun x hx => h x (List.mem_cons_of_mem _ hx))]

theorem runes_ascii (s : GoString) (h : ∀ b ∈ s, b < 128) : runes s = s :=
  rangeFrom_ascii s 0 h

theorem isMeta_lt (ch : Nat) (h : isMeta ch = true) : ch < 128 := by
  simp [isMeta] at h
  omega

theorem rangeFrom_any_meta (s : GoString) (skip i : Nat)
    (h : ∀ x ∈ s.take skip, 128 ≤ x) :
    (rangeFrom skip i s).any (fun p => isMeta p.2) = s.any isMeta := by
  induction s generalizing skip i with
  | nil => simp [rangeFrom]
  | cons b rest ih =>
    cases skip with
    | succ k =>
      have hb : 128 ≤ b := h b (by simp)
      have hnb : isMeta b = false := by
        cases hm : isMeta b with
        | false => rfl
        | true => have := isMeta_lt b hm; omega
      simp only [rangeFrom, List.any_cons, hnb, Bool.false_or]
      exact ih k (i + 1) (fun x hx => h x (by simp [hx]))
    | zero =>
      simp only [rangeFrom, List.any_cons]
      rcases decodeRuneInString_spec b rest with ⟨_, h2⟩ | ⟨h1, h2⟩ | ⟨h1, h2, h3⟩
      · rw [h2]
        simp only [Nat.sub_self]
        rw [ih 0 (i + 1) (by simp)]
      · rw [h2]
        have hnb : isMeta b = false := by
          cases hm : isMeta b with
          | false => rfl
          | true => have := isMeta_lt b hm; omega
        simp only [Nat.sub_self, hnb]
        rw [ih 0 (i + 1) (by simp)]
        rfl
      · have hnb : isMeta b = false := by
          cases hm : isMeta b with
          | false => rfl
          | true => have := isMeta_lt b hm; omega
        have hnr : isMeta (decodeRuneInString (b :: rest)).1 = false := by
          cases hm : isMeta (decodeRuneInString (b :: rest)).1 with
          | false => rfl
          | true => have := isMeta_lt _ hm; omega
        rw [hnb, hnr, ih _ (i + 1) h3]

theorem runes_any_meta (s : GoString) : (runes s).any isMeta = s.any isMeta := by
  have h := rangeFrom_any_meta s 0 0 (by simp)
  rw [← h]
  unfold runes rangeString
  generalize rangeFrom 0 0 s = l
  induction l with
  | nil => rfl
  | cons p l ih => simp only [List.map_cons, List.any_cons, ih]

/-! ## The XML re-encoder -/

theorem goString_lt : goString "&lt;" = [38, 108, 116, 59] := by decide

theorem goString_gt : goString "&gt;" = [38, 103, 116, 59] := by decide

theorem goString_amp : goString "&amp;" = [38, 97, 109, 112, 59] := by decide

theorem goString_metas :
    goString "<" = [60] ∧ goString ">" = [62] ∧ goString "&" = [38] := by decide

theorem rfixPairs_eq : rfixPairs =
    [([60], [38, 108, 116, 59]), ([62], [38, 103, 116, 59]), ([38], [38, 97, 109, 112, 59])] := by
  decide

theorem escapeByte_of_not_meta (b : Nat) (h : isMeta b = false) : escapeByte b = [b] := by
  simp [isMeta] at h
  simp [escapeByte, h]

theorem replacerReplace_rfix (s : GoString) :
    replacerReplace rfixPairs 0 s = s.flatMap escapeByte := by
  induction s with
  | nil => rfl
  | cons b rest ih =>
    rw [List.flatMap_cons, ← ih]
    by_cases h1 : b = 60
    · subst h1
      simp [replacerReplace, rfixPairs_eq, List.find?, List.isPrefixOf, escapeByte, goString_lt,
        goString_metas]
    · by_cases h2 : b = 62
      · subst h2
        simp [replacerReplace, rfixPairs_eq, List.find?, List.isPrefixOf, escapeByte, goString_gt,
          goString_metas]
      · by_cases h3 : b = 38
        · subst h3
          simp [replacerReplace, rfixPairs_eq, List.find?, List.isPrefixOf, escapeByte,
            goString_amp, goString_metas]
        · have e1 : (60 == b) = false := by simp; omega
          have e2 : (62 == b) = false := by simp; omega
          have e3 : (38 == b) = false := by simp; omega
          simp [replacerReplace, rfixPairs_eq, List.find?, List.isPrefixOf, escapeByte,
            h1, h2, h3, e1, e2, e3]

theorem flatMap_escapeByte_of_no_meta (s : GoString) (h : s.any isMeta = false) :
    s.flatMap escapeByte = s := by
  induction s with
  | nil => rfl
  | cons b rest ih =>
    simp only [List.any_cons, Bool.or_eq_false_iff] at h
    rw [List.flatMap_cons, ih h.2, escapeByte_of_not_meta b h.1]
    rfl

/-- The scan before the replacement changes nothing: the function is the bytewise escape. -/
theorem encode_eq_flatMap (s : GoString) :
    encodeAngleBracketsAndAmpersand s = s.flatMap escapeByte := by
  have hm : ((runes s).any fun ch => ch == 60 || ch == 62 || ch == 38) = s.any isMeta :=
    runes_any_meta s
  simp only [encodeAngleBracketsAndAmpersand, rfix, hm]
  cases h : s.any isMeta with
  | true => simp [replacerReplace_rfix]
  | false => simp [flatMap_escapeByte_of_no_meta s h]

theorem escapeByte_cases (b : Nat) :
    (b = 60 ∧ escapeByte b = [38, 108, 116, 59]) ∨ (b = 62 ∧ escapeByte b = [38, 103, 116, 59]) ∨
    (b = 38 ∧ escapeByte b = [38, 97, 109, 112, 59]) ∨
    (b ≠ 60 ∧ b ≠ 62 ∧ b ≠ 38 ∧ escapeByte b = [b]) := by
  by_cases h1 : b = 60
  · exact Or.inl ⟨h1, by simp [escapeByte, h1, goString_lt]⟩
  · by_cases h2 : b = 62
    · exact Or.inr (Or.inl ⟨h2, by simp [escapeByte, h2, goString_gt]⟩)
    · by_cases h3 : b = 38
      · exact Or.inr (Or.inr (Or.inl ⟨h3, by simp [escapeByte, h3, goString_amp]⟩))
      · exact Or.inr (Or.inr (Or.inr ⟨h1, h2, h3, by simp [escapeByte, h1, h2, h3]⟩))

theorem flatMap_escapeByte_no_angle (s : GoString) :
    60 ∉ s.flatMap escapeByte ∧ 62 ∉ s.flatMap escapeByte := by
  induction s with
  | nil => simp
  | cons b rest ih =>
    rw [List.flatMap_cons]
    rcases escapeByte_cases b with ⟨_, h⟩ | ⟨_, h⟩ | ⟨_, h⟩ | ⟨h1, h2, _, h⟩
    · rw [h]; simp [ih.1, ih.2]
    · rw [h]; simp [ih.1, ih.2]
    · rw [h]; simp [ih.1, ih.2]
    · rw [h]; simp [ih.1, ih.2]; omega

theorem startsWithEntity_lt (l : GoString) : startsWithEntity (38 :: 108 :: 116 :: 59 :: l) :=
  Or.inl ⟨l, by simp [goString_lt]⟩

theorem startsWithEntity_gt (l : GoString) : startsWithEntity (38 :: 103 :: 116 :: 59 :: l) :=
  Or.inr (Or.inl ⟨l, by simp [goString_gt]⟩)

theorem startsWithEntity_amp (l : GoString) :
    startsWithEntity (38 :: 97 :: 109 :: 112 :: 59 :: l) :=
  Or.inr (Or.inr ⟨l, by simp [goString_amp]⟩)

theorem flatMap_escapeByte_amp (s : GoString) (i : Nat)
    (h : (s.flatMap escapeByte)[i]? = some 38) :
    startsWithEntity ((s.flatMap escapeByte).drop i) := by
  induction s generalizing i with
  | nil => simp at h
  | cons b rest ih =>
    rw [List.flatMap_cons] at h ⊢
    rcases escapeByte_cases b with ⟨_, hb⟩ | ⟨_, hb⟩ | ⟨_, hb⟩ | ⟨_, _, h3, hb⟩
    · rw [hb] at h ⊢
      match i, h with
      | 0, _ => exact startsWithEntity_lt _
      | 1, h => simp at h
      | 2, h => simp at h
      | 3, h => simp at h
      | j + 4, h => simpa using ih j (by simpa using h)
    · rw [hb] at h ⊢
      match i, h with
      | 0, _ => exact startsWithEntity_gt _
      | 1, h => simp at h
      | 2, h => simp at h
      | 3, h => simp at h
      | j + 4, h => simpa using ih j (by simpa using h)
    · rw [hb] at h ⊢
      match i, h with
      | 0, _ => exact startsWithEntity_amp _
      | 1, h => simp at h
      | 2, h => simp at h
      | 3, h => simp at h
      | 4, h => simp at h
      | j + 5, h => simpa using ih j (by simpa using h)
    · rw [hb] at h ⊢
      match i, h with
      | 0, h => simp at h; omega
      | j + 1, h => simpa using ih j (by simpa using h)

/-! ## Table lookups -/

theorem lookup_mem (tbl : List (Nat × String)) (c : Nat) (st : String)
    (h : tbl.lookup c = some st) : (c, st) ∈ tbl := by
  induction tbl with
  | nil => simp at h
  | cons e rest ih =>
    obtain ⟨k, v⟩ := e
    by_cases hk : c = k
    · subst hk
      simp [List.lookup] at h
      simp [h]
    · have hk2 : (c == k) = false := by simpa using hk
      simp only [List.lookup, hk2] at h
      exact List.mem_cons_of_mem _ (ih h)

theorem lookup_printable (tbl : List (Nat × String)) (hp : valuesPrintable tbl = true)
    (c : Nat) (st : String) (h : tbl.lookup c = some st) :
    ∀ b ∈ goString st, 32 ≤ b ∧ b ≤ 127 := by
  have hm := lookup_mem tbl c st h
  simp only [valuesPrintable, List.all_eq_true] at hp
  intro b hb
  have := hp (c, st) hm b hb
  simpa using this

theorem lookup_none_of_noKeyIn (tbl : List (Nat × String)) (lo hi : Nat)
    (hn : noKeyIn lo hi tbl = true) (c : Nat) (h1 : lo ≤ c) (h2 : c ≤ hi) :
    tbl.lookup c = none := by
  cases h : tbl.lookup c with
  | none => rfl
  | some st =>
    have hm := lookup_mem tbl c st h
    simp only [noKeyIn, List.all_eq_true] at hn
    have := hn (c, st) hm
    simp at this
    omega

theorem staticLookup_printable (c : Nat) (st : String) (h : staticLookup c = some st) :
    ∀ b ∈ goString st, 32 ≤ b ∧ b ≤ 127 := by
  unfold staticLookup at h
  split_ifs at h
  · exact lookup_printable _ asciiRunes_printable c st h
  · exact lookup_printable _ symbolRunes_printable c st h
  · exact lookup_printable _ extraRunes_printable c st h

theorem staticLookup_none_iff (c : Nat) :
    staticLookup c = none ↔
      asciiRunes.lookup c = none ∧ symbolRunes.lookup c = none ∧ extraRunes.lookup c = none := by
  unfold staticLookup
  cases h1 : asciiRunes.lookup c <;> cases h2 : symbolRunes.lookup c <;>
    cases h3 : extraRunes.lookup c <;> simp

theorem staticLookup_ext_none (c : Nat) (h1 : 0x33FF < c) (h2 : c < 0xFB00) :
    staticLookup c = none := by
  rw [staticLookup_none_iff]
  exact ⟨lookup_none_of_noKeyIn _ _ _ asciiRunes_noExt c (by omega) (by omega),
    lookup_none_of_noKeyIn _ _ _ symbolRunes_noExt c (by omega) (by omega),
    lookup_none_of_noKeyIn _ _ _ extraRunes_noExt c (by omega) (by omega)⟩

theorem staticLookup_mark_none (c : Nat) (h1 : 0x0300 ≤ c) (h2 : c ≤ 0x0362) :
    staticLookup c = none := by
  rw [staticLookup_none_iff]
  exact ⟨lookup_none_of_noKeyIn _ _ _ asciiRunes_noMark c h1 h2,
    lookup_none_of_noKeyIn _ _ _ symbolRunes_noMark c h1 (by omega),
    lookup_none_of_noKeyIn _ _ _ extraRunes_noMark c h1 (by omega)⟩

/-! ## The extension loader -/

theorem loadLine_flag (acc : List (Int × GoString) × Bool) (str : GoString) :
    loadLine acc str = acc ∨ (loadLine acc str).2 = true := by
  unfold loadLine
  split_ifs
  · exact Or.inl rfl
  · cases splitTab str with
    | none => exact Or.inl rfl
    | some p =>
      cases h : parseUint p.1 with
      | none => left; simp [h]
      | some n => right; simp [h]

theorem loadLine_true (acc : List (Int × GoString) × Bool) (str : GoString)
    (h : acc.2 = true) : (loadLine acc str).2 = true := by
  rcases loadLine_flag acc str with h1 | h1
  · rw [h1]; exact h
  · exact h1

theorem foldl_loadLine_true (lines : List GoString) (acc : List (Int × GoString) × Bool)
    (h : acc.2 = true) : (lines.foldl loadLine acc).2 = true := by
  induction lines generalizing acc with
  | nil => exact h
  | cons l rest ih => exact ih _ (loadLine_true acc l h)

theorem foldl_loadLine_false (lines : List GoString) (acc : List (Int × GoString) × Bool)
    (h : (lines.foldl loadLine acc).2 = false) : lines.foldl loadLine acc = acc := by
  induction lines generalizing acc with
  | nil => rfl
  | cons l rest ih =>
    rcases loadLine_flag acc l with h1 | h1
    · simp only [List.foldl_cons, h1] at h ⊢
      exact ih acc h
    · have := foldl_loadLine_true rest _ h1
      simp only [List.foldl_cons] at h
      rw [this] at h
      cases h

/-- A load that reports failure has left the table as it was. -/
theorem loadExternRunes_false (w : World) (m : List (Int × GoString))
    (h : (loadExternRunes w m).2 = false) : (loadExternRunes w m).1 = m := by
  obtain ⟨ex, file⟩ := w
  cases ex with
  | false => rfl
  | true =>
    cases file with
    | none => rfl
    | some lines =>
      have h2 : (lines.foldl loadLine (m, false)).2 = false := h
      show (lines.foldl loadLine (m, false)).1 = m
      rw [foldl_loadLine_false lines (m, false) h2]

theorem ensureLoaded_idem (w : World) (ext : ExtState) :
    ensureLoaded w (ensureLoaded w ext) = ensureLoaded w ext := by
  cases hl : ext.extRunesLoaded with
  | true => simp [ensureLoaded, hl]
  | false =>
    cases h2 : (loadExternRunes w ext.externRunes).2 with
    | true => simp [ensureLoaded, hl, h2]
    | false =>
      have h3 := loadExternRunes_false w ext.externRunes h2
      simp [ensureLoaded, hl, h2, h3]

theorem extSilent_ensureLoaded (w : World) (ext : ExtState) (h : extSilent w ext) :
    extSilent w (ensureLoaded w ext) := by
  unfold extSilent at h ⊢
  rw [ensureLoaded_idem]
  exact h

theorem extLookup_of_silent (w : World) (ext : ExtState) (h : extSilent w ext) (ch : Nat) :
    extLookup w ext ch = none := by
  unfold extLookup
  rcases h with h | h
  · simp [h]
  · simp [h]

theorem extLookup_ensureLoaded (w : World) (ext : ExtState) (ch : Nat) :
    extLookup w (ensureLoaded w ext) ch = extLookup w ext ch := by
  unfold extLookup
  rw [ensureLoaded_idem]

/-! ## One pass of the rune loop -/

theorem runeToString_ascii (ch : Nat) (h : ch < 128) : runeToString ch = [ch] := by
  have h1 : ¬ (0x10FFFF < ch ∨ (0xD800 ≤ ch ∧ ch ≤ 0xDFFF)) := by omega
  have h2 : ch < 0x80 := h
  simp only [runeToString, h1, if_false, encodeRune, h2, if_true]

theorem loopBody_lt (w : World) (g : Bool) (ext : ExtState) (ch : Nat) (h : ch < 128) :
    loopBody w g ext ch = (if 31 < ch then some [ch] else none, ext) := by
  simp only [loopBody, h, if_true, runeToString_ascii ch h]

theorem loopBody_greek (w : World) (ext : ExtState) (ch : Nat) (st : String)
    (h : 128 ≤ ch) (hst : greekRunes.lookup ch = some st) :
    loopBody w true ext ch = (some (goString st), ext) := by
  have h1 : ¬ ch < 128 := by omega
  simp only [loopBody, h1, if_false, if_true, hst]

theorem loopBody_ge (w : World) (g : Bool) (ext : ExtState) (ch : Nat)
    (h : 128 ≤ ch) (hg : g = false ∨ greekRunes.lookup ch = none) :
    loopBody w g ext ch =
      match staticLookup ch with
      | some st => (some (goString st), ext)
      | none =>
        if 0x0300 ≤ ch ∧ ch ≤ 0x036F then (none, ext)
        else if 0x33FF < ch ∧ ch < 0xFB00 then (extLookup w ext ch, ensureLoaded w ext)
        else (none, ext) := by
  have h1 : ¬ ch < 128 := by omega
  have hgr : (if g = true then greekRunes.lookup ch else none) = none := by
    rcases hg with hg | hg
    · simp [hg]
    · simp [hg]
  simp only [loopBody, h1, if_false, hgr, staticLookup, extLookup]
  cases ha : asciiRunes.lookup ch with
  | some st => simp
  | none =>
    cases hs : symbolRunes.lookup ch with
    | some st => simp
    | none =>
      cases he : extraRunes.lookup ch with
      | some st => simp
      | none => simp

/-- The five ways one pass of the rune loop can go. -/
theorem loopBody_cases (w : World) (g : Bool) (ext : ExtState) (ch : Nat) :
    (ch < 128 ∧ loopBody w g ext ch = (if 31 < ch then some [ch] else none, ext)) ∨
    (128 ≤ ch ∧ g = true ∧
      ∃ st, greekRunes.lookup ch = some st ∧ loopBody w g ext ch = (some (goString st), ext)) ∨
    (128 ≤ ch ∧ ∃ st, staticLookup ch = some st ∧
      loopBody w g ext ch = (some (goString st), ext)) ∨
    (128 ≤ ch ∧ staticLookup ch = none ∧ 0x33FF < ch ∧ ch < 0xFB00 ∧
      loopBody w g ext ch = (extLookup w ext ch, ensureLoaded w ext)) ∨
    (128 ≤ ch ∧ loopBody w g ext ch = (none, ext)) := by
  by_cases h : ch < 128
  · exact Or.inl ⟨h, loopBody_lt w g ext ch h⟩
  · have h1 : 128 ≤ ch := by omega
    right
    by_cases hg : g = true ∧ ∃ st, greekRunes.lookup ch = some st
    · obtain ⟨hg1, st, hst⟩ := hg
      subst hg1
      exact Or.inl ⟨h1, rfl, st, hst, loopBody_greek w ext ch st h1 hst⟩
    · right
      have hg2 : g = false ∨ greekRunes.lookup ch = none := by
        cases g with
        | false => exact Or.inl rfl
        | true =>
          right
          cases hl : greekRunes.lookup ch with
          | none => rfl
          | some st => exact absurd ⟨rfl, st, hl⟩ hg
      have hb := loopBody_ge w g ext ch h1 hg2
      cases hs : staticLookup ch with
      | some st =>
        rw [hs] at hb
        exact Or.inl ⟨h1, st, rfl, hb⟩
      | none =>
        rw [hs] at hb
        right
        by_cases hm : 0x0300 ≤ ch ∧ ch ≤ 0x036F
        · simp only [hm, and_self, if_true] at hb
          exact Or.inr ⟨h1, hb⟩
        · by_cases he : 0x33FF < ch ∧ ch < 0xFB00
          · simp only [hm, he, and_self, if_true, if_false] at hb
            exact Or.inl ⟨h1, rfl, he.1, he.2, hb⟩
          · simp only [hm, he, if_false] at hb
            exact Or.inr ⟨h1, hb⟩

theorem loopBody_state (w : World) (g : Bool) (ext : ExtState) (ch : Nat) :
    (loopBody w g ext ch).2 = ext ∨ (loopBody w g ext ch).2 = ensureLoaded w ext := by
  rcases loopBody_cases w g ext ch with ⟨_, h⟩ | ⟨_, _, _, _, h⟩ | ⟨_, _, _, h⟩ |
      ⟨_, _, _, _, h⟩ | ⟨_, h⟩ <;> rw [h] <;> simp

theorem loopBody_silent (w : World) (g : Bool) (ext : ExtState) (ch : Nat)
    (h : extSilent w ext) : extSilent w (loopBody w g ext ch).2 := by
  rcases loopBody_state w g ext ch with h1 | h1 <;> rw [h1]
  · exact h
  · exact extSilent_ensureLoaded w ext h

theorem loopBody_printable (w : World) (g : Bool) (ext : ExtState) (ch : Nat)
    (h : extSilent w ext) :
    ∀ b ∈ pieceBytes (loopBody w g ext ch).1, 32 ≤ b ∧ b ≤ 127 := by
  intro b hb
  rcases loopBody_cases w g ext ch with ⟨h0, h1⟩ | ⟨_, _, st, hst, h1⟩ | ⟨_, st, hst, h1⟩ |
      ⟨_, _, _, _, h1⟩ | ⟨_, h1⟩ <;> rw [h1] at hb
  · by_cases h31 : 31 < ch
    · simp [pieceBytes, h31] at hb
      omega
    · simp [pieceBytes, h31] at hb
  · exact lookup_printable _ greekRunes_printable ch st hst b (by simpa [pieceBytes] using hb)
  · exact staticLookup_printable ch st hst b (by simpa [pieceBytes] using hb)
  · simp [pieceBytes, extLookup_of_silent w ext h] at hb
  · simp [pieceBytes] at hb

/-! ## The whole loop -/

/-- The bytes joined from `arry` after the loop has run over the runes `rs`. -/
theorem transformLoop_cons (w : World) (g : Bool) (ext : ExtState) (ch : Nat) (rs : List Nat) :
    (transformLoop w g ext (ch :: rs)).1.flatten =
      pieceBytes (loopBody w g ext ch).1
        ++ (transformLoop w g (loopBody w g ext ch).2 rs).1.flatten := by
  simp only [transformLoop, List.flatten_append]
  cases (loopBody w g ext ch).1 <;> simp [pieceBytes]

theorem transformLoop_cons_state (w : World) (g : Bool) (ext : ExtState) (ch : Nat)
    (rs : List Nat) :
    (transformLoop w g ext (ch :: rs)).2 = (transformLoop w g (loopBody w g ext ch).2 rs).2 := by
  simp only [transformLoop]

theorem transformLoop_append (w : World) (g : Bool) (ext : ExtState) (a b : List Nat) :
    (transformLoop w g ext (a ++ b)).1.flatten =
        (transformLoop w g ext a).1.flatten
          ++ (transformLoop w g (transformLoop w g ext a).2 b).1.flatten ∧
    (transformLoop w g ext (a ++ b)).2 = (transformLoop w g (transformLoop w g ext a).2 b).2 := by
  induction a generalizing ext with
  | nil => simp [transformLoop]
  | cons ch rest ih =>
    have h := ih (loopBody w g ext ch).2
    rw [List.cons_append, transformLoop_cons, transformLoop_cons_state, transformLoop_cons,
      transformLoop_cons_state, h.1, h.2, List.append_assoc]
    exact ⟨rfl, rfl⟩

theorem transformLoop_printable (w : World) (g : Bool) (ext : ExtState) (rs : List Nat)
    (h : extSilent w ext) :
    ∀ b ∈ (transformLoop w g ext rs).1.flatten, 32 ≤ b ∧ b ≤ 127 := by
  induction rs generalizing ext with
  | nil => simp [transformLoop]
  | cons ch rest ih =>
    intro b hb
    rw [transformLoop_cons, List.mem_append] at hb
    rcases hb with hb | hb
    · exact loopBody_printable w g ext ch h b hb
    · exact ih _ (loopBody_silent w g ext ch h) b hb

theorem transformLoop_ascii (w : World) (g : Bool) (ext : ExtState) (rs : List Nat)
    (h : ∀ c ∈ rs, c < 128) :
    transformLoop w g ext rs
      = ((rs.filter (fun c => decide (31 < c))).map (fun c => [c]), ext) := by
  induction rs with
  | nil => rfl
  | cons ch rest ih =>
    have h0 : ch < 128 := h ch (List.mem_cons_self _ _)
    have ih2 := ih (fun c hc => h c (List.mem_cons_of_mem _ hc))
    simp only [transformLoop, loopBody_lt w g ext ch h0, ih2]
    by_cases h31 : 31 < ch
    · simp [h31, List.filter_cons]
    · simp [h31, List.filter_cons]

theorem flatten_map_singleton (l : List Nat) : (l.map (fun c => [c])).flatten = l := by
  induction l with
  | nil => rfl
  | cons a rest ih => simp [ih]

theorem escapeByte_printable (b : Nat) (h : 32 ≤ b ∧ b ≤ 127) :
    ∀ x ∈ escapeByte b, 32 ≤ x ∧ x ≤ 127 := by
  intro x hx
  rcases escapeByte_cases b with ⟨_, hb⟩ | ⟨_, hb⟩ | ⟨_, hb⟩ | ⟨_, _, _, hb⟩ <;>
    rw [hb] at hx <;> simp at hx <;> omega

/-! ## Properties of `TransformAccents` -/

theorem transformAccents_ascii (w : World) (ext : ExtState) (g : Bool) (s : GoString)
    (h : ∀ b ∈ s, b < 128) :
    TransformAccents w ext s g false = (s.filter (fun b => decide (31 < b)), ext) := by
  have hr : runes s = s := runes_ascii s h
  simp only [TransformAccents, hr, transformLoop_ascii w g ext s h, flatten_map_singleton]
  rfl

theorem filter_printable (s : GoString) (h : ∀ b ∈ s, 32 ≤ b ∧ b ≤ 126) :
    s.filter (fun b => decide (31 < b)) = s := by
  rw [List.filter_eq_self]
  intro b hb
  have := h b hb
  simp
  omega

/-- C1: with `reEncode = false` every code point below 128 is handled without consulting any
table or the extension state. Wherever such a code point `ch` stands among the runes of the
input, it contributes nothing when `ch ≤ 31` and the single byte `ch` when `32 ≤ ch ≤ 127`;
a string of bytes below 128 comes back with its control bytes removed; and a string made only
of code points 32..126 is returned unchanged when both flags are false. -/
theorem C1_ascii_passthrough (w : World) (ext : ExtState) (g : Bool) :
    (∀ (s : GoString) (pre post : List Nat) (ch : Nat),
        runes s = pre ++ ch :: post → ch < 128 →
        (TransformAccents w ext s g false).1 =
          (transformLoop w g ext pre).1.flatten
            ++ (if 31 < ch then [ch] else [])
            ++ (transformLoop w g (transformLoop w g ext pre).2 post).1.flatten) ∧
    (∀ s : GoString, (∀ b ∈ s, b < 128) →
        TransformAccents w ext s g false = (s.filter (fun b => decide (31 < b)), ext)) ∧
    (∀ s : GoString, (∀ b ∈ s, 32 ≤ b ∧ b ≤ 126) →
        (TransformAccents w ext s false false).1 = s) := by
  refine ⟨?_, ?_, ?_⟩
  · intro s pre post ch hr hch
    have h1 := (transformLoop_append w g ext pre (ch :: post)).1
    simp only [TransformAccents, hr, Bool.false_eq_true, if_false]
    rw [h1, transformLoop_cons, loopBody_lt w g _ ch hch, List.append_assoc]
    by_cases h31 : 31 < ch <;> simp [h31, pieceBytes]
  · intro s hs
    exact transformAccents_ascii w ext g s hs
  · intro s hs
    rw [transformAccents_ascii w ext false s (fun b hb => by have := hs b hb; omega)]
    exact filter_printable s hs

/-- Instance of C1 at the string "Tab\tA~" and at the printable string "a b". -/
theorem C1_ascii_passthrough_witness :
    TransformAccents ⟨true, none⟩ initState [84, 97, 98, 9, 65, 126] true false
        = ([84, 97, 98, 65, 126], initState) ∧
    (TransformAccents ⟨true, none⟩ initState [97, 32, 98] false false).1 = [97, 32, 98] :=
  ⟨(C1_ascii_passthrough ⟨true, none⟩ initState true).2.1 [84, 97, 98, 9, 65, 126]
      (by decide),
   (C1_ascii_passthrough ⟨true, none⟩ initState false).2.2 [97, 32, 98] (by decide)⟩

theorem transformAccents_printable (w : World) (ext : ExtState) (s : GoString) (g r : Bool)
    (h : extSilent w ext) : ∀ b ∈ (TransformAccents w ext s g r).1, 32 ≤ b ∧ b ≤ 127 := by
  intro b hb
  cases r with
  | false =>
    exact transformLoop_printable w g ext (runes s) h b (by simpa [TransformAccents] using hb)
  | true =>
    simp only [TransformAccents, if_true, encode_eq_flatMap, List.mem_flatMap] at hb
    obtain ⟨x, hx, hbx⟩ := hb
    exact escapeByte_printable x (transformLoop_printable w g ext (runes s) h x hx) b hbx

theorem reencode_no_angle (w : World) (ext : ExtState) (g : Bool) (s : GoString) :
    60 ∉ (TransformAccents w ext s g true).1 ∧ 62 ∉ (TransformAccents w ext s g true).1 := by
  simp only [TransformAccents, if_true, encode_eq_flatMap]
  exact flatMap_escapeByte_no_angle _

theorem staticLookup_le : staticLookup 0x2264 = some " <= " := by
  simp [staticLookup, asciiRunes_le, symbolRunes_le]

/-- C3: with `reEncode = true` the output of `TransformAccents` holds no `<` and no `>`, and
every `&` in it starts one of the entities `&lt;`, `&gt;`, `&amp;`, for every input, both
values of `spellGreek` and every state of the extension table; metacharacters that come from a
table replacement are escaped as well: U+2264 yields " &lt;= ". -/
theorem C3_reencode_escapes (w : World) (ext : ExtState) (g : Bool) :
    (∀ s : GoString,
      60 ∉ (TransformAccents w ext s g true).1 ∧ 62 ∉ (TransformAccents w ext s g true).1 ∧
      ∀ i, (TransformAccents w ext s g true).1[i]? = some 38 →
        startsWithEntity ((TransformAccents w ext s g true).1.drop i)) ∧
    (TransformAccents w ext (runeToString 0x2264) g true).1 = goString " &lt;= " := by
  constructor
  · intro s
    simp only [TransformAccents, if_true, encode_eq_flatMap]
    exact ⟨(flatMap_escapeByte_no_angle _).1, (flatMap_escapeByte_no_angle _).2,
      fun i hi => flatMap_escapeByte_amp _ i hi⟩
  · have hr : runes (runeToString 0x2264) = [0x2264] := by decide
    have hb := loopBody_ge w g ext 0x2264 (by omega)
      (by cases g; exact Or.inl rfl; exact Or.inr greekRunes_le)
    rw [staticLookup_le] at hb
    have ht : (transformLoop w g ext [0x2264]).1.flatten = goString " <= " := by
      rw [transformLoop_cons, hb]
      simp [transformLoop, pieceBytes]
    simp only [TransformAccents, if_true, encode_eq_flatMap]
    rw [hr, ht]
    decide

/-- Instance of C3: in the output for "a&b" the byte at index 1 is `&` and starts `&amp;`. -/
theorem C3_reencode_escapes_witness :
    startsWithEntity ((TransformAccents ⟨true, none⟩ initState [97, 38, 98] false true).1.drop 1) :=
  ((C3_reencode_escapes ⟨true, none⟩ initState false).1 [97, 38, 98]).2.2 1 (by decide)

/-- C4: `TransformAccents("<a & b>", false, true)` is `"&lt;a &amp; b&gt;"`, whatever the
state of the extension table. -/
theorem C4_xml_example (w : World) (ext : ExtState) :
    (TransformAccents w ext (goString "<a & b>") false true).1
      = goString "&lt;a &amp; b&gt;" := by
  have hs : goString "<a & b>" = [60, 97, 32, 38, 32, 98, 62] := by decide
  have hl := transformLoop_ascii w false ext [60, 97, 32, 38, 32, 98, 62] (by decide)
  have hr : runes [60, 97, 32, 38, 32, 98, 62] = [60, 97, 32, 38, 32, 98, 62] := by decide
  simp only [TransformAccents, if_true, encode_eq_flatMap]
  rw [hs, hr, hl, flatten_map_singleton]
  decide

theorem emitsFor_loopBody (w : World) (ext : ExtState) (g : Bool) (s : GoString)
    (pre post : List Nat) (c : Nat) (hr : runes s = pre ++ c :: post) :
    EmitsFor w ext g s pre post c
      (pieceBytes (loopBody w g (transformLoop w g ext pre).2 c).1) := by
  refine ⟨hr, ?_⟩
  have h1 := (transformLoop_append w g ext pre (c :: post)).1
  simp only [TransformAccents, hr, Bool.false_eq_true, if_false]
  rw [h1, transformLoop_cons, List.append_assoc]

theorem transformAccents_single (w : World) (ext : ExtState) (g : Bool) (s : GoString) (c : Nat)
    (hr : runes s = [c]) :
    TransformAccents w ext s g false
      = (pieceBytes (loopBody w g ext c).1, (loopBody w g ext c).2) := by
  simp only [TransformAccents, hr, Bool.false_eq_true, if_false, transformLoop,
    List.append_nil]
  cases (loopBody w g ext c).1 <;> simp [pieceBytes]

theorem transformAccents_reEncode (w : World) (ext : ExtState) (g : Bool) (s : GoString) :
    TransformAccents w ext s g true
      = ((TransformAccents w ext s g false).1.flatMap escapeByte,
         (TransformAccents w ext s g false).2) := by
  simp only [TransformAccents, if_true, Bool.false_eq_true, if_false, encode_eq_flatMap]

theorem length_escapeByte (b : Nat) : 1 ≤ (escapeByte b).length ∧
    (b = 38 → 2 ≤ (escapeByte b).length) := by
  rcases escapeByte_cases b with ⟨_, hb⟩ | ⟨_, hb⟩ | ⟨_, hb⟩ | ⟨_, _, h3, hb⟩ <;>
    rw [hb] <;> simp
  exact h3

theorem length_flatMap_escapeByte (l : GoString) :
    l.length ≤ (l.flatMap escapeByte).length ∧
    (38 ∈ l → l.length < (l.flatMap escapeByte).length) := by
  induction l with
  | nil => simp
  | cons b rest ih =>
    rw [List.flatMap_cons, List.length_append, List.length_cons]
    have h1 := length_escapeByte b
    refine ⟨by omega, ?_⟩
    intro hm
    rcases List.mem_cons.1 hm with hm | hm
    · have := h1.2 hm.symm
      omega
    · have := ih.2 hm
      omega

theorem any_isMeta_false (l : GoString) (h1 : 60 ∉ l) (h2 : 62 ∉ l) (h3 : 38 ∉ l) :
    l.any isMeta = false := by
  rw [List.any_eq_false]
  intro x hx hm
  simp only [isMeta, Bool.or_eq_true, beq_iff_eq] at hm
  rcases hm with (hm | hm) | hm <;> subst hm
  · exact h1 hx
  · exact h2 hx
  · exact h3 hx

/-- C5 fails as stated: the second call escapes the `&` of every entity of the first output
again. For "<a & b>" the first call gives "&lt;a &amp; b&gt;" and the second one
"&amp;lt;a &amp;amp; b&amp;gt;". -/
theorem C5_double_escape :
    (TransformAccents ⟨true, none⟩ initState (goString "<a & b>") false true).1
        = goString "&lt;a &amp; b&gt;" ∧
    (TransformAccents ⟨true, none⟩ initState
        (TransformAccents ⟨true, none⟩ initState (goString "<a & b>") false true).1
        false true).1 = goString "&amp;lt;a &amp;amp; b&amp;gt;" ∧
    (TransformAccents ⟨true, none⟩ initState
        (TransformAccents ⟨true, none⟩ initState (goString "<a & b>") false true).1
        false true).1
      ≠ (TransformAccents ⟨true, none⟩ initState (goString "<a & b>") false true).1 := by
  decide

theorem runes_alpha : runes (runeToString 0x03B1) = [0x03B1] := by decide

theorem runes_circle : runes (runeToString 0x25CF) = [0x25CF] := by decide

theorem runes_maqaf : runes (runeToString 0x05BE) = [0x05BE] := by decide

/-- C6: with `spellGreek = true`, a code point `c ≥ 128` with an entry in `greekRunes`
contributes exactly that entry wherever it stands among the runes of the input, whatever
`asciiRunes`, `symbolRunes` and `extraRunes` hold for `c`, and leaves the extension state as
it was. U+03B1 yields "alpha" with `spellGreek = true` and the `asciiRunes` entry " alpha "
with `spellGreek = false`. -/
theorem C6_greek_spelling (w : World) (ext : ExtState) :
    (∀ (s : GoString) (pre post : List Nat) (c : Nat) (st : String),
        runes s = pre ++ c :: post → 128 ≤ c → greekRunes.lookup c = some st →
        EmitsFor w ext true s pre post c (goString st) ∧
        (loopBody w true (transformLoop w true ext pre).2 c).2
          = (transformLoop w true ext pre).2) ∧
    (TransformAccents w ext (runeToString 0x03B1) true false).1 = goString "alpha" ∧
    (TransformAccents w ext (runeToString 0x03B1) false false).1 = goString " alpha " ∧
    asciiRunes.lookup 0x03B1 = some " alpha " := by
  refine ⟨?_, ?_, ?_, asciiRunes_alpha⟩
  · intro s pre post c st hr hc hst
    have h := emitsFor_loopBody w ext true s pre post c hr
    rw [loopBody_greek w _ c st hc hst] at h
    exact ⟨h, by rw [loopBody_greek w _ c st hc hst]⟩
  · rw [transformAccents_single w ext true _ 0x03B1 runes_alpha,
      loopBody_greek w ext 0x03B1 "alpha" (by omega) greekRunes_alpha]
    rfl
  · have hb := loopBody_ge w false ext 0x03B1 (by omega) (Or.inl rfl)
    have hs : staticLookup 0x03B1 = some " alpha " := by
      simp [staticLookup, asciiRunes_alpha]
    rw [hs] at hb
    rw [transformAccents_single w ext false _ 0x03B1 runes_alpha, hb]
    rfl

/-- Instance of C6: the string "a" followed by U+03B2 with `spellGreek = true`. -/
theorem C6_greek_spelling_witness :
    EmitsFor ⟨true, none⟩ initState true [97, 0xCE, 0xB2] [97] [] 0x03B2 (goString "beta") :=
  ((C6_greek_spelling ⟨true, none⟩ initState).1 [97, 0xCE, 0xB2] [97] [] 0x03B2 "beta"
    (by decide) (by decide) (by decide)).1

/-- C7: a code point `c ≥ 128` that the Greek step does not take contributes the entry of the
first of `asciiRunes`, `symbolRunes`, `extraRunes` that has `c`: the `symbolRunes` entry only
when `asciiRunes` has none, the `extraRunes` entry only when neither of the two has one.
U+25CF is in `symbolRunes` as "*" and in `extraRunes` as "(circle)" and yields "*"; U+05BE is
only in `extraRunes` and yields "-". -/
theorem C7_table_order (w : World) (ext : ExtState) (g : Bool) :
    (∀ (s : GoString) (pre post : List Nat) (c : Nat) (st : String),
        runes s = pre ++ c :: post → 128 ≤ c → (g = false ∨ greekRunes.lookup c = none) →
        (asciiRunes.lookup c = some st ∨
          (asciiRunes.lookup c = none ∧ symbolRunes.lookup c = some st) ∨
          (asciiRunes.lookup c = none ∧ symbolRunes.lookup c = none ∧
            extraRunes.lookup c = some st)) →
        EmitsFor w ext g s pre post c (goString st)) ∧
    (symbolRunes.lookup 0x25CF = some "*" ∧ extraRunes.lookup 0x25CF = some "(circle)" ∧
      (TransformAccents w ext (runeToString 0x25CF) g false).1 = goString "*") ∧
    (asciiRunes.lookup 0x05BE = none ∧ symbolRunes.lookup 0x05BE = none ∧
      extraRunes.lookup 0x05BE = some "-" ∧
      (TransformAccents w ext (runeToString 0x05BE) g false).1 = goString "-") := by
  have key : ∀ (e : ExtState) (c : Nat) (st : String), 128 ≤ c →
      (g = false ∨ greekRunes.lookup c = none) →
      (asciiRunes.lookup c = some st ∨
        (asciiRunes.lookup c = none ∧ symbolRunes.lookup c = some st) ∨
        (asciiRunes.lookup c = none ∧ symbolRunes.lookup c = none ∧
          extraRunes.lookup c = some st)) →
      loopBody w g e c = (some (goString st), e) := by
    intro e c st hc hg ht
    have hs : staticLookup c = some st := by
      rcases ht with h1 | ⟨h1, h2⟩ | ⟨h1, h2, h3⟩
      · simp [staticLookup, h1]
      · simp [staticLookup, h1, h2]
      · simp [staticLookup, h1, h2, h3]
    have hb := loopBody_ge w g e c hc hg
    rw [hs] at hb
    exact hb
  refine ⟨?_, ⟨symbolRunes_circle, extraRunes_circle, ?_⟩,
    ⟨asciiRunes_maqaf, symbolRunes_maqaf, extraRunes_maqaf, ?_⟩⟩
  · intro s pre post c st hr hc hg ht
    have h := emitsFor_loopBody w ext g s pre post c hr
    rw [key _ c st hc hg ht] at h
    exact h
  · rw [transformAccents_single w ext g _ 0x25CF runes_circle,
      key ext 0x25CF "*" (by omega) (Or.inr greekRunes_circle)
        (Or.inr (Or.inl ⟨asciiRunes_circle, symbolRunes_circle⟩))]
    rfl
  · rw [transformAccents_single w ext g _ 0x05BE runes_maqaf,
      key ext 0x05BE "-" (by omega) (Or.inr greekRunes_maqaf)
        (Or.inr (Or.inr ⟨asciiRunes_maqaf, symbolRunes_maqaf, extraRunes_maqaf⟩))]
    rfl

/-- Instance of C7: the string "x" followed by U+25CF; the `symbolRunes` entry "*" is used. -/
theorem C7_table_order_witness :
    EmitsFor ⟨true, none⟩ initState false [120, 0xE2, 0x97, 0x8F] [120] [] 0x25CF (goString "*") :=
  (C7_table_order ⟨true, none⟩ initState false).1 [120, 0xE2, 0x97, 0x8F] [120] [] 0x25CF "*"
    (by decide) (by decide) (Or.inl rfl)
    (Or.inr (Or.inl ⟨asciiRunes_circle, symbolRunes_circle⟩))

/-- C8 fails as stated: the marks U+0363..U+036F have entries in `asciiRunes`, which are
emitted; "a" followed by U+0363 gives "aa", not "a". -/
theorem C8_mark_with_entry :
    (TransformAccents ⟨true, none⟩ initState (97 :: runeToString 0x0363) false false).1
        = [97, 97] ∧
    (TransformAccents ⟨true, none⟩ initState (97 :: runeToString 0x0363) false false).1
        ≠ [97] := by
  decide!

theorem asciiRunes_mark_some (m : Nat) (h1 : 0x0363 ≤ m) (h2 : m ≤ 0x036F) :
    ∃ st, asciiRunes.lookup m = some st := by
  have h := asciiRunes_marks
  rw [List.all_eq_true] at h
  have hm : m ∈ List.range' 0x0363 13 := by
    rw [List.mem_range'_1]
    omega
  have := h m hm
  cases hl : asciiRunes.lookup m with
  | none => simp [hl] at this
  | some st => exact ⟨st, rfl⟩

/-- C8 as amended: for an ASCII Latin letter `b` followed by a combining mark `m` (both flags
false), the output is the one-character string `b` when `m` is in U+0300..U+0362, the marks
without a table entry; for `m` in U+0363..U+036F the output is `b` followed by the
`asciiRunes` entry of `m`. -/
theorem C8_combining_marks (w : World) (ext : ExtState) (s : GoString) (b m : Nat)
    (hr : runes s = [b, m]) (hb : (65 ≤ b ∧ b ≤ 90) ∨ (97 ≤ b ∧ b ≤ 122))
    (hm : 0x0300 ≤ m ∧ m ≤ 0x036F) :
    (m ≤ 0x0362 → TransformAccents w ext s false false = ([b], ext)) ∧
    (0x0363 ≤ m → ∃ st, asciiRunes.lookup m = some st ∧
      TransformAccents w ext s false false = (b :: goString st, ext)) := by
  have h1 : loopBody w false ext b = (some [b], ext) := by
    rw [loopBody_lt w false ext b (by omega)]
    have : 31 < b := by omega
    simp [this]
  have h2 := loopBody_ge w false ext m (by omega) (Or.inl rfl)
  constructor
  · intro hle
    rw [staticLookup_mark_none m hm.1 hle] at h2
    simp only [hm, and_self, if_true] at h2
    simp [TransformAccents, hr, transformLoop, h1, h2]
  · intro hge
    obtain ⟨st, hst⟩ := asciiRunes_mark_some m hge hm.2
    have hs : staticLookup m = some st := by simp [staticLookup, hst]
    rw [hs] at h2
    refine ⟨st, hst, ?_⟩
    simp [TransformAccents, hr, transformLoop, h1, h2]

/-- Instance of C8 as amended: "e" followed by U+0301 (combining acute accent). -/
theorem C8_combining_marks_witness :
    TransformAccents ⟨true, none⟩ initState [101, 0xCC, 0x81] false false
      = ([101], initState) :=
  (C8_combining_marks ⟨true, none⟩ initState [101, 0xCC, 0x81] 101 0x0301 (by decide)
    (by decide) (by decide)).1 (by decide)

theorem transformLoop_unmapped (w : World) (g : Bool) (ext : ExtState) (rs : List Nat)
    (h : ∀ c ∈ rs, 128 ≤ c ∧ (g = true → greekRunes.lookup c = none) ∧
      asciiRunes.lookup c = none ∧ symbolRunes.lookup c = none ∧ extraRunes.lookup c = none ∧
      (0x33FF < c → c < 0xFB00 → extLookup w ext c = none)) :
    (transformLoop w g ext rs).1.flatten = [] := by
  induction rs generalizing ext with
  | nil => rfl
  | cons c rest ih =>
    obtain ⟨hc, hg, ha, hs, he, hx⟩ := h c (List.mem_cons_self _ _)
    have hg2 : g = false ∨ greekRunes.lookup c = none := by
      cases g with
      | false => exact Or.inl rfl
      | true => exact Or.inr (hg rfl)
    have hb := loopBody_ge w g ext c hc hg2
    rw [(staticLookup_none_iff c).2 ⟨ha, hs, he⟩] at hb
    have hp : pieceBytes (loopBody w g ext c).1 = [] := by
      rw [hb]
      split_ifs with h1 h2
      · rfl
      · simp [pieceBytes, hx h2.1 h2.2]
      · rfl
    rw [transformLoop_cons, hp, List.nil_append]
    apply ih
    intro c2 hc2
    obtain ⟨a1, a2, a3, a4, a5, a6⟩ := h c2 (List.mem_cons_of_mem _ hc2)
    refine ⟨a1, a2, a3, a4, a5, ?_⟩
    intro b1 b2
    rcases loopBody_state w g ext c with hst | hst <;> rw [hst]
    · exact a6 b1 b2
    · rw [extLookup_ensureLoaded]
      exact a6 b1 b2

/-- C9: `TransformAccents` of the empty string is the empty string for all flags, and a
string whose code points are all at least 128 and have no entry in any table consulted for
them (`greekRunes` when `spellGreek`, `asciiRunes`, `symbolRunes`, `extraRunes`, and the
extension table for a code point in its range) gives the empty string. -/
theorem C9_unmapped_dropped (w : World) (ext : ExtState) (g r : Bool) :
    TransformAccents w ext [] g r = ([], ext) ∧
    ∀ s : GoString,
      (∀ c ∈ runes s, 128 ≤ c ∧ (g = true → greekRunes.lookup c = none) ∧
        asciiRunes.lookup c = none ∧ symbolRunes.lookup c = none ∧
        extraRunes.lookup c = none ∧
        (0x33FF < c → c < 0xFB00 → extLookup w ext c = none)) →
      (TransformAccents w ext s g r).1 = [] := by
  constructor
  · cases r <;> rfl
  · intro s hs
    have h := transformLoop_unmapped w g ext (runes s) hs
    cases r with
    | false => simpa [TransformAccents] using h
    | true =>
      rw [transformAccents_reEncode]
      have h2 : (TransformAccents w ext s g false).1 = [] := by
        simpa [TransformAccents] using h
      rw [h2]
      rfl

theorem greekRunes_ext_none (c : Nat) (h1 : 0x33FF < c) (h2 : c < 0xFB00) :
    greekRunes.lookup c = none :=
  lookup_none_of_noKeyIn _ _ _ greekRunes_noExt c (by omega) (by omega)

/-- Instance of C9: U+4E2D twice, no extension file, both flags set. -/
theorem C9_unmapped_dropped_witness :
    (TransformAccents ⟨true, none⟩ initState [0xE4, 0xB8, 0xAD, 0xE4, 0xB8, 0xAD] true true).1
      = [] :=
  (C9_unmapped_dropped ⟨true, none⟩ initState true true).2
    [0xE4, 0xB8, 0xAD, 0xE4, 0xB8, 0xAD]
    (by
      have hr : runes [0xE4, 0xB8, 0xAD, 0xE4, 0xB8, 0xAD] = [0x4E2D, 0x4E2D] := by decide
      rw [hr]
      intro c hc
      have hc2 : c = 0x4E2D := by simpa using hc
      subst hc2
      have hn := (staticLookup_none_iff 0x4E2D).1 (staticLookup_ext_none 0x4E2D (by omega)
        (by omega))
      exact ⟨by omega, fun _ => greekRunes_ext_none 0x4E2D (by omega) (by omega), hn.1,
        hn.2.1, hn.2.2, fun _ _ => rfl⟩)

/-- C10: for a code point `c` with `0x33FF < c < 0xFB00`, `TransformAccents` of the string
that decodes to `c` alone (`reEncode = false`, both values of `spellGreek`) runs the load if
it has not succeeded before and then returns the extension table's replacement for `c` when
the table is loaded and has `c`, and the empty string when it is not loaded or has no entry;
from an unloaded state with no executable path or no file it returns the empty string. No
static table has a key in that range. -/
theorem C10_extension_range (w : World) (ext : ExtState) (g : Bool) :
    (∀ (s : GoString) (c : Nat), runes s = [c] → 0x33FF < c → c < 0xFB00 →
      (TransformAccents w ext s g false).2 = ensureLoaded w ext ∧
      (∀ st, (ensureLoaded w ext).extRunesLoaded = true →
        (ensureLoaded w ext).externRunes.lookup (c : Int) = some st →
        (TransformAccents w ext s g false).1 = st) ∧
      ((ensureLoaded w ext).extRunesLoaded = false ∨
        (ensureLoaded w ext).externRunes.lookup (c : Int) = none →
        (TransformAccents w ext s g false).1 = []) ∧
      (ext.extRunesLoaded = false → (w.executable = false ∨ w.helpFile = none) →
        (TransformAccents w ext s g false).1 = [])) ∧
    (∀ c : Nat, 0x33FF < c → c < 0xFB00 →
      greekRunes.lookup c = none ∧ asciiRunes.lookup c = none ∧
      symbolRunes.lookup c = none ∧ extraRunes.lookup c = none) := by
  constructor
  · intro s c hr h1 h2
    have hb := loopBody_ge w g ext c (by omega) (Or.inr (greekRunes_ext_none c h1 h2))
    rw [staticLookup_ext_none c h1 h2] at hb
    have h3 : ¬ (0x0300 ≤ c ∧ c ≤ 0x036F) := by omega
    simp only [h3, h1, h2, and_self, if_true, if_false] at hb
    rw [transformAccents_single w ext g s c hr, hb]
    refine ⟨rfl, ?_, ?_, ?_⟩
    · intro st hl hst
      simp [extLookup, hl, hst, pieceBytes]
    · intro hn
      rcases hn with hn | hn
      · simp [extLookup, hn, pieceBytes]
      · simp [extLookup, hn, pieceBytes]
    · intro hu hw
      have hl : (ensureLoaded w ext).extRunesLoaded = false := by
        rcases hw with hw | hw
        · simp [ensureLoaded, hu, loadExternRunes, hw]
        · simp [ensureLoaded, hu, loadExternRunes, hw]
      simp [extLookup, hl, pieceBytes]
  · intro c h1 h2
    have hn := (staticLookup_none_iff c).1 (staticLookup_ext_none c h1 h2)
    exact ⟨greekRunes_ext_none c h1 h2, hn.1, hn.2.1, hn.2.2⟩

/-- Instance of C10: the file holds the line "4E2D<TAB>zhong" and the input is U+4E2D. -/
theorem C10_extension_range_witness :
    (TransformAccents ⟨true, some [goString "4E2D\tzhong"]⟩ initState [0xE4, 0xB8, 0xAD]
        false false).1 = goString "zhong" :=
  ((C10_extension_range ⟨true, some [goString "4E2D\tzhong"]⟩ initState false).1
    [0xE4, 0xB8, 0xAD] 0x4E2D (by decide) (by decide) (by decide)).2.1 (goString "zhong")
    (by decide) (by decide)

/-! ## Encoding and decoding of scalar values -/

theorem decode_encodeRune (c : Nat) (rest : GoString) (h : isScalar c) :
    decodeRuneInString (encodeRune c ++ rest) = (c, (encodeRune c).length) := by
  obtain ⟨h1, h2⟩ := h
  unfold encodeRune
  by_cases c1 : c < 0x80
  · simp only [c1, if_true, List.singleton_append, List.length_singleton]
    exact decodeRuneInString_ascii c rest c1
  · by_cases c2 : c < 0x800
    · simp only [c1, c2, if_true, if_false, List.cons_append, List.nil_append,
        decodeRuneInString, decode2]
      have e1 : ¬ (0xC0 + c / 64 < 0x80) := by omega
      have e2 : 0xC2 ≤ 0xC0 + c / 64 ∧ 0xC0 + c / 64 ≤ 0xDF := by omega
      have e3 : isCont (0x80 + c % 64) = true := by rw [isCont_iff]; omega
      simp only [e1, e2, e3, and_self, if_true, if_false, List.length_cons, List.length_nil]
      congr 1
      omega
    · by_cases c3 : c < 0x10000
      · simp only [c1, c2, c3, if_true, if_false, List.cons_append, List.nil_append,
          decodeRuneInString, decode3]
        have e1 : ¬ (0xE0 + c / 4096 < 0x80) := by omega
        have e2 : ¬ (0xC2 ≤ 0xE0 + c / 4096 ∧ 0xE0 + c / 4096 ≤ 0xDF) := by omega
        have e3 : 0xE0 ≤ 0xE0 + c / 4096 ∧ 0xE0 + c / 4096 ≤ 0xEF := by omega
        have e4 : isCont (0x80 + c % 64) = true := by rw [isCont_iff]; omega
        have e5 : acceptLo (0xE0 + c / 4096) ≤ 0x80 + c / 64 % 64 := by
          unfold acceptLo
          split_ifs <;> omega
        have e6 : 0x80 + c / 64 % 64 ≤ acceptHi (0xE0 + c / 4096) := by
          unfold acceptHi
          split_ifs <;> omega
        simp only [e1, e2, e3, e4, e5, e6, and_self, if_true, if_false, List.length_cons,
          List.length_nil]
        congr 1
        omega
      · simp only [c1, c2, c3, if_false, List.cons_append, List.nil_append,
          decodeRuneInString, decode4]
        have e1 : ¬ (0xF0 + c / 262144 < 0x80) := by omega
        have e2 : ¬ (0xC2 ≤ 0xF0 + c / 262144 ∧ 0xF0 + c / 262144 ≤ 0xDF) := by omega
        have e3 : ¬ (0xE0 ≤ 0xF0 + c / 262144 ∧ 0xF0 + c / 262144 ≤ 0xEF) := by omega
        have e3b : 0xF0 ≤ 0xF0 + c / 262144 ∧ 0xF0 + c / 262144 ≤ 0xF4 := by omega
        have e4 : isCont (0x80 + c % 64) = true := by rw [isCont_iff]; omega
        have e4b : isCont (0x80 + c / 64 % 64) = true := by rw [isCont_iff]; omega
        have e5 : acceptLo (0xF0 + c / 262144) ≤ 0x80 + c / 4096 % 64 := by
          unfold acceptLo
          split_ifs <;> omega
        have e6 : 0x80 + c / 4096 % 64 ≤ acceptHi (0xF0 + c / 262144) := by
          unfold acceptHi
          split_ifs <;> omega
        simp only [e1, e2, e3, e3b, e4, e4b, e5, e6, and_self, if_true, if_false,
          List.length_cons, List.length_nil]
        congr 1
        omega

theorem encodeRune_length_pos (c : Nat) : 1 ≤ (encodeRune c).length := by
  unfold encodeRune
  split_ifs <;> simp

theorem rangeFrom_skip (a rest : GoString) (i : Nat) :
    rangeFrom a.length i (a ++ rest) = rangeFrom 0 (i + a.length) rest := by
  induction a generalizing i with
  | nil => rfl
  | cons b t ih =>
    show rangeFrom (t.length + 1) i (b :: (t ++ rest)) = rangeFrom 0 (i + (t.length + 1)) rest
    simp only [rangeFrom]
    rw [ih (i + 1)]
    congr 1
    omega

theorem rangeFrom_encodeRune (c : Nat) (rest : GoString) (i : Nat) (h : isScalar c) :
    rangeFrom 0 i (encodeRune c ++ rest)
      = (i, c) :: rangeFrom 0 (i + (encodeRune c).length) rest := by
  have hd := decode_encodeRune c rest h
  have hl := encodeRune_length_pos c
  cases he : encodeRune c with
  | nil => rw [he] at hl; simp at hl
  | cons b t =>
    rw [he] at hd
    simp only [List.cons_append] at hd ⊢
    simp only [rangeFrom, hd, List.length_cons, Nat.add_sub_cancel]
    rw [rangeFrom_skip t rest (i + 1)]
    congr 2
    omega

theorem runeToString_scalar (c : Nat) (h : isScalar c) : runeToString c = encodeRune c := by
  obtain ⟨h1, h2⟩ := h
  have : ¬ (0x10FFFF < c ∨ (0xD800 ≤ c ∧ c ≤ 0xDFFF)) := by omega
  simp only [runeToString, this, if_false]

/-- Decoding the concatenated encodings of scalar values gives the values back. -/
theorem runes_flatMap_runeToString (l : List Nat) (h : ∀ c ∈ l, isScalar c) :
    runes (l.flatMap runeToString) = l := by
  have key : ∀ (l : List Nat) (i : Nat), (∀ c ∈ l, isScalar c) →
      (rangeFrom 0 i (l.flatMap runeToString)).map Prod.snd = l := by
    intro l
    induction l with
    | nil => intro i _; rfl
    | cons c t ih =>
      intro i hl
      have hc := hl c (List.mem_cons_self _ _)
      rw [List.flatMap_cons, runeToString_scalar c hc, rangeFrom_encodeRune c _ i hc,
        List.map_cons, ih _ (fun x hx => hl x (List.mem_cons_of_mem _ hx))]
  exact key l 0 h

/-- Every rune that `range` yields is a scalar value. -/
theorem decodeRuneInString_scalar (s : GoString) : isScalar (decodeRuneInString s).1 := by
  cases s with
  | nil => simp [decodeRuneInString, isScalar]
  | cons b rest =>
    unfold decodeRuneInString
    by_cases h0 : b < 0x80
    · simp only [h0, if_true, isScalar]; omega
    · simp only [h0, if_false]
      by_cases h2 : 0xC2 ≤ b ∧ b ≤ 0xDF
      · simp only [h2, and_self, if_true]
        cases rest with
        | nil => simp [decode2, isScalar]
        | cons b1 r1 =>
          by_cases hc : isCont b1 = true
          · simp only [decode2, hc, if_true, isScalar]
            omega
          · simp [decode2, hc, isScalar]
      · simp only [h2, if_false]
        by_cases h3 : 0xE0 ≤ b ∧ b ≤ 0xEF
        · simp only [h3, and_self, if_true]
          cases rest with
          | nil => simp [decode3, isScalar]
          | cons b1 r1 =>
            cases r1 with
            | nil => simp [decode3, isScalar]
            | cons b2 r2 =>
              by_cases hc : acceptLo b ≤ b1 ∧ b1 ≤ acceptHi b ∧ isCont b2 = true
              · obtain ⟨h5, h6, h7⟩ := hc
                have h9 := acceptLo_ge b
                have h10 := acceptHi_le b
                simp only [decode3, h5, h6, h7, and_self, if_true, isScalar]
                by_cases hd : b = 0xED
                · have : acceptHi b = 0x9F := by simp [acceptHi, hd]
                  omega
                · omega
              · simp [decode3, hc, isScalar]
        · simp only [h3, if_false]
          by_cases h4 : 0xF0 ≤ b ∧ b ≤ 0xF4
          · simp only [h4, and_self, if_true]
            cases rest with
            | nil => simp [decode4, isScalar]
            | cons b1 r1 =>
              cases r1 with
              | nil => simp [decode4, isScalar]
              | cons b2 r2 =>
                cases r2 with
                | nil => simp [decode4, isScalar]
                | cons b3 r3 =>
                  by_cases hc : acceptLo b ≤ b1 ∧ b1 ≤ acceptHi b ∧ isCont b2 = true
                      ∧ isCont b3 = true
                  · obtain ⟨h5, h6, h7, h8⟩ := hc
                    have h9 := acceptLo_ge b
                    have h10 := acceptHi_le b
                    simp only [decode4, h5, h6, h7, h8, and_self, if_true, isScalar]
                    by_cases hd : b = 0xF4
                    · have : acceptHi b = 0x8F := by simp [acceptHi, hd]
                      omega
                    · by_cases hd0 : b = 0xF0
                      · have : acceptLo b = 0x90 := by simp [acceptLo, hd0]
                        omega
                      · omega
                  · simp [decode4, hc, isScalar]
          · simp [h4, isScalar]

theorem rangeFrom_scalar (s : GoString) (skip i : Nat) :
    ∀ q ∈ rangeFrom skip i s, isScalar q.2 := by
  induction s generalizing skip i with
  | nil => simp [rangeFrom]
  | cons b rest ih =>
    cases skip with
    | succ k =>
      simp only [rangeFrom]
      exact ih k (i + 1)
    | zero =>
      simp only [rangeFrom, List.mem_cons]
      intro q hq
      rcases hq with hq | hq
      · rw [hq]
        exact decodeRuneInString_scalar (b :: rest)
      · exact ih _ _ q hq

theorem rangeString_scalar (s : GoString) : ∀ q ∈ rangeString s, isScalar q.2 :=
  rangeFrom_scalar s 0 0

theorem rangeFrom_any_ascii (P : Nat → Bool) (hP : ∀ x, P x = true → x < 128)
    (s : GoString) (skip i : Nat) (h : ∀ x ∈ s.take skip, 128 ≤ x) :
    (rangeFrom skip i s).any (fun p => P p.2) = s.any P := by
  have hneg : ∀ x, 128 ≤ x → P x = false := by
    intro x hx
    cases hm : P x with
    | false => rfl
    | true => have := hP x hm; omega
  induction s generalizing skip i with
  | nil => simp [rangeFrom]
  | cons b rest ih =>
    cases skip with
    | succ k =>
      have hb : 128 ≤ b := h b (by simp)
      simp only [rangeFrom, List.any_cons, hneg b hb, Bool.false_or]
      exact ih k (i + 1) (fun x hx => h x (by simp [hx]))
    | zero =>
      simp only [rangeFrom, List.any_cons]
      rcases decodeRuneInString_spec b rest with ⟨_, h2⟩ | ⟨h1, h2⟩ | ⟨h1, h2, h3⟩
      · rw [h2]
        simp only [Nat.sub_self]
        rw [ih 0 (i + 1) (by simp)]
      · rw [h2]
        simp only [Nat.sub_self, hneg b h1, hneg 0xFFFD (by omega)]
        rw [ih 0 (i + 1) (by simp)]
      · rw [hneg b h1, hneg _ h2, ih _ (i + 1) h3]

theorem runes_any_ascii (P : Nat → Bool) (hP : ∀ x, P x = true → x < 128) (s : GoString) :
    (runes s).any P = s.any P := by
  have h := rangeFrom_any_ascii P hP s 0 0 (by simp)
  rw [← h]
  unfold runes rangeString
  generalize rangeFrom 0 0 s = l
  induction l with
  | nil => rfl
  | cons p l ih => simp only [List.map_cons, List.any_cons, ih]

/-- A code point below 128 occurs among the runes of a string exactly when it occurs among
its bytes. -/
theorem mem_runes_ascii (s : GoString) (b : Nat) (hb : b < 128) : b ∈ runes s ↔ b ∈ s := by
  have h := runes_any_ascii (fun x => x == b) (by intro x hx; simp at hx; omega) s
  have h1 : (runes s).any (fun x => x == b) = true ↔ b ∈ runes s := by
    simp [List.any_eq_true]
  have h2 : s.any (fun x => x == b) = true ↔ b ∈ s := by
    simp [List.any_eq_true]
  rw [← h1, ← h2, h]

/-! ## The eszett verdict -/

theorem lastIndexSpace_none (l : GoString) (h : 32 ∉ l) : lastIndexSpace l = none := by
  induction l with
  | nil => rfl
  | cons b t ih =>
    have hb : b ≠ 32 := fun e => h (by simp [e])
    have ht : 32 ∉ t := fun e => h (List.mem_cons_of_mem _ e)
    simp [lastIndexSpace, ih ht, hb]

theorem lastIndexSpace_append (p l : GoString) (h : 32 ∉ l) :
    lastIndexSpace (p ++ 32 :: l) = some p.length := by
  induction p with
  | nil => simp [lastIndexSpace, lastIndexSpace_none l h]
  | cons b t ih => simp [lastIndexSpace, ih]

theorem exists_last_space (t : GoString) (hm : 32 ∈ t) :
    ∃ p q, t = p ++ 32 :: q ∧ 32 ∉ q := by
  induction t with
  | nil => simp at hm
  | cons c u ihu =>
    by_cases hu : 32 ∈ u
    · obtain ⟨p2, q2, e1, e2⟩ := ihu hu
      exact ⟨c :: p2, q2, by simp [e1], e2⟩
    · have hc : c = 32 := by
        rcases List.mem_cons.1 hm with e | e
        · exact e.symm
        · exact absurd e hu
      exact ⟨[], u, by simp [hc], hu⟩

theorem getLast?_getD_of_ne_nil (l : List Nat) (x y : Nat) (h : l ≠ []) :
    (l.getLast?).getD x = (l.getLast?).getD y := by
  cases hl : l.getLast? with
  | none => exact absurd (List.getLast?_eq_none_iff.1 hl) h
  | some v => rfl

theorem lastIndexSpace_some (l : GoString) (idx : Nat) (h : lastIndexSpace l = some idx) :
    ∃ p q, l = p ++ 32 :: q ∧ p.length = idx ∧ 32 ∉ q := by
  induction l generalizing idx with
  | nil => simp [lastIndexSpace] at h
  | cons b t ih =>
    cases ht : lastIndexSpace t with
    | some k =>
      obtain ⟨p, q, h1, h2, h3⟩ := ih k ht
      simp only [lastIndexSpace, ht, Option.some.injEq] at h
      exact ⟨b :: p, q, by simp [h1], by simp [h2, h], h3⟩
    | none =>
      simp only [lastIndexSpace, ht] at h
      by_cases hb : b = 32
      · simp only [hb, if_true, Option.some.injEq] at h
        refine ⟨[], t, by simp [hb], by simp [← h], ?_⟩
        intro hm
        obtain ⟨p2, q2, e1, e2⟩ := exists_last_space t hm
        rw [e1, lastIndexSpace_append p2 q2 e2] at ht
        cases ht
      · simp [hb] at h

theorem trimBefore_no_space (l : GoString) (h : 32 ∉ l) : trimBefore l = l := by
  simp [trimBefore, lastIndexSpace_none l h]

theorem trimBefore_append (p l : GoString) (h : 32 ∉ l) : trimBefore (p ++ 32 :: l) = l := by
  simp [trimBefore, lastIndexSpace_append p l h]

theorem trimBefore_eq_nil_iff (before : GoString) :
    trimBefore before = [] ↔ before = [] ∨ ∃ p, before = p ++ [32] := by
  constructor
  · intro h
    cases hl : lastIndexSpace before with
    | none =>
      left
      simpa [trimBefore, hl] using h
    | some idx =>
      right
      obtain ⟨p, q, h1, h2, h3⟩ := lastIndexSpace_some before idx hl
      have h4 : trimBefore before = q := by rw [h1]; exact trimBefore_append p q h3
      rw [h4] at h
      exact ⟨p, by rw [h1, h]⟩
  · intro h
    rcases h with h | ⟨p, h⟩
    · rw [h]; rfl
    · rw [h]
      exact trimBefore_append p [] (by simp)

theorem indexSpace_none (l : GoString) (h : 32 ∉ l) : indexSpace l = none := by
  induction l with
  | nil => rfl
  | cons b t ih =>
    have hb : b ≠ 32 := fun e => h (by simp [e])
    have ht : 32 ∉ t := fun e => h (List.mem_cons_of_mem _ e)
    simp [indexSpace, ih ht, hb]

theorem indexSpace_append (r q : GoString) (h : 32 ∉ r) :
    indexSpace (r ++ 32 :: q) = some r.length := by
  induction r with
  | nil => simp [indexSpace]
  | cons b t ih =>
    have hb : b ≠ 32 := fun e => h (by simp [e])
    have ht : 32 ∉ t := fun e => h (List.mem_cons_of_mem _ e)
    simp [indexSpace, ih ht, hb]

theorem trimAfter_no_space (r : GoString) (h : 32 ∉ r) : trimAfter r = r := by
  simp [trimAfter, indexSpace_none r h]

theorem trimAfter_append (r q : GoString) (h : 32 ∉ r) : trimAfter (r ++ 32 :: q) = r := by
  simp [trimAfter, indexSpace_append r q h]

theorem scanGerman_eq (rs : List Nat) (st : Bool × Nat) :
    scanGerman rs st =
      if rs.all inGerman then some (st.1 && rs.all inCapitals, (rs.getLast?).getD st.2)
      else none := by
  induction rs generalizing st with
  | nil => simp [scanGerman]
  | cons c t ih =>
    by_cases hg : (germanRunes.lookup c).isSome = true
    · have hg2 : inGerman c = true := hg
      simp only [scanGerman, hg, Bool.true_eq_false, if_false, ih, List.all_cons, hg2,
        Bool.true_and]
      by_cases ha : t.all inGerman = true
      · simp only [ha, if_true]
        congr 1
        have e2 : ((c :: t).getLast?).getD st.2 = (t.getLast?).getD c := by
          cases t with
          | nil => rfl
          | cons d u =>
            rw [List.getLast?_cons_cons]
            exact getLast?_getD_of_ne_nil (d :: u) _ _ (by simp)
        rw [e2]
        by_cases hc : (germanCapitals.lookup c).isSome = true
        · have hc2 : inCapitals c = true := hc
          simp [hc, hc2]
        · have hc2 : inCapitals c = false := eq_false_of_ne_true hc
          simp [hc, hc2]
      · simp [ha]
    · have hg2 : inGerman c = false := eq_false_of_ne_true hg
      simp [scanGerman, hg, hg2]

/-- The verdict written out: the conditions under which `isReallyEszett` returns true. -/
theorem isReallyEszett_eq (before after : GoString) (caps : Bool) :
    isReallyEszett before after caps =
      (decide (trimBefore before ≠ []) && (runes (trimBefore before)).all inGerman
        && inVowels (((runes (trimBefore before)).getLast?).getD 0)
        && (runes (trimAfter after)).all inGerman
        && (caps == ((runes (trimBefore before)).all inCapitals
                      && (runes (trimAfter after)).all inCapitals))) := by
  unfold isReallyEszett
  by_cases h0 : trimBefore before = []
  · simp [h0]
  · simp only [h0, if_false, scanGerman_eq, Bool.true_and, ne_eq, not_false_eq_true,
      decide_True]
    by_cases h1 : (runes (trimBefore before)).all inGerman = true
    · simp only [h1, if_true, Bool.true_and]
      by_cases h2 : (germanVowels.lookup
          (((runes (trimBefore before)).getLast?).getD 0)).isSome = true
      · have h2b : inVowels (((runes (trimBefore before)).getLast?).getD 0) = true := h2
        simp only [h2, h2b, Bool.true_eq_false, if_false, Bool.true_and]
        by_cases h3 : (runes (trimAfter after)).all inGerman = true
        · simp only [h3, if_true, Bool.true_and]
          cases caps <;> simp
        · simp [h3]
      · have h2b : inVowels (((runes (trimBefore before)).getLast?).getD 0) = false :=
          eq_false_of_ne_true h2
        simp [h2, h2b]
    · simp [h1]

/-! ## Properties of the eszett verdict -/

/-- C11: the verdict is false, for both values of `mustBeAllCaps` and every right context,
whenever the trimmed left context is empty, and the trimmed left context is empty exactly
when the left context is empty or ends in a space. -/
theorem C11_empty_left_context (before after : GoString) (caps : Bool) :
    (trimBefore before = [] → isReallyEszett before after caps = false) ∧
    (trimBefore before = [] ↔ before = [] ∨ ∃ p, before = p ++ [32]) := by
  refine ⟨?_, trimBefore_eq_nil_iff before⟩
  intro h
  simp [isReallyEszett, h]

/-- Instance of C11: the left context "Stra " ends in a space. -/
theorem C11_empty_left_context_witness :
    isReallyEszett (goString "Stra ") (goString "e") false = false :=
  (C11_empty_left_context (goString "Stra ") (goString "e") false).1 (by decide)

theorem all_inGerman_false (rs : List Nat) (h : ∃ c ∈ rs, germanRunes.lookup c = none) :
    rs.all inGerman = false := by
  obtain ⟨c, hc, hn⟩ := h
  rw [List.all_eq_false]
  exact ⟨c, hc, by simp [inGerman, hn]⟩

/-- C12: the verdict is false, for both values of `mustBeAllCaps`, whenever the trimmed left
context or the trimmed right context holds a code point that is not a key of `germanRunes`.
A digit, a Greek letter and a comma are not keys; `-`, `(` and `)` are. -/
theorem C12_non_german_rune (before after : GoString) (caps : Bool) :
    ((∃ c ∈ runes (trimBefore before), germanRunes.lookup c = none) ∨
        (∃ c ∈ runes (trimAfter after), germanRunes.lookup c = none) →
      isReallyEszett before after caps = false) ∧
    (germanRunes.lookup 49 = none ∧ germanRunes.lookup 0x03B1 = none ∧
      germanRunes.lookup 44 = none) ∧
    ((germanRunes.lookup 45).isSome = true ∧ (germanRunes.lookup 40).isSome = true ∧
      (germanRunes.lookup 41).isSome = true) := by
  refine ⟨?_, by decide, by decide⟩
  intro h
  rw [isReallyEszett_eq]
  rcases h with h | h
  · simp [all_inGerman_false _ h]
  · simp [all_inGerman_false _ h]

/-- Instance of C12: the right context "e2" holds a digit. -/
theorem C12_non_german_rune_witness :
    isReallyEszett (goString "stra") (goString "e2") false = false :=
  (C12_non_german_rune (goString "stra") (goString "e2") false).1
    (Or.inr ⟨50, by decide, by decide⟩)

/-- C13: the verdict is false, for both values of `mustBeAllCaps`, whenever the last code
point of the trimmed left context is not a key of `germanVowels`;
`verdict("stra", "e ", false)` is true and `verdict("str", "e ", false)` is false. -/
theorem C13_vowel_left (before after : GoString) (caps : Bool) :
    (∀ c, (runes (trimBefore before)).getLast? = some c → germanVowels.lookup c = none →
      isReallyEszett before after caps = false) ∧
    isReallyEszett (goString "stra") (goString "e ") false = true ∧
    isReallyEszett (goString "str") (goString "e ") false = false := by
  refine ⟨?_, by decide, by decide⟩
  intro c hc hv
  rw [isReallyEszett_eq, hc]
  simp [inVowels, hv]

/-- Instance of C13: in the left context "TGF-" the last code point is `-`. -/
theorem C13_vowel_left_witness :
    isReallyEszett (goString "TGF-") [] true = false :=
  (C13_vowel_left (goString "TGF-") [] true).1 45 (by decide) (by decide)

/-- C14: when the trimmed left context is non-empty, both trimmed contexts consist of keys of
`germanRunes` and the last code point on the left is a key of `germanVowels`, the verdict
equals the comparison of `mustBeAllCaps` with `allCaps` (every code point of both trimmed
contexts is a key of `germanCapitals`); so exactly one of `verdict(l, r, true)` and
`verdict(l, r, false)` is true. `verdict("STRA", "E", true)` is true and
`verdict("Stra", "e", true)` is false. -/
theorem C14_all_caps_rule (before after : GoString) :
    (∀ v, trimBefore before ≠ [] →
      (∀ c ∈ runes (trimBefore before), (germanRunes.lookup c).isSome = true) →
      (∀ c ∈ runes (trimAfter after), (germanRunes.lookup c).isSome = true) →
      (runes (trimBefore before)).getLast? = some v → (germanVowels.lookup v).isSome = true →
      (∀ caps, isReallyEszett before after caps =
        (caps == (runes (trimBefore before) ++ runes (trimAfter after)).all
          (fun c => (germanCapitals.lookup c).isSome))) ∧
      isReallyEszett before after true = !isReallyEszett before after false) ∧
    isReallyEszett (goString "STRA") (goString "E") true = true ∧
    isReallyEszett (goString "Stra") (goString "e") true = false := by
  refine ⟨?_, by decide, by decide⟩
  intro v h0 h1 h2 h3 h4
  have e1 : (runes (trimBefore before)).all inGerman = true := by
    rw [List.all_eq_true]; exact h1
  have e2 : (runes (trimAfter after)).all inGerman = true := by
    rw [List.all_eq_true]; exact h2
  have e3 : inVowels (((runes (trimBefore before)).getLast?).getD 0) = true := by
    rw [h3]; exact h4
  have key : ∀ caps, isReallyEszett before after caps =
      (caps == (runes (trimBefore before) ++ runes (trimAfter after)).all
        (fun c => (germanCapitals.lookup c).isSome)) := by
    intro caps
    rw [isReallyEszett_eq, e1, e2, e3, List.all_append]
    simp [h0]
    rfl
  refine ⟨key, ?_⟩
  rw [key true, key false]
  cases (runes (trimBefore before) ++ runes (trimAfter after)).all
    (fun c => (germanCapitals.lookup c).isSome) <;> rfl

/-- Instance of C14: the contexts "STRA" and "E" around a capital sharp S. -/
theorem C14_all_caps_rule_witness :
    isReallyEszett (goString "STRA") (goString "E") true
      = !isReallyEszett (goString "STRA") (goString "E") false :=
  ((C14_all_caps_rule (goString "STRA") (goString "E")).1 65 (by decide) (by decide)
    (by decide) (by decide) (by decide)).2


/-- C15 fails as stated: only the space is a word boundary. With a TAB before the word,
`verdict("x\tstra", "e ", false)` is false although `verdict("stra", "e", false)` is true. -/
theorem C15_tab_not_boundary :
    isReallyEszett (goString "x\tstra") (goString "e ") false = false ∧
    isReallyEszett (goString "stra") (goString "e") false = true := by
  decide

theorem exists_first_space (t : GoString) (hm : 32 ∈ t) :
    ∃ p q, t = p ++ 32 :: q ∧ 32 ∉ p := by
  induction t with
  | nil => simp at hm
  | cons c u ihu =>
    by_cases hc : c = 32
    · exact ⟨[], u, by simp [hc], by simp⟩
    · have hu : 32 ∈ u := by
        rcases List.mem_cons.1 hm with e | e
        · exact absurd e.symm hc
        · exact e
      obtain ⟨p2, q2, e1, e2⟩ := ihu hu
      refine ⟨c :: p2, q2, by simp [e1], ?_⟩
      intro hm2
      rcases List.mem_cons.1 hm2 with e | e
      · exact hc e.symm
      · exact e2 e

theorem mem_trimBefore_append (p l : GoString) (w : Nat) (hw : w ≠ 32) (hl : 32 ∉ l) :
    w ∈ trimBefore (p ++ w :: l) := by
  have hwl : 32 ∉ w :: l := by
    intro h
    rcases List.mem_cons.1 h with e | e
    · exact hw e.symm
    · exact hl e
  by_cases hp : 32 ∈ p
  · obtain ⟨p1, p2, e1, e2⟩ := exists_last_space p hp
    have e3 : p ++ w :: l = p1 ++ 32 :: (p2 ++ w :: l) := by simp [e1]
    have e4 : 32 ∉ p2 ++ w :: l := by
      intro h
      rcases List.mem_append.1 h with h | h
      · exact e2 h
      · exact hwl h
    rw [e3, trimBefore_append p1 _ e4]
    simp
  · have e4 : 32 ∉ p ++ w :: l := by
      intro h
      rcases List.mem_append.1 h with h | h
      · exact hp h
      · exact hwl h
    rw [trimBefore_no_space _ e4]
    simp

theorem mem_trimAfter_append (r q : GoString) (w : Nat) (hw : w ≠ 32) (hr : 32 ∉ r) :
    w ∈ trimAfter (r ++ w :: q) := by
  by_cases hq : 32 ∈ q
  · obtain ⟨q1, q2, e1, e2⟩ := exists_first_space q hq
    have e3 : r ++ w :: q = (r ++ w :: q1) ++ 32 :: q2 := by simp [e1]
    have e4 : 32 ∉ r ++ w :: q1 := by
      intro h
      rcases List.mem_append.1 h with h | h
      · exact hr h
      · rcases List.mem_cons.1 h with e | e
        · exact hw e.symm
        · exact e2 e
    rw [e3, trimAfter_append _ q2 e4]
    simp
  · have e4 : 32 ∉ r ++ w :: q := by
      intro h
      rcases List.mem_append.1 h with h | h
      · exact hr h
      · rcases List.mem_cons.1 h with e | e
        · exact hw e.symm
        · exact hq e
    rw [trimAfter_no_space _ e4]
    simp

/-- C15 as amended: the verdict depends only on the part of the left context after its last
space and the part of the right context before its first space. A TAB, line feed or carriage
return is not a boundary: it stays in the trimmed context, is not a key of `germanRunes`, and
makes the verdict false. -/
theorem C15_space_boundary (p l r q : GoString) (caps : Bool) (hl : 32 ∉ l) (hr : 32 ∉ r) :
    isReallyEszett (p ++ 32 :: l) (r ++ 32 :: q) caps = isReallyEszett l r caps ∧
    ∀ w, w = 9 ∨ w = 10 ∨ w = 13 →
      isReallyEszett (p ++ w :: l) r caps = false ∧
      isReallyEszett l (r ++ w :: q) caps = false := by
  constructor
  · rw [isReallyEszett_eq, isReallyEszett_eq, trimBefore_append p l hl,
      trimAfter_append r q hr, trimBefore_no_space l hl, trimAfter_no_space r hr]
  · intro w hw
    have hw32 : w ≠ 32 := by omega
    have hw128 : w < 128 := by omega
    have hn : germanRunes.lookup w = none := by
      rcases hw with h | h | h <;> subst h <;> decide
    constructor
    · have hm := (mem_runes_ascii _ w hw128).2 (mem_trimBefore_append p l w hw32 hl)
      rw [isReallyEszett_eq, all_inGerman_false _ ⟨w, hm, hn⟩]
      simp
    · have hm := (mem_runes_ascii _ w hw128).2 (mem_trimAfter_append r q w hw32 hr)
      rw [isReallyEszett_eq, all_inGerman_false _ ⟨w, hm, hn⟩]
      simp

/-- Instance of C15 as amended: the word "Stra?e" inside "die Stra?e ist". -/
theorem C15_space_boundary_witness :
    isReallyEszett (goString "die" ++ 32 :: goString "Stra") (goString "e" ++ 32 :: goString "ist")
        false
      = isReallyEszett (goString "Stra") (goString "e") false :=
  (C15_space_boundary (goString "die") (goString "Stra") (goString "e") (goString "ist") false
    (by decide) (by decide)).1

/-! ## Properties of `FixMisusedLetters` -/

theorem filterMap_kept (L : List (Nat × Nat)) (g : Nat × Nat → GoString) :
    L.filterMap (fun q => if q.2 < 32 then none else some (g q))
      = (L.filter (fun q => decide (32 ≤ q.2))).map g := by
  induction L with
  | nil => rfl
  | cons q t ih =>
    by_cases h : q.2 < 32
    · have h2 : ¬ 32 ≤ q.2 := by omega
      simp [List.filterMap_cons, List.filter_cons, h, h2, ih]
    · have h2 : 32 ≤ q.2 := by omega
      simp [List.filterMap_cons, List.filter_cons, h, h2, ih]

/-- The output of `FixMisusedLetters` is the encoding of the runes that the loop keeps, each
passed through `fixChar`. -/
theorem fixMisusedLetters_eq (s : GoString) (d a p : Bool) :
    FixMisusedLetters s d a p
      = ((keptRunes s).map (fun q => fixChar s d a p q.1 q.2)).flatMap runeToString := by
  unfold FixMisusedLetters keptRunes
  rw [filterMap_kept (rangeString s) (fun q => runeToString (fixChar s d a p q.1 q.2))]
  generalize (rangeString s).filter (fun q => decide (32 ≤ q.2)) = L
  induction L with
  | nil => rfl
  | cons q t ih => simp [List.flatMap_cons, ih]

theorem isScalar_consts : isScalar 946 ∧ isScalar 917 ∧ isScalar 949 ∧ isScalar 223 ∧
    isScalar 66 ∧ isScalar 39 := by
  unfold isScalar
  omega

theorem homoglyphStep_scalar (d : Bool) (ch : Nat) (h : isScalar ch) :
    isScalar (homoglyphStep d ch) := by
  unfold homoglyphStep
  split_ifs
  · exact isScalar_consts.1
  · exact isScalar_consts.2.1
  · exact isScalar_consts.2.2.1
  · exact h
  · exact h

theorem authorStep_scalar (a : Bool) (ch : Nat) (h : isScalar ch) :
    isScalar (authorStep a ch) := by
  unfold authorStep
  split_ifs
  · exact isScalar_consts.2.2.2.1
  · exact isScalar_consts.2.2.2.2.1
  · exact isScalar_consts.2.2.2.2.2
  · exact h
  · exact h

theorem proseStep_scalar (s : GoString) (p : Bool) (i ch : Nat) (h : isScalar ch) :
    isScalar (proseStep s p i ch) := by
  unfold proseStep
  split_ifs <;> first | exact h | exact isScalar_consts.1 | exact isScalar_consts.2.2.2.1

theorem fixChar_scalar (s : GoString) (d a p : Bool) (i ch : Nat) (h : isScalar ch) :
    isScalar (fixChar s d a p i ch) :=
  proseStep_scalar s p i _ (authorStep_scalar a _ (homoglyphStep_scalar d ch h))

theorem keptRunes_scalar (s : GoString) : ∀ q ∈ keptRunes s, isScalar q.2 := by
  intro q hq
  exact rangeString_scalar s q (List.mem_filter.1 hq).1

theorem keptRunes_ge (s : GoString) : ∀ q ∈ keptRunes s, 32 ≤ q.2 := by
  intro q hq
  simpa using (List.mem_filter.1 hq).2

/-- The code points of the output, position by position. -/
theorem runes_fixMisusedLetters (s : GoString) (d a p : Bool) :
    runes (FixMisusedLetters s d a p)
      = (keptRunes s).map (fun q => fixChar s d a p q.1 q.2) := by
  rw [fixMisusedLetters_eq]
  apply runes_flatMap_runeToString
  intro c hc
  obtain ⟨q, hq, rfl⟩ := List.mem_map.1 hc
  exact fixChar_scalar s d a p q.1 q.2 (keptRunes_scalar s q hq)

theorem getElem?_runes_fix (s : GoString) (d a p : Bool) (k i c : Nat)
    (h : (keptRunes s)[k]? = some (i, c)) :
    (runes (FixMisusedLetters s d a p))[k]? = some (fixChar s d a p i c) := by
  rw [runes_fixMisusedLetters, List.getElem?_map, h]
  rfl

theorem homoglyphStep_ge (d : Bool) (ch : Nat) (h : 32 ≤ ch) : 32 ≤ homoglyphStep d ch := by
  unfold homoglyphStep
  split_ifs <;> omega

theorem authorStep_ge (a : Bool) (ch : Nat) (h : 32 ≤ ch) : 32 ≤ authorStep a ch := by
  unfold authorStep
  split_ifs <;> omega

theorem proseStep_ge (s : GoString) (p : Bool) (i ch : Nat) (h : 32 ≤ ch) :
    32 ≤ proseStep s p i ch := by
  unfold proseStep
  split_ifs <;> omega

theorem fixChar_ge (s : GoString) (d a p : Bool) (i ch : Nat) (h : 32 ≤ ch) :
    32 ≤ fixChar s d a p i ch :=
  proseStep_ge s p i _ (authorStep_ge a _ (homoglyphStep_ge d ch h))

/-- C16: for every input and every combination of the three flags the output of
`FixMisusedLetters` holds no code point below 32, and no byte below 32. -/
theorem C16_no_control (s : GoString) (d a p : Bool) :
    (∀ c ∈ runes (FixMisusedLetters s d a p), 32 ≤ c) ∧
    (∀ b ∈ FixMisusedLetters s d a p, 32 ≤ b) := by
  have h1 : ∀ c ∈ runes (FixMisusedLetters s d a p), 32 ≤ c := by
    intro c hc
    rw [runes_fixMisusedLetters] at hc
    obtain ⟨q, hq, rfl⟩ := List.mem_map.1 hc
    exact fixChar_ge s d a p q.1 q.2 (keptRunes_ge s q hq)
  refine ⟨h1, ?_⟩
  intro b hb
  by_contra hlt
  have hb2 : b < 32 := by omega
  have := h1 b ((mem_runes_ascii _ b (by omega)).2 hb)
  omega

theorem map_snd_keptRunes (s : GoString) :
    (keptRunes s).map Prod.snd = (runes s).filter (fun c => decide (32 ≤ c)) := by
  unfold keptRunes runes
  generalize rangeString s = L
  induction L with
  | nil => rfl
  | cons q t ih =>
    by_cases h : 32 ≤ q.2
    · simp [List.filter_cons, h, ih]
    · simp [List.filter_cons, h, ih]

/-- C17: with `doHomoglyphs = true` and the other flags false, `FixMisusedLetters` maps the
input code point by code point and in order: U+03D0, U+1D5D and U+1D66 become U+03B2, U+0190
becomes U+0395, U+025B becomes U+03B5, code points below 32 are removed and every other code
point is kept; the output is the encoding of that sequence. -/
theorem C17_homoglyphs (s : GoString) :
    runes (FixMisusedLetters s true false false)
      = ((runes s).filter (fun c => decide (32 ≤ c))).map (fun c =>
          if c = 0x03D0 ∨ c = 0x1D5D ∨ c = 0x1D66 then 0x03B2
          else if c = 0x0190 then 0x0395
          else if c = 0x025B then 0x03B5
          else c) ∧
    FixMisusedLetters s true false false
      = (((runes s).filter (fun c => decide (32 ≤ c))).map (fun c =>
          if c = 0x03D0 ∨ c = 0x1D5D ∨ c = 0x1D66 then 0x03B2
          else if c = 0x0190 then 0x0395
          else if c = 0x025B then 0x03B5
          else c)).flatMap runeToString := by
  have key : (keptRunes s).map (fun q => fixChar s true false false q.1 q.2)
      = ((runes s).filter (fun c => decide (32 ≤ c))).map (fun c =>
          if c = 0x03D0 ∨ c = 0x1D5D ∨ c = 0x1D66 then 0x03B2
          else if c = 0x0190 then 0x0395
          else if c = 0x025B then 0x03B5
          else c) := by
    rw [← map_snd_keptRunes, List.map_map]
    apply List.map_congr_left
    intro q _
    simp [fixChar, proseStep, authorStep, homoglyphStep]
  rw [runes_fixMisusedLetters, fixMisusedLetters_eq, key]
  exact ⟨rfl, rfl⟩


/-! ### Offsets and contexts -/

/-- Unless the decoder reports an ill-formed start byte as U+FFFD of width one, the bytes it
consumed are the encoding of the rune it returns. -/
theorem encode_decodeRune (b : Nat) (rest : GoString) :
    (decodeRuneInString (b :: rest) = (0xFFFD, 1) ∧ 128 ≤ b) ∨
    ((b :: rest).take (decodeRuneInString (b :: rest)).2
        = encodeRune (decodeRuneInString (b :: rest)).1 ∧
      (decodeRuneInString (b :: rest)).2
        = (encodeRune (decodeRuneInString (b :: rest)).1).length) := by
  by_cases h0 : b < 0x80
  · right
    rw [decodeRuneInString_ascii b rest h0]
    simp [encodeRune, h0]
  · have hb : 128 ≤ b := by omega
    unfold decodeRuneInString
    simp only [h0, if_false]
    by_cases h2 : 0xC2 ≤ b ∧ b ≤ 0xDF
    · simp only [h2, and_self, if_true]
      cases rest with
      | nil => exact Or.inl ⟨rfl, hb⟩
      | cons b1 r1 =>
        by_cases hc : isCont b1 = true
        · right
          have h1 := (isCont_iff b1).1 hc
          simp only [decode2, hc, if_true]
          have e1 : ¬ (b % 32 * 64 + b1 % 64 < 0x80) := by omega
          have e2 : b % 32 * 64 + b1 % 64 < 0x800 := by omega
          simp only [encodeRune, e1, e2, if_true, if_false, List.take_succ_cons,
            List.take_zero, List.length_cons, List.length_nil]
          refine ⟨?_, trivial⟩
          congr 1
          · omega
          · congr 1
            omega
        · left
          simp [decode2, hc, hb]
    · simp only [h2, if_false]
      by_cases h3 : 0xE0 ≤ b ∧ b ≤ 0xEF
      · simp only [h3, and_self, if_true]
        cases rest with
        | nil => exact Or.inl ⟨rfl, hb⟩
        | cons b1 r1 =>
          cases r1 with
          | nil => exact Or.inl ⟨rfl, hb⟩
          | cons b2 r2 =>
            by_cases hc : acceptLo b ≤ b1 ∧ b1 ≤ acceptHi b ∧ isCont b2 = true
            · right
              obtain ⟨h5, h6, h7⟩ := hc
              have h8 := (isCont_iff b2).1 h7
              have h9 := acceptLo_ge b
              have h10 := acceptHi_le b
              simp only [decode3, h5, h6, h7, and_self, if_true]
              have hlo : b = 0xE0 → 0xA0 ≤ b1 := by
                intro he
                have : acceptLo b = 0xA0 := by simp [acceptLo, he]
                omega
              have e1 : ¬ (b % 16 * 4096 + b1 % 64 * 64 + b2 % 64 < 0x80) := by omega
              have e2 : ¬ (b % 16 * 4096 + b1 % 64 * 64 + b2 % 64 < 0x800) := by
                by_cases he : b = 0xE0
                · have := hlo he
                  omega
                · omega
              have e3 : b % 16 * 4096 + b1 % 64 * 64 + b2 % 64 < 0x10000 := by omega
              simp only [encodeRune, e1, e2, e3, if_true, if_false, List.take_succ_cons,
                List.take_zero, List.length_cons, List.length_nil]
              refine ⟨?_, trivial⟩
              congr 1
              · omega
              · congr 1
                · omega
                · congr 1
                  omega
            · left
              simp only [decode3, hc, if_false]
              exact ⟨trivial, hb⟩
      · simp only [h3, if_false]
        by_cases h4 : 0xF0 ≤ b ∧ b ≤ 0xF4
        · simp only [h4, and_self, if_true]
          cases rest with
          | nil => exact Or.inl ⟨rfl, hb⟩
          | cons b1 r1 =>
            cases r1 with
            | nil => exact Or.inl ⟨rfl, hb⟩
            | cons b2 r2 =>
              cases r2 with
              | nil => exact Or.inl ⟨rfl, hb⟩
              | cons b3 r3 =>
                by_cases hc : acceptLo b ≤ b1 ∧ b1 ≤ acceptHi b ∧ isCont b2 = true
                    ∧ isCont b3 = true
                · right
                  obtain ⟨h5, h6, h7, h7b⟩ := hc
                  have h8 := (isCont_iff b2).1 h7
                  have h8b := (isCont_iff b3).1 h7b
                  have h9 := acceptLo_ge b
                  have h10 := acceptHi_le b
                  simp only [decode4, h5, h6, h7, h7b, and_self, if_true]
                  have hlo : b = 0xF0 → 0x90 ≤ b1 := by
                    intro he
                    have : acceptLo b = 0x90 := by simp [acceptLo, he]
                    omega
                  have e3 : ¬ (b % 8 * 262144 + b1 % 64 * 4096 + b2 % 64 * 64 + b3 % 64
                      < 0x10000) := by
                    by_cases he : b = 0xF0
                    · have := hlo he
                      omega
                    · omega
                  have e1 : ¬ (b % 8 * 262144 + b1 % 64 * 4096 + b2 % 64 * 64 + b3 % 64
                      < 0x80) := by omega
                  have e2 : ¬ (b % 8 * 262144 + b1 % 64 * 4096 + b2 % 64 * 64 + b3 % 64
                      < 0x800) := by omega
                  simp only [encodeRune, e1, e2, e3, if_false, List.take_succ_cons,
                    List.take_zero, List.length_cons, List.length_nil]
                  refine ⟨?_, trivial⟩
                  congr 1
                  · omega
                  · congr 1
                    · omega
                    · congr 1
                      · omega
                      · congr 1
                        omega
                · left
                  simp only [decode4, hc, if_false]
                  exact ⟨trivial, hb⟩
        · left
          simp only [h4, if_false]
          exact ⟨trivial, hb⟩

/-- Every pair `(i, ch)` of the `range` loop holds the rune decoded at byte offset `i`. -/
theorem rangeFrom_offset (pre t : GoString) (skip : Nat) :
    ∀ q ∈ rangeFrom skip pre.length t,
      q.1 < (pre ++ t).length ∧
      q.2 = (decodeRuneInString ((pre ++ t).drop q.1)).1 := by
  induction t generalizing pre skip with
  | nil => simp [rangeFrom]
  | cons b rest ih =>
    have hpre : pre ++ b :: rest = (pre ++ [b]) ++ rest := by simp
    have hlen : (pre ++ [b]).length = pre.length + 1 := by simp
    cases skip with
    | succ k =>
      intro q hq
      simp only [rangeFrom] at hq
      have := ih (pre ++ [b]) k q (by rw [hlen]; exact hq)
      rw [hpre]
      exact this
    | zero =>
      intro q hq
      simp only [rangeFrom, List.mem_cons] at hq
      rcases hq with hq | hq
      · subst hq
        simp
      · have := ih (pre ++ [b]) _ q (by rw [hlen]; exact hq)
        rw [hpre]
        exact this

theorem rangeString_offset (s : GoString) (i c : Nat) (h : (i, c) ∈ rangeString s) :
    i < s.length ∧ c = (decodeRuneInString (s.drop i)).1 := by
  have := rangeFrom_offset [] s 0 (i, c) (by simpa [rangeString] using h)
  simpa using this

/-- A rune other than U+FFFD read at offset `i` splits the string into the text before it, its
encoding, and the text after it. -/
theorem split_at_rune (s : GoString) (i c : Nat) (h : (i, c) ∈ rangeString s)
    (hc : c ≠ 0xFFFD) :
    s = s.take i ++ encodeRune c ++ s.drop (i + (encodeRune c).length) := by
  obtain ⟨hi, hd⟩ := rangeString_offset s i c h
  cases hs : s.drop i with
  | nil =>
    have : s.length ≤ i := List.drop_eq_nil_iff.1 hs
    omega
  | cons b rest =>
    rw [hs] at hd
    rcases encode_decodeRune b rest with ⟨h1, _⟩ | ⟨h1, h2⟩
    · rw [h1] at hd
      exact absurd hd hc
    · rw [← hd] at h1 h2
      have e1 : s.drop (i + (encodeRune c).length) = (b :: rest).drop (encodeRune c).length := by
        rw [← hs, List.drop_drop]
      rw [e1, ← h2, ← h1, List.append_assoc, List.take_append_drop, ← hs,
        List.take_append_drop]


theorem runeLen_eq_length (c : Nat) (h : isScalar c) :
    runeLen c = ((encodeRune c).length : Int) := by
  obtain ⟨h1, h2⟩ := h
  unfold runeLen encodeRune
  by_cases c1 : c < 0x80
  · have : c ≤ 0x7F := by omega
    simp [c1, this]
  · by_cases c2 : c < 0x800
    · have e1 : ¬ c ≤ 0x7F := by omega
      have e2 : c ≤ 0x7FF := by omega
      simp [c1, c2, e1, e2]
    · by_cases c3 : c < 0x10000
      · have e1 : ¬ c ≤ 0x7F := by omega
        have e2 : ¬ c ≤ 0x7FF := by omega
        have e3 : c ≤ 0xFFFF := by omega
        simp [c1, c2, c3, e1, e2, e3, h2]
      · have e1 : ¬ c ≤ 0x7F := by omega
        have e2 : ¬ c ≤ 0x7FF := by omega
        have e3 : ¬ c ≤ 0xFFFF := by omega
        have e4 : ¬ (0xD800 ≤ c ∧ c ≤ 0xDFFF) := by omega
        simp [c1, c2, c3, e1, e2, e3, e4, h1]

theorem drop_runeLen (s : GoString) (i c : Nat) (h : isScalar c) :
    s.drop (i + runeLen c).toNat = s.drop (i + (encodeRune c).length) := by
  rw [runeLen_eq_length c h]
  congr 1

theorem mem_rangeString_of_kept (s : GoString) (k i c : Nat)
    (h : (keptRunes s)[k]? = some (i, c)) : (i, c) ∈ rangeString s ∧ 32 ≤ c := by
  have hm : (i, c) ∈ keptRunes s := List.getElem?_mem h
  exact ⟨(List.mem_filter.1 hm).1, keptRunes_ge s (i, c) hm⟩

/-- C18: with `isAuthor = true` and `isProse = false`, for every input and both values of
`doHomoglyphs`, each U+03B2, U+03D0, U+1D5D or U+1D66 is replaced by U+00DF, each U+0392 by
`B` and each double quote by an apostrophe, position by position among the code points that
are not skipped; the output holds none of U+03B2, U+03D0, U+1D5D, U+1D66, U+0392, U+0022.
U+03B2 followed by a double quote yields U+00DF followed by an apostrophe. -/
theorem C18_author_field (s : GoString) (d : Bool) :
    (∀ k i c : Nat, (keptRunes s)[k]? = some (i, c) →
      (isBetaLike c → (runes (FixMisusedLetters s d true false))[k]? = some 0x00DF) ∧
      (c = 0x0392 → (runes (FixMisusedLetters s d true false))[k]? = some 66) ∧
      (c = 34 → (runes (FixMisusedLetters s d true false))[k]? = some 39)) ∧
    (∀ c ∈ runes (FixMisusedLetters s d true false),
      ¬ isBetaLike c ∧ c ≠ 0x0392 ∧ c ≠ 34) ∧
    FixMisusedLetters (encodeRune 0x03B2 ++ [34]) d true false = encodeRune 0x00DF ++ [39] := by
  refine ⟨?_, ?_, by cases d <;> decide⟩
  · intro k i c h
    rw [getElem?_runes_fix s d true false k i c h]
    refine ⟨?_, ?_, ?_⟩
    · intro hb
      unfold isBetaLike at hb
      cases d <;> simp only [fixChar, proseStep, authorStep, homoglyphStep] <;>
        rcases hb with hb | hb | hb | hb <;> subst hb <;> simp
    · intro hc
      subst hc
      cases d <;> simp [fixChar, proseStep, authorStep, homoglyphStep]
    · intro hc
      subst hc
      cases d <;> simp [fixChar, proseStep, authorStep, homoglyphStep]
  · intro c hc
    rw [runes_fixMisusedLetters] at hc
    obtain ⟨q, _, rfl⟩ := List.mem_map.1 hc
    simp only [fixChar, proseStep, authorStep, Bool.false_eq_true, if_false, if_true,
      isBetaLike]
    split_ifs <;> omega

/-- Instance of C18: the author string "M" U+0392 "." with `doHomoglyphs = false`. -/
theorem C18_author_field_witness :
    (runes (FixMisusedLetters (77 :: encodeRune 0x0392 ++ [46]) false true false))[1]?
      = some 66 :=
  ((C18_author_field (77 :: encodeRune 0x0392 ++ [46]) false).1 1 1 0x0392 (by decide)).2.1
    rfl

/-- C19 fails as stated: with `isAuthor` and `isProse` both true the prose rule runs on the
U+00DF that the author rule has just written; the one-letter input U+03B2 comes back as
U+03B2. -/
theorem C19_author_then_prose :
    FixMisusedLetters (encodeRune 0x03B2) false true true = encodeRune 0x03B2 ∧
    runes (FixMisusedLetters (encodeRune 0x03B2) false true true) = [0x03B2] := by
  decide

/-- C19 as amended: with `isAuthor = true`, a U+03B2 read at byte offset `i` appears at its
position of the output as U+00DF when `isProse = false`; when `isProse = true` it appears as
U+00DF if the eszett verdict on the text before and after it is true and as U+03B2 if the
verdict is false. -/
theorem C19_author_beta (s : GoString) (d p : Bool) (k i : Nat)
    (h : (keptRunes s)[k]? = some (i, 0x03B2)) :
    (p = false → (runes (FixMisusedLetters s d true p))[k]? = some 0x00DF) ∧
    (p = true → (runes (FixMisusedLetters s d true p))[k]? =
      some (if isReallyEszett (s.take i) (s.drop (i + 2)) false = true then 0x00DF
            else 0x03B2)) ∧
    s = s.take i ++ encodeRune 0x03B2 ++ s.drop (i + 2) := by
  have hs := split_at_rune s i 0x03B2 (mem_rangeString_of_kept s k i _ h).1 (by omega)
  have hl : (encodeRune 0x03B2).length = 2 := by decide
  rw [hl] at hs
  rw [getElem?_runes_fix s d true p k i _ h]
  have h1 : authorStep true (homoglyphStep d 0x03B2) = 223 := by
    cases d <;> simp [authorStep, homoglyphStep]
  have h2 : (i + runeLen 223).toNat = i + 2 := by
    have : runeLen 223 = 2 := by decide
    rw [this]
    rfl
  refine ⟨?_, ?_, hs⟩
  · intro hp
    subst hp
    simp [fixChar, h1, proseStep]
  · intro hp
    subst hp
    simp only [fixChar, h1, proseStep, if_true, h2]
    cases isReallyEszett (s.take i) (s.drop (i + 2)) false <;> simp

/-- Instance of C19 as amended: the author string "Stra" U+03B2 "e" with `isProse = false`. -/
theorem C19_author_beta_witness :
    (runes (FixMisusedLetters (goString "Stra" ++ encodeRune 0x03B2 ++ [101])
      false true false))[4]? = some 0x00DF :=
  (C19_author_beta (goString "Stra" ++ encodeRune 0x03B2 ++ [101]) false false 4 4
    (by decide)).1 rfl

/-- C20: with `isProse = true` and the other flags false, a code point `c ≥ 32` read at byte
offset `i` appears at its position of the output as follows, `before` being the text up to
offset `i` and `after` the text behind the encoding of `c`: U+00DF stays when
`verdict(before, after, false)` is true and becomes U+03B2 otherwise; U+03B2, U+03D0, U+1D5D
and U+1D66 become U+00DF when `verdict(before, after, false)` is true and stay otherwise;
U+1E9E stays when `verdict(before, after, true)` is true and becomes U+03B2 otherwise; every
other code point stays. The string "Stra" U+00DF "e" is returned unchanged and "TGF-" U+00DF
becomes "TGF-" U+03B2. -/
theorem C20_prose_rule (s : GoString) :
    (∀ k i c : Nat, (keptRunes s)[k]? = some (i, c) →
      (runes (FixMisusedLetters s false false true))[k]? = some
        (if c = 0x00DF then
          (if isReallyEszett (s.take i) (s.drop (i + (encodeRune c).length)) false = true
            then 0x00DF else 0x03B2)
         else if c = 0x03B2 ∨ c = 0x03D0 ∨ c = 0x1D5D ∨ c = 0x1D66 then
          (if isReallyEszett (s.take i) (s.drop (i + (encodeRune c).length)) false = true
            then 0x00DF else c)
         else if c = 0x1E9E then
          (if isReallyEszett (s.take i) (s.drop (i + (encodeRune c).length)) true = true
            then 0x1E9E else 0x03B2)
         else c) ∧
      (c ≠ 0xFFFD → s = s.take i ++ encodeRune c ++ s.drop (i + (encodeRune c).length))) ∧
    FixMisusedLetters (goString "Stra" ++ encodeRune 0x00DF ++ goString "e") false false true
      = goString "Stra" ++ encodeRune 0x00DF ++ goString "e" ∧
    FixMisusedLetters (goString "TGF-" ++ encodeRune 0x00DF) false false true
      = goString "TGF-" ++ encodeRune 0x03B2 := by
  refine ⟨?_, by decide, by decide⟩
  intro k i c h
  obtain ⟨hm, _⟩ := mem_rangeString_of_kept s k i c h
  have hsc : isScalar c := rangeString_scalar s (i, c) hm
  refine ⟨?_, fun hc => split_at_rune s i c hm hc⟩
  rw [getElem?_runes_fix s false false true k i c h]
  simp only [fixChar, authorStep, homoglyphStep, Bool.false_eq_true, if_false, proseStep,
    if_true, drop_runeLen s i c hsc]
  congr 1
  by_cases c1 : c = 0x00DF
  · simp only [c1, if_true]
    cases isReallyEszett (s.take i) (s.drop (i + (encodeRune 223).length)) false <;> simp
  · simp only [c1, if_false]
    by_cases c2 : c = 0x03B2 ∨ c = 0x03D0 ∨ c = 0x1D5D ∨ c = 0x1D66
    · simp only [c2, if_true]
    · simp only [c2, if_false]
      by_cases c3 : c = 0x1E9E
      · simp only [c3, if_true]
        cases isReallyEszett (s.take i) (s.drop (i + (encodeRune 7838).length)) true <;> simp
      · simp only [c3, if_false]

/-- Instance of C20: in "TGF-" U+00DF the sharp s stands at offset 4 and becomes U+03B2. -/
theorem C20_prose_rule_witness :
    (runes (FixMisusedLetters (goString "TGF-" ++ encodeRune 0x00DF) false false true))[4]?
      = some (if 0x00DF = 0x00DF then
          (if isReallyEszett ((goString "TGF-" ++ encodeRune 0x00DF).take 4)
              ((goString "TGF-" ++ encodeRune 0x00DF).drop (4 + (encodeRune 0x00DF).length))
              false = true
            then 0x00DF else 0x03B2)
         else if 0x00DF = 0x03B2 ∨ 0x00DF = 0x03D0 ∨ 0x00DF = 0x1D5D ∨ 0x00DF = 0x1D66 then
          (if isReallyEszett ((goString "TGF-" ++ encodeRune 0x00DF).take 4)
              ((goString "TGF-" ++ encodeRune 0x00DF).drop (4 + (encodeRune 0x00DF).length))
              false = true
            then 0x00DF else 0x00DF)
         else if 0x00DF = 0x1E9E then
          (if isReallyEszett ((goString "TGF-" ++ encodeRune 0x00DF).take 4)
              ((goString "TGF-" ++ encodeRune 0x00DF).drop (4 + (encodeRune 0x00DF).length))
              true = true
            then 0x1E9E else 0x03B2)
         else 0x00DF) :=
  ((C20_prose_rule (goString "TGF-" ++ encodeRune 0x00DF)).1 4 4 0x00DF (by decide)).1

/-! ## Decoding of prefixes and suffixes -/

theorem decode_width (b : Nat) (rest : GoString) :
    1 ≤ (decodeRuneInString (b :: rest)).2 ∧
    (decodeRuneInString (b :: rest)).2 ≤ (b :: rest).length := by
  rcases encode_decodeRune b rest with ⟨h, _⟩ | ⟨h1, h2⟩
  · rw [h]
    simp
  · have h3 := encodeRune_length_pos (decodeRuneInString (b :: rest)).1
    have h4 := congrArg List.length h1
    rw [List.length_take, ← h2] at h4
    omega

theorem rangeFrom_drop (t : GoString) (skip i : Nat) (h : skip ≤ t.length) :
    rangeFrom skip i t = rangeFrom 0 (i + skip) (t.drop skip) := by
  induction t generalizing skip i with
  | nil =>
    have : skip = 0 := by simpa using h
    subst this
    rfl
  | cons b rest ih =>
    cases skip with
    | zero => rfl
    | succ k =>
      simp only [rangeFrom, List.drop_succ_cons]
      rw [ih k (i + 1) (by simpa using h)]
      congr 1
      omega

/-- The `range` loop as a recursion on the rest of the string. -/
theorem rangeFrom_step (b : Nat) (rest : GoString) (i : Nat) :
    rangeFrom 0 i (b :: rest)
      = (i, (decodeRuneInString (b :: rest)).1)
        :: rangeFrom 0 (i + (decodeRuneInString (b :: rest)).2)
            ((b :: rest).drop (decodeRuneInString (b :: rest)).2) := by
  obtain ⟨h1, h2⟩ := decode_width b rest
  simp only [rangeFrom]
  rw [rangeFrom_drop rest _ (i + 1) (by simp at h2; omega)]
  congr 2
  · omega
  · obtain ⟨w, hw⟩ : ∃ w, (decodeRuneInString (b :: rest)).2 = w + 1 :=
      ⟨(decodeRuneInString (b :: rest)).2 - 1, by omega⟩
    rw [hw]
    rfl

theorem map_snd_rangeFrom (t : GoString) (skip i j : Nat) :
    (rangeFrom skip i t).map Prod.snd = (rangeFrom skip j t).map Prod.snd := by
  induction t generalizing skip i j with
  | nil => simp [rangeFrom]
  | cons b rest ih =>
    cases skip with
    | succ k =>
      simp only [rangeFrom]
      exact ih k _ _
    | zero =>
      simp only [rangeFrom, List.map_cons]
      rw [ih _ (i + 1) (j + 1)]

theorem map_snd_rangeFrom_zero (t : GoString) (i : Nat) :
    (rangeFrom 0 i t).map Prod.snd = runes t :=
  map_snd_rangeFrom t 0 i 0

/-- Cutting the string behind the bytes of its first rune does not change that rune. -/
theorem decode_take (t : GoString) (n : Nat) (h : (decodeRuneInString t).2 ≤ n) :
    decodeRuneInString (t.take n) = decodeRuneInString t := by
  cases t with
  | nil => simp
  | cons b rest =>
    obtain ⟨hw1, hw2⟩ := decode_width b rest
    obtain ⟨m, hm⟩ : ∃ m, n = m + 1 := ⟨n - 1, by omega⟩
    subst hm
    rcases encode_decodeRune b rest with ⟨h1, hb⟩ | ⟨h1, h2⟩
    · rw [h1]
      simp only [List.take_succ_cons]
      rcases encode_decodeRune b (rest.take m) with ⟨g1, _⟩ | ⟨g1, g2⟩
      · exact g1
      · exfalso
        obtain ⟨gw1, gw2⟩ := decode_width b (rest.take m)
        have e1 : (b :: rest.take m) = (b :: rest).take (m + 1) := by simp
        have e2 : (b :: rest).take (decodeRuneInString (b :: rest.take m)).2
            = encodeRune (decodeRuneInString (b :: rest.take m)).1 := by
          rw [← g1, e1, List.take_take]
          congr 1
          rw [e1] at gw2
          simp only [List.length_take] at gw2
          omega
        have e3 : b :: rest = encodeRune (decodeRuneInString (b :: rest.take m)).1
            ++ (b :: rest).drop (decodeRuneInString (b :: rest.take m)).2 := by
          rw [← e2, List.take_append_drop]
        have e4 := decode_encodeRune (decodeRuneInString (b :: rest.take m)).1
          ((b :: rest).drop (decodeRuneInString (b :: rest.take m)).2)
          (decodeRuneInString_scalar _)
        rw [← e3, h1] at e4
        have e5 : (decodeRuneInString (b :: rest.take m)).1 = 0xFFFD := by
          have := congrArg Prod.fst e4
          exact this.symm
        have e6 : (encodeRune (decodeRuneInString (b :: rest.take m)).1).length = 1 := by
          have := congrArg Prod.snd e4
          exact this.symm
        rw [e5] at e6
        revert e6
        decide
    · have e1 : (b :: rest).take (m + 1)
          = encodeRune (decodeRuneInString (b :: rest)).1
            ++ ((b :: rest).drop (decodeRuneInString (b :: rest)).2).take
                (m + 1 - (decodeRuneInString (b :: rest)).2) := by
        rw [← h1, ← List.take_append_drop (decodeRuneInString (b :: rest)).2
          ((b :: rest).take (m + 1)), List.take_take, List.drop_take]
        congr 2
        omega
      rw [e1, decode_encodeRune _ _ (decodeRuneInString_scalar _), ← h2]

/-- Splitting the pairs of the `range` loop at one of them splits the string at its offset. -/
theorem rangeFrom_split (pre : List (Nat × Nat)) :
    ∀ (t : GoString) (i0 i c : Nat) (post : List (Nat × Nat)),
      rangeFrom 0 i0 t = pre ++ (i, c) :: post →
      i0 ≤ i ∧ rangeFrom 0 i0 (t.take (i - i0)) = pre ∧
        rangeFrom 0 i (t.drop (i - i0)) = (i, c) :: post := by
  induction pre with
  | nil =>
    intro t i0 i c post h
    cases t with
    | nil => simp [rangeFrom] at h
    | cons b rest =>
      have h2 := h
      rw [rangeFrom_step] at h2
      simp only [List.nil_append, List.cons.injEq, Prod.mk.injEq] at h2
      obtain ⟨⟨hi, _⟩, _⟩ := h2
      subst hi
      refine ⟨le_refl _, ?_, ?_⟩
      · simp [rangeFrom]
      · simpa using h
  | cons p0 pre ih =>
    intro t i0 i c post h
    cases t with
    | nil => simp [rangeFrom] at h
    | cons b rest =>
      obtain ⟨hw1, hw2⟩ := decode_width b rest
      rw [rangeFrom_step] at h
      simp only [List.cons_append, List.cons.injEq] at h
      obtain ⟨hp0, htail⟩ := h
      obtain ⟨g1, g2, g3⟩ := ih _ _ i c post htail
      have hle : (decodeRuneInString (b :: rest)).2 ≤ i - i0 := by omega
      refine ⟨by omega, ?_, ?_⟩
      · obtain ⟨m, hm⟩ : ∃ m, i - i0 = m + 1 := ⟨i - i0 - 1, by omega⟩
        have hd := decode_take (b :: rest) (i - i0) hle
        rw [hm] at hd ⊢
        simp only [List.take_succ_cons] at hd ⊢
        rw [rangeFrom_step, hd, ← hp0]
        congr 1
        rw [← g2]
        congr 1
        have e : b :: rest.take m = (b :: rest).take (m + 1) := by simp
        rw [e, List.drop_take]
        congr 1
        omega
      · rw [← g3, List.drop_drop]
        congr 2
        omega

/-- The runes before and after an element of the `range` loop are the runes of the text
before its offset and of the text behind its bytes. -/
theorem runes_split (s : GoString) (pre post : List (Nat × Nat)) (i c : Nat)
    (h : rangeString s = pre ++ (i, c) :: post) :
    runes (s.take i) = pre.map Prod.snd ∧
    runes (s.drop (i + (decodeRuneInString (s.drop i)).2)) = post.map Prod.snd ∧
    runes s = pre.map Prod.snd ++ c :: post.map Prod.snd := by
  obtain ⟨_, g2, g3⟩ := rangeFrom_split pre s 0 i c post h
  simp only [Nat.sub_zero] at g2 g3
  refine ⟨?_, ?_, ?_⟩
  · rw [← g2]
    rfl
  · cases hs : s.drop i with
    | nil => rw [hs] at g3; simp [rangeFrom] at g3
    | cons b rest =>
      rw [hs, rangeFrom_step] at g3
      simp only [List.cons.injEq] at g3
      rw [← g3.2, map_snd_rangeFrom_zero, ← hs, List.drop_drop]
  · unfold runes
    rw [h]
    simp


theorem mem_rangeFrom_ascii (t : GoString) (skip i : Nat)
    (h : ∀ x ∈ t.take skip, 128 ≤ x) (j c : Nat) (hj : t[j]? = some c) (hc : c < 128) :
    (i + j, c) ∈ rangeFrom skip i t := by
  induction t generalizing skip i j with
  | nil => simp at hj
  | cons b rest ih =>
    cases skip with
    | succ k =>
      cases j with
      | zero =>
        simp at hj
        have := h b (by simp)
        omega
      | succ j2 =>
        simp only [rangeFrom]
        have := ih k (i + 1) (fun x hx => h x (by simp [hx])) j2 (by simpa using hj)
        have e : i + 1 + j2 = i + (j2 + 1) := by omega
        rw [e] at this
        exact this
    | zero =>
      simp only [rangeFrom]
      cases j with
      | zero =>
        simp at hj
        subst hj
        rw [decodeRuneInString_ascii b rest hc]
        simp
      | succ j2 =>
        have hj2 : rest[j2]? = some c := by simpa using hj
        apply List.mem_cons_of_mem
        have e : i + (j2 + 1) = i + 1 + j2 := by omega
        rw [e]
        rcases decodeRuneInString_spec b rest with ⟨_, h2⟩ | ⟨_, h2⟩ | ⟨_, _, h3⟩
        · rw [h2]
          exact ih 0 (i + 1) (by simp) j2 hj2
        · rw [h2]
          exact ih 0 (i + 1) (by simp) j2 hj2
        · exact ih _ (i + 1) h3 j2 hj2

/-- A byte below 128 separates the runes before it from the runes after it. -/
theorem runes_append_ascii (p l : GoString) (c : Nat) (hc : c < 128) :
    runes (p ++ c :: l) = runes p ++ c :: runes l := by
  have hm : (0 + p.length, c) ∈ rangeFrom 0 0 (p ++ c :: l) :=
    mem_rangeFrom_ascii (p ++ c :: l) 0 0 (by simp) p.length c
      (by rw [List.getElem?_append_right (le_refl _)]; simp) hc
  obtain ⟨pre, post, hsplit⟩ := List.append_of_mem hm
  simp only [Nat.zero_add] at hsplit
  obtain ⟨h1, h2, h3⟩ := runes_split (p ++ c :: l) pre post p.length c hsplit
  have e1 : (p ++ c :: l).take p.length = p := by simp
  have e2 : (p ++ c :: l).drop p.length = c :: l := by simp
  rw [e1] at h1
  rw [e2, decodeRuneInString_ascii c l hc] at h2
  have e3 : (p ++ c :: l).drop (p.length + 1) = l := by
    rw [← List.drop_drop, e2]
    rfl
  rw [e3] at h2
  rw [h3, h1, h2]

theorem runes_eq_nil_iff (x : GoString) : runes x = [] ↔ x = [] := by
  constructor
  · intro h
    cases x with
    | nil => rfl
    | cons b rest =>
      unfold runes rangeString at h
      rw [rangeFrom_step] at h
      simp at h
  · intro h
    rw [h]
    rfl

/-- Trimming at the last space commutes with decoding. -/
theorem runes_trimBefore (x : GoString) : runes (trimBefore x) = trimBefore (runes x) := by
  by_cases h : 32 ∈ x
  · obtain ⟨p, l, e1, e2⟩ := exists_last_space x h
    have e3 : 32 ∉ runes l := fun hm => e2 ((mem_runes_ascii l 32 (by omega)).1 hm)
    rw [e1, trimBefore_append p l e2, runes_append_ascii p l 32 (by omega),
      trimBefore_append _ _ e3]
  · have e3 : 32 ∉ runes x := fun hm => h ((mem_runes_ascii x 32 (by omega)).1 hm)
    rw [trimBefore_no_space x h, trimBefore_no_space _ e3]

/-- Trimming at the first space commutes with decoding. -/
theorem runes_trimAfter (x : GoString) : runes (trimAfter x) = trimAfter (runes x) := by
  by_cases h : 32 ∈ x
  · obtain ⟨p, l, e1, e2⟩ := exists_first_space x h
    have e3 : 32 ∉ runes p := fun hm => e2 ((mem_runes_ascii p 32 (by omega)).1 hm)
    rw [e1, trimAfter_append p l e2, runes_append_ascii p l 32 (by omega),
      trimAfter_append _ _ e3]
  · have e3 : 32 ∉ runes x := fun hm => h ((mem_runes_ascii x 32 (by omega)).1 hm)
    rw [trimAfter_no_space x h, trimAfter_no_space _ e3]

/-- The verdict depends on the two contexts only through their runes. -/
theorem isReallyEszett_runes (before after : GoString) (caps : Bool) :
    isReallyEszett before after caps
      = verdictRunes (trimBefore (runes before)) (trimAfter (runes after)) caps := by
  rw [isReallyEszett_eq, ← runes_trimBefore, ← runes_trimAfter]
  unfold verdictRunes
  have e : decide (trimBefore before ≠ []) = decide (runes (trimBefore before) ≠ []) := by
    by_cases h : trimBefore before = []
    · have h2 : runes ([] : GoString) = [] := rfl
      simp [h, h2]
    · have h2 : runes (trimBefore before) ≠ [] := fun hn => h ((runes_eq_nil_iff _).1 hn)
      simp [h, h2]
  rw [e]


/-! ## `FixMisusedLetters` on runes -/

theorem trigger_source (d a : Bool) (c : Nat)
    (hc : (d = false ∧ a = false) ∨ (c ≠ 7517 ∧ c ≠ 7526))
    (ht : authorStep a (homoglyphStep d c) = 223 ∨ authorStep a (homoglyphStep d c) = 946 ∨
      authorStep a (homoglyphStep d c) = 976 ∨ authorStep a (homoglyphStep d c) = 7517 ∨
      authorStep a (homoglyphStep d c) = 7526 ∨ authorStep a (homoglyphStep d c) = 7838) :
    c = 223 ∨ c = 946 ∨ c = 976 ∨ c = 7838 ∨
      ((c = 7517 ∨ c = 7526) ∧ d = false ∧ a = false) := by
  cases d <;> cases a
  · simp only [authorStep, homoglyphStep, Bool.false_eq_true, if_false] at ht
    have : c = 223 ∨ c = 946 ∨ c = 976 ∨ c = 7838 ∨ (c = 7517 ∨ c = 7526) := by omega
    rcases this with e | e | e | e | e
    · exact Or.inl e
    · exact Or.inr (Or.inl e)
    · exact Or.inr (Or.inr (Or.inl e))
    · exact Or.inr (Or.inr (Or.inr (Or.inl e)))
    · exact Or.inr (Or.inr (Or.inr (Or.inr ⟨e, rfl, rfl⟩)))
  · have hc2 : c ≠ 7517 ∧ c ≠ 7526 := by
      rcases hc with ⟨_, h⟩ | h
      · cases h
      · exact h
    simp only [authorStep, homoglyphStep, Bool.false_eq_true, if_false, if_true] at ht
    have : c = 223 ∨ c = 946 ∨ c = 976 ∨ c = 7838 := by
      split_ifs at ht <;> omega
    rcases this with e | e | e | e
    · exact Or.inl e
    · exact Or.inr (Or.inl e)
    · exact Or.inr (Or.inr (Or.inl e))
    · exact Or.inr (Or.inr (Or.inr (Or.inl e)))
  · have hc2 : c ≠ 7517 ∧ c ≠ 7526 := by
      rcases hc with ⟨h, _⟩ | h
      · cases h
      · exact h
    simp only [authorStep, homoglyphStep, Bool.false_eq_true, if_false, if_true] at ht
    have : c = 223 ∨ c = 946 ∨ c = 976 ∨ c = 7838 := by
      split_ifs at ht <;> omega
    rcases this with e | e | e | e
    · exact Or.inl e
    · exact Or.inr (Or.inl e)
    · exact Or.inr (Or.inr (Or.inl e))
    · exact Or.inr (Or.inr (Or.inr (Or.inl e)))
  · have hc2 : c ≠ 7517 ∧ c ≠ 7526 := by
      rcases hc with ⟨h, _⟩ | h
      · cases h
      · exact h
    simp only [authorStep, homoglyphStep, if_true] at ht
    have : c = 223 ∨ c = 946 ∨ c = 976 ∨ c = 7838 := by
      split_ifs at ht <;> omega
    rcases this with e | e | e | e
    · exact Or.inl e
    · exact Or.inr (Or.inl e)
    · exact Or.inr (Or.inr (Or.inl e))
    · exact Or.inr (Or.inr (Or.inr (Or.inl e)))

theorem trigger_width (d a : Bool) (c : Nat)
    (hc : (d = false ∧ a = false) ∨ (c ≠ 7517 ∧ c ≠ 7526))
    (ht : authorStep a (homoglyphStep d c) = 223 ∨ authorStep a (homoglyphStep d c) = 946 ∨
      authorStep a (homoglyphStep d c) = 976 ∨ authorStep a (homoglyphStep d c) = 7517 ∨
      authorStep a (homoglyphStep d c) = 7526 ∨ authorStep a (homoglyphStep d c) = 7838) :
    c ≠ 0xFFFD ∧
    (runeLen (authorStep a (homoglyphStep d c))).toNat = (encodeRune c).length := by
  rcases trigger_source d a c hc ht with h | h | h | h | ⟨h | h, hd, ha⟩
  · subst h; cases d <;> cases a <;> decide
  · subst h; cases d <;> cases a <;> decide
  · subst h; cases d <;> cases a <;> decide
  · subst h; cases d <;> cases a <;> decide
  · subst h; subst hd; subst ha; decide
  · subst h; subst hd; subst ha; decide

theorem decode_at_offset (s : GoString) (pre post : List (Nat × Nat)) (i c : Nat)
    (h : rangeString s = pre ++ (i, c) :: post) (hc : c ≠ 0xFFFD) :
    (decodeRuneInString (s.drop i)).2 = (encodeRune c).length := by
  obtain ⟨_, _, g3⟩ := rangeFrom_split pre s 0 i c post h
  simp only [Nat.sub_zero] at g3
  cases hs : s.drop i with
  | nil => rw [hs] at g3; simp [rangeFrom] at g3
  | cons b rest =>
    rw [hs, rangeFrom_step] at g3
    simp only [List.cons.injEq, Prod.mk.injEq, true_and] at g3
    rcases encode_decodeRune b rest with ⟨h1, _⟩ | ⟨_, h2⟩
    · rw [h1] at g3
      exact absurd g3.1.symm hc
    · rw [h2, g3.1]

/-- The value appended for a rune, from the runes before and after it. The right context is
the one the code uses as long as the rune written has the encoded length of the rune read. -/
theorem fixChar_runes (s : GoString) (d a p : Bool) (pre post : List (Nat × Nat)) (i c : Nat)
    (h : rangeString s = pre ++ (i, c) :: post)
    (hc : (d = false ∧ a = false) ∨ (c ≠ 7517 ∧ c ≠ 7526)) :
    fixChar s d a p i c
      = proseRunes (pre.map Prod.snd) (post.map Prod.snd) p
          (authorStep a (homoglyphStep d c)) := by
  obtain ⟨r1, r2, _⟩ := runes_split s pre post i c h
  have key : ∀ m, (authorStep a (homoglyphStep d c) = 223 ∨
      authorStep a (homoglyphStep d c) = 946 ∨ authorStep a (homoglyphStep d c) = 976 ∨
      authorStep a (homoglyphStep d c) = 7517 ∨ authorStep a (homoglyphStep d c) = 7526 ∨
      authorStep a (homoglyphStep d c) = 7838) →
      isReallyEszett (s.take i)
          (s.drop (i + runeLen (authorStep a (homoglyphStep d c))).toNat) m
        = verdictRunes (trimBefore (pre.map Prod.snd)) (trimAfter (post.map Prod.snd)) m := by
    intro m ht
    obtain ⟨w1, w2⟩ := trigger_width d a c hc ht
    have e : (i + runeLen (authorStep a (homoglyphStep d c))).toNat
        = i + (decodeRuneInString (s.drop i)).2 := by
      rw [decode_at_offset s pre post i c h w1, ← w2]
      have hn : 0 ≤ runeLen (authorStep a (homoglyphStep d c)) := by
        unfold runeLen
        rcases ht with e | e | e | e | e | e <;> rw [e] <;> decide
      omega
    rw [e, isReallyEszett_runes, r1, r2]
  unfold fixChar proseStep proseRunes
  generalize authorStep a (homoglyphStep d c) = ch at key
  cases p with
  | false => rfl
  | true =>
    simp only [if_true]
    by_cases c1 : ch = 223
    · simp only [c1, if_true]
      rw [← c1, key false (Or.inl c1)]
    · simp only [c1, if_false]
      by_cases c2 : ch = 946 ∨ ch = 976 ∨ ch = 7517 ∨ ch = 7526
      · simp only [c2, if_true]
        rw [key false (by omega)]
      · simp only [c2, if_false]
        by_cases c3 : ch = 7838
        · simp only [c3, if_true]
          rw [← c3, key true (Or.inr (Or.inr (Or.inr (Or.inr (Or.inr c3)))))]
        · simp only [c3, if_false]


theorem map_fixChar_eq (s : GoString) (d a p : Bool)
    (hc : (d = false ∧ a = false) ∨ (∀ c ∈ runes s, c ≠ 7517 ∧ c ≠ 7526)) :
    ∀ (post pre : List (Nat × Nat)), rangeString s = pre ++ post →
      ((post.filter (fun q => decide (32 ≤ q.2))).map (fun q => fixChar s d a p q.1 q.2))
        = fixRunesFrom d a p (pre.map Prod.snd) (post.map Prod.snd) := by
  intro post
  induction post with
  | nil => intro pre _; rfl
  | cons q post ih =>
    intro pre h
    obtain ⟨i, c⟩ := q
    have hmem : c ∈ runes s := by
      unfold runes
      rw [h]
      simp
    have hc2 : (d = false ∧ a = false) ∨ (c ≠ 7517 ∧ c ≠ 7526) := by
      rcases hc with hc | hc
      · exact Or.inl hc
      · exact Or.inr (hc c hmem)
    have hfix := fixChar_runes s d a p pre post i c h hc2
    have ih2 := ih (pre ++ [(i, c)]) (by simpa using h)
    simp only [List.map_append, List.map_cons, List.map_nil] at ih2
    simp only [List.map_cons, fixRunesFrom]
    rw [← ih2]
    by_cases h32 : 32 ≤ c
    · have h32b : ¬ c < 32 := by omega
      simp only [List.filter_cons, h32, decide_True, if_true, List.map_cons, hfix, h32b,
        if_false, List.singleton_append]
    · have h32b : c < 32 := by omega
      simp only [List.filter_cons, h32, decide_False, h32b, if_true, List.nil_append]
      rfl

/-- `FixMisusedLetters` as a function of the runes of its input; it holds when no rune is
replaced by one of another encoded length before the prose rule reads its right context. -/
theorem fixMisusedLetters_runes (s : GoString) (d a p : Bool)
    (hc : (d = false ∧ a = false) ∨ (∀ c ∈ runes s, c ≠ 7517 ∧ c ≠ 7526)) :
    FixMisusedLetters s d a p = (fixRunesFrom d a p [] (runes s)).flatMap runeToString := by
  rw [fixMisusedLetters_eq]
  have := map_fixChar_eq s d a p hc (rangeString s) [] rfl
  unfold keptRunes
  rw [this]
  rfl

theorem proseRunes_false (l r : List Nat) (ch : Nat) : proseRunes l r false ch = ch := by
  simp [proseRunes]

theorem fixRunesFrom_no_prose (d a : Bool) (right left : List Nat) :
    fixRunesFrom d a false left right
      = (right.filter (fun c => decide (32 ≤ c))).map
          (fun c => authorStep a (homoglyphStep d c)) := by
  induction right generalizing left with
  | nil => rfl
  | cons c right ih =>
    simp only [fixRunesFrom, proseRunes_false, ih]
    by_cases h32 : 32 ≤ c
    · have h32b : ¬ c < 32 := by omega
      simp [List.filter_cons, h32, h32b]
    · have h32b : c < 32 := by omega
      simp [List.filter_cons, h32, h32b]

/-- Without the prose rule the function is a map over the runes that are at least 32. -/
theorem fixMisusedLetters_no_prose (s : GoString) (d a : Bool) :
    FixMisusedLetters s d a false
      = (((runes s).filter (fun c => decide (32 ≤ c))).map
          (fun c => authorStep a (homoglyphStep d c))).flatMap runeToString := by
  rw [fixMisusedLetters_eq]
  have key : (keptRunes s).map (fun q => fixChar s d a false q.1 q.2)
      = ((runes s).filter (fun c => decide (32 ≤ c))).map
          (fun c => authorStep a (homoglyphStep d c)) := by
    rw [← map_snd_keptRunes, List.map_map]
    apply List.map_congr_left
    intro q _
    simp [fixChar, proseStep]
  rw [key]

theorem runes_no_prose (s : GoString) (d a : Bool) :
    runes (FixMisusedLetters s d a false)
      = ((runes s).filter (fun c => decide (32 ≤ c))).map
          (fun c => authorStep a (homoglyphStep d c)) := by
  rw [fixMisusedLetters_no_prose]
  apply runes_flatMap_runeToString
  intro x hx
  obtain ⟨c, hc, rfl⟩ := List.mem_map.1 hx
  have hc2 : c ∈ runes s := (List.mem_filter.1 hc).1
  have hsc : isScalar c := by
    unfold runes at hc2
    obtain ⟨q, hq, rfl⟩ := List.mem_map.1 hc2
    exact rangeString_scalar s q hq
  exact authorStep_scalar a _ (homoglyphStep_scalar d c hsc)

/-! ## Homoglyph canonicalization and the prose rule -/

theorem lastIndexSpace_map (f : Nat → Nat) (hf : ∀ x, f x = 32 ↔ x = 32) (l : List Nat) :
    lastIndexSpace (l.map f) = lastIndexSpace l := by
  induction l with
  | nil => rfl
  | cons b t ih =>
    simp only [List.map_cons, lastIndexSpace, ih]
    by_cases hb : b = 32
    · subst hb
      simp [(hf 32).2 rfl]
    · have : f b ≠ 32 := fun e => hb ((hf b).1 e)
      simp [hb, this]

theorem indexSpace_map (f : Nat → Nat) (hf : ∀ x, f x = 32 ↔ x = 32) (l : List Nat) :
    indexSpace (l.map f) = indexSpace l := by
  induction l with
  | nil => rfl
  | cons b t ih =>
    simp only [List.map_cons, indexSpace, ih]
    by_cases hb : b = 32
    · subst hb
      simp [(hf 32).2 rfl]
    · have : f b ≠ 32 := fun e => hb ((hf b).1 e)
      simp [hb, this]

theorem trimBefore_map (f : Nat → Nat) (hf : ∀ x, f x = 32 ↔ x = 32) (l : List Nat) :
    trimBefore (l.map f) = (trimBefore l).map f := by
  unfold trimBefore
  rw [lastIndexSpace_map f hf]
  cases lastIndexSpace l with
  | none => rfl
  | some idx => simp [List.map_drop]

theorem trimAfter_map (f : Nat → Nat) (hf : ∀ x, f x = 32 ↔ x = 32) (l : List Nat) :
    trimAfter (l.map f) = (trimAfter l).map f := by
  unfold trimAfter
  rw [indexSpace_map f hf]
  cases indexSpace l with
  | none => rfl
  | some idx => simp [List.map_take]

theorem homoglyphStep_space (x : Nat) : homoglyphStep true x = 32 ↔ x = 32 := by
  unfold homoglyphStep
  simp only [if_true]
  split_ifs <;> omega

theorem homoglyphStep_cases (x : Nat) :
    homoglyphStep true x = x ∨ x = 976 ∨ x = 7517 ∨ x = 7526 ∨ x = 400 ∨ x = 603 := by
  unfold homoglyphStep
  simp only [if_true]
  split_ifs <;> omega

theorem german_homoglyph (x : Nat) :
    inGerman (homoglyphStep true x) = inGerman x ∧
    inCapitals (homoglyphStep true x) = inCapitals x ∧
    inVowels (homoglyphStep true x) = inVowels x := by
  rcases homoglyphStep_cases x with h | h | h | h | h | h
  · rw [h]; exact ⟨rfl, rfl, rfl⟩
  · subst h; decide
  · subst h; decide
  · subst h; decide
  · subst h; decide
  · subst h; decide

theorem all_map_homoglyph (l : List Nat) :
    (l.map (homoglyphStep true)).all inGerman = l.all inGerman ∧
    (l.map (homoglyphStep true)).all inCapitals = l.all inCapitals := by
  induction l with
  | nil => exact ⟨rfl, rfl⟩
  | cons c t ih =>
    constructor
    · simp only [List.map_cons, List.all_cons, ih.1, (german_homoglyph c).1]
    · simp only [List.map_cons, List.all_cons, ih.2, (german_homoglyph c).2.1]

theorem verdictRunes_map_homoglyph (rb ra : List Nat) (m : Bool) :
    verdictRunes (rb.map (homoglyphStep true)) (ra.map (homoglyphStep true)) m
      = verdictRunes rb ra m := by
  unfold verdictRunes
  rw [(all_map_homoglyph rb).1, (all_map_homoglyph rb).2, (all_map_homoglyph ra).1,
    (all_map_homoglyph ra).2]
  have e1 : decide (rb.map (homoglyphStep true) ≠ []) = decide (rb ≠ []) := by
    cases rb <;> simp
  have e2 : inVowels (((rb.map (homoglyphStep true)).getLast?).getD 0)
      = inVowels ((rb.getLast?).getD 0) := by
    rw [List.getLast?_map]
    cases rb.getLast? with
    | none => rfl
    | some v => exact (german_homoglyph v).2.2
  rw [e1, e2]

theorem proseRunes_map_homoglyph (l r : List Nat) (p : Bool) (ch : Nat) :
    proseRunes (l.map (homoglyphStep true)) (r.map (homoglyphStep true)) p ch
      = proseRunes l r p ch := by
  unfold proseRunes
  rw [trimBefore_map _ homoglyphStep_space, trimAfter_map _ homoglyphStep_space,
    verdictRunes_map_homoglyph, verdictRunes_map_homoglyph]

theorem homoglyphStep_lt (c : Nat) : homoglyphStep true c < 32 ↔ c < 32 := by
  unfold homoglyphStep
  simp only [if_true]
  split_ifs <;> omega

/-- Canonicalizing first and applying the prose rule to the canonical runes gives the runes
of the combined pass. -/
theorem fixRunesFrom_homoglyph_first (p : Bool) (right left : List Nat) :
    fixRunesFrom true false p left right
      = fixRunesFrom false false p (left.map (homoglyphStep true))
          (right.map (homoglyphStep true)) := by
  induction right generalizing left with
  | nil => rfl
  | cons c right ih =>
    simp only [List.map_cons, fixRunesFrom]
    rw [ih (left ++ [c])]
    simp only [List.map_append, List.map_cons, List.map_nil, proseRunes_map_homoglyph]
    have e1 : authorStep false (homoglyphStep false (homoglyphStep true c))
        = authorStep false (homoglyphStep true c) := by
      simp [authorStep, homoglyphStep]
    rw [e1]
    by_cases h32 : c < 32
    · have := (homoglyphStep_lt c).2 h32
      simp [h32, this]
    · have : ¬ homoglyphStep true c < 32 := fun e => h32 ((homoglyphStep_lt c).1 e)
      simp [h32, this]

theorem filter_ge_self (l : List Nat) (h : ∀ c ∈ l, 32 ≤ c) :
    l.filter (fun c => decide (32 ≤ c)) = l := by
  rw [List.filter_eq_self]
  intro c hc
  simpa using h c hc

/-- C21 (code defect): with `doHomoglyphs = true` a three-byte look-alike (U+1D5D, U+1D66)
is first replaced by U+03B2, and the right context is then cut at `i + utf8.RuneLen(0x03B2)`,
one byte too early; it starts with the last byte of the look-alike, which decodes to U+FFFD,
and the verdict is false. "stra" U+1D5D "e" gives "stra" U+00DF "e" with
`doHomoglyphs = false` but "stra" U+03B2 "e" with `doHomoglyphs = true`, and under
`doHomoglyphs = true`, `isProse = true` such a look-alike is always written as U+03B2. -/
theorem C21_three_byte_lookalike :
    FixMisusedLetters (goString "stra" ++ encodeRune 0x1D5D ++ goString "e") false false true
      = goString "stra" ++ encodeRune 0x00DF ++ goString "e" ∧
    FixMisusedLetters (goString "stra" ++ encodeRune 0x1D5D ++ goString "e") true false true
      = goString "stra" ++ encodeRune 0x03B2 ++ goString "e" ∧
    ∀ (s : GoString) (k i c : Nat), (keptRunes s)[k]? = some (i, c) →
      (c = 0x1D5D ∨ c = 0x1D66) →
      (runes (FixMisusedLetters s true false true))[k]? = some 0x03B2 := by
  refine ⟨by decide, by decide, ?_⟩
  intro s k i c h hc
  rw [getElem?_runes_fix s true false true k i c h]
  have hm := (mem_rangeString_of_kept s k i c h).1
  have hsplit := split_at_rune s i c hm (by omega)
  have h1 : authorStep false (homoglyphStep true c) = 946 := by
    rcases hc with e | e <;> subst e <;> decide
  have h2 : (i + runeLen 946).toNat = i + 2 := by
    have : runeLen 946 = 2 := by decide
    rw [this]
    rfl
  have hlen : (s.take i).length = i := by
    have := (rangeString_offset s i c hm).1
    simp
    omega
  obtain ⟨x, hx, henc⟩ : ∃ x, (x = 0x9D ∨ x = 0xA6) ∧ encodeRune c = [0xE1, 0xB5, x] := by
    rcases hc with e | e
    · exact ⟨0x9D, Or.inl rfl, by subst e; decide⟩
    · exact ⟨0xA6, Or.inr rfl, by subst e; decide⟩
  have hdrop : s.drop (i + 2) = x :: s.drop (i + (encodeRune c).length) := by
    have e : s.drop (i + 2)
        = (s.take i ++ encodeRune c ++ s.drop (i + (encodeRune c).length)).drop (i + 2) := by
      rw [← hsplit]
    rw [e, List.append_assoc, List.drop_append_eq_append_drop, henc]
    simp [hlen]
  have hv : isReallyEszett (s.take i) (s.drop (i + 2)) false = false := by
    rw [isReallyEszett_runes, hdrop]
    have hd : decodeRuneInString (x :: s.drop (i + (encodeRune c).length)) = (0xFFFD, 1) := by
      rcases hx with e | e <;> subst e <;> simp [decodeRuneInString]
    have hr : runes (x :: s.drop (i + (encodeRune c).length))
        = 0xFFFD :: runes (s.drop (i + (encodeRune c).length)) := by
      unfold runes rangeString
      rw [rangeFrom_step, hd]
      simp only [List.map_cons, List.drop_succ_cons, List.drop_zero]
      rw [map_snd_rangeFrom_zero]
      rfl
    rw [hr]
    have ht : ∀ R : List Nat, trimAfter (0xFFFD :: R) = 0xFFFD :: trimAfter R := by
      intro R
      unfold trimAfter
      simp only [indexSpace]
      cases indexSpace R <;> simp
    rw [ht]
    unfold verdictRunes
    have : inGerman 0xFFFD = false := by decide
    simp [this]
  simp only [fixChar, h1, proseStep, if_true, h2, hv]
  simp

/-- Instance of C21: in "stra" U+1D66 "e" the look-alike stands at offset 4 and is written as
U+03B2 when `doHomoglyphs` and `isProse` are both set. -/
theorem C21_three_byte_lookalike_witness :
    (runes (FixMisusedLetters (goString "stra" ++ encodeRune 0x1D66 ++ goString "e")
      true false true))[4]? = some 0x03B2 :=
  C21_three_byte_lookalike.2.2 (goString "stra" ++ encodeRune 0x1D66 ++ goString "e") 4 4
    0x1D66 (by decide) (Or.inr rfl)

/-- C22 fails as stated: a control character stays in the context that the combined call
passes to the verdict, while the sequential calls have removed it before the prose rule
runs. For "stra" U+0001 U+00DF "e" the combined call gives "stra" U+03B2 "e" and the
sequential calls give "stra" U+00DF "e". -/
theorem C22_control_in_context :
    FixMisusedLetters (goString "stra" ++ [1] ++ encodeRune 0x00DF ++ goString "e")
        true false true
      = goString "stra" ++ encodeRune 0x03B2 ++ goString "e" ∧
    FixMisusedLetters
        (FixMisusedLetters (goString "stra" ++ [1] ++ encodeRune 0x00DF ++ goString "e")
          true false false)
        false false true
      = goString "stra" ++ encodeRune 0x00DF ++ goString "e" := by
  decide

/-- C22 as amended: for every input string that holds no code point below 32 and neither
U+1D5D nor U+1D66, the combined call `FixMisusedLetters(s, true, false, true)` equals
homoglyph canonicalization followed by the prose rule. -/
theorem C22_sequential (s : GoString)
    (h : ∀ c ∈ runes s, 32 ≤ c ∧ c ≠ 0x1D5D ∧ c ≠ 0x1D66) :
    FixMisusedLetters s true false true
      = FixMisusedLetters (FixMisusedLetters s true false false) false false true := by
  have hr : runes (FixMisusedLetters s true false false)
      = (runes s).map (homoglyphStep true) := by
    rw [runes_no_prose, filter_ge_self _ (fun c hc => (h c hc).1)]
    apply List.map_congr_left
    intro c _
    simp [authorStep]
  rw [fixMisusedLetters_runes s true false true (Or.inr (fun c hc => (h c hc).2)),
    fixMisusedLetters_runes _ false false true (Or.inl ⟨rfl, rfl⟩), hr,
    fixRunesFrom_homoglyph_first]
  rfl

/-- Instance of C22 as amended: the string "stra" U+03D0 "e". -/
theorem C22_sequential_witness :
    FixMisusedLetters (goString "stra" ++ encodeRune 0x03D0 ++ goString "e") true false true
      = FixMisusedLetters
          (FixMisusedLetters (goString "stra" ++ encodeRune 0x03D0 ++ goString "e")
            true false false)
          false false true :=
  C22_sequential (goString "stra" ++ encodeRune 0x03D0 ++ goString "e") (by decide)

theorem author_homoglyph_idem (d a : Bool) (c : Nat) :
    authorStep a (homoglyphStep d (authorStep a (homoglyphStep d c)))
      = authorStep a (homoglyphStep d c) := by
  by_cases h : c = 976 ∨ c = 7517 ∨ c = 7526 ∨ c = 400 ∨ c = 603 ∨ c = 946 ∨ c = 914 ∨ c = 34
  · rcases h with e | e | e | e | e | e | e | e <;> subst e <;> cases d <;> cases a <;> decide
  · have e1 : homoglyphStep d c = c := by
      unfold homoglyphStep
      split_ifs <;> omega
    have e2 : authorStep a c = c := by
      unfold authorStep
      split_ifs <;> omega
    rw [e1, e2, e1, e2]

theorem author_homoglyph_ge (d a : Bool) (c : Nat) (h : 32 ≤ c) :
    32 ≤ authorStep a (homoglyphStep d c) :=
  authorStep_ge a _ (homoglyphStep_ge d c h)

/-- Without the prose rule a second pass with the same flags changes nothing. -/
theorem fixMisusedLetters_no_prose_idem (s : GoString) (d a : Bool) :
    FixMisusedLetters (FixMisusedLetters s d a false) d a false
      = FixMisusedLetters s d a false := by
  rw [fixMisusedLetters_no_prose (FixMisusedLetters s d a false), runes_no_prose,
    fixMisusedLetters_no_prose s]
  congr 1
  rw [filter_ge_self]
  · rw [List.map_map]
    apply List.map_congr_left
    intro c _
    exact author_homoglyph_idem d a c
  · intro x hx
    obtain ⟨c, hc, rfl⟩ := List.mem_map.1 hx
    exact author_homoglyph_ge d a c (by simpa using (List.mem_filter.1 hc).2)

/-- C23: homoglyph canonicalization is idempotent: applying `FixMisusedLetters` with
`doHomoglyphs = true` and the other flags false a second time gives the same string. -/
theorem C23_homoglyph_idempotent (s : GoString) :
    FixMisusedLetters (FixMisusedLetters s true false false) true false false
      = FixMisusedLetters s true false false :=
  fixMisusedLetters_no_prose_idem s true false

/-- C24 fails as stated: with the prose rule active the second pass judges each letter in the
context that the first pass has rewritten. "a" U+00DF U+00DF becomes "a" U+00DF U+03B2 and
then "a" U+03B2 U+03B2. -/
theorem C24_prose_not_idempotent :
    FixMisusedLetters (goString "a" ++ encodeRune 0x00DF ++ encodeRune 0x00DF) true false true
      = goString "a" ++ encodeRune 0x00DF ++ encodeRune 0x03B2 ∧
    FixMisusedLetters
        (FixMisusedLetters (goString "a" ++ encodeRune 0x00DF ++ encodeRune 0x00DF)
          true false true)
        true false true
      = goString "a" ++ encodeRune 0x03B2 ++ encodeRune 0x03B2 := by
  decide

/-- C24 as amended: with `doHomoglyphs = true` and `isProse = false`, for both values of
`isAuthor`, applying `FixMisusedLetters` twice gives the same result as applying it once. -/
theorem C24_idempotent_without_prose (s : GoString) (a : Bool) :
    FixMisusedLetters (FixMisusedLetters s true a false) true a false
      = FixMisusedLetters s true a false :=
  fixMisusedLetters_no_prose_idem s true a

/-! ## The extension file -/

theorem splitTab_iff (str c0 c1 : GoString) :
    splitTab str = some (c0, c1) ↔ str = c0 ++ 9 :: c1 ∧ 9 ∉ c0 := by
  induction str generalizing c0 c1 with
  | nil => simp [splitTab]
  | cons b rest ih =>
    by_cases hb : b = 9
    · subst hb
      simp only [splitTab, if_true, Option.some.injEq, Prod.mk.injEq]
      constructor
      · rintro ⟨rfl, rfl⟩
        simp
      · rintro ⟨h1, h2⟩
        cases c0 with
        | nil =>
          simp only [List.nil_append, List.cons.injEq, true_and] at h1
          simp [h1]
        | cons x t =>
          simp only [List.cons_append, List.cons.injEq] at h1
          exact absurd (by simp [← h1.1]) h2
    · simp only [splitTab, hb, if_false]
      cases hs : splitTab rest with
      | none =>
        simp only []
        constructor
        · intro h; cases h
        · rintro ⟨h1, h2⟩
          cases c0 with
          | nil =>
            simp only [List.nil_append, List.cons.injEq] at h1
            exact absurd h1.1 hb
          | cons x t =>
            simp only [List.cons_append, List.cons.injEq] at h1
            have := (ih t c1).2 ⟨h1.2, fun hm => h2 (List.mem_cons_of_mem _ hm)⟩
            rw [hs] at this
            cases this
      | some p =>
        obtain ⟨d0, d1⟩ := p
        simp only [Option.some.injEq, Prod.mk.injEq]
        constructor
        · rintro ⟨rfl, rfl⟩
          obtain ⟨e1, e2⟩ := (ih d0 d1).1 hs
          refine ⟨by simp [e1], ?_⟩
          intro hm
          rcases List.mem_cons.1 hm with e | e
          · exact hb e.symm
          · exact e2 e
        · rintro ⟨h1, h2⟩
          cases c0 with
          | nil =>
            simp only [List.nil_append, List.cons.injEq] at h1
            exact absurd h1.1 hb
          | cons x t =>
            simp only [List.cons_append, List.cons.injEq] at h1
            have := (ih t c1).2 ⟨h1.2, fun hm => h2 (List.mem_cons_of_mem _ hm)⟩
            rw [hs] at this
            simp only [Option.some.injEq, Prod.mk.injEq] at this
            exact ⟨by rw [h1.1, this.1], this.2⟩

theorem parseLine_iff (str : GoString) (k : Int) (r : GoString) :
    parseLine str = some (k, r) ↔
      ∃ c0 n, str = c0 ++ 9 :: r ∧ 9 ∉ c0 ∧ parseUint c0 = some n ∧ k = toRune n := by
  unfold parseLine
  constructor
  · intro h
    cases hs : splitTab str with
    | none => simp [hs] at h
    | some p =>
      obtain ⟨c0, c1⟩ := p
      cases hp : parseUint c0 with
      | none => simp [hs, hp] at h
      | some n =>
        simp only [hs, hp, Option.some.injEq, Prod.mk.injEq] at h
        obtain ⟨e1, e2⟩ := (splitTab_iff str c0 c1).1 hs
        exact ⟨c0, n, by rw [e1, h.2], e2, hp, h.1.symm⟩
  · rintro ⟨c0, n, e1, e2, hp, hk⟩
    have hs := (splitTab_iff str c0 r).2 ⟨e1, e2⟩
    simp [hs, hp, hk]

theorem loadLine_eq (acc : List (Int × GoString) × Bool) (str : GoString) :
    loadLine acc str =
      match parseLine str with
      | none => acc
      | some e => (e :: acc.1, true) := by
  unfold loadLine parseLine
  by_cases h : str = []
  · subst h
    simp [splitTab]
  · simp only [h, if_false]
    cases splitTab str with
    | none => rfl
    | some p =>
      obtain ⟨c0, c1⟩ := p
      cases hp : parseUint c0 with
      | none => simp only [hp]
      | some n => simp only [hp]

/-- The loop of `loadExternRunes`: the lines that parse, the latest first, in front of the
table; the flag is set when at least one line parses. -/
theorem foldl_loadLine_eq (lines : List GoString) (m : List (Int × GoString)) (f : Bool) :
    lines.foldl loadLine (m, f)
      = ((lines.filterMap parseLine).reverse ++ m,
         f || !(lines.filterMap parseLine).isEmpty) := by
  induction lines generalizing m f with
  | nil => simp
  | cons l rest ih =>
    rw [List.foldl_cons, loadLine_eq]
    cases hp : parseLine l with
    | none => simp [ih, List.filterMap_cons, hp]
    | some e => simp [ih, List.filterMap_cons, hp]

theorem loadExternRunes_eq (lines : List GoString) (m : List (Int × GoString)) :
    loadExternRunes ⟨true, some lines⟩ m
      = ((lines.filterMap parseLine).reverse ++ m, !(lines.filterMap parseLine).isEmpty) := by
  simp [loadExternRunes, foldl_loadLine_eq]

theorem lookup_append (k : Int) (X Y : List (Int × GoString)) :
    (X ++ Y).lookup k = match X.lookup k with
      | some v => some v
      | none => Y.lookup k := by
  induction X with
  | nil => rfl
  | cons e t ih =>
    obtain ⟨a, b⟩ := e
    by_cases h : k = a
    · subst h
      simp [List.lookup]
    · have h2 : (k == a) = false := by simpa using h
      simp only [List.cons_append, List.lookup, h2]
      exact ih

theorem lookup_eq_none_of_keys (k : Int) (X : List (Int × GoString))
    (h : ∀ e ∈ X, e.1 ≠ k) : X.lookup k = none := by
  induction X with
  | nil => rfl
  | cons e t ih =>
    obtain ⟨a, b⟩ := e
    have h1 : a ≠ k := h (a, b) (List.mem_cons_self _ _)
    have h2 : (k == a) = false := by simpa using fun e => h1 e.symm
    simp only [List.lookup, h2]
    exact ih (fun e he => h e (List.mem_cons_of_mem _ he))

/-- In a table filled front to back the current value of a key is its last entry. -/
theorem lookup_reverse_iff (E : List (Int × GoString)) (k : Int) (r : GoString) :
    E.reverse.lookup k = some r ↔
      ∃ E1 E2, E = E1 ++ (k, r) :: E2 ∧ ∀ e ∈ E2, e.1 ≠ k := by
  constructor
  · intro h
    induction E using List.reverseRecOn with
    | nil => simp at h
    | append_singleton E' e ih =>
      obtain ⟨a, b⟩ := e
      rw [List.reverse_append] at h
      simp only [List.reverse_cons, List.reverse_nil, List.nil_append, List.singleton_append,
        List.lookup] at h
      by_cases hk : k = a
      · subst hk
        simp only [beq_self_eq_true, Option.some.injEq] at h
        subst h
        exact ⟨E', [], rfl, by simp⟩
      · have h2 : (k == a) = false := by simpa using hk
        simp only [h2] at h
        obtain ⟨E1, E2, e1, e2⟩ := ih h
        refine ⟨E1, E2 ++ [(a, b)], by simp [e1], ?_⟩
        intro e he
        rcases List.mem_append.1 he with he | he
        · exact e2 e he
        · simp only [List.mem_singleton] at he
          subst he
          exact fun e => hk e.symm
  · rintro ⟨E1, E2, rfl, h2⟩
    rw [List.reverse_append, List.reverse_cons, List.append_assoc, lookup_append,
      lookup_eq_none_of_keys k _ (fun e he => h2 e (List.mem_reverse.1 he))]
    simp [List.lookup]

theorem filterMap_split (f : GoString → Option (Int × GoString)) (lines : List GoString)
    (E1 E2 : List (Int × GoString)) (e : Int × GoString)
    (h : lines.filterMap f = E1 ++ e :: E2) :
    ∃ A l B, lines = A ++ l :: B ∧ f l = some e ∧ A.filterMap f = E1 ∧ B.filterMap f = E2 := by
  induction lines generalizing E1 with
  | nil => simp at h
  | cons x rest ih =>
    cases hx : f x with
    | none =>
      rw [List.filterMap_cons, hx] at h
      obtain ⟨A, l, B, e1, e2, e3, e4⟩ := ih E1 h
      exact ⟨x :: A, l, B, by simp [e1], e2, by simp [List.filterMap_cons, hx, e3], e4⟩
    | some y =>
      rw [List.filterMap_cons, hx] at h
      cases E1 with
      | nil =>
        simp only [List.nil_append, List.cons.injEq] at h
        exact ⟨[], x, rest, rfl, by rw [hx, h.1], rfl, h.2⟩
      | cons z E1' =>
        simp only [List.cons_append, List.cons.injEq] at h
        obtain ⟨A, l, B, e1, e2, e3, e4⟩ := ih E1' h.2
        exact ⟨x :: A, l, B, by simp [e1], e2, by simp [List.filterMap_cons, hx, e3, h.1], e4⟩

theorem hexValue_foldl_ge (s : GoString) (acc : Nat) :
    acc ≤ s.foldl (fun acc c => acc * 16 + (hexDigit c).getD 0) acc := by
  induction s generalizing acc with
  | nil => exact le_refl _
  | cons c t ih =>
    simp only [List.foldl_cons]
    have := ih (acc * 16 + (hexDigit c).getD 0)
    omega

theorem parseUintLoop_iff (s : GoString) (acc n : Nat) (hacc : acc ≤ 0xFFFFFFFF) :
    parseUintLoop s acc = some n ↔
      (∀ b ∈ s, (hexDigit b).isSome = true) ∧
      s.foldl (fun acc c => acc * 16 + (hexDigit c).getD 0) acc = n ∧ n ≤ 0xFFFFFFFF := by
  induction s generalizing acc with
  | nil =>
    simp only [parseUintLoop, Option.some.injEq, List.not_mem_nil, false_implies,
      implies_true, List.foldl_nil, true_and]
    constructor
    · intro h; exact ⟨h, by omega⟩
    · intro h; exact h.1
  | cons c t ih =>
    cases hd : hexDigit c with
    | none =>
      simp only [parseUintLoop, hd]
      constructor
      · intro h; cases h
      · intro h
        have := h.1 c (List.mem_cons_self _ _)
        simp [hd] at this
    | some d =>
      have h60 : ¬ 2 ^ 60 ≤ acc := by
        have : (2 : Nat) ^ 60 = 1152921504606846976 := by norm_num
        omega
      simp only [parseUintLoop, hd, h60, if_false, List.foldl_cons, Option.getD_some,
        List.mem_cons, forall_eq_or_imp, Option.isSome_some, true_and]
      by_cases hov : 0xFFFFFFFF < acc * 16 + d
      · simp only [hov, if_true]
        constructor
        · intro h; cases h
        · intro h
          have := hexValue_foldl_ge t (acc * 16 + d)
          omega
      · simp only [hov, if_false]
        exact ih (acc * 16 + d) (by omega)

/-- `strconv.ParseUint(s, 16, 32)` succeeds exactly on a non-empty string of hexadecimal
digits whose value fits in 32 bits, and returns that value. -/
theorem parseUint_iff (s : GoString) (n : Nat) :
    parseUint s = some n ↔
      s ≠ [] ∧ (∀ b ∈ s, (hexDigit b).isSome = true) ∧ hexValue s = n ∧ n ≤ 0xFFFFFFFF := by
  unfold parseUint hexValue
  by_cases h : s = []
  · simp [h]
  · simp only [h, if_false, ne_eq, not_false_eq_true, true_and]
    exact parseUintLoop_iff s 0 n (by omega)

theorem toRune_eq_iff (n c : Nat) (hn : n ≤ 0xFFFFFFFF) (hc : c < 2 ^ 31) :
    toRune n = (c : Int) ↔ n = c := by
  have h32 : (2 : Nat) ^ 32 = 4294967296 := by norm_num
  have h31 : (2 : Nat) ^ 31 = 2147483648 := by norm_num
  have hi32 : (2 : Int) ^ 32 = 4294967296 := by norm_num
  unfold toRune
  have hm : n % 2 ^ 32 = n := Nat.mod_eq_of_lt (by omega)
  rw [hm]
  split_ifs with h
  · exact Int.ofNat_inj
  · constructor
    · intro e
      rw [hi32] at e
      omega
    · intro e
      omega

/-! ## Properties of the extension loader -/

theorem toRune_self (c : Nat) (hc : c < 2 ^ 31) : toRune c = (c : Int) := by
  have h31 : (2 : Nat) ^ 31 = 2147483648 := by norm_num
  exact (toRune_eq_iff c c (by omega) hc).2 rfl

theorem parseLine_none_of_malformed (l : GoString)
    (h : l = [] ∨ 9 ∉ l ∨ ∀ c0 r, l = c0 ++ 9 :: r → 9 ∉ c0 → parseUint c0 = none) :
    parseLine l = none := by
  cases hp : parseLine l with
  | none => rfl
  | some e =>
    exfalso
    obtain ⟨k, r⟩ := e
    obtain ⟨c0, n, e1, e2, e3, _⟩ := (parseLine_iff l k r).1 hp
    rcases h with h | h | h
    · rw [h] at e1
      simp at e1
    · exact h (by rw [e1]; simp)
    · rw [h c0 r e1 e2] at e3
      cases e3

/-- C25: for every list of lines the table that `loadExternRunes` builds from the empty table
maps the code point `c` to `r` exactly when the last line whose first column (the text before
the first TAB) is hexadecimal for `c` has `r` behind that TAB; the first column is read as a
non-empty string of hexadecimal digits with a value of at most 32 bits; an empty line, a line
without a TAB and a line whose first column is not such a number are skipped and leave the
result as if they were not there. -/
theorem C25_extension_parsing (lines : List GoString) :
    (∀ (c : Nat) (r : GoString), c < 2 ^ 31 →
      ((loadExternRunes ⟨true, some lines⟩ []).1.lookup (c : Int) = some r ↔
        ∃ A c0 B, lines = A ++ (c0 ++ 9 :: r) :: B ∧ 9 ∉ c0 ∧ parseUint c0 = some c ∧
          ∀ c0' r', (c0' ++ 9 :: r') ∈ B → 9 ∉ c0' → parseUint c0' ≠ some c)) ∧
    (∀ (s : GoString) (n : Nat), parseUint s = some n ↔
      s ≠ [] ∧ (∀ b ∈ s, (hexDigit b).isSome = true) ∧ hexValue s = n ∧ n ≤ 0xFFFFFFFF) ∧
    (∀ (A B : List GoString) (l : GoString),
      (l = [] ∨ 9 ∉ l ∨ ∀ c0 r, l = c0 ++ 9 :: r → 9 ∉ c0 → parseUint c0 = none) →
      loadExternRunes ⟨true, some (A ++ l :: B)⟩ []
        = loadExternRunes ⟨true, some (A ++ B)⟩ []) := by
  refine ⟨?_, parseUint_iff, ?_⟩
  · intro c r hc
    rw [loadExternRunes_eq, List.append_nil, lookup_reverse_iff]
    constructor
    · rintro ⟨E1, E2, hE, hk⟩
      obtain ⟨A, l, B, e1, e2, _, e4⟩ := filterMap_split parseLine lines E1 E2 _ hE
      obtain ⟨c0, n, f1, f2, f3, f4⟩ := (parseLine_iff l c r).1 e2
      have hn := ((parseUint_iff c0 n).1 f3).2.2.2
      have hnc : n = c := (toRune_eq_iff n c hn hc).1 f4.symm
      subst hnc
      refine ⟨A, c0, B, by rw [e1, f1], f2, f3, ?_⟩
      intro c0' r' hm h9 hp
      have hpl : parseLine (c0' ++ 9 :: r') = some (toRune n, r') :=
        (parseLine_iff _ _ _).2 ⟨c0', n, rfl, h9, hp, rfl⟩
      have hmem : (toRune n, r') ∈ B.filterMap parseLine :=
        List.mem_filterMap.2 ⟨_, hm, hpl⟩
      rw [e4] at hmem
      exact hk _ hmem f4.symm
    · rintro ⟨A, c0, B, e1, e2, e3, e4⟩
      have hpl : parseLine (c0 ++ 9 :: r) = some ((c : Int), r) :=
        (parseLine_iff _ _ _).2 ⟨c0, c, rfl, e2, e3, (toRune_self c hc).symm⟩
      refine ⟨A.filterMap parseLine, B.filterMap parseLine, ?_, ?_⟩
      · rw [e1, List.filterMap_append, List.filterMap_cons, hpl]
      · intro e he hke
        obtain ⟨l', hl', hp'⟩ := List.mem_filterMap.1 he
        obtain ⟨k', r'⟩ := e
        obtain ⟨c0', n', f1, f2, f3, f4⟩ := (parseLine_iff l' k' r').1 hp'
        have hn := ((parseUint_iff c0' n').1 f3).2.2.2
        simp only at hke
        have hnc : n' = c := (toRune_eq_iff n' c hn hc).1 (by rw [← f4, hke])
        rw [f1] at hl'
        rw [hnc] at f3
        exact e4 c0' r' hl' f2 f3
  · intro A B l h
    rw [loadExternRunes_eq, loadExternRunes_eq, List.filterMap_append, List.filterMap_cons,
      parseLine_none_of_malformed l h, List.filterMap_append]

/-- Instance of C25: of the lines "4E2D<TAB>x", "junk", "4e2d<TAB>zhong" the last one gives
the value of U+4E2D. -/
theorem C25_extension_parsing_witness :
    (loadExternRunes ⟨true, some [goString "4E2D\tx", goString "junk", goString "4e2d\tzhong"]⟩
      []).1.lookup ((0x4E2D : Nat) : Int) = some (goString "zhong") :=
  ((C25_extension_parsing [goString "4E2D\tx", goString "junk", goString "4e2d\tzhong"]).1
    0x4E2D (goString "zhong") (by norm_num)).2
    ⟨[goString "4E2D\tx", goString "junk"], goString "4e2d", [], by decide, by decide,
      by decide, by simp⟩

/-- C26 fails as stated: the line is cut at its first TAB only, so "4E00<TAB>a<TAB>b" is
loaded as an entry that maps U+4E00 to "a<TAB>b", and `TransformAccents` emits it. -/
theorem C26_third_column_kept :
    loadExternRunes ⟨true, some [goString "4E00\ta\tb"]⟩ []
      = ([(0x4E00, goString "a\tb")], true) ∧
    (TransformAccents ⟨true, some [goString "4E00\ta\tb"]⟩ initState (runeToString 0x4E00)
      false false).1 = goString "a\tb" := by
  decide!

/-- C26 as amended: a line with three or more TAB-separated columns is cut at its first TAB;
when its first column is valid hexadecimal the line adds an entry whose replacement is the
whole rest of the line, later TABs included, and otherwise it adds nothing. -/
theorem C26_extra_columns (c0 c1 c2 : GoString) (h0 : 9 ∉ c0) :
    (∀ n, parseUint c0 = some n →
      loadExternRunes ⟨true, some [c0 ++ 9 :: (c1 ++ 9 :: c2)]⟩ []
        = ([(toRune n, c1 ++ 9 :: c2)], true)) ∧
    (parseUint c0 = none →
      loadExternRunes ⟨true, some [c0 ++ 9 :: (c1 ++ 9 :: c2)]⟩ [] = ([], false)) := by
  constructor
  · intro n hn
    have hpl : parseLine (c0 ++ 9 :: (c1 ++ 9 :: c2)) = some (toRune n, c1 ++ 9 :: c2) :=
      (parseLine_iff _ _ _).2 ⟨c0, n, rfl, h0, hn, rfl⟩
    simp [loadExternRunes_eq, hpl]
  · intro hn
    have hpl : parseLine (c0 ++ 9 :: (c1 ++ 9 :: c2)) = none := by
      apply parseLine_none_of_malformed
      right; right
      intro d0 r hd h9
      have hs1 := (splitTab_iff (c0 ++ 9 :: (c1 ++ 9 :: c2)) c0 (c1 ++ 9 :: c2)).2 ⟨rfl, h0⟩
      have hs2 := (splitTab_iff (c0 ++ 9 :: (c1 ++ 9 :: c2)) d0 r).2 ⟨hd, h9⟩
      rw [hs1] at hs2
      simp only [Option.some.injEq, Prod.mk.injEq] at hs2
      rw [← hs2.1]
      exact hn
    simp [loadExternRunes_eq, hpl]

/-- Instance of C26 as amended: the line "41<TAB>x<TAB>y". -/
theorem C26_extra_columns_witness :
    loadExternRunes ⟨true, some [goString "41" ++ 9 :: (goString "x" ++ 9 :: goString "y")]⟩ []
      = ([(toRune 0x41, goString "x" ++ 9 :: goString "y")], true) :=
  (C26_extra_columns (goString "41") (goString "x") (goString "y") (by decide)).1 0x41
    (by decide)

theorem ensureLoaded_of_loaded (w : World) (ext : ExtState) (h : ext.extRunesLoaded = true) :
    ensureLoaded w ext = ext := by
  simp [ensureLoaded, h]

theorem transformLoop_state_loaded (w : World) (g : Bool) (ext : ExtState) (rs : List Nat)
    (h : ext.extRunesLoaded = true) : (transformLoop w g ext rs).2 = ext := by
  induction rs with
  | nil => rfl
  | cons c t ih =>
    rw [transformLoop_cons_state]
    have hs : (loopBody w g ext c).2 = ext := by
      rcases loopBody_state w g ext c with e | e
      · exact e
      · rw [e, ensureLoaded_of_loaded w ext h]
    rw [hs]
    exact ih

/-- C27 fails as stated: a failed load leaves `extRunesLoaded` false, so the next lookup in
the extension range calls `loadExternRunes` again. After a first lookup with no file, a later
lookup made when the file is there loads it and returns its entry. -/
theorem C27_failed_load_retried :
    ensureLoaded ⟨true, none⟩ initState = initState ∧
    attemptsLoad (ensureLoaded ⟨true, none⟩ initState) = true ∧
    (TransformAccents ⟨true, none⟩ initState (runeToString 0x4E2D) false false).1 = [] ∧
    (TransformAccents ⟨true, some [goString "4E2D\tzhong"]⟩
        (TransformAccents ⟨true, none⟩ initState (runeToString 0x4E2D) false false).2
        (runeToString 0x4E2D) false false).1 = goString "zhong" := by
  decide!

/-- C27 as amended: a successful load is never repeated. Once `extRunesLoaded` is true no
lookup calls `loadExternRunes` and no call of `TransformAccents`, whatever the file then
holds, changes the shared state; a load that fails leaves the state as it was, with
`extRunesLoaded` false, so that the next lookup in the extension range tries again. -/
theorem C27_load_once_on_success (w : World) (ext : ExtState) :
    (ext.extRunesLoaded = true →
      attemptsLoad ext = false ∧
      ∀ (w2 : World) (s : GoString) (g r : Bool), (TransformAccents w2 ext s g r).2 = ext) ∧
    ((ensureLoaded w ext).extRunesLoaded = true →
      ∀ w2 : World, ensureLoaded w2 (ensureLoaded w ext) = ensureLoaded w ext) ∧
    (ext.extRunesLoaded = false → (loadExternRunes w ext.externRunes).2 = false →
      ensureLoaded w ext = ext ∧ attemptsLoad (ensureLoaded w ext) = true) := by
  refine ⟨?_, ?_, ?_⟩
  · intro h
    refine ⟨by simp [attemptsLoad, h], ?_⟩
    intro w2 s g r
    simp only [TransformAccents]
    exact transformLoop_state_loaded w2 g ext (runes s) h
  · intro h w2
    exact ensureLoaded_of_loaded w2 _ h
  · intro h1 h2
    have h3 := loadExternRunes_false w ext.externRunes h2
    have e : ensureLoaded w ext = ext := by
      obtain ⟨m, f⟩ := ext
      simp only at h1 h2 h3
      subst h1
      simp [ensureLoaded, h2, h3]
    rw [e]
    exact ⟨rfl, by simp [attemptsLoad, h1]⟩

/-- Instance of C27 as amended: after the file with the line "4E2D<TAB>zhong" has been
loaded, a later call made when the file is gone leaves the state as it is. -/
theorem C27_load_once_on_success_witness :
    (TransformAccents ⟨true, none⟩ (ensureLoaded ⟨true, some [goString "4E2D\tzhong"]⟩ initState)
      (runeToString 0x4E2D) false false).2
      = ensureLoaded ⟨true, some [goString "4E2D\tzhong"]⟩ initState :=
  ((C27_load_once_on_success ⟨true, none⟩
      (ensureLoaded ⟨true, some [goString "4E2D\tzhong"]⟩ initState)).1 (by decide)).2
    ⟨true, none⟩ (runeToString 0x4E2D) false false


/-- C28: with the replacer built by `init`, `encodeAngleBracketsAndAmpersand` returns for
every string what the unconditional replacement returns, which is the string with every `<`
replaced by "&lt;", every `>` by "&gt;" and every `&` by "&amp;"; it returns the string
itself when the string holds none of the three. -/
theorem C28_scan_is_optimization (s : GoString) :
    rfix = some rfixPairs ∧
    encodeAngleBracketsAndAmpersand s = replacerReplace rfixPairs 0 s ∧
    encodeAngleBracketsAndAmpersand s = s.flatMap escapeByte ∧
    (60 ∉ s → 62 ∉ s → 38 ∉ s → encodeAngleBracketsAndAmpersand s = s) ∧
    (escapeByte 60 = goString "&lt;" ∧ escapeByte 62 = goString "&gt;" ∧
      escapeByte 38 = goString "&amp;" ∧ ∀ b, b ≠ 60 → b ≠ 62 → b ≠ 38 → escapeByte b = [b]) := by
  refine ⟨rfl, ?_, encode_eq_flatMap s, ?_, by decide, by decide, by decide, ?_⟩
  · rw [encode_eq_flatMap, replacerReplace_rfix]
  · intro h1 h2 h3
    rw [encode_eq_flatMap]
    exact flatMap_escapeByte_of_no_meta s (any_isMeta_false s h1 h2 h3)
  · intro b h1 h2 h3
    simp [escapeByte, h1, h2, h3]

/-- Instance of C28: the string "abc" holds no metacharacter and is returned as it is. -/
theorem C28_scan_is_optimization_witness :
    encodeAngleBracketsAndAmpersand [97, 98, 99] = [97, 98, 99] :=
  (C28_scan_is_optimization [97, 98, 99]).2.2.2.1 (by decide) (by decide) (by decide)

theorem runes_capital_beta : runes (runeToString 0x0392) = [0x0392] := by decide

/-- C29 fails as stated: the Greek spelling table has no upper-case entries; with
`spellGreek = true` U+0392 is emitted as "beta", not as " Beta ". -/
theorem C29_capital_beta_lowercase :
    (TransformAccents ⟨true, none⟩ initState (runeToString 0x0392) true false).1
        = goString "beta" ∧
    (TransformAccents ⟨true, none⟩ initState (runeToString 0x0392) true false).1
        ≠ goString " Beta " := by
  decide

/-- C29 as amended: with `spellGreek = true` U+0392 is emitted as the `greekRunes` entry
"beta", the same spelling as for the lower-case letter U+03B2; the upper-case form " Beta "
is the `asciiRunes` entry, emitted when `spellGreek = false`. -/
theorem C29_capital_beta (w : World) (ext : ExtState) :
    (TransformAccents w ext (runeToString 0x0392) true false).1 = goString "beta" ∧
    greekRunes.lookup 0x0392 = some "beta" ∧ greekRunes.lookup 0x03B2 = some "beta" ∧
    (TransformAccents w ext (runeToString 0x0392) false false).1 = goString " Beta " ∧
    asciiRunes.lookup 0x0392 = some " Beta " := by
  refine ⟨?_, greekRunes_capital_beta, greekRunes_small_beta, ?_, asciiRunes_capital_beta⟩
  · rw [transformAccents_single w ext true _ 0x0392 runes_capital_beta,
      loopBody_greek w ext 0x0392 "beta" (by omega) greekRunes_capital_beta]
    rfl
  · have hb := loopBody_ge w false ext 0x0392 (by omega) (Or.inl rfl)
    have hs : staticLookup 0x0392 = some " Beta " := by
      simp [staticLookup, asciiRunes_capital_beta]
    rw [hs] at hb
    rw [transformAccents_single w ext false _ 0x0392 runes_capital_beta, hb]
    rfl

/-! ## Independence from the extension table -/

theorem loopBody_agree (g : Bool) (w1 w2 : World) (ext1 ext2 : ExtState) (ch : Nat)
    (h : 0x33FF < ch → ch < 0xFB00 → extLookup w1 ext1 ch = extLookup w2 ext2 ch) :
    (loopBody w1 g ext1 ch).1 = (loopBody w2 g ext2 ch).1 := by
  by_cases h0 : ch < 128
  · rw [loopBody_lt w1 g ext1 ch h0, loopBody_lt w2 g ext2 ch h0]
  · have h1 : 128 ≤ ch := by omega
    by_cases hg : g = true ∧ ∃ st, greekRunes.lookup ch = some st
    · obtain ⟨hg1, st, hst⟩ := hg
      subst hg1
      rw [loopBody_greek w1 ext1 ch st h1 hst, loopBody_greek w2 ext2 ch st h1 hst]
    · have hg2 : g = false ∨ greekRunes.lookup ch = none := by
        cases g with
        | false => exact Or.inl rfl
        | true =>
          right
          cases hl : greekRunes.lookup ch with
          | none => rfl
          | some st => exact absurd ⟨rfl, st, hl⟩ hg
      rw [loopBody_ge w1 g ext1 ch h1 hg2, loopBody_ge w2 g ext2 ch h1 hg2]
      cases staticLookup ch with
      | some st => rfl
      | none =>
        simp only []
        split_ifs with c1 c2
        · rfl
        · exact h c2.1 c2.2
        · rfl

theorem extLookup_loopBody (w : World) (g : Bool) (ext : ExtState) (ch c : Nat) :
    extLookup w (loopBody w g ext ch).2 c = extLookup w ext c := by
  rcases loopBody_state w g ext ch with e | e <;> rw [e]
  exact extLookup_ensureLoaded w ext c

theorem transformLoop_agree (g : Bool) (w1 w2 : World) (rs : List Nat) :
    ∀ (ext1 ext2 : ExtState),
      (∀ c ∈ rs, 0x33FF < c → c < 0xFB00 → extLookup w1 ext1 c = extLookup w2 ext2 c) →
      (transformLoop w1 g ext1 rs).1.flatten = (transformLoop w2 g ext2 rs).1.flatten := by
  induction rs with
  | nil => intro _ _ _; rfl
  | cons ch t ih =>
    intro ext1 ext2 h
    rw [transformLoop_cons, transformLoop_cons,
      loopBody_agree g w1 w2 ext1 ext2 ch (h ch (List.mem_cons_self _ _))]
    congr 1
    apply ih
    intro c hc h1 h2
    rw [extLookup_loopBody, extLookup_loopBody]
    exact h c (List.mem_cons_of_mem _ hc) h1 h2

theorem transformAccents_agree (g r : Bool) (w1 w2 : World) (ext1 ext2 : ExtState)
    (s : GoString)
    (h : ∀ c ∈ runes s, 0x33FF < c → c < 0xFB00 →
      extLookup w1 ext1 c = extLookup w2 ext2 c) :
    (TransformAccents w1 ext1 s g r).1 = (TransformAccents w2 ext2 s g r).1 := by
  simp only [TransformAccents]
  rw [transformLoop_agree g w1 w2 (runes s) ext1 ext2 h]

theorem transformLoop_state_outside (w : World) (g : Bool) (rs : List Nat) (ext : ExtState)
    (h : ∀ c ∈ rs, c ≤ 0x33FF ∨ 0xFB00 ≤ c) : (transformLoop w g ext rs).2 = ext := by
  induction rs with
  | nil => rfl
  | cons c t ih =>
    rw [transformLoop_cons_state]
    have hc := h c (List.mem_cons_self _ _)
    have hs : (loopBody w g ext c).2 = ext := by
      rcases loopBody_cases w g ext c with ⟨_, e⟩ | ⟨_, _, _, _, e⟩ | ⟨_, _, _, e⟩ |
          ⟨_, _, e1, e2, _⟩ | ⟨_, e⟩
      · rw [e]
      · rw [e]
      · rw [e]
      · omega
      · rw [e]
    rw [hs]
    exact ih (fun x hx => h x (List.mem_cons_of_mem _ hx))

theorem loadExternRunes_shape (w : World) :
    ∃ (new : List (Int × GoString)) (fl : Bool),
      ∀ m, loadExternRunes w m = (new ++ m, fl) := by
  obtain ⟨ex, file⟩ := w
  cases ex with
  | false => exact ⟨[], false, fun m => rfl⟩
  | true =>
    cases file with
    | none => exact ⟨[], false, fun m => rfl⟩
    | some lines => exact ⟨_, _, fun m => loadExternRunes_eq lines m⟩

theorem lookup_cons_ne (k c : Int) (v : GoString) (m : List (Int × GoString)) (h : c ≠ k) :
    ((k, v) :: m).lookup c = m.lookup c := by
  have h2 : (c == k) = false := by simpa using h
  simp only [List.lookup, h2]

theorem extLookup_extra_entry (w : World) (ext : ExtState) (k : Int) (v : GoString) (c : Nat)
    (hk : (c : Int) ≠ k) :
    extLookup w ⟨(k, v) :: ext.externRunes, ext.extRunesLoaded⟩ c = extLookup w ext c := by
  obtain ⟨m, f⟩ := ext
  cases f with
  | true => simp [extLookup, ensureLoaded, lookup_cons_ne k c v m hk]
  | false =>
    obtain ⟨new, fl, hl⟩ := loadExternRunes_shape w
    simp only [extLookup, ensureLoaded, hl, if_true]
    cases fl with
    | false => rfl
    | true =>
      simp only [if_true]
      rw [lookup_append, lookup_append, lookup_cons_ne k c v m hk]

/-- C30: the output of `TransformAccents` does not depend on the extension table for an input
all of whose code points are at most 0x33FF or at least 0xFB00: any two worlds and extension
states give the same output, and the state is left as it was. In general the output depends
on the extension table only through the lookups of code points in the open range
(0x33FF, 0xFB00): an entry for a key outside that range, in the table or in a line of the
file, changes no output. -/
theorem C30_extension_independence (g r : Bool) :
    (∀ (s : GoString), (∀ c ∈ runes s, c ≤ 0x33FF ∨ 0xFB00 ≤ c) →
      ∀ (w1 w2 : World) (ext1 ext2 : ExtState),
        (TransformAccents w1 ext1 s g r).1 = (TransformAccents w2 ext2 s g r).1 ∧
        (TransformAccents w1 ext1 s g r).2 = ext1) ∧
    (∀ (s : GoString) (w1 w2 : World) (ext1 ext2 : ExtState),
      (∀ c : Nat, 0x33FF < c → c < 0xFB00 → extLookup w1 ext1 c = extLookup w2 ext2 c) →
      (TransformAccents w1 ext1 s g r).1 = (TransformAccents w2 ext2 s g r).1) ∧
    (∀ (s : GoString) (w : World) (ext : ExtState) (k : Int) (v : GoString),
      ¬ (0x33FF < k ∧ k < 0xFB00) →
      (TransformAccents w ⟨(k, v) :: ext.externRunes, ext.extRunesLoaded⟩ s g r).1
        = (TransformAccents w ext s g r).1) ∧
    (∀ (s : GoString) (A B : List GoString) (l : GoString) (k : Int) (v : GoString),
      parseLine l = some (k, v) → ¬ (0x33FF < k ∧ k < 0xFB00) →
      (TransformAccents ⟨true, some (A ++ l :: B)⟩ initState s g r).1
        = (TransformAccents ⟨true, some (A ++ B)⟩ initState s g r).1) := by
  refine ⟨?_, ?_, ?_, ?_⟩
  · intro s hs w1 w2 ext1 ext2
    refine ⟨transformAccents_agree g r w1 w2 ext1 ext2 s ?_, ?_⟩
    · intro c hc h1 h2
      have := hs c hc
      omega
    · simp only [TransformAccents]
      exact transformLoop_state_outside w1 g (runes s) ext1 hs
  · intro s w1 w2 ext1 ext2 h
    exact transformAccents_agree g r w1 w2 ext1 ext2 s (fun c _ h1 h2 => h c h1 h2)
  · intro s w ext k v hk
    apply transformAccents_agree
    intro c _ h1 h2
    apply extLookup_extra_entry
    intro e
    apply hk
    rw [← e]
    omega
  · intro s A B l k v hp hk
    apply transformAccents_agree
    intro c _ h1 h2
    have hck : (c : Int) ≠ k := by
      intro e
      apply hk
      rw [← e]
      omega
    have key : ∀ lines : List GoString, extLookup ⟨true, some lines⟩ initState c
        = (lines.filterMap parseLine).reverse.lookup (c : Int) := by
      intro lines
      simp only [extLookup, ensureLoaded, initState, loadExternRunes_eq, List.append_nil,
        if_true]
      cases hE : lines.filterMap parseLine with
      | nil => rfl
      | cons e t => simp
    rw [key, key, List.filterMap_append, List.filterMap_cons, hp, List.filterMap_append,
      List.reverse_append, List.reverse_cons, List.reverse_append, List.append_assoc,
      lookup_append, lookup_append]
    have : ([(k, v)] : List (Int × GoString)).lookup (c : Int) = none :=
      lookup_cons_ne k c v [] hck
    rw [lookup_append, this]

/-- Instance of C30: for the input U+00E9 the loaded file makes no difference. -/
theorem C30_extension_independence_witness :
    (TransformAccents ⟨true, some [goString "4E2D\tzhong"]⟩ initState [0xC3, 0xA9] true true).1
      = (TransformAccents ⟨true, none⟩ initState [0xC3, 0xA9] true true).1 :=
  ((C30_extension_independence true true).1 [0xC3, 0xA9] (by decide)
    ⟨true, some [goString "4E2D\tzhong"]⟩ ⟨true, none⟩ initState initState).1

/-! ## Lemmas on concatenation, un-escaping and the Greek flag -/

theorem extLookup_transformLoop (w : World) (g : Bool) (c : Nat) (rs : List Nat) :
    ∀ ext : ExtState, extLookup w (transformLoop w g ext rs).2 c = extLookup w ext c := by
  induction rs with
  | nil => intro ext; rfl
  | cons ch rest ih =>
    intro ext
    rw [transformLoop_cons_state, ih, extLookup_loopBody]

theorem entityPairs_eq : entityPairs =
    [([38, 108, 116, 59], [60]), ([38, 103, 116, 59], [62]), ([38, 97, 109, 112, 59], [38])] := by
  decide

theorem replacerReplace_entity_other (b : Nat) (rest : GoString) (hb : b ≠ 38) :
    replacerReplace entityPairs 0 (b :: rest) = b :: replacerReplace entityPairs 0 rest := by
  have hf : entityPairs.find? (fun p => p.1.isPrefixOf (b :: rest)) = none := by
    have hbb : (38 == b) = false := by
      rw [beq_eq_false_iff_ne]
      exact Ne.symm hb
    rw [entityPairs_eq]
    simp only [List.find?, List.isPrefixOf, hbb, Bool.false_and]
  simp only [replacerReplace, hf]

theorem decodeEntities_flatMap_escapeByte (s : GoString) :
    decodeEntities (s.flatMap escapeByte) = s := by
  unfold decodeEntities
  induction s with
  | nil => rfl
  | cons b rest ih =>
    rw [List.flatMap_cons]
    by_cases h1 : b = 60
    · subst h1
      have : escapeByte 60 = [38, 108, 116, 59] := by decide
      rw [this, entityPairs_eq] at *
      simp only [List.cons_append, List.nil_append, replacerReplace, List.find?,
        List.isPrefixOf]
      simpa [replacerReplace] using ih
    · by_cases h2 : b = 62
      · subst h2
        have : escapeByte 62 = [38, 103, 116, 59] := by decide
        rw [this, entityPairs_eq] at *
        simp only [List.cons_append, List.nil_append, replacerReplace, List.find?,
          List.isPrefixOf]
        simpa [replacerReplace] using ih
      · by_cases h3 : b = 38
        · subst h3
          have : escapeByte 38 = [38, 97, 109, 112, 59] := by decide
          rw [this, entityPairs_eq] at *
          simp only [List.cons_append, List.nil_append, replacerReplace, List.find?,
            List.isPrefixOf]
          simpa [replacerReplace] using ih
        · have : escapeByte b = [b] := by simp [escapeByte, h1, h2, h3]
          rw [this, List.singleton_append, replacerReplace_entity_other b _ h3, ih]

theorem loopBody_no_greek (w : World) (ext : ExtState) (ch : Nat)
    (h : greekRunes.lookup ch = none) : loopBody w true ext ch = loopBody w false ext ch := by
  simp [loopBody, h]

theorem transformLoop_no_greek (w : World) (rs : List Nat)
    (h : ∀ c ∈ rs, greekRunes.lookup c = none) :
    ∀ ext : ExtState, transformLoop w true ext rs = transformLoop w false ext rs := by
  induction rs with
  | nil => intro ext; rfl
  | cons ch rest ih =>
    intro ext
    have h1 := loopBody_no_greek w ext ch (h ch (List.mem_cons_self _ _))
    have h2 := ih (fun c hc => h c (List.mem_cons_of_mem _ hc))
    simp only [transformLoop, h1, h2]

/-! ## Lemmas on the positions of `FixMisusedLetters` -/

theorem fixChar_outside (s : GoString) (d a p : Bool) (i c : Nat)
    (h : c ∉ [34, 223, 400, 603, 914, 946, 976, 7517, 7526, 7838]) :
    fixChar s d a p i c = c := by
  simp only [List.mem_cons, List.mem_singleton, List.not_mem_nil, or_false, not_or] at h
  obtain ⟨h1, h2, h3, h4, h5, h6, h7, h8, h9, h10⟩ := h
  have hh : homoglyphStep d c = c := by
    unfold homoglyphStep
    cases d <;> simp [h3, h4, h7, h8, h9]
  have ha : authorStep a c = c := by
    unfold authorStep
    cases a <;> simp [h1, h5, h6, h7, h8, h9]
  have hp : proseStep s p i c = c := by
    unfold proseStep
    cases p <;> simp [h2, h6, h7, h8, h9, h10]
  rw [fixChar, hh, ha, hp]

theorem runes_fix_eq_fixRunesFrom (s : GoString) (p : Bool) :
    runes (FixMisusedLetters s false false p) = fixRunesFrom false false p [] (runes s) := by
  rw [runes_fixMisusedLetters]
  exact map_fixChar_eq s false false p (Or.inl ⟨rfl, rfl⟩) (rangeString s) [] rfl

theorem fixRunesFrom_getElem (d a p : Bool) (c : Nat) (right : List Nat) (hc : 32 ≤ c)
    (left : List Nat) :
    ∀ l0 : List Nat,
      (fixRunesFrom d a p l0 (left ++ c :: right))[(left.filter
          (fun x => decide (32 ≤ x))).length]?
        = some (proseRunes (l0 ++ left) right p (authorStep a (homoglyphStep d c))) := by
  induction left with
  | nil =>
    intro l0
    have : ¬ c < 32 := by omega
    simp [fixRunesFrom, this]
  | cons b rest ih =>
    intro l0
    have e : l0 ++ b :: rest = (l0 ++ [b]) ++ rest := by simp
    rw [e, ← ih (l0 ++ [b])]
    by_cases hb : b < 32
    · have hb2 : ¬ 32 ≤ b := by omega
      simp [fixRunesFrom, hb, hb2]
    · have hb2 : 32 ≤ b := by omega
      simp [fixRunesFrom, hb, hb2]

theorem verdictRunes_empty_left (left ra : List Nat) (caps : Bool)
    (h : left = [] ∨ ∃ l, left = l ++ [32]) :
    verdictRunes (trimBefore left) ra caps = false := by
  have : trimBefore left = [] := (trimBefore_eq_nil_iff left).2 h
  simp [verdictRunes, this]

/-! ## Concatenation, un-escaping and the Greek flag -/

/-- C32: `TransformAccents` distributes over concatenation. For valid strings `a` and `b` (the
encodings of the scalar values `la` and `lb`), all flags and every extension state `ext`, the
output for `a ++ b` is the output for `a` followed by the output for `b`, both when each call
starts from the same state `ext` and when the call on `b` starts from the state that the call
on `a` leaves; the state left by the call on `a ++ b` is the one left by the two calls in a
row. -/
theorem C32_concatenation (w : World) (ext : ExtState) (g r : Bool) (a b : GoString)
    (la lb : List Nat) (hla : ∀ c ∈ la, isScalar c) (hlb : ∀ c ∈ lb, isScalar c)
    (ha : a = la.flatMap runeToString) (hb : b = lb.flatMap runeToString) :
    (TransformAccents w ext (a ++ b) g r).1
      = (TransformAccents w ext a g r).1 ++ (TransformAccents w ext b g r).1 ∧
    (TransformAccents w ext (a ++ b) g r).1
      = (TransformAccents w ext a g r).1
          ++ (TransformAccents w (TransformAccents w ext a g r).2 b g r).1 ∧
    (TransformAccents w ext (a ++ b) g r).2
      = (TransformAccents w (TransformAccents w ext a g r).2 b g r).2 := by
  have hra : runes a = la := by rw [ha]; exact runes_flatMap_runeToString la hla
  have hrb : runes b = lb := by rw [hb]; exact runes_flatMap_runeToString lb hlb
  have hab : runes (a ++ b) = la ++ lb := by
    rw [ha, hb, ← List.flatMap_append]
    apply runes_flatMap_runeToString
    intro c hc
    rcases List.mem_append.1 hc with h | h
    · exact hla c h
    · exact hlb c h
  have hsame : (transformLoop w g (transformLoop w g ext la).2 lb).1.flatten
      = (transformLoop w g ext lb).1.flatten :=
    transformLoop_agree g w w lb _ _ (fun c _ _ _ => extLookup_transformLoop w g c la ext)
  obtain ⟨h1, h2⟩ := transformLoop_append w g ext la lb
  have hst : (TransformAccents w ext a g r).2 = (transformLoop w g ext la).2 := by
    simp only [TransformAccents, hra]
  rw [hst]
  cases r with
  | false =>
    simp only [TransformAccents, hra, hrb, hab, h1, h2, hsame, Bool.false_eq_true, if_false,
      and_self]
  | true =>
    simp only [TransformAccents, hra, hrb, hab, h1, h2, hsame, if_true, encode_eq_flatMap,
      List.flatMap_append, and_self]

/-- Instance of C32: "é<" followed by "β&". -/
theorem C32_concatenation_witness :
    (TransformAccents ⟨false, none⟩ initState
        ([233, 60].flatMap runeToString ++ [946, 38].flatMap runeToString) true true).1
      = (TransformAccents ⟨false, none⟩ initState ([233, 60].flatMap runeToString) true true).1
          ++ (TransformAccents ⟨false, none⟩ initState
                ([946, 38].flatMap runeToString) true true).1 :=
  (C32_concatenation ⟨false, none⟩ initState true true _ _ [233, 60] [946, 38]
    (by simp [isScalar]) (by simp [isScalar]) rfl rfl).1

/-- C33: XML re-encoding loses nothing. For every string, every value of `spellGreek`, every
world and extension state, one left-to-right pass that replaces the entities `&lt;`, `&gt;` and
`&amp;` by `<`, `>` and `&` turns the output of `TransformAccents` with `reEncode = true` into
its output with `reEncode = false`. -/
theorem C33_reencode_lossless (w : World) (ext : ExtState) (s : GoString) (g : Bool) :
    decodeEntities (TransformAccents w ext s g true).1 = (TransformAccents w ext s g false).1 := by
  rw [transformAccents_reEncode]
  exact decodeEntities_flatMap_escapeByte _

/-- C36: the `spellGreek` flag affects only the code points of the Greek table. For a string
none of whose code points is a key of `greekRunes`, and every `reEncode`, world and extension
state, `TransformAccents` returns the same string and leaves the same state with
`spellGreek = true` as with `spellGreek = false`. -/
theorem C36_greek_flag_only (w : World) (ext : ExtState) (s : GoString) (r : Bool)
    (h : ∀ c ∈ runes s, greekRunes.lookup c = none) :
    TransformAccents w ext s true r = TransformAccents w ext s false r := by
  simp only [TransformAccents, transformLoop_no_greek w (runes s) h ext]

/-- Instance of C36: the string "é<" has no code point of the Greek table. -/
theorem C36_greek_flag_only_witness :
    TransformAccents ⟨false, none⟩ initState [195, 169, 60] true true
      = TransformAccents ⟨false, none⟩ initState [195, 169, 60] false true :=
  C36_greek_flag_only ⟨false, none⟩ initState [195, 169, 60] true (by decide!)

/-! ## `FixMisusedLetters`: word-initial letters, control characters and positions -/

/-- C31: with `isProse = true` and the other flags false, a U+00DF, U+1E9E or U+03B2 that is
the first code point of the input, or whose preceding code point is a space, is written as
U+03B2, whatever follows it: when the input decodes to `left ++ c :: right` with `left` empty
or ending in a space, the output has U+03B2 at the position of `c` (the number of code points
of `left` that are at least 32). -/
theorem C31_word_initial_beta (s : GoString) (left right : List Nat) (c : Nat)
    (hs : runes s = left ++ c :: right)
    (hc : c = 223 ∨ c = 7838 ∨ c = 946)
    (hpos : left = [] ∨ ∃ l, left = l ++ [32]) :
    (runes (FixMisusedLetters s false false true))[(left.filter
        (fun x => decide (32 ≤ x))).length]? = some 946 := by
  have h32 : 32 ≤ c := by rcases hc with h | h | h <;> omega
  have hv : ∀ caps, verdictRunes (trimBefore left) (trimAfter right) caps = false :=
    fun caps => verdictRunes_empty_left left _ caps hpos
  rw [runes_fix_eq_fixRunesFrom, hs, fixRunesFrom_getElem false false true c right h32 left []]
  rcases hc with h | h | h <;> subst h <;>
    simp [proseRunes, authorStep, homoglyphStep, hv]

/-- Instance of C31: the U+00DF of "a ßb" follows a space. -/
theorem C31_word_initial_beta_witness :
    (runes (FixMisusedLetters [97, 32, 195, 159, 98] false false true))[2]? = some 946 :=
  C31_word_initial_beta [97, 32, 195, 159, 98] [97, 32] [98] 223 (by decide) (Or.inl rfl)
    (Or.inr ⟨[97], rfl⟩)

/-- C34: with all three flags false `FixMisusedLetters` only strips control characters. For a
valid string `s`, the encoding of the scalar values `l`, the result is the encoding of `l`
with every code point below 32 removed (tab U+0009, line feed U+000A and carriage return
U+000D among them), and it is `s` itself when no code point of `l` is below 32. -/
theorem C34_only_strips_controls (s : GoString) (l : List Nat)
    (hl : ∀ c ∈ l, isScalar c) (hs : s = l.flatMap runeToString) :
    FixMisusedLetters s false false false
      = (l.filter (fun c => decide (32 ≤ c))).flatMap runeToString ∧
    ((∀ c ∈ l, 32 ≤ c) → FixMisusedLetters s false false false = s) := by
  have hr : runes s = l := by rw [hs]; exact runes_flatMap_runeToString l hl
  have h1 : FixMisusedLetters s false false false
      = (l.filter (fun c => decide (32 ≤ c))).flatMap runeToString := by
    rw [fixMisusedLetters_no_prose, hr]
    have : (fun c => authorStep false (homoglyphStep false c)) = id := by
      funext c
      simp [authorStep, homoglyphStep]
    rw [this, List.map_id]
  refine ⟨h1, ?_⟩
  intro hge
  rw [h1, filter_ge_self l hge, hs]

/-- Instance of C34: "a", TAB, "é", LF gives "aé". -/
theorem C34_only_strips_controls_witness :
    FixMisusedLetters [97, 9, 195, 169, 10] false false false = [97, 195, 169] :=
  (C34_only_strips_controls [97, 9, 195, 169, 10] [97, 9, 233, 10] (by simp [isScalar])
    (by decide)).1

/-- C35: `FixMisusedLetters` is a position-preserving substitution. For every input string
(valid or not, read as Go's `range` reads it) and every combination of flags, the output has
as many code points as the input has code points that are at least 32, and a code point at
least 32 of the input that is not one of U+0022, U+00DF, U+0190, U+025B, U+0392, U+03B2,
U+03D0, U+1D5D, U+1D66, U+1E9E stands unchanged at the same position of the output, positions
being counted over the code points that are at least 32. The code points that `range` reads
from a valid string, the encoding of scalar values `l`, are `l`. -/
theorem C35_position_preserving (s : GoString) (d a p : Bool) :
    (runes (FixMisusedLetters s d a p)).length
      = ((runes s).filter (fun c => decide (32 ≤ c))).length ∧
    (∀ k c : Nat, ((runes s).filter (fun c => decide (32 ≤ c)))[k]? = some c →
      c ∉ [34, 223, 400, 603, 914, 946, 976, 7517, 7526, 7838] →
      (runes (FixMisusedLetters s d a p))[k]? = some c) ∧
    (∀ l : List Nat, (∀ c ∈ l, isScalar c) → runes (l.flatMap runeToString) = l) := by
  refine ⟨?_, ?_, runes_flatMap_runeToString⟩
  · rw [runes_fixMisusedLetters, List.length_map, ← map_snd_keptRunes, List.length_map]
  · intro k c hk hc
    rw [← map_snd_keptRunes, List.getElem?_map] at hk
    cases hq : (keptRunes s)[k]? with
    | none => rw [hq] at hk; simp at hk
    | some q =>
      rw [hq] at hk
      simp only [Option.map_some', Option.some.injEq] at hk
      obtain ⟨i, c2⟩ := q
      simp only at hk
      subst hk
      rw [getElem?_runes_fix s d a p k i c2 hq, fixChar_outside s d a p i c2 hc]

/-! ## Printable output and the strings of the extension table -/

theorem loopBody_printable_of (w : World) (g : Bool) (ext : ExtState) (ch : Nat)
    (h : 0x33FF < ch → ch < 0xFB00 →
      ∀ v, extLookup w ext ch = some v → ∀ b ∈ v, 32 ≤ b ∧ b ≤ 127) :
    ∀ b ∈ pieceBytes (loopBody w g ext ch).1, 32 ≤ b ∧ b ≤ 127 := by
  intro b hb
  rcases loopBody_cases w g ext ch with ⟨h0, h1⟩ | ⟨_, _, st, hst, h1⟩ | ⟨_, st, hst, h1⟩ |
      ⟨_, _, hlo, hhi, h1⟩ | ⟨_, h1⟩ <;> rw [h1] at hb
  · by_cases h31 : 31 < ch
    · simp [pieceBytes, h31] at hb
      omega
    · simp [pieceBytes, h31] at hb
  · exact lookup_printable _ greekRunes_printable ch st hst b (by simpa [pieceBytes] using hb)
  · exact staticLookup_printable ch st hst b (by simpa [pieceBytes] using hb)
  · cases hv : extLookup w ext ch with
    | none => simp [pieceBytes, hv] at hb
    | some v =>
      rw [hv] at hb
      exact h hlo hhi v hv b (by simpa [pieceBytes] using hb)
  · simp [pieceBytes] at hb

theorem transformLoop_printable_of (w : World) (g : Bool) (rs : List Nat) :
    ∀ ext : ExtState,
      (∀ c ∈ rs, 0x33FF < c → c < 0xFB00 →
        ∀ v, extLookup w ext c = some v → ∀ b ∈ v, 32 ≤ b ∧ b ≤ 127) →
      ∀ b ∈ (transformLoop w g ext rs).1.flatten, 32 ≤ b ∧ b ≤ 127 := by
  induction rs with
  | nil => intro ext _; simp [transformLoop]
  | cons ch rest ih =>
    intro ext h b hb
    rw [transformLoop_cons, List.mem_append] at hb
    rcases hb with hb | hb
    · exact loopBody_printable_of w g ext ch (h ch (List.mem_cons_self _ _)) b hb
    · refine ih _ ?_ b hb
      intro c hc h1 h2 v hv
      rw [extLookup_loopBody] at hv
      exact h c (List.mem_cons_of_mem _ hc) h1 h2 v hv

theorem transformAccents_printable_of (w : World) (ext : ExtState) (s : GoString) (g r : Bool)
    (h : extensionPrintable w ext s) :
    ∀ b ∈ (TransformAccents w ext s g r).1, 32 ≤ b ∧ b ≤ 127 := by
  intro b hb
  cases r with
  | false =>
    exact transformLoop_printable_of w g (runes s) ext h b (by simpa [TransformAccents] using hb)
  | true =>
    simp only [TransformAccents, if_true, encode_eq_flatMap, List.mem_flatMap] at hb
    obtain ⟨x, hx, hbx⟩ := hb
    exact escapeByte_printable x (transformLoop_printable_of w g (runes s) ext h x hx) b hbx

theorem transformLoop_state_or (w : World) (g : Bool) (rs : List Nat) :
    ∀ ext : ExtState,
      (transformLoop w g ext rs).2 = ext ∨ (transformLoop w g ext rs).2 = ensureLoaded w ext := by
  induction rs with
  | nil => intro ext; exact Or.inl rfl
  | cons ch rest ih =>
    intro ext
    rw [transformLoop_cons_state]
    rcases loopBody_state w g ext ch with h | h <;> rcases ih (loopBody w g ext ch).2 with h2 | h2
    · left; rw [h2, h]
    · right; rw [h2, h]
    · right; rw [h2, h]
    · right; rw [h2, h, ensureLoaded_idem]

theorem loopBody_state_inrange (w : World) (g : Bool) (ext : ExtState) (ch : Nat)
    (h1 : 0x33FF < ch) (h2 : ch < 0xFB00) : (loopBody w g ext ch).2 = ensureLoaded w ext := by
  rw [loopBody_ge w g ext ch (by omega) (Or.inr (greekRunes_ext_none ch h1 h2)),
    staticLookup_ext_none ch h1 h2]
  have h3 : ¬ (0x0300 ≤ ch ∧ ch ≤ 0x036F) := by omega
  simp [h3, h1, h2]

theorem transformLoop_state_inrange (w : World) (g : Bool) (rs : List Nat) :
    ∀ ext : ExtState, (∃ c ∈ rs, 0x33FF < c ∧ c < 0xFB00) →
      (transformLoop w g ext rs).2 = ensureLoaded w ext := by
  induction rs with
  | nil => intro ext h; obtain ⟨c, hc, _⟩ := h; simp at hc
  | cons ch rest ih =>
    intro ext h
    rw [transformLoop_cons_state]
    by_cases hin : 0x33FF < ch ∧ ch < 0xFB00
    · rw [loopBody_state_inrange w g ext ch hin.1 hin.2]
      rcases transformLoop_state_or w g rest (ensureLoaded w ext) with h2 | h2
      · exact h2
      · rw [h2, ensureLoaded_idem]
    · obtain ⟨c, hc, hr⟩ := h
      have hc2 : c ∈ rest := by
        rcases List.mem_cons.1 hc with e | e
        · subst e; exact absurd hr hin
        · exact e
      have hs : (loopBody w g ext ch).2 = ext := by
        have := transformLoop_state_outside w g [ch] ext (by
          intro x hx
          simp only [List.mem_singleton] at hx
          subst hx
          omega)
        simpa [transformLoop] using this
      rw [hs]
      exact ih ext ⟨c, hc2, hr⟩

theorem extensionPrintable_of_final (w : World) (ext : ExtState) (s : GoString) (g r : Bool)
    (h : unloadedOrEmpty (TransformAccents w ext s g r).2) : extensionPrintable w ext s := by
  intro c hc h1 h2 v hv
  have hst : (TransformAccents w ext s g r).2 = ensureLoaded w ext := by
    have := transformLoop_state_inrange w g (runes s) ext ⟨c, hc, h1, h2⟩
    simpa [TransformAccents] using this
  rw [hst] at h
  rw [extLookup_of_silent w ext h c] at hv
  cases hv

theorem extensionPrintable_of_outside (w : World) (ext : ExtState) (s : GoString)
    (h : ∀ c ∈ runes s, c ≤ 0x33FF ∨ 0xFB00 ≤ c) : extensionPrintable w ext s := by
  intro c hc h1 h2
  have := h c hc
  omega

/-! ## Printable output, and the second call with re-encoding -/

/-- C2 fails as stated: in the start state the extension table is unloaded and empty, yet on
a code point of the extension range the call loads the extension file and emits its string
unchecked. With the line "4E00", TAB, byte 0x01 in the file, the input U+4E00 gives the single
output byte 1, which is not in 32..127. -/
theorem C2_extension_unchecked :
    unloadedOrEmpty initState ∧
    (TransformAccents ⟨true, some [[52, 69, 48, 48, 9, 1]]⟩ initState (runeToString 0x4E00)
      false false).1 = [1] ∧
    ¬ (∀ b ∈ (TransformAccents ⟨true, some [[52, 69, 48, 48, 9, 1]]⟩ initState
        (runeToString 0x4E00) false false).1, 32 ≤ b ∧ b ≤ 127) := by
  have h : (TransformAccents ⟨true, some [[52, 69, 48, 48, 9, 1]]⟩ initState
      (runeToString 0x4E00) false false).1 = [1] := by decide!
  refine ⟨Or.inl rfl, h, ?_⟩
  intro hh
  have := hh 1 (by rw [h]; exact List.mem_singleton.2 rfl)
  omega

/-- C2 as amended: for every input and both flags, every byte of the output of
`TransformAccents`, and so every code point of it, lies in 32..127 (no code point 0..31
appears) provided every string the call takes from the extension table consists of bytes
32..127. That is so when the extension table is still unloaded or empty when the call returns,
and when the input has no code point in the open range (0x33FF, 0xFB00). The four static
tables hold only replacement strings made of code points 32..127. -/
theorem C2_printable_output (w : World) (ext : ExtState) (g r : Bool) :
    (∀ s : GoString, extensionPrintable w ext s →
      (∀ b ∈ (TransformAccents w ext s g r).1, 32 ≤ b ∧ b ≤ 127) ∧
      (∀ c ∈ runes (TransformAccents w ext s g r).1, 32 ≤ c ∧ c ≤ 127)) ∧
    (∀ s : GoString, unloadedOrEmpty (TransformAccents w ext s g r).2 →
      (∀ b ∈ (TransformAccents w ext s g r).1, 32 ≤ b ∧ b ≤ 127) ∧
      (∀ c ∈ runes (TransformAccents w ext s g r).1, 32 ≤ c ∧ c ≤ 127)) ∧
    (∀ s : GoString, (∀ c ∈ runes s, c ≤ 0x33FF ∨ 0xFB00 ≤ c) →
      (∀ b ∈ (TransformAccents w ext s g r).1, 32 ≤ b ∧ b ≤ 127) ∧
      (∀ c ∈ runes (TransformAccents w ext s g r).1, 32 ≤ c ∧ c ≤ 127)) ∧
    (valuesPrintable greekRunes = true ∧ valuesPrintable asciiRunes = true ∧
      valuesPrintable symbolRunes = true ∧ valuesPrintable extraRunes = true) := by
  have key : ∀ s : GoString, extensionPrintable w ext s →
      (∀ b ∈ (TransformAccents w ext s g r).1, 32 ≤ b ∧ b ≤ 127) ∧
      (∀ c ∈ runes (TransformAccents w ext s g r).1, 32 ≤ c ∧ c ≤ 127) := by
    intro s h
    have hp := transformAccents_printable_of w ext s g r h
    refine ⟨hp, ?_⟩
    rw [runes_ascii _ (fun b hb => by have := hp b hb; omega)]
    exact hp
  exact ⟨key, fun s h => key s (extensionPrintable_of_final w ext s g r h),
    fun s h => key s (extensionPrintable_of_outside w ext s h),
    greekRunes_printable, asciiRunes_printable, symbolRunes_printable, extraRunes_printable⟩

/-- Instance of C2 as amended: the extension file has the line "4E00", TAB, byte 0x01; the
input is U+00E9 and `<`, which has no code point of the extension range, so the table is still
unloaded when the call returns. -/
theorem C2_printable_output_witness :
    unloadedOrEmpty (TransformAccents ⟨true, some [[52, 69, 48, 48, 9, 1]]⟩ initState
      [0xC3, 0xA9, 60] true true).2 ∧
    ∀ b ∈ (TransformAccents ⟨true, some [[52, 69, 48, 48, 9, 1]]⟩ initState
      [0xC3, 0xA9, 60] true true).1, 32 ≤ b ∧ b ≤ 127 :=
  ⟨Or.inl (by decide!),
   ((C2_printable_output ⟨true, some [[52, 69, 48, 48, 9, 1]]⟩ initState true true).2.1
      [0xC3, 0xA9, 60] (Or.inl (by decide!))).1⟩

theorem no_amp_iff_no_meta (o : GoString) :
    38 ∉ o.flatMap escapeByte ↔ o.any isMeta = false := by
  constructor
  · intro h
    rw [List.any_eq_false]
    intro x hx hm
    apply h
    rw [List.mem_flatMap]
    refine ⟨x, hx, ?_⟩
    simp only [isMeta, Bool.or_eq_true, beq_iff_eq] at hm
    rcases hm with (hm | hm) | hm <;> subst hm <;> decide
  · intro h hm
    rw [flatMap_escapeByte_of_no_meta o h] at hm
    have := (List.any_eq_false.1 h) 38 hm
    exact this (by decide)

/-- C5 as amended: provided every string the first call takes from the extension table
consists of bytes 32..127 (as when the table is still unloaded or empty when the first call
returns), a second call of `TransformAccents` with `reEncode = true`, in any world and from any
extension state, returns the output of the first call unchanged exactly when that output holds
no `&`, that is when the output without re-encoding holds none of `<`, `>`, `&`; the second
call never touches the extension state. -/
theorem C5_second_call_iff_no_amp (w w2 : World) (ext ext2 : ExtState) (s : GoString) (g : Bool)
    (h : extensionPrintable w ext s ∨ unloadedOrEmpty (TransformAccents w ext s g true).2) :
    ((TransformAccents w2 ext2 (TransformAccents w ext s g true).1 g true).1
        = (TransformAccents w ext s g true).1
      ↔ 38 ∉ (TransformAccents w ext s g true).1) ∧
    (38 ∉ (TransformAccents w ext s g true).1
      ↔ (TransformAccents w ext s g false).1.any isMeta = false) ∧
    (TransformAccents w2 ext2 (TransformAccents w ext s g true).1 g true).2 = ext2 := by
  have hep : extensionPrintable w ext s := by
    rcases h with h | h
    · exact h
    · exact extensionPrintable_of_final w ext s g true h
  have hp := transformAccents_printable_of w ext s g true hep
  have hC := (reencode_no_angle w ext g s)
  have hmid : 38 ∉ (TransformAccents w ext s g true).1
      ↔ (TransformAccents w ext s g false).1.any isMeta = false := by
    rw [transformAccents_reEncode]
    exact no_amp_iff_no_meta _
  refine ⟨?_, hmid, ?_⟩
  · generalize (TransformAccents w ext s g true).1 = o at hp hC ⊢
    have hlt : ∀ b ∈ o, b < 128 := fun b hb => by have := hp b hb; omega
    have hf : o.filter (fun b => decide (31 < b)) = o := by
      rw [List.filter_eq_self]
      intro b hb
      have := hp b hb
      simp
      omega
    rw [transformAccents_reEncode, transformAccents_ascii w2 ext2 g o hlt, hf]
    constructor
    · intro heq hm
      have := (length_flatMap_escapeByte o).2 hm
      have h2 : (o.flatMap escapeByte).length = o.length := by
        simpa using congrArg List.length heq
      omega
    · intro hm
      exact flatMap_escapeByte_of_no_meta o (any_isMeta_false o hC.1 hC.2 hm)
  · generalize (TransformAccents w ext s g true).1 = o at hp
    have hlt : ∀ b ∈ o, b < 128 := fun b hb => by have := hp b hb; omega
    rw [transformAccents_reEncode, transformAccents_ascii w2 ext2 g o hlt]

/-- Instance of C5 as amended: the extension file maps U+4E00 to U+00E9, the input "a b" has
no code point of the extension range and no metacharacter. -/
theorem C5_second_call_iff_no_amp_witness :
    unloadedOrEmpty (TransformAccents ⟨true, some [[52, 69, 48, 48, 9, 195, 169]]⟩ initState
      [97, 32, 98] false true).2 ∧
    ((TransformAccents ⟨true, some [[52, 69, 48, 48, 9, 195, 169]]⟩ initState
        (TransformAccents ⟨true, some [[52, 69, 48, 48, 9, 195, 169]]⟩ initState
          [97, 32, 98] false true).1 false true).1
        = (TransformAccents ⟨true, some [[52, 69, 48, 48, 9, 195, 169]]⟩ initState
            [97, 32, 98] false true).1
      ↔ 38 ∉ (TransformAccents ⟨true, some [[52, 69, 48, 48, 9, 195, 169]]⟩ initState
            [97, 32, 98] false true).1) :=
  ⟨Or.inl (by decide!),
   (C5_second_call_iff_no_amp ⟨true, some [[52, 69, 48, 48, 9, 195, 169]]⟩
      ⟨true, some [[52, 69, 48, 48, 9, 195, 169]]⟩ initState initState [97, 32, 98] false
      (Or.inr (Or.inl (by decide!)))).1⟩

end Eutils
